import Mathlib

/-!
# AllJoyn router and peer authentication: a shallow embedding

The definitions below embed `DaemonRouter.cc` (message routing) and the version and
key-generation helpers of `AllJoynPeerObj.cc`.  Stateful C++ code is written as pure
functions over explicit state; calls into collaborators that live outside these two files
(policy database, rule table, endpoints, sessionless object, crypto) are fields of a
`Collaborators` record or parameters, and every call the router makes on them is recorded
in an event trace.
-/

namespace AllJoyn

/-! ## Status codes, messages, endpoints -/

/-- Status codes named in `DaemonRouter.cc` and `AllJoynPeerObj.cc`; every other value of
the `QStatus` enumeration is `other code`. -/
inductive QStatus where
  | ER_OK
  | ER_NONE
  | ER_FAIL
  | ER_WOULDBLOCK
  | ER_AUTH_FAIL
  | ER_PERMISSION_DENIED
  | ER_MANIFEST_NOT_FOUND
  | ER_CRYPTO_ILLEGAL_PARAMETERS
  | ER_BUS_NO_ROUTE
  | ER_BUS_POLICY_VIOLATION
  | ER_BUS_ENDPOINT_CLOSING
  | ER_BUS_STOPPING
  | ER_BUS_REPLY_IS_ERROR_MESSAGE
  | ER_BUS_NO_PEER_GUID
  | ER_BUS_NO_AUTHENTICATION_MECHANISM
  | ER_BUS_PEER_AUTH_VERSION_MISMATCH
  | ER_BUS_NO_SUCH_PROPERTY
  | ER_BUS_NO_SUCH_OBJECT
  | ER_BUS_NO_SUCH_INTERFACE
  | ER_BUS_MESSAGE_DECRYPTION_FAILED
  | ER_BUS_KEY_EXPIRED
  | ER_BUS_DESTINATION_NOT_AUTHENTICATED
  | other (code : Nat)
  deriving DecidableEq, Repr

/-- Modelled from the spec: the message type enumeration is declared in `Message.h`, outside
the sources; the spec lists METHOD_CALL, METHOD_RETURN, ERROR and SIGNAL. -/
inductive AllJoynMessageType where
  | MESSAGE_INVALID
  | MESSAGE_METHOD_CALL
  | MESSAGE_METHOD_RET
  | MESSAGE_ERROR
  | MESSAGE_SIGNAL
  deriving DecidableEq, Repr

/-- Modelled from the spec: the endpoint type enumeration is declared in `BusEndpoint.h`,
outside the sources; the spec lists Local, Null, Remote, Virtual and Bus2Bus, and an
endpoint handle that refers to nothing has the invalid type. -/
inductive EndpointType where
  | ENDPOINT_TYPE_INVALID
  | ENDPOINT_TYPE_NULL
  | ENDPOINT_TYPE_LOCAL
  | ENDPOINT_TYPE_REMOTE
  | ENDPOINT_TYPE_BUS2BUS
  | ENDPOINT_TYPE_VIRTUAL
  deriving DecidableEq, Repr

abbrev SessionId := Nat

/-- Modelled from the spec: the `Message` abstraction the router consumes (sender,
destination, session id, type, flags, sessionless and global-broadcast flags, member and
interface names, serial).  `detachArg` is the value of argument 0 after
`UnmarshalArgs("us")` succeeded on a clone, `none` when unmarshalling fails; the two error
fields are filled by `ErrorMsg`. -/
structure Message where
  sender : String
  destination : String
  sessionId : SessionId
  msgType : AllJoynMessageType
  flags : Nat
  sessionless : Bool
  globalBroadcast : Bool
  memberName : String
  iface : String
  callSerial : Nat
  detachArg : Option Nat
  errorName : String
  errorDescription : String
  deriving DecidableEq, Repr

/-- Modelled from the spec: the `BusEndpoint` abstraction (identity, unique name, type,
validity, "allow remote messages" flag, session membership).  `id` is the identity of the
managed object, `sessions` lists the sessions for which `IsInSession` is true and
`b2bSessionId` is `RemoteEndpoint::GetSessionId()`. -/
structure BusEndpoint where
  id : Nat
  uniqueName : String
  epType : EndpointType
  valid : Bool
  allowRemote : Bool
  sessions : List SessionId
  b2bSessionId : SessionId
  deriving DecidableEq, Repr

namespace BusEndpoint

/-- The default-constructed endpoint handle: it refers to no endpoint and is not valid. -/
def invalid : BusEndpoint :=
  { id := 0, uniqueName := "", epType := .ENDPOINT_TYPE_INVALID, valid := false,
    allowRemote := false, sessions := [], b2bSessionId := 0 }

def IsInSession (ep : BusEndpoint) (sessionId : SessionId) : Bool :=
  ep.sessions.contains sessionId

end BusEndpoint

/-- Modelled from the spec: `ALLJOYN_FLAG_NO_REPLY_EXPECTED` is declared in `Message.h`,
outside the sources; it is the lowest bit of the flags byte. -/
def ALLJOYN_FLAG_NO_REPLY_EXPECTED : Nat := 0x01

/-- Modelled from the spec: `ALLJOYN_FLAG_ENCRYPTED` is declared in `Message.h`, outside the
sources. -/
def ALLJOYN_FLAG_ENCRYPTED : Nat := 0x80

/-- Modelled from the spec: `org::alljoyn::Daemon::InterfaceName` is declared outside the
sources; it names the interface of the reserved inter-router control signals. -/
def DaemonInterfaceName : String := "org.alljoyn.Daemon"

/-- Modelled from the spec: `Message::ErrorMsg` is defined outside the sources.  It turns the
call into an ERROR reply in place: the reply is addressed to the sender of the call, keeps
the session, answers the call serial and carries the error name and description. -/
def ErrorMsg (localName : String) (call : Message) (errorName description : String) : Message :=
  { sender := localName
    destination := call.sender
    sessionId := call.sessionId
    msgType := .MESSAGE_ERROR
    flags := call.flags &&& ALLJOYN_FLAG_ENCRYPTED
    sessionless := false
    globalBroadcast := false
    memberName := ""
    iface := ""
    callSerial := call.callSerial
    detachArg := none
    errorName := errorName
    errorDescription := description }

/-! ## Router state and collaborators -/

/-- Modelled from the spec: `NameTable` is defined outside the sources.  It maps unique names
to endpoints (`uniqueNames`, one entry per unique name) and well-known aliases to the unique
name that owns them (`aliasNames`, pairs of alias and owner). -/
structure NameTable where
  uniqueNames : List BusEndpoint
  aliasNames : List (String × String)
  deriving DecidableEq, Repr

namespace NameTable

def empty : NameTable := { uniqueNames := [], aliasNames := [] }

/-- Modelled from the spec: look a bus name up among the unique names, then among the
aliases; the invalid endpoint when nothing is found. -/
def FindEndpoint (nt : NameTable) (busName : String) : BusEndpoint :=
  match nt.uniqueNames.find? (fun ep => ep.uniqueName == busName) with
  | some ep => ep
  | none =>
    match nt.aliasNames.find? (fun p => p.1 == busName) with
    | some p =>
      match nt.uniqueNames.find? (fun ep => ep.uniqueName == p.2) with
      | some ep => ep
      | none => BusEndpoint.invalid
    | none => BusEndpoint.invalid

/-- Modelled from the spec: all endpoints of the table, one per unique name. -/
def GetAllBusEndpoints (nt : NameTable) : List BusEndpoint := nt.uniqueNames

/-- Modelled from the spec: `alias` names the endpoint with unique name `uniqueName`, either
as its unique name or as one of its well-known aliases. -/
def IsAlias (nt : NameTable) (uniqueName aliasName : String) : Bool :=
  uniqueName == aliasName || nt.aliasNames.contains (aliasName, uniqueName)

/-- Modelled from the spec: register an endpoint under its unique name, replacing an entry
with the same unique name. -/
def AddUniqueName (nt : NameTable) (ep : BusEndpoint) : NameTable :=
  { nt with uniqueNames :=
      nt.uniqueNames.filter (fun e => e.uniqueName != ep.uniqueName) ++ [ep] }

/-- Modelled from the spec: remove a unique name together with the aliases it owns. -/
def RemoveUniqueName (nt : NameTable) (uniqueName : String) : NameTable :=
  { uniqueNames := nt.uniqueNames.filter (fun e => e.uniqueName != uniqueName)
    aliasNames := nt.aliasNames.filter (fun p => p.2 != uniqueName) }

/-- Modelled from the spec: give the endpoint with unique name `uniqueName` a well-known
alias; an alias has one owner. -/
def AddAlias (nt : NameTable) (aliasName uniqueName : String) : NameTable :=
  { nt with aliasNames :=
      nt.aliasNames.filter (fun p => p.1 != aliasName) ++ [(aliasName, uniqueName)] }

end NameTable

/-- The compile-time switches of `DaemonRouter.cc`. -/
structure BuildConfig where
  ENABLE_POLICYDB : Bool
  ENABLE_OLD_PUSHMESSAGE_COMPATIBILITY : Bool
  deriving DecidableEq, Repr

/-- The collaborators `PushMessage` calls: the policy database (`OKToSend` and `OKToReceive`
on the header normalised from the message and its source), the rule table, the push
primitives of the endpoints, the sessionless object and the local endpoint's serial number
update (the new serial). -/
structure Collaborators where
  policyOKToSend : Message → BusEndpoint → BusEndpoint → Bool
  policyOKToReceive : Message → BusEndpoint → BusEndpoint → Bool
  ruleOkToSend : Message → BusEndpoint → Bool
  epPushMessage : BusEndpoint → Message → QStatus
  virtualPushMessage : BusEndpoint → Message → SessionId → QStatus
  sessionlessPushMessage : Message → QStatus
  updateSerialNumber : Message → Nat

/-- The members of `DaemonRouter` that `PushMessage`, `RegisterEndpoint` and
`UnregisterEndpoint` read or write. -/
structure DaemonRouter where
  nameTable : NameTable
  localEndpoint : BusEndpoint
  b2bEndpoints : List BusEndpoint
  selfJoinEps : List (String × SessionId)
  deriving DecidableEq, Repr

/-- What a call of the router does to its collaborators, in call order. -/
inductive Event where
  | send (ep : BusEndpoint) (msg : Message) (sessionId : SessionId)
  | routeSessionless (sessionId : SessionId) (msg : Message)
  | sessionlessPush (msg : Message)
  deriving DecidableEq, Repr

structure Outcome where
  status : QStatus
  events : List Event
  deriving DecidableEq, Repr

/-! ## `DaemonRouter.cc` -/

/-- `SendThroughEndpoint`: a Virtual endpoint is pushed to through the session-qualified
path when the session id is not 0, every other endpoint through its generic push.  The
status is returned unchanged (the test on it only guards a debug print). -/
def SendThroughEndpoint (env : Collaborators) (msg : Message) (ep : BusEndpoint)
    (sessionId : SessionId) : QStatus :=
  if sessionId != 0 && ep.epType == .ENDPOINT_TYPE_VIRTUAL then
    env.virtualPushMessage ep msg sessionId
  else
    env.epPushMessage ep msg

namespace DaemonRouter

def selfJoin (r : DaemonRouter) (src : BusEndpoint) (sessionId : SessionId) : Bool :=
  r.selfJoinEps.contains (src.uniqueName, sessionId)

/-- `DaemonRouter::AddCompatibilityOverride`. -/
def AddCompatibilityOverride (r : DaemonRouter) (add : Bool) (src dest : BusEndpoint)
    (sessionId : SessionId) (isBroadcast isSessioncast isSessionless isGlobalBroadcast : Bool)
    (detachId : SessionId) : Bool :=
  let srcIsB2b := src.epType == .ENDPOINT_TYPE_BUS2BUS
  let destIsB2b := dest.epType == .ENDPOINT_TYPE_BUS2BUS
  let add1 :=
    if isBroadcast then
      if isGlobalBroadcast && destIsB2b && detachId != 0 then
        dest.b2bSessionId == detachId
      else add
    else if isSessioncast then
      if !add then
        let srcInSession := src.IsInSession sessionId
        let destInSession := dest.IsInSession sessionId
        let destIsVirtual := dest.epType == .ENDPOINT_TYPE_VIRTUAL
        add || (srcInSession && destInSession && !destIsVirtual &&
                 (src != dest || r.selfJoin src sessionId))
      else add
    else add
  add1 && !(srcIsB2b && isSessionless)

/-- `DaemonRouter::StatusCompatibilityOverride`. -/
def StatusCompatibilityOverride (status : QStatus) (src : BusEndpoint)
    (isSessioncast isSessionless policyRejected : Bool) : QStatus :=
  let srcIsB2b := src.epType == .ENDPOINT_TYPE_BUS2BUS
  if isSessioncast && srcIsB2b && isSessionless && !policyRejected then
    .ER_OK
  else status

/-- `DaemonRouter::IsSessionDeliverable`. -/
def IsSessionDeliverable (r : DaemonRouter) (sessionId : SessionId) (src dest : BusEndpoint) :
    Bool :=
  let srcInSession := src.IsInSession sessionId
  let destInSession := dest.IsInSession sessionId
  let destIsVirtual := dest.epType == .ENDPOINT_TYPE_VIRTUAL
  true && srcInSession && destInSession && !destIsVirtual &&
    (src != dest || r.selfJoin src sessionId)

end DaemonRouter

/-! ### The classification of a message (lines 312-324 of `PushMessage`) -/

namespace Message

def isUnicast (msg : Message) : Bool := !msg.destination.isEmpty

def isNulSession (msg : Message) : Bool := msg.sessionId == 0

def isBroadcast (msg : Message) : Bool := !msg.isUnicast && msg.isNulSession

def isSessioncast (msg : Message) : Bool := !msg.isUnicast && !msg.isNulSession

def replyIsExpected (msg : Message) : Bool :=
  msg.msgType == .MESSAGE_METHOD_CALL && (msg.flags &&& ALLJOYN_FLAG_NO_REPLY_EXPECTED) == 0

/-- DetachSession hack part 1: the session being detached, 0 for every other message and
when the arguments cannot be unmarshalled. -/
def detachId (msg : Message) : SessionId :=
  if msg.memberName == "DetachSession" && msg.iface == DaemonInterfaceName then
    match msg.detachArg with
    | some v => v
    | none => 0
  else 0

end Message

namespace DaemonRouter

/-- The variables the filter loop of `PushMessage` updates. -/
structure FilterState where
  destEps : List BusEndpoint
  blocked : Bool
  blockedReply : Bool
  policyRejected : Bool
  deriving DecidableEq, Repr

/-- One iteration of the filter loop of `PushMessage` (lines 386-494) for the candidate
`dest`. -/
def checkEndpoint (cfg : BuildConfig) (env : Collaborators) (r : DaemonRouter) (msg : Message)
    (src : BusEndpoint) (st : FilterState) (dest : BusEndpoint) : FilterState :=
  let sessionId := msg.sessionId
  let detachId := msg.detachId
  let destination := msg.destination
  let isUnicast := msg.isUnicast
  let isBroadcast := msg.isBroadcast
  let isSessioncast := msg.isSessioncast
  let replyIsExpected := msg.replyIsExpected
  let msgIsSessionless := msg.sessionless
  let msgIsGlobalBroadcast := msg.globalBroadcast
  let srcIsB2b := src.epType == .ENDPOINT_TYPE_BUS2BUS
  let srcIsOurEp := !srcIsB2b
  let srcAllowsRemote := src.allowRemote
  let destIsDirect := isUnicast && r.nameTable.IsAlias dest.uniqueName destination
  let destIsOurEp := dest.epType == .ENDPOINT_TYPE_LOCAL ||
                     dest.epType == .ENDPOINT_TYPE_NULL ||
                     dest.epType == .ENDPOINT_TYPE_REMOTE
  let destIsB2b := dest.epType == .ENDPOINT_TYPE_BUS2BUS
  let destAllowsRemote := dest.allowRemote
  -- the tail of the loop body, from the label addOverride on
  let addOverride (st : FilterState) (add : Bool) : FilterState :=
    let add1 :=
      if cfg.ENABLE_OLD_PUSHMESSAGE_COMPATIBILITY then
        r.AddCompatibilityOverride add src dest sessionId isBroadcast isSessioncast
          msgIsSessionless msgIsGlobalBroadcast detachId
      else add
    if add1 then { st with destEps := st.destEps ++ [dest] } else st
  if cfg.ENABLE_POLICYDB &&
      !(env.policyOKToSend msg src dest && env.policyOKToReceive msg src dest) then
    { st with policyRejected := true }
  else if !(destAllowsRemote || (srcIsOurEp && destIsOurEp)) then
    let st1 := { st with blocked := st.blocked || destIsDirect }
    if cfg.ENABLE_OLD_PUSHMESSAGE_COMPATIBILITY then addOverride st1 false else st1
  else if !(!replyIsExpected || srcAllowsRemote || (srcIsOurEp && destIsOurEp)) then
    let st1 := { st with blockedReply := st.blockedReply || destIsDirect }
    if cfg.ENABLE_OLD_PUSHMESSAGE_COMPATIBILITY then addOverride st1 false else st1
  else
    let add := true && (!isUnicast || destIsDirect)
    let add := add && (!isBroadcast || ((msgIsGlobalBroadcast && destIsB2b && src != dest) ||
                                         env.ruleOkToSend msg dest))
    let add := add && (!isSessioncast || r.IsSessionDeliverable sessionId src dest)
    addOverride st add

/-- The candidate list `allEps` of `PushMessage` (lines 338-380). -/
def candidates (r : DaemonRouter) (msg : Message) : List BusEndpoint :=
  let allEps :=
    if msg.isUnicast then
      let ep := r.nameTable.FindEndpoint msg.destination
      if ep.valid then [ep] else []
    else r.nameTable.GetAllBusEndpoints
  if !msg.isUnicast || allEps.isEmpty then allEps ++ r.b2bEndpoints else allEps

/-- The filter loop of `PushMessage` run over the whole candidate list. -/
def filterEndpoints (cfg : BuildConfig) (env : Collaborators) (r : DaemonRouter) (msg : Message)
    (src : BusEndpoint) : FilterState :=
  (r.candidates msg).foldl (checkEndpoint cfg env r msg src)
    { destEps := [], blocked := false, blockedReply := false, policyRejected := false }

/-- The send loop of `PushMessage` (lines 548-554): every destination is pushed to and the
first status that is not `ER_OK` is kept. -/
def sendLoop (env : Collaborators) (msg : Message) (sessionId : SessionId) :
    List BusEndpoint → QStatus → QStatus
  | [], status => status
  | ep :: rest, status =>
    let tStatus := SendThroughEndpoint env msg ep sessionId
    sendLoop env msg sessionId rest (if status == .ER_OK then tStatus else status)

/-- Text of the automatic error reply (lines 575-587). -/
def blockedDescription (st : FilterState) (destination : String) : String :=
  let blockedDesc := "Remote method call blocked -- "
  let blockedDesc :=
    if st.policyRejected then blockedDesc ++ "policy rule denies message delivery."
    else if st.blocked then blockedDesc ++ "endpoint does not accept off device messages."
    else if st.blockedReply then blockedDesc ++ "reply from off device endpoint would be blocked."
    else blockedDesc ++ "destination does not exist."
  blockedDesc ++ "  Destination = " ++ destination

/-- What one pass of `PushMessage` yields before the error reply is routed: the status it
returns, the calls it made, and the error reply it goes on to route (if any). -/
structure RouteResult where
  status : QStatus
  events : List Event
  reply : Option Message
  deriving DecidableEq, Repr

/-- The message `PushMessage` routes: when the sender is the local endpoint its serial
number is updated first (lines 233-237). -/
def routedMessage (env : Collaborators) (r : DaemonRouter) (msg : Message) (src : BusEndpoint) :
    Message :=
  if src == r.localEndpoint then { msg with callSerial := env.updateSerialNumber msg } else msg

/-- The sessionless hand-off of `PushMessage` (lines 504-538): the value of `status` after
it (`ER_NONE` when nothing was handed off) and the call made on the sessionless object. -/
def handOff (env : Collaborators) (msg : Message) (src : BusEndpoint) (policyRejected : Bool) :
    QStatus × List Event :=
  let isBroadcast := msg.isBroadcast
  let srcIsB2b := src.epType == .ENDPOINT_TYPE_BUS2BUS
  if msg.sessionless && !policyRejected && (isBroadcast || srcIsB2b) then
    if srcIsB2b then (.ER_OK, [Event.routeSessionless src.b2bSessionId msg])
    else if isBroadcast then (env.sessionlessPushMessage msg, [Event.sessionlessPush msg])
    else (.ER_NONE, [])
  else (.ER_NONE, [])

/-- The session id the send loop uses (DetachSession hack part 3, line 547). -/
def sendSessionId (msg : Message) : SessionId :=
  if msg.detachId != 0 then msg.detachId else msg.sessionId

/-- The delivery block of `PushMessage` (lines 540-555): the value of `status` after it and
the `SendThroughEndpoint` calls made. -/
def deliver (env : Collaborators) (msg : Message) (destEps : List BusEndpoint)
    (status : QStatus) : QStatus × List Event :=
  if !destEps.isEmpty then
    let status1 := if status == .ER_NONE then .ER_OK else status
    (sendLoop env msg (sendSessionId msg) destEps status1,
      destEps.map (fun ep => Event.send ep msg (sendSessionId msg)))
  else (status, [])

/-- The failure classification of `PushMessage` (lines 557-567). -/
def classify (cfg : BuildConfig) (msg : Message) (src : BusEndpoint) (policyRejected : Bool)
    (status : QStatus) : QStatus :=
  if status == .ER_NONE then
    let status1 := if policyRejected then QStatus.ER_BUS_POLICY_VIOLATION else .ER_BUS_NO_ROUTE
    if cfg.ENABLE_OLD_PUSHMESSAGE_COMPATIBILITY then
      StatusCompatibilityOverride status1 src msg.isSessioncast msg.sessionless policyRejected
    else status1
  else status

/-- The automatic error reply of `PushMessage` (lines 572-590): the message that is routed
next from the local endpoint, when one is built. -/
def autoReply (r : DaemonRouter) (msg : Message) (src : BusEndpoint) (st : FilterState)
    (status : QStatus) : Option Message :=
  let srcIsB2b := src.epType == .ENDPOINT_TYPE_BUS2BUS
  if status != .ER_OK && msg.replyIsExpected && !srcIsB2b then
    some (ErrorMsg r.localEndpoint.uniqueName msg "org.alljoyn.Bus.Blocked"
      (blockedDescription st msg.destination))
  else none

/-- Lines 239-590 of `PushMessage`, for the message `msg` that is routed. -/
def routeCore (cfg : BuildConfig) (env : Collaborators) (r : DaemonRouter) (msg : Message)
    (src : BusEndpoint) : RouteResult :=
  let st := r.filterEndpoints cfg env msg src
  let h := handOff env msg src st.policyRejected
  let d := deliver env msg st.destEps h.1
  let status := classify cfg msg src st.policyRejected d.1
  { status := status, events := h.2 ++ d.2, reply := r.autoReply msg src st status }

/-- The body of `DaemonRouter::PushMessage` up to, and without, the recursive call that
routes the automatic error reply (line 591). -/
def routeMessage (cfg : BuildConfig) (env : Collaborators) (r : DaemonRouter) (msg : Message)
    (src : BusEndpoint) : RouteResult :=
  if src.epType == .ENDPOINT_TYPE_VIRTUAL then
    { status := .ER_BUS_NO_ROUTE, events := [], reply := none }
  else if !r.localEndpoint.valid then
    { status := .ER_BUS_ENDPOINT_CLOSING, events := [], reply := none }
  else
    r.routeCore cfg env (r.routedMessage env msg src) src

/-- `DaemonRouter::PushMessage`: one pass of routing and, when an automatic error reply was
built, the recursive call that routes it from the local endpoint (its status is dropped).
The recursion ends because the reply is an ERROR message, for which no reply is expected. -/
def PushMessage (cfg : BuildConfig) (env : Collaborators) (r : DaemonRouter) (msg : Message)
    (src : BusEndpoint) : Outcome :=
  match h : (r.routeMessage cfg env msg src).reply with
  | none =>
    { status := (r.routeMessage cfg env msg src).status
      events := (r.routeMessage cfg env msg src).events }
  | some reply =>
    let inner := PushMessage cfg env r reply r.localEndpoint
    { status := (r.routeMessage cfg env msg src).status
      events := (r.routeMessage cfg env msg src).events ++ inner.events }
termination_by (if msg.replyIsExpected then 1 else 0)
decreasing_by
  have hrep : reply.replyIsExpected = false ∧ msg.replyIsExpected = true := by
    unfold routeMessage at h
    split at h
    · simp at h
    · split at h
      · simp at h
      · simp only [routeCore, autoReply] at h
        split at h
        · rename_i hc
          simp only [Bool.and_eq_true] at hc
          have hm := hc.1.2
          simp only [routedMessage] at hm
          injection h with h
          subst h
          refine ⟨by simp [Message.replyIsExpected, ErrorMsg], ?_⟩
          split at hm
          · simpa [Message.replyIsExpected] using hm
          · exact hm
        · simp at h
  simp [hrep.1, hrep.2]

/-- `DaemonRouter::FindEndpoint`: the name table first, then the Bus2Bus endpoints by unique
name. -/
def FindEndpoint (r : DaemonRouter) (busName : String) : BusEndpoint :=
  let ep := r.nameTable.FindEndpoint busName
  if !ep.valid then
    match r.b2bEndpoints.find? (fun rep => rep.uniqueName == busName) with
    | some rep => rep
    | none => ep
  else ep

/-- `DaemonRouter::RegisterEndpoint`: the local endpoint is remembered, a Bus2Bus endpoint is
inserted in the Bus2Bus set (a set: an endpoint that is already there is not inserted again),
every other endpoint gets its unique name in the name table.  The router state after the
call; the status of `AddBusToBusEndpoint` that the call returns is not part of it. -/
def RegisterEndpoint (r : DaemonRouter) (endpoint : BusEndpoint) : DaemonRouter :=
  let r1 :=
    if endpoint.epType == .ENDPOINT_TYPE_LOCAL then { r with localEndpoint := endpoint } else r
  if endpoint.epType == .ENDPOINT_TYPE_BUS2BUS then
    { r1 with b2bEndpoints :=
        if r1.b2bEndpoints.contains endpoint then r1.b2bEndpoints
        else r1.b2bEndpoints ++ [endpoint] }
  else
    { r1 with nameTable := r1.nameTable.AddUniqueName endpoint }

/-- `DaemonRouter::UnregisterEndpoint`. -/
def UnregisterEndpoint (r : DaemonRouter) (epName : String) : DaemonRouter :=
  let endpoint := r.FindEndpoint epName
  let r1 :=
    if endpoint.epType == .ENDPOINT_TYPE_BUS2BUS then
      { r with b2bEndpoints := r.b2bEndpoints.erase endpoint }
    else
      { r with nameTable := r.nameTable.RemoveUniqueName endpoint.uniqueName }
  if endpoint == r1.localEndpoint then { r1 with localEndpoint := BusEndpoint.invalid } else r1

/-- The router as constructed: empty tables and no local endpoint. -/
def init : DaemonRouter :=
  { nameTable := NameTable.empty, localEndpoint := BusEndpoint.invalid, b2bEndpoints := [],
    selfJoinEps := [] }

/-- The router states that arise from the constructed router by registering and
unregistering endpoints, by name-table alias changes and by self-join bookkeeping. -/
inductive Reachable : DaemonRouter → Prop where
  | init : Reachable DaemonRouter.init
  | register {r : DaemonRouter} (ep : BusEndpoint) :
      Reachable r → Reachable (r.RegisterEndpoint ep)
  | unregister {r : DaemonRouter} (epName : String) :
      Reachable r → Reachable (r.UnregisterEndpoint epName)
  | addAlias {r : DaemonRouter} (aliasName uniqueName : String) :
      Reachable r → Reachable { r with nameTable := r.nameTable.AddAlias aliasName uniqueName }
  | setSelfJoin {r : DaemonRouter} (eps : List (String × SessionId)) :
      Reachable r → Reachable { r with selfJoinEps := eps }

end DaemonRouter

/-! ## `AllJoynPeerObj.cc`: versions -/

def MIN_KEYGEN_VERSION : Nat := 0x00
def MAX_KEYGEN_VERSION : Nat := 0x01
def MIN_AUTH_VERSION : Nat := 0x0001
def MAX_AUTH_VERSION : Nat := 0x0004

def PREFERRED_AUTH_VERSION : Nat := (MAX_AUTH_VERSION <<< 16) ||| MIN_KEYGEN_VERSION

/-- The auth-version part of a composite version: `uint16_t authV = version >> 16`. -/
def authV (version : Nat) : Nat := (version >>> 16) % 2 ^ 16

/-- The keygen-version part of a composite version: `uint8_t keyV = version & 0xFF`. -/
def keyV (version : Nat) : Nat := (version &&& 0xFF) % 2 ^ 8

/-- `IsCompatibleVersion`. -/
def IsCompatibleVersion (version : Nat) : Bool :=
  if authV version < MIN_AUTH_VERSION || authV version > MAX_AUTH_VERSION then false
  else if keyV version < MIN_KEYGEN_VERSION || keyV version > MAX_KEYGEN_VERSION then false
  else (version &&& 0xFF00) == 0

/-- `GetLowerVersion`. -/
def GetLowerVersion (v1 v2 : Nat) : Nat :=
  if authV v1 < authV v2 then v1
  else if authV v1 > authV v2 then v2
  else if keyV v1 ≤ keyV v2 then v1
  else v2

/-- The version part of the `ExchangeGuids` handler (lines 364-371): the version the
responder records in the peer state and sends back. -/
def ExchangeGuidsVersion (authVersion : Nat) : Nat :=
  if !IsCompatibleVersion authVersion then PREFERRED_AUTH_VERSION
  else GetLowerVersion authVersion PREFERRED_AUTH_VERSION

/-- What the authentication engine keeps of a peer for version and session-key
negotiation. -/
structure PeerVersionState where
  guid : String
  authVersion : Nat
  deriving DecidableEq, Repr

/-- The reply of the `ExchangeGuids` handler. -/
inductive ExchangeGuidsReply where
  | args (localGuid : String) (authVersion : Nat)
  | error (status : QStatus)
  deriving DecidableEq, Repr

/-- `AllJoynPeerObj::ExchangeGuids`: with a local GUID the handler records the remote GUID and
the agreed version in the peer state and replies with its own GUID and that version. -/
def ExchangeGuids (localGuidStr : String) (peerState : PeerVersionState)
    (remotePeerGuid : String) (authVersion : Nat) : PeerVersionState × ExchangeGuidsReply :=
  if !localGuidStr.isEmpty then
    let authVersion1 := ExchangeGuidsVersion authVersion
    ({ guid := remotePeerGuid, authVersion := authVersion1 }, .args localGuidStr authVersion1)
  else
    (peerState, .error .ER_BUS_NO_PEER_GUID)

/-- The version adoption of `AllJoynPeerObj::AuthenticatePeer` (lines 1023-1034) on the
version of the `ExchangeGuids` reply. -/
def AuthenticatePeerVersion (authVersion : Nat) : Except QStatus Nat :=
  if !IsCompatibleVersion authVersion then .error .ER_BUS_PEER_AUTH_VERSION_MISMATCH
  else .ok (GetLowerVersion authVersion PREFERRED_AUTH_VERSION)

/-! ## `AllJoynPeerObj.cc`: session key generation -/

def VERIFIER_LEN : Nat := 12
def NONCE_LEN : Nat := 28

/-- Modelled from the spec: `Crypto_AES::AES128_SIZE` is declared outside the sources; an
AES-128 key has 16 bytes. -/
def AES128_SIZE : Nat := 16

inductive Role where
  | NO_ROLE
  | INITIATOR
  | RESPONDER
  deriving DecidableEq, Repr

/-- Modelled from the spec: a tagged byte blob with a role. -/
structure KeyBlob where
  data : List Nat
  tag : String
  role : Role
  deriving DecidableEq, Repr

/-- The collaborators of `KeyGen`: the key store lookup by peer GUID, the expiry test of a
blob, the parser of a peer secret record and the pseudorandom function, which is asked for
`keylen` bytes and hands back a status and the bytes it wrote. -/
structure KeyGenEnv where
  getKey : String → QStatus × KeyBlob
  hasExpired : KeyBlob → Bool
  parsePeerSecretRecord : KeyBlob → QStatus × KeyBlob
  pseudorandomFunction : KeyBlob → String → String → Nat → QStatus × List Nat

/-- Modelled from the spec: `BytesToHexString` is defined outside the sources; two hex digits
for every byte. -/
def BytesToHexString (bytes : List Nat) : String :=
  String.mk (bytes.flatMap (fun b =>
    [Nat.digitChar (b / 16 % 16), Nat.digitChar (b % 16)]))

/-- Lines 413-430 of `KeyGen`: the master secret of the peer, loaded from the key store. -/
def loadMasterSecret (env : KeyGenEnv) (peerState : PeerVersionState) : QStatus × KeyBlob :=
  let got := env.getKey peerState.guid
  let status := if got.1 == .ER_OK && env.hasExpired got.2 then .ER_BUS_KEY_EXPIRED else got.1
  if status == .ER_OK then env.parsePeerSecretRecord got.2
  else (status, { data := [], tag := "", role := .NO_ROLE })

/-- The bytes of the verifier: `keymatter[AES128_SIZE .. AES128_SIZE + VERIFIER_LEN)`, each
read as a `uint8_t`. -/
def verifierBytes (keymatter : List Nat) : List Nat :=
  List.ofFn (fun i : Fin VERIFIER_LEN => keymatter.getD (AES128_SIZE + i.val) 0 % 256)

structure KeyGenResult where
  status : QStatus
  verifier : String
  sessionKey : Option KeyBlob
  expiresStoredKey : Bool
  deriving DecidableEq, Repr

/-- `AllJoynPeerObj::KeyGen`: the status, the verifier string (left empty on failure), the
session key stored in the peer state and whether the stored ECDHE_NULL secret is expired. -/
def KeyGen (env : KeyGenEnv) (peerState : PeerVersionState) (seed : String) (role : Role) :
    KeyGenResult :=
  let keyGenVersion := (peerState.authVersion &&& 0xFF) % 2 ^ 8
  let got := env.getKey peerState.guid
  let status0 := if got.1 == .ER_OK && env.hasExpired got.2 then .ER_BUS_KEY_EXPIRED else got.1
  let expires := status0 == .ER_OK && got.2.tag == "ALLJOYN_ECDHE_NULL"
  let loaded := loadMasterSecret env peerState
  if loaded.1 == .ER_OK then
    let masterSecret := loaded.2
    let keylen := AES128_SIZE + VERIFIER_LEN
    let gen : QStatus × List Nat :=
      if keyGenVersion == 0 then
        env.pseudorandomFunction masterSecret "session key" seed keylen
      else (.ER_CRYPTO_ILLEGAL_PARAMETERS, [])
    if gen.1 == .ER_OK then
      let sessionKey : KeyBlob :=
        { data := (List.range AES128_SIZE).map (fun i => gen.2.getD i 0 % 256)
          tag := masterSecret.tag, role := role }
      { status := .ER_OK, verifier := BytesToHexString (verifierBytes gen.2),
        sessionKey := some sessionKey, expiresStoredKey := expires }
    else
      { status := gen.1, verifier := "", sessionKey := none, expiresStoredKey := expires }
  else
    { status := loaded.1, verifier := "", sessionKey := none, expiresStoredKey := expires }

/-- The reply of the `GenSessionKey` handler. -/
inductive GenSessionKeyReply where
  | args (nonce verifier : String)
  | error (status : QStatus)
  deriving DecidableEq, Repr

/-- The seed the `GenSessionKey` handler passes to `KeyGen` (line 504): the nonce of the
request followed by its own nonce. -/
def GenSessionKeySeed (requestNonce nonce : String) : String := requestNonce ++ nonce

/-- `AllJoynPeerObj::GenSessionKey` (lines 492-515); `nonce` is the value of
`RandHexString(NONCE_LEN)`. -/
def GenSessionKey (env : KeyGenEnv) (localGuid : String) (peerState : PeerVersionState)
    (localPeerGuidArg requestNonce nonce : String) : GenSessionKeyReply × KeyGenResult :=
  if localGuid != localPeerGuidArg then
    (.error .ER_BUS_NO_PEER_GUID,
      { status := .ER_BUS_NO_PEER_GUID, verifier := "", sessionKey := none,
        expiresStoredKey := false })
  else
    let res := KeyGen env peerState (GenSessionKeySeed requestNonce nonce) .RESPONDER
    if res.status == .ER_OK then (.args nonce res.verifier, res)
    else (.error res.status, res)

/-- The seed `AuthenticatePeer` passes to `KeyGen` (line 1162): its own nonce followed by the
nonce of the reply. -/
def AuthenticatePeerSeed (nonce replyNonce : String) : String := nonce ++ replyNonce

/-- Lines 1157-1167 of `AuthenticatePeer`: the initiator's `KeyGen` on the reply of
`GenSessionKey` and the comparison of the two verifiers. -/
def AuthenticatePeerKeyGen (env : KeyGenEnv) (peerState : PeerVersionState)
    (nonce replyNonce replyVerifier : String) : QStatus × KeyGenResult :=
  let res := KeyGen env peerState (AuthenticatePeerSeed nonce replyNonce) .INITIATOR
  if res.status == .ER_OK && res.verifier != replyVerifier then (.ER_AUTH_FAIL, res)
  else (res.status, res)

/-! ## `AllJoynPeerObj.cc`: authentication suites -/

def AUTH_KEYX_ANONYMOUS : Nat := 0x00010000
def AUTH_KEYX_EXTERNAL : Nat := 0x00020000
def AUTH_KEYX_SRP : Nat := 0x00080000
def AUTH_KEYX_SRP_LOGON : Nat := 0x00100000
def AUTH_KEYX_ECDHE : Nat := 0x00400000
def AUTH_KEYX_GSSAPI : Nat := 0x00800000

def AUTH_SUITE_ANONYMOUS : Nat := AUTH_KEYX_ANONYMOUS
def AUTH_SUITE_EXTERNAL : Nat := AUTH_KEYX_EXTERNAL
def AUTH_SUITE_SRP_KEYX : Nat := AUTH_KEYX_SRP
def AUTH_SUITE_SRP_LOGON : Nat := AUTH_KEYX_SRP_LOGON
def AUTH_SUITE_ECDHE_NULL : Nat := AUTH_KEYX_ECDHE ||| 0x0001
def AUTH_SUITE_ECDHE_PSK : Nat := AUTH_KEYX_ECDHE ||| 0x0002
def AUTH_SUITE_ECDHE_ECDSA : Nat := AUTH_KEYX_ECDHE ||| 0x0004
def AUTH_SUITE_GSSAPI : Nat := AUTH_KEYX_GSSAPI

def CAPABLE_MEMBERSHIP_CERT_VERSION : Nat := 0x0004
def NON_ECDSA_X509_VERSION : Nat := 0x0002

/-- Modelled from the spec: `CONVERSATION_V4` is declared outside the sources; it is the
auth version 4 ("any peer with auth version smaller than 4", line 1448). -/
def CONVERSATION_V4 : Nat := 4

/-- `IsMembershipCertCapable`. -/
def IsMembershipCertCapable (version : Nat) : Bool :=
  authV version ≥ CAPABLE_MEMBERSHIP_CERT_VERSION

/-- `UseKeyExchanger`: the list has `authCount` entries. -/
def UseKeyExchanger (peerAuthVersion : Nat) (authMaskList : List Nat) : Bool :=
  if authV peerAuthVersion < 2 then false
  else authMaskList.any (fun suite => (suite &&& AUTH_KEYX_ECDHE) == AUTH_KEYX_ECDHE)

/-- `SortableAuthSuite`: `a < b` is `a.weight > b.weight`. -/
structure SortableAuthSuite where
  weight : Nat
  suite : Nat
  deriving DecidableEq, Repr

/-- The scan of `SetupPeerAuthentication` for the next space (lines 1832-1840): `mech` is the
part of `remainder` before the first space, the rest is scanned for the next name; without a
space `mech` is all of the remainder and the loop is done. -/
def splitMechanisms : (remainder : List Char) → (mech : List Char) → List (List Char)
  | [], mech => [mech]
  | c :: cs, mech =>
    if c == ' ' then mech :: splitMechanisms cs [] else splitMechanisms cs (mech ++ [c])

/-- The `if`/`else if` chain of `SetupPeerAuthentication` (lines 1841-1857): the weighted
suite pushed for a mechanism name, nothing for any other name. -/
def mechanismSuite (mech : String) : Option SortableAuthSuite :=
  if mech == "ANONYMOUS" then some ⟨1, AUTH_SUITE_ANONYMOUS⟩
  else if mech == "EXTERNAL" then some ⟨2, AUTH_SUITE_EXTERNAL⟩
  else if mech == "ALLJOYN_ECDHE_NULL" then some ⟨3, AUTH_SUITE_ECDHE_NULL⟩
  else if mech == "ALLJOYN_SRP_KEYX" then some ⟨4, AUTH_SUITE_SRP_KEYX⟩
  else if mech == "ALLJOYN_SRP_LOGON" then some ⟨5, AUTH_SUITE_SRP_LOGON⟩
  else if mech == "ALLJOYN_ECDHE_PSK" then some ⟨6, AUTH_SUITE_ECDHE_PSK⟩
  else if mech == "GSSAPI" then some ⟨7, AUTH_SUITE_GSSAPI⟩
  else if mech == "ALLJOYN_ECDHE_ECDSA" then some ⟨8, AUTH_SUITE_ECDHE_ECDSA⟩
  else none

/-- The vector `suiteList` of `SetupPeerAuthentication` before it is sorted. -/
def parseSuiteList (authMechanisms : String) : List SortableAuthSuite :=
  (splitMechanisms authMechanisms.data []).filterMap (fun mech => mechanismSuite (String.mk mech))

/-- The part of `AllJoynPeerObj::SetupPeerAuthentication` that sets `peerAuthMechanisms` and
`supportedAuthSuites`: the recognised names, sorted with `std::sort` (highest weight first;
entries of equal weight carry the same suite). -/
def SetupPeerAuthentication (authMechanisms : String) : String × List Nat :=
  let suiteList := parseSuiteList authMechanisms
  if suiteList.length == 0 then (authMechanisms, [])
  else
    (authMechanisms,
      (suiteList.insertionSort (fun a b => a.weight ≥ b.weight)).map (fun s => s.suite))

/-- The suite list `AskForAuthSuites` puts in its `ExchangeSuites` call (lines 1342-1364). -/
def offeredAuthSuites (supportedAuthSuites : List Nat) (peerAuthVersion : Nat) : List Nat :=
  let excludeECDHE_ECDSA :=
    (peerAuthVersion >>> 16) ≤ NON_ECDSA_X509_VERSION &&
      supportedAuthSuites.any (fun s => s == AUTH_SUITE_ECDHE_ECDSA)
  if excludeECDHE_ECDSA then supportedAuthSuites.filter (fun s => s != AUTH_SUITE_ECDHE_ECDSA)
  else supportedAuthSuites

/-- The inner loop of the `ExchangeSuites` handler (lines 854-870) for one supported suite:
whether the suite is among the remote suites and is added. -/
def acceptsSuite (peerAuthVersion : Nat) (remoteSuites : List Nat) (suite : Nat) : Bool :=
  if remoteSuites.any (fun rs => suite == rs) then
    if suite == AUTH_SUITE_ECDHE_ECDSA then
      !((peerAuthVersion >>> 16) ≤ NON_ECDSA_X509_VERSION)
    else true
  else false

/-- `AllJoynPeerObj::ExchangeSuites` (lines 826-882): the reply of the handler, an error
reply when the argument cannot be read, the list of effective suites otherwise.  With no
supported suite the reply holds the one entry 0. -/
def ExchangeSuites (supportedAuthSuites : List Nat) (peerAuthVersion : Nat)
    (argStatus : QStatus) (remoteSuites : List Nat) : Except QStatus (List Nat) :=
  if argStatus != .ER_OK then .error argStatus
  else if supportedAuthSuites.length == 0 then .ok [0]
  else .ok (supportedAuthSuites.filter (acceptsSuite peerAuthVersion remoteSuites))

/-! ## `AllJoynPeerObj.cc`: peer state -/

/-- Modelled from the spec: the authorization bits of `PeerState` (ALLOW_SECURE_TX and
ALLOW_SECURE_RX) are declared outside the sources. -/
def ALLOW_SECURE_TX : Nat := 0x01

/-- Modelled from the spec: see `ALLOW_SECURE_TX`. -/
def ALLOW_SECURE_RX : Nat := 0x02

/-- Modelled from the spec: the per-message-type authorization bitmask of a peer state. -/
structure Authorizations where
  methodCall : Nat
  methodRet : Nat
  error : Nat
  signal : Nat
  deriving DecidableEq, Repr

/-- Modelled from the spec: `PeerState` is defined outside the sources.  It holds the peer
GUID and negotiated auth version, the session and group keys, the authorization bitmask, the
"is local peer" flag, whether an authentication event is outstanding and whether the
conversation hash is initialized; `isSecure` is set when a valid key is stored. -/
structure PeerState where
  guid : String
  authVersion : Nat
  sessionKey : Option KeyBlob
  groupKey : Option KeyBlob
  authorizations : Authorizations
  isLocalPeer : Bool
  isSecure : Bool
  authEvent : Bool
  hashInitialized : Bool
  deriving DecidableEq, Repr

inductive PeerKeyType where
  | PEER_SESSION_KEY
  | PEER_GROUP_KEY
  deriving DecidableEq, Repr

namespace KeyBlob

/-- Modelled from the spec: a key blob that holds no bytes is not valid. -/
def IsValid (key : KeyBlob) : Bool := !key.data.isEmpty

/-- Modelled from the spec: `KeyBlob::SetTag`. -/
def SetTag (key : KeyBlob) (tag : String) (role : Role) : KeyBlob :=
  { key with tag := tag, role := role }

end KeyBlob

namespace PeerState

/-- A peer state as the table creates it. -/
def fresh : PeerState :=
  { guid := "", authVersion := 0, sessionKey := none, groupKey := none,
    authorizations := { methodCall := 0, methodRet := 0, error := 0, signal := 0 },
    isLocalPeer := false, isSecure := false, authEvent := false, hashInitialized := false }

/-- Modelled from the spec: the peer is secure when a valid key was stored and no
authentication is in flight. -/
def IsSecure (ps : PeerState) : Bool := ps.isSecure && !ps.authEvent

/-- Modelled from the spec: `PeerState::SetKey`. -/
def SetKey (ps : PeerState) (key : KeyBlob) (keyType : PeerKeyType) : PeerState :=
  match keyType with
  | .PEER_SESSION_KEY => { ps with sessionKey := some key, isSecure := key.IsValid }
  | .PEER_GROUP_KEY => { ps with groupKey := some key, isSecure := key.IsValid }

/-- Modelled from the spec: `PeerState::SetAuthorization`. -/
def SetAuthorization (ps : PeerState) (msgType : AllJoynMessageType) (authorization : Nat) :
    PeerState :=
  match msgType with
  | .MESSAGE_INVALID => ps
  | .MESSAGE_METHOD_CALL =>
    { ps with authorizations := { ps.authorizations with methodCall := authorization } }
  | .MESSAGE_METHOD_RET =>
    { ps with authorizations := { ps.authorizations with methodRet := authorization } }
  | .MESSAGE_ERROR =>
    { ps with authorizations := { ps.authorizations with error := authorization } }
  | .MESSAGE_SIGNAL =>
    { ps with authorizations := { ps.authorizations with signal := authorization } }

def SetGuidAndAuthVersion (ps : PeerState) (guid : String) (authVersion : Nat) : PeerState :=
  { ps with guid := guid, authVersion := authVersion }

/-- The part of a peer state that `KeyGen` reads. -/
def versionState (ps : PeerState) : PeerVersionState :=
  { guid := ps.guid, authVersion := ps.authVersion }

end PeerState

/-- `SetRights`; `mutualAuth` is the source's parameter `mutual`. -/
def SetRights (peerState : PeerState) (mutualAuth challenger : Bool) : PeerState :=
  if mutualAuth then
    (((peerState.SetAuthorization .MESSAGE_METHOD_CALL (ALLOW_SECURE_TX ||| ALLOW_SECURE_RX)
      ).SetAuthorization .MESSAGE_METHOD_RET (ALLOW_SECURE_TX ||| ALLOW_SECURE_RX)
      ).SetAuthorization .MESSAGE_ERROR (ALLOW_SECURE_TX ||| ALLOW_SECURE_RX)
      ).SetAuthorization .MESSAGE_SIGNAL (ALLOW_SECURE_TX ||| ALLOW_SECURE_RX)
  else if challenger then
    (((peerState.SetAuthorization .MESSAGE_METHOD_CALL ALLOW_SECURE_RX
      ).SetAuthorization .MESSAGE_METHOD_RET ALLOW_SECURE_TX
      ).SetAuthorization .MESSAGE_ERROR ALLOW_SECURE_TX
      ).SetAuthorization .MESSAGE_SIGNAL (ALLOW_SECURE_TX ||| ALLOW_SECURE_RX)
  else
    (((peerState.SetAuthorization .MESSAGE_METHOD_CALL ALLOW_SECURE_TX
      ).SetAuthorization .MESSAGE_METHOD_RET ALLOW_SECURE_RX
      ).SetAuthorization .MESSAGE_ERROR ALLOW_SECURE_RX
      ).SetAuthorization .MESSAGE_SIGNAL (ALLOW_SECURE_TX ||| ALLOW_SECURE_RX)

/-- Modelled from the spec: `PeerStateTable` is defined outside the sources.  It maps bus
names to peer state objects (`names` pairs a name with the number of its object, several
names may share one object; `count` objects were made so far), and holds the process-wide
group key. -/
structure PeerStateTable where
  names : List (String × Nat)
  states : Nat → PeerState
  count : Nat
  groupKey : KeyBlob

namespace PeerStateTable

/-- The number of the peer state object a name maps to. -/
def find (t : PeerStateTable) (busName : String) : Option Nat :=
  (t.names.find? (fun p => p.1 == busName)).map (fun p => p.2)

/-- The peer state object with the given number. -/
def get (t : PeerStateTable) (handle : Nat) : PeerState := t.states handle

/-- Write the peer state object with the given number. -/
def set (t : PeerStateTable) (handle : Nat) (ps : PeerState) : PeerStateTable :=
  { t with states := fun h => if h = handle then ps else t.states h }

/-- A new peer state object for the given names. -/
def create (t : PeerStateTable) (busNames : List String) : PeerStateTable × Nat :=
  ({ t with names := t.names ++ busNames.map (fun n => (n, t.count)),
            states := fun h => if h = t.count then PeerState.fresh else t.states h,
            count := t.count + 1 }, t.count)

/-- Modelled from the spec: `GetPeerState(busName)`: the peer state of the name, created when
the name is not known. -/
def GetPeerState (t : PeerStateTable) (busName : String) : PeerStateTable × Nat :=
  match t.find busName with
  | some handle => (t, handle)
  | none => t.create [busName]

/-- Modelled from the spec: `GetPeerState(uniqueName, aliasName)`: the peer state of the
unique name, to which the alias is mapped too; when the unique name is not known the peer
state of the alias (created when needed) is mapped to the unique name. -/
def GetPeerStateAlias (t : PeerStateTable) (uniqueName aliasName : String) :
    PeerStateTable × Nat :=
  match t.find uniqueName with
  | some handle =>
    ({ t with names := t.names.filter (fun p => p.1 != aliasName) ++ [(aliasName, handle)] },
      handle)
  | none =>
    match t.find aliasName with
    | some handle => ({ t with names := t.names ++ [(uniqueName, handle)] }, handle)
    | none => t.create [aliasName, uniqueName]

end PeerStateTable

/-! ## `AllJoynPeerObj.cc`: `AuthenticatePeer` -/

/-- The authentication engine: the configured mechanisms and suites, what the bus attachment
tells it (`hasAuthInterface`: `bus->GetInterface` finds the peer authentication interface;
`uniqueName`: `bus->GetUniqueName()`; `localGuid`: the GUID of the key store), the peer state
table and the conversations pending on the responder side (`keyExConversations` maps a
sender to its key exchanger, which is kept as the suite it was made for). -/
structure AllJoynPeerObj where
  peerAuthMechanisms : String
  supportedAuthSuites : List Nat
  hasAuthInterface : Bool
  uniqueName : String
  localGuid : String
  peerStateTable : PeerStateTable
  conversations : List String
  keyExConversations : List (String × Nat)

/-- What `AuthenticatePeer` asks of its collaborators, in order: the method calls on the
remote peer object, the waits, the key store operations, the SASL engine and key exchanger
calls (which may ask the application for credentials), and the completion callback. -/
inductive AuthEvent where
  | exchangeGuids (localGuid : String) (authVersion : Nat)
  | waitAuthEvent
  | keyStoreReload
  | genSessionKey (localGuid remoteGuid nonce : String)
  | keyGen (expiresStoredKey : Bool)
  | exchangeSuites (authSuites : List Nat)
  | keyExchange (suite : Nat)
  | keyAuthentication (suite : Nat)
  | storeMasterSecret (suite : Nat)
  | saslAdvance (inStr : String)
  | authChallenge (outStr : String)
  | addKey (guid : String) (masterSecret : KeyBlob)
  | exchangeGroupKeys (arg : List Nat)
  | sendManifest
  | sendMembershipData
  | authenticationComplete (mech sender : String) (success : Bool)
  deriving DecidableEq, Repr

/-- The outcome of the `ExchangeGuids` method call: the status, the error name of an error
reply, the sender of the reply and its two arguments. -/
structure ExchangeGuidsCall where
  status : QStatus
  errorName : Option String
  sender : String
  guid : String
  authVersion : Nat

/-- The outcome of the `GenSessionKey` method call. -/
structure GenSessionKeyCall where
  status : QStatus
  nonce : String
  verifier : String

/-- The outcome of the `ExchangeSuites` method call: the status of the call, the status of
reading the array out of the reply, and the array. -/
structure ExchangeSuitesCall where
  status : QStatus
  argStatus : QStatus
  remoteSuites : List Nat

/-- The outcome of the `ExchangeGroupKeys` method call. -/
structure ExchangeGroupKeysCall where
  status : QStatus
  key : List Nat
  authMechanism : String

/-- The collaborators of `AuthenticatePeer`.  The remote peer, the key store, the random
source, the SASL engine and the key exchangers are outside the sources: each call is a
function of its arguments and of how often it was made before (`pass` of the negotiation
loop, `attempt` of the key exchange, `step` of the SASL conversation). -/
structure AuthEnv where
  exchangeGuids : String → Nat → ExchangeGuidsCall
  afterWait : PeerStateTable → PeerStateTable
  randByte : Nat → Nat
  hasKey : Nat → Bool
  isShared : Bool
  hasKeyReloaded : Nat → Bool
  nonce : Nat → String
  genSessionKey : Nat → String → String → String → GenSessionKeyCall
  keyGen : Nat → KeyGenEnv
  getKeyRights : Nat → Authorizations → Authorizations
  exchangeSuites : List Nat → ExchangeSuitesCall
  execKeyExchange : Nat → Nat → QStatus × Nat
  keyAuthentication : Nat → Nat → QStatus × Bool
  recordMasterSecret : Nat → Nat → QStatus
  uninitialised : Nat → Nat → Nat
  saslAdvance : Nat → String → QStatus × String × Bool
  authChallenge : Nat → String → QStatus × String
  saslMechanism : String
  saslIsMutual : Bool
  saslMasterSecret : QStatus × KeyBlob
  addKey : String → KeyBlob → QStatus
  storeKey : KeyBlob → List Nat
  loadGroupKey : Bool → List Nat → QStatus × KeyBlob
  exchangeGroupKeys : List Nat → ExchangeGroupKeysCall
  hasPeerPublicKey : String → Bool

/-- What `AuthenticatePeer` hands back: the status, the engine afterwards and the calls it
made. -/
structure AuthResult where
  status : QStatus
  obj : AllJoynPeerObj
  events : List AuthEvent

/-- Where a stage of the negotiation stands: the status, the peer state, the mechanism name
`mech` and the calls made. -/
structure Conversation where
  status : QStatus
  peerState : PeerState
  mech : String
  events : List AuthEvent
  deriving DecidableEq, Repr

/-- Write a peer state object back into the table of the engine. -/
def AllJoynPeerObj.setPeer (obj : AllJoynPeerObj) (handle : Nat) (peerState : PeerState) :
    AllJoynPeerObj :=
  { obj with peerStateTable := obj.peerStateTable.set handle peerState }

/-- Lines 1123-1136: the look-up of the master secret at the head of a pass. -/
def masterSecretLookup (env : AuthEnv) (pass : Nat) : QStatus × List AuthEvent :=
  if !env.hasKey pass then
    if env.isShared then
      (if !env.hasKeyReloaded pass then .ER_AUTH_FAIL else .ER_OK, [.keyStoreReload])
    else (.ER_AUTH_FAIL, [])
  else (.ER_OK, [])

/-- Lines 1123-1168: one pass of the loop body up to the `break`, entered with status
`ER_OK`.  `KeyGen` stores the session key in the peer state and reads the access rights of the
key into its authorizations. -/
def sessionKeyPass (env : AuthEnv) (pass : Nat) (localGuid remoteGuid : String)
    (c : Conversation) : Conversation :=
  let found := masterSecretLookup env pass
  if found.1 == .ER_OK then
    let nonce := env.nonce pass
    let call := env.genSessionKey pass localGuid remoteGuid nonce
    let events := c.events ++ found.2 ++ [.genSessionKey localGuid remoteGuid nonce]
    if call.status == .ER_OK then
      let kg := AuthenticatePeerKeyGen (env.keyGen pass) c.peerState.versionState nonce
        call.nonce call.verifier
      let withRights : PeerState :=
        { c.peerState with authorizations := env.getKeyRights pass c.peerState.authorizations }
      let peerState :=
        match kg.2.sessionKey with
        | some key => withRights.SetKey key .PEER_SESSION_KEY
        | none => withRights
      { status := kg.1, peerState := peerState, mech := c.mech,
        events := events ++ [.keyGen kg.2.expiresStoredKey] }
    else { c with status := call.status, events := events }
  else { c with status := found.1, events := c.events ++ found.2 }

/-- `AskForAuthSuites`: the status, the suites of the reply and the calls made. -/
def AskForAuthSuites (env : AuthEnv) (supportedAuthSuites : List Nat) (peerAuthVersion : Nat) :
    QStatus × List Nat × List AuthEvent :=
  if supportedAuthSuites.length == 0 then (.ER_AUTH_FAIL, [], [])
  else
    let authSuites := offeredAuthSuites supportedAuthSuites peerAuthVersion
    let call := env.exchangeSuites authSuites
    if call.status != .ER_OK then (call.status, [], [.exchangeSuites authSuites])
    else if call.argStatus != .ER_OK then (call.argStatus, [], [.exchangeSuites authSuites])
    else (.ER_OK, call.remoteSuites, [.exchangeSuites authSuites])

/-- `GetKeyExchangerInstance`: the suite of the key exchanger made for the first entry of the
list that includes an ECDHE suite, if any. -/
def GetKeyExchangerInstance : (requestingAuthList : List Nat) → Option Nat
  | [] => none
  | suite :: rest =>
    if (suite &&& AUTH_SUITE_ECDHE_ECDSA) == AUTH_SUITE_ECDHE_ECDSA then
      some AUTH_SUITE_ECDHE_ECDSA
    else if (suite &&& AUTH_SUITE_ECDHE_PSK) == AUTH_SUITE_ECDHE_PSK then
      some AUTH_SUITE_ECDHE_PSK
    else if (suite &&& AUTH_SUITE_ECDHE_NULL) == AUTH_SUITE_ECDHE_NULL then
      some AUTH_SUITE_ECDHE_NULL
    else GetKeyExchangerInstance rest

/-- `GetSuiteName` of the three key exchangers (`KeyExchanger.h`). -/
def GetSuiteName (suite : Nat) : String :=
  if suite == AUTH_SUITE_ECDHE_ECDSA then "ALLJOYN_ECDHE_ECDSA"
  else if suite == AUTH_SUITE_ECDHE_PSK then "ALLJOYN_ECDHE_PSK"
  else if suite == AUTH_SUITE_ECDHE_NULL then "ALLJOYN_ECDHE_NULL"
  else ""

/-- Lines 1410-1423 of `AuthenticatePeerUsingKeyExchange`: the key exchange and the key
authentication with the current suite; hands back the remote auth mask too. -/
def keyExchangeAttempt (env : AuthEnv) (attempt currentSuite : Nat) (c : Conversation) :
    Conversation × Nat :=
  let exec := env.execKeyExchange attempt currentSuite
  let remoteAuthMask := exec.2 % 2 ^ 32
  let mech := GetSuiteName currentSuite
  let events := c.events ++ [.keyExchange currentSuite]
  if exec.1 == .ER_OK && remoteAuthMask == currentSuite then
    let auth := env.keyAuthentication attempt currentSuite
    if auth.2 then
      ({ status := env.recordMasterSecret attempt currentSuite,
         peerState := SetRights c.peerState true false, mech := mech,
         events := events ++ [.keyAuthentication currentSuite, .storeMasterSecret currentSuite] },
        remoteAuthMask)
    else
      ({ status := .ER_AUTH_FAIL, peerState := c.peerState, mech := mech,
         events := events ++ [.keyAuthentication currentSuite] }, remoteAuthMask)
  else if exec.1 == .ER_OK then
    ({ status := .ER_AUTH_FAIL, peerState := c.peerState, mech := mech, events := events },
      remoteAuthMask)
  else
    ({ status := exec.1, peerState := c.peerState, mech := mech, events := events },
      remoteAuthMask)

/-- Lines 1434-1446: the retry list.  The entries that do not include the current suite are
copied to the front of a new array of `smallerCount` slots; the slots behind them are not
written.  `none` when the bound check `idx >= smallerCount` fires. -/
def smallerSuites (env : AuthEnv) (attempt currentSuite smallerCount : Nat)
    (requestingAuthList : List Nat) : Option (List Nat) :=
  let kept := requestingAuthList.filter (fun s => (s &&& currentSuite) != currentSuite)
  if kept.length > smallerCount then none
  else some (kept ++ (List.range (smallerCount - kept.length)).map
    (fun i => env.uninitialised attempt (kept.length + i) % 2 ^ 32))

/-- `AuthenticatePeerUsingKeyExchange`; the recursion is on `requestingAuthCount`. -/
def AuthenticatePeerUsingKeyExchange (env : AuthEnv) :
    (requestingAuthCount : Nat) → (attempt : Nat) → (requestingAuthList : List Nat) →
      Conversation → Conversation
  | 0, _, _, c => { c with status := .ER_AUTH_FAIL }
  | smallerCount + 1, attempt, requestingAuthList, c =>
    match GetKeyExchangerInstance (requestingAuthList.take (smallerCount + 1)) with
    | none => { c with status := .ER_AUTH_FAIL }
    | some currentSuite =>
      let tried := keyExchangeAttempt env attempt currentSuite c
      if tried.1.status == .ER_OK then tried.1
      else if tried.2 == 0 then { tried.1 with status := .ER_AUTH_FAIL }
      else if smallerCount + 1 == 1 then { tried.1 with status := .ER_AUTH_FAIL }
      else
        match smallerSuites env attempt currentSuite smallerCount
            (requestingAuthList.take (smallerCount + 1)) with
        | none => { tried.1 with status := .ER_AUTH_FAIL }
        | some smaller =>
          let peerState : PeerState :=
            if (tried.1.peerState.authVersion >>> 16) < CONVERSATION_V4 then
              { tried.1.peerState with hashInitialized := true }
            else tried.1.peerState
          AuthenticatePeerUsingKeyExchange env smallerCount (attempt + 1) smaller
            { tried.1 with peerState := peerState }

/-- Lines 1318-1328 of `AuthenticatePeerUsingSASL`: when the engine reports success the
master secret is fetched, tagged and added to the key store. -/
def saslSuccess (env : AuthEnv) (remoteGuid : String) (c : Conversation) : Conversation :=
  let mech := env.saslMechanism
  if env.saslMasterSecret.1 == .ER_OK then
    let peerState := SetRights c.peerState env.saslIsMutual false
    let masterSecret := env.saslMasterSecret.2.SetTag mech .INITIATOR
    { status := env.addKey remoteGuid masterSecret, peerState := peerState, mech := mech,
      events := c.events ++ [.addKey remoteGuid masterSecret] }
  else { c with status := env.saslMasterSecret.1, mech := mech }

/-- Lines 1316-1328 of `AuthenticatePeerUsingSASL`: the reply of the peer is handed to the
engine, and the master secret is stored when the engine reports success. -/
def saslAdvanceRound (env : AuthEnv) (remoteGuid : String) (step : Nat) (inStr : String)
    (c : Conversation) : Conversation :=
  let adv := env.saslAdvance (step + 1) inStr
  let advanced : Conversation :=
    { c with status := adv.1, events := c.events ++ [.saslAdvance inStr] }
  if adv.2.2 then saslSuccess env remoteGuid advanced else advanced

/-- The `while (status == ER_OK)` loop of `AuthenticatePeerUsingSASL` (lines 1302-1332),
entered with status `ER_OK`; `success` is `authState == ALLJOYN_AUTH_SUCCESS`.  The loop runs
as long as the engine and the peer keep it going: `none` when `fuel` rounds did not end it. -/
def saslLoop (env : AuthEnv) (remoteGuid : String) :
    (fuel : Nat) → (step : Nat) → (outStr : String) → (success : Bool) → Conversation →
      Option Conversation
  | 0, _, _, _, _ => none
  | fuel + 1, step, outStr, success, c =>
    let call := env.authChallenge step outStr
    let challenged : Conversation := { c with events := c.events ++ [.authChallenge outStr] }
    if call.1 == .ER_OK then
      if success then
        some { challenged with status := .ER_OK,
                               peerState := SetRights c.peerState env.saslIsMutual false }
      else
        let adv := env.saslAdvance (step + 1) call.2
        let next := saslAdvanceRound env remoteGuid step call.2 challenged
        if next.status == .ER_OK then saslLoop env remoteGuid fuel (step + 1) adv.2.1 adv.2.2 next
        else some next
    else some { challenged with status := .ER_AUTH_FAIL }

/-- `AuthenticatePeerUsingSASL`. -/
def AuthenticatePeerUsingSASL (env : AuthEnv) (fuel : Nat) (remoteGuid : String)
    (c : Conversation) : Option Conversation :=
  let adv := env.saslAdvance 0 ""
  let advanced : Conversation := { c with status := adv.1, events := c.events ++ [.saslAdvance ""] }
  if adv.1 == .ER_OK then saslLoop env remoteGuid fuel 0 adv.2.1 adv.2.2 advanced
  else some advanced

/-- Lines 1172-1184: the authentication conversation that follows a first pass that failed. -/
def fullConversation (env : AuthEnv) (fuel : Nat) (obj : AllJoynPeerObj)
    (useKeyExchanger : Bool) (authVersion : Nat) (remoteGuid : String) (c : Conversation) :
    Option Conversation :=
  if useKeyExchanger then
    let asked := AskForAuthSuites env obj.supportedAuthSuites authVersion
    let c1 : Conversation := { c with status := asked.1, events := c.events ++ asked.2.2 }
    if asked.1 == .ER_OK then
      some (AuthenticatePeerUsingKeyExchange env asked.2.1.length 0 asked.2.1 c1)
    else some c1
  else AuthenticatePeerUsingSASL env fuel remoteGuid c

/-- The `do ... while (status == ER_OK)` loop (lines 1115-1187), entered with status `ER_OK`:
the status on leaving the loop, whether an authentication was tried, and the conversation. -/
def negotiationLoop (env : AuthEnv) (fuel : Nat) (obj : AllJoynPeerObj)
    (useKeyExchanger : Bool) (authVersion : Nat) (remoteGuid : String) (c : Conversation) :
    Option (Conversation × Bool) :=
  let first := sessionKeyPass env 0 obj.localGuid remoteGuid c
  if first.status == .ER_OK then some (first, false)
  else
    match fullConversation env fuel obj useKeyExchanger authVersion remoteGuid first with
    | none => none
    | some conv =>
      if conv.status == .ER_OK then some (sessionKeyPass env 1 obj.localGuid remoteGuid conv, true)
      else some (conv, true)

/-- Lines 1239-1255: the manifest and the membership data are sent after a key exchange with
a peer that can take them. -/
def membershipExchange (env : AuthEnv) (useKeyExchanger : Bool) (c : Conversation) :
    List AuthEvent :=
  if useKeyExchanger && IsMembershipCertCapable c.peerState.authVersion then
    let sendManifest :=
      if c.mech == "ALLJOYN_ECDHE_ECDSA" then true
      else if c.mech.isEmpty then env.hasPeerPublicKey c.peerState.guid
      else false
    if sendManifest then [.sendManifest, .sendMembershipData] else []
  else []

/-- Lines 1199-1258: the exchange of the group keys, entered with status `ER_OK`. -/
def exchangeGroupKeys (env : AuthEnv) (groupKey : KeyBlob) (useKeyExchanger : Bool)
    (authVersion : Nat) (c : Conversation) : Conversation :=
  let keyGenVersion := (authVersion &&& 0xFF) % 2 ^ 8
  let authV := (authVersion >>> 16) % 2 ^ 16
  let sendKeyBlob := authV ≤ 1 && keyGenVersion == 0
  let arg := if sendKeyBlob then env.storeKey groupKey else groupKey.data
  let call := env.exchangeGroupKeys arg
  let events := c.events ++ [.exchangeGroupKeys arg]
  if call.status == .ER_OK then
    let loaded := env.loadGroupKey sendKeyBlob call.key
    if loaded.1 == .ER_OK then
      let c1 : Conversation :=
        { c with status := .ER_OK,
                 peerState := c.peerState.SetKey (loaded.2.SetTag call.authMechanism .NO_ROLE)
                   .PEER_GROUP_KEY,
                 events := events }
      { c1 with events := events ++ membershipExchange env useKeyExchanger c1 }
    else { c with status := loaded.1, events := events }
  else { c with status := call.status, events := events }

/-- Lines 1188-1282: what follows the loop.  The conversation hash is freed, the group keys
are exchanged after a success, the completion is reported when an authentication was tried,
`ER_BUS_REPLY_IS_ERROR_MESSAGE` is replaced and the authentication event is cleared. -/
def completeAuthentication (env : AuthEnv) (groupKey : KeyBlob) (useKeyExchanger : Bool)
    (authVersion : Nat) (sender : String) (authTried : Bool) (c : Conversation) : Conversation :=
  let freed : Conversation := { c with peerState := { c.peerState with hashInitialized := false } }
  let keyed :=
    if freed.status == .ER_OK then exchangeGroupKeys env groupKey useKeyExchanger authVersion freed
    else freed
  let events :=
    if authTried then
      keyed.events ++ [.authenticationComplete keyed.mech sender (keyed.status == .ER_OK)]
    else keyed.events
  { status := if keyed.status == .ER_BUS_REPLY_IS_ERROR_MESSAGE then .ER_AUTH_FAIL
              else keyed.status,
    peerState := { keyed.peerState with authEvent := false },
    mech := keyed.mech, events := events }

/-- Lines 1069-1088: the local peer is secured to itself. -/
def secureLocalPeer (env : AuthEnv) (groupKey : KeyBlob) (peerState : PeerState) : PeerState :=
  let key := groupKey.SetTag "SELF" .NO_ROLE
  let withGroup := peerState.SetKey key .PEER_GROUP_KEY
  let sessionKey : KeyBlob :=
    { key with data := (List.range AES128_SIZE).map (fun i => env.randByte i % 256) }
  let withSession := withGroup.SetKey (sessionKey.SetTag "SELF" .NO_ROLE) .PEER_SESSION_KEY
  SetRights { withSession with isLocalPeer := true } true false

/-- Lines 1103-1114: the authentication event is set, the conversation hash is initialized,
no mechanism is chosen yet and the status is that of the `ExchangeGuids` call, `ER_OK`. -/
def startConversation (peerState : PeerState) (events : List AuthEvent) : Conversation :=
  { status := .ER_OK,
    peerState := { peerState with authEvent := true, hashInitialized := true },
    mech := "", events := events }

/-- Lines 1103-1282 of `AuthenticatePeer`: the negotiation with a remote peer. -/
def negotiate (env : AuthEnv) (fuel : Nat) (obj : AllJoynPeerObj) (handle : Nat)
    (peerState : PeerState) (call : ExchangeGuidsCall) (authVersion : Nat)
    (events : List AuthEvent) : Option AuthResult :=
  let useKeyExchanger := UseKeyExchanger authVersion obj.supportedAuthSuites
  match negotiationLoop env fuel obj useKeyExchanger authVersion call.guid
      (startConversation peerState events) with
  | none => none
  | some (conv, authTried) =>
    let done := completeAuthentication env obj.peerStateTable.groupKey useKeyExchanger
      authVersion call.sender authTried conv
    some { status := done.status, obj := obj.setPeer handle done.peerState,
           events := done.events }

/-- Lines 1054-1063 and 972-983: another thread is authenticating the peer. -/
def awaitAuthentication (env : AuthEnv) (obj : AllJoynPeerObj) (handle : Nat) (wait : Bool)
    (events : List AuthEvent) : AuthResult :=
  if wait then
    let table := env.afterWait obj.peerStateTable
    { status := if (table.get handle).IsSecure then .ER_OK else .ER_AUTH_FAIL,
      obj := { obj with peerStateTable := table }, events := events ++ [.waitAuthEvent] }
  else { status := .ER_WOULDBLOCK, obj := obj, events := events }

/-- Lines 1017-1282 of `AuthenticatePeer`: what follows a successful `ExchangeGuids` call. -/
def afterExchangeGuids (env : AuthEnv) (fuel : Nat) (obj : AllJoynPeerObj)
    (msgType : AllJoynMessageType) (busName : String) (wait : Bool) (call : ExchangeGuidsCall)
    (events : List AuthEvent) : Option AuthResult :=
  match AuthenticatePeerVersion (call.authVersion % 2 ^ 32) with
  | .error status => some { status := status, obj := obj, events := events }
  | .ok authVersion =>
    let got := obj.peerStateTable.GetPeerStateAlias call.sender busName
    let peerState := (got.1.get got.2).SetGuidAndAuthVersion call.guid authVersion
    let obj1 : AllJoynPeerObj := { obj with peerStateTable := got.1.set got.2 peerState }
    if peerState.IsSecure then some { status := .ER_OK, obj := obj1, events := events }
    else if peerState.authEvent then some (awaitAuthentication env obj1 got.2 wait events)
    else if obj.uniqueName == call.sender then
      some { status := .ER_OK,
             obj := obj1.setPeer got.2 (secureLocalPeer env obj1.peerStateTable.groupKey peerState),
             events := events }
    else if msgType != .MESSAGE_METHOD_CALL && msgType != .MESSAGE_ERROR then
      some { status := .ER_BUS_DESTINATION_NOT_AUTHENTICATED, obj := obj1, events := events }
    else negotiate env fuel obj1 got.2 peerState call authVersion events

/-- Lines 1002-1016: the status `AuthenticatePeer` returns when the `ExchangeGuids` call
failed. -/
def exchangeGuidsFailure (call : ExchangeGuidsCall) : QStatus :=
  if call.status == .ER_BUS_REPLY_IS_ERROR_MESSAGE then
    if call.errorName == some "org.freedesktop.DBus.Error.ServiceUnknown" then
      .ER_BUS_NO_SUCH_OBJECT
    else .ER_AUTH_FAIL
  else call.status

/-- `AllJoynPeerObj::AuthenticatePeer`.  `none` only when the SASL conversation did not end
within `fuel` rounds. -/
def AuthenticatePeer (env : AuthEnv) (fuel : Nat) (obj : AllJoynPeerObj)
    (msgType : AllJoynMessageType) (busName : String) (wait : Bool) : Option AuthResult :=
  let got := obj.peerStateTable.GetPeerState busName
  let obj1 : AllJoynPeerObj := { obj with peerStateTable := got.1 }
  let peerState := got.1.get got.2
  if !obj.hasAuthInterface then
    some { status := .ER_BUS_NO_SUCH_INTERFACE, obj := obj1, events := [] }
  else if obj.peerAuthMechanisms.isEmpty then
    some { status := .ER_BUS_NO_AUTHENTICATION_MECHANISM, obj := obj1, events := [] }
  else if peerState.IsSecure then some { status := .ER_OK, obj := obj1, events := [] }
  else if msgType == .MESSAGE_METHOD_CALL && peerState.authEvent then
    some (awaitAuthentication env obj1 got.2 wait [])
  else
    let call := env.exchangeGuids obj.localGuid PREFERRED_AUTH_VERSION
    let events := [AuthEvent.exchangeGuids obj.localGuid PREFERRED_AUTH_VERSION]
    if call.status != .ER_OK then
      some { status := exchangeGuidsFailure call, obj := obj1, events := events }
    else afterExchangeGuids env fuel obj1 msgType busName wait call events

/-! ## `AllJoynPeerObj.cc`: the deferred requests and the responder side -/

namespace PeerState

/-- Modelled from the spec: `PeerState::ClearKeys` invalidates the cached keys of the peer,
which is not secure afterwards. -/
def ClearKeys (ps : PeerState) : PeerState :=
  { ps with sessionKey := none, groupKey := none, isSecure := false }

end PeerState

namespace PeerStateTable

/-- Modelled from the spec: `IsKnownPeer(busName)`: the table holds a peer state for the
name. -/
def IsKnownPeer (t : PeerStateTable) (busName : String) : Bool := (t.find busName).isSome

end PeerStateTable

/-- Modelled from the spec: `Message::IsBroadcastSignal`: a signal that names no
destination. -/
def Message.IsBroadcastSignal (msg : Message) : Bool :=
  msg.msgType == .MESSAGE_SIGNAL && msg.destination.isEmpty

/-- What the handlers of this part do to their collaborators, in order: the calls on the
local endpoint (`PauseReplyHandlerTimeout`, `ResumeReplyHandlerTimeout`, the push of an error
message made with `ErrorMsg(status, replySerial)`), the push of a message into the router,
the `SecurityViolation` and `AuthenticationComplete` callbacks of the application, the
status reply to a method call (`MethodReply(msg, status)`), and the calls on the key
exchanger of the given suite. -/
inductive PeerObjEvent where
  | pauseReplyHandlerTimeout (msg : Message)
  | resumeReplyHandlerTimeout (msg : Message)
  | routerPushMessage (msg : Message)
  | errorReply (status : QStatus) (replySerial : Nat)
  | securityViolation (status : QStatus) (msg : Message)
  | methodReply (msg : Message) (status : QStatus)
  | respondToKeyExchange (suite : Nat) (msg : Message) (authMask effectiveAuthMask : Nat)
  | validateRemoteVerifier (suite : Nat) (sender : String)
  | storeMasterSecret (suite : Nat) (sender : String)
  | authenticationComplete (mech : String) (peer : String) (success : Bool)
  | replyWithVerifier (suite : Nat) (msg : Message)
  deriving DecidableEq, Repr

/-- What the handlers ask of their collaborators: whether the router is a daemon
(`GetRouter().IsDaemon()`), the answer of `peerStateTable->IsAlias` (the table is defined
outside the sources), the status of the router's `PushMessage` for the n-th message pushed
during one replay, the status of reading the verifier argument of a `KeyAuthentication` call,
the status and verdict of `ValidateRemoteVerifierVariant` and the status of
`StoreMasterSecret` of the key exchanger of a suite. -/
structure HandlerEnv where
  isDaemon : Bool
  isAlias : String → String → Bool
  routerPush : Nat → Message → QStatus
  verifierArg : Message → QStatus
  validateRemoteVerifier : Nat → String → QStatus × Bool
  storeMasterSecret : Nat → String → QStatus

/-- The state of the loop over `msgsPendingAuth` in `AlarmTriggered`: the variable `status`,
the messages the loop left in the queue so far, the number of messages pushed into the router
and the calls made. -/
structure ReplayState where
  status : QStatus
  queue : List Message
  pushes : Nat
  events : List PeerObjEvent
  deriving DecidableEq, Repr

/-- One iteration of the loop over `msgsPendingAuth` (lines 1519-1550) for the queued message
`msg`; `req` is the message of the request (`req->msg`). -/
def replayStep (env : HandlerEnv) (req : Message) (st : ReplayState) (msg : Message) :
    ReplayState :=
  if env.isAlias msg.destination req.destination then
    if st.status != .ER_OK then
      if msg.msgType == .MESSAGE_METHOD_CALL then
        { st with events := st.events ++ [.errorReply st.status msg.callSerial] }
      else st
    else
      let resumed :=
        if msg.msgType == .MESSAGE_METHOD_CALL then [PeerObjEvent.resumeReplyHandlerTimeout msg]
        else []
      let status := env.routerPush st.pushes msg
      let denied :=
        if status == .ER_PERMISSION_DENIED then
          if req.msgType == .MESSAGE_METHOD_CALL then
            [PeerObjEvent.errorReply status req.callSerial]
          else []
        else []
      { status := status, queue := st.queue, pushes := st.pushes + 1,
        events := st.events ++ resumed ++ [.routerPushMessage msg] ++ denied }
  else { st with queue := st.queue ++ [msg] }

/-- The loop over `msgsPendingAuth` (lines 1518-1550), entered with the status of
`AuthenticatePeer`. -/
def replayPending (env : HandlerEnv) (req : Message) (status : QStatus)
    (msgsPendingAuth : List Message) : ReplayState :=
  msgsPendingAuth.foldl (replayStep env req)
    { status := status, queue := [], pushes := 0, events := [] }

/-- What the `AUTHENTICATE_PEER` case of `AlarmTriggered` leaves behind: the engine, the
queue `msgsPendingAuth`, the calls `AuthenticatePeer` made and the calls of the handler. -/
structure AlarmResult where
  obj : AllJoynPeerObj
  msgsPendingAuth : List Message
  authEvents : List AuthEvent
  events : List PeerObjEvent

/-- The `AUTHENTICATE_PEER` case of `AllJoynPeerObj::AlarmTriggered` (lines 1496-1559) for
the request message `req`; `msgsPendingAuth` is the queue of the engine.  `none` only when
`AuthenticatePeer` did not end within `fuel` rounds. -/
def AlarmTriggered_AUTHENTICATE_PEER (env : HandlerEnv) (authEnv : AuthEnv) (fuel : Nat)
    (obj : AllJoynPeerObj) (msgsPendingAuth : List Message) (req : Message) :
    Option AlarmResult :=
  let queue := msgsPendingAuth ++ [req]
  let paused :=
    if req.msgType == .MESSAGE_METHOD_CALL then [PeerObjEvent.pauseReplyHandlerTimeout req]
    else []
  match AuthenticatePeer authEnv fuel obj req.msgType req.destination false with
  | none => none
  | some r =>
    if r.status != .ER_WOULDBLOCK then
      let st := replayPending env req r.status queue
      let report :=
        if st.status != .ER_OK then [PeerObjEvent.securityViolation st.status req] else []
      some { obj := r.obj, msgsPendingAuth := st.queue, authEvents := r.events,
             events := paused ++ st.events ++ report }
    else
      some { obj := r.obj, msgsPendingAuth := queue, authEvents := r.events, events := paused }

/-- `AllJoynPeerObj::HandleSecurityViolation`: the engine afterwards and the calls made. -/
def HandleSecurityViolation (env : HandlerEnv) (obj : AllJoynPeerObj) (msg : Message)
    (status : QStatus) : AllJoynPeerObj × List PeerObjEvent :=
  if status == .ER_PERMISSION_DENIED then
    if !env.isDaemon then
      if msg.msgType == .MESSAGE_METHOD_CALL then
        (obj, [.errorReply status msg.callSerial])
      else (obj, [])
    else (obj, [])
  else
    let handled : AllJoynPeerObj × QStatus :=
      if status == .ER_BUS_MESSAGE_DECRYPTION_FAILED then
        let got := obj.peerStateTable.GetPeerState msg.sender
        let obj1 : AllJoynPeerObj := { obj with peerStateTable := got.1 }
        let peerState := got.1.get got.2
        if peerState.IsSecure then (obj1.setPeer got.2 peerState.ClearKeys, status)
        else if msg.IsBroadcastSignal then (obj1, .ER_OK)
        else (obj1, status)
      else (obj, status)
    if handled.2 != .ER_OK then (handled.1, [.securityViolation handled.2 msg])
    else (handled.1, [])

/-- The key exchanger stored for the sender in `keyExConversations`, by its suite. -/
def AllJoynPeerObj.keyExchangerOf (obj : AllJoynPeerObj) (sender : String) : Option Nat :=
  (obj.keyExConversations.find? (fun p => p.1 == sender)).map (fun p => p.2)

/-- The map `keyExConversations` after `erase(sender)`. -/
def AllJoynPeerObj.eraseKeyExchanger (obj : AllJoynPeerObj) (sender : String) :
    AllJoynPeerObj :=
  { obj with keyExConversations := obj.keyExConversations.filter (fun p => p.1 != sender) }

/-- `AllJoynPeerObj::DoKeyExchange` for the method call `msg` whose argument 0 is `authMask`
(a `uint32_t`): the engine afterwards and the calls made.  The conversation hash is kept as
the one flag `hashInitialized`; what is hashed is not modelled. -/
def DoKeyExchange (obj : AllJoynPeerObj) (msg : Message) (authMask : Nat) :
    AllJoynPeerObj × List PeerObjEvent :=
  let effectiveAuthMask :=
    if obj.supportedAuthSuites.any (fun s => (authMask &&& s) == authMask) then authMask else 0
  if effectiveAuthMask == 0 then (obj, [.methodReply msg .ER_AUTH_FAIL])
  else
    let sender := msg.sender
    if !obj.peerStateTable.IsKnownPeer sender then (obj, [.methodReply msg .ER_AUTH_FAIL])
    else
      let got := obj.peerStateTable.GetPeerState sender
      let obj1 : AllJoynPeerObj := { obj with peerStateTable := got.1 }
      let peerState := got.1.get got.2
      match GetKeyExchangerInstance [effectiveAuthMask] with
      | none => (obj1, [.methodReply msg .ER_AUTH_FAIL])
      | some suite =>
        let peerState1 :=
          if (peerState.authVersion >>> 16) < CONVERSATION_V4 then
            { peerState with hashInitialized := true }
          else peerState
        let obj2 := obj1.setPeer got.2 peerState1
        ({ obj2 with
            keyExConversations :=
              (sender, suite) :: obj2.keyExConversations.filter (fun p => p.1 != sender) },
          [.respondToKeyExchange suite msg authMask effectiveAuthMask])

/-- The tail of `DoKeyAuthentication` from the comment "assume failure" on (lines 738-758):
the failed authentication is reported and the caller is told `ER_AUTH_FAIL`. -/
def keyAuthenticationFailure (keyExchanger : Option Nat) (msg : Message) :
    List PeerObjEvent :=
  let suiteName :=
    match keyExchanger with
    | some suite => GetSuiteName suite
    | none => "Unknown"
  [.authenticationComplete suiteName msg.sender false, .methodReply msg .ER_AUTH_FAIL]

/-- `AllJoynPeerObj::DoKeyAuthentication` for the method call `msg`: the engine afterwards
and the calls made. -/
def DoKeyAuthentication (env : HandlerEnv) (obj : AllJoynPeerObj) (msg : Message) :
    AllJoynPeerObj × List PeerObjEvent :=
  let sender := msg.sender
  if !obj.peerStateTable.IsKnownPeer sender then (obj, [])
  else
    let got := obj.peerStateTable.GetPeerState sender
    let peerState := got.1.get got.2
    let keyExchanger := obj.keyExchangerOf sender
    let obj1 : AllJoynPeerObj :=
      { obj with peerStateTable := got.1 }.eraseKeyExchanger sender
    match keyExchanger with
    | none => (obj1, keyAuthenticationFailure keyExchanger msg)
    | some suite =>
      if env.verifierArg msg == .ER_OK then
        let verdict := env.validateRemoteVerifier suite sender
        let validated := [PeerObjEvent.validateRemoteVerifier suite sender]
        if verdict.1 == .ER_OK && verdict.2 then
          let obj2 := obj1.setPeer got.2 (SetRights peerState true true)
          let stored := validated ++ [.storeMasterSecret suite sender]
          if env.storeMasterSecret suite sender == .ER_OK then
            (obj2, stored ++ [.authenticationComplete (GetSuiteName suite) sender true,
                              .replyWithVerifier suite msg])
          else (obj2, stored ++ keyAuthenticationFailure keyExchanger msg)
        else (obj1, validated ++ keyAuthenticationFailure keyExchanger msg)
      else (obj1, keyAuthenticationFailure keyExchanger msg)

/-! ## `AllJoynPeerObj.cc`: concurrent calls of `AuthenticatePeer` -/

/-- One call of `AuthenticatePeer`: its arguments, the answers its collaborators give to this
call, and the fuel of its SASL loop. -/
structure Caller where
  msgType : AllJoynMessageType
  busName : String
  wait : Bool
  env : AuthEnv
  fuel : Nat

/-- Where a call of `AuthenticatePeer` stands.  A call is cut where it blocks, so that other
calls run in between: before its first line (`called`), in the `ExchangeGuids` method call
(`exchangingGuids`), in the negotiation with the authentication event of its peer state set
(`negotiating`, with the peer state object and the local variables `replyMsg` and
`authVersion`), in `Event::Wait` on the authentication event another call has set
(`waiting`), released from that wait (`woken`), and returned with a status. -/
inductive Progress where
  | called
  | exchangingGuids
  | negotiating (handle : Nat) (call : ExchangeGuidsCall) (authVersion : Nat)
  | waiting (handle : Nat)
  | woken (handle : Nat)
  | returned (status : QStatus)

/-- The calls of `AuthenticatePeer` that are under way on one engine: the engine, where every
call stands, the negotiations started so far (the call and its peer state object, in order)
and the calls made on the collaborators, each with the call that made it. -/
structure Calls where
  obj : AllJoynPeerObj
  progress : Nat → Progress
  conversations : List (Nat × Nat)
  events : List (Nat × AuthEvent)

namespace Calls

/-- The calls before any of them has run. -/
def start (obj : AllJoynPeerObj) : Calls :=
  { obj := obj, progress := fun _ => .called, conversations := [], events := [] }

/-- The call `i` moves on to `p`. -/
def setProgress (s : Calls) (i : Nat) (p : Progress) : Calls :=
  { s with progress := fun j => if j = i then p else s.progress j }

/-- Lines 944-983 of `AuthenticatePeer`, run by the call `i` up to the `ExchangeGuids` method
call: the checks of the interface and the mechanisms, the check for a secure peer, and under
the lock the check for an authentication of the peer that is under way. -/
def enter (c : Caller) (s : Calls) (i : Nat) : Calls :=
  let got := s.obj.peerStateTable.GetPeerState c.busName
  let s1 : Calls := { s with obj := { s.obj with peerStateTable := got.1 } }
  let peerState := got.1.get got.2
  if !s.obj.hasAuthInterface then s1.setProgress i (.returned .ER_BUS_NO_SUCH_INTERFACE)
  else if s.obj.peerAuthMechanisms.isEmpty then
    s1.setProgress i (.returned .ER_BUS_NO_AUTHENTICATION_MECHANISM)
  else if peerState.IsSecure then s1.setProgress i (.returned .ER_OK)
  else if c.msgType == .MESSAGE_METHOD_CALL && peerState.authEvent then
    if c.wait then
      Calls.setProgress { s1 with events := s1.events ++ [(i, AuthEvent.waitAuthEvent)] } i
        (.waiting got.2)
    else s1.setProgress i (.returned .ER_WOULDBLOCK)
  else s1.setProgress i .exchangingGuids

/-- Lines 985-1105 of `AuthenticatePeer`, run by the call `i` from the reply of the
`ExchangeGuids` method call up to the negotiation: the version check, the peer state of the
unique name, the second check for a secure peer, and under the lock the second check for an
authentication under way, the local peer, the message type, and `SetAuthEvent`. -/
def exchangeGuids (c : Caller) (s : Calls) (i : Nat) : Calls :=
  let call := c.env.exchangeGuids s.obj.localGuid PREFERRED_AUTH_VERSION
  let s1 : Calls :=
    { s with
      events := s.events ++ [(i, AuthEvent.exchangeGuids s.obj.localGuid PREFERRED_AUTH_VERSION)] }
  if call.status != .ER_OK then s1.setProgress i (.returned (exchangeGuidsFailure call))
  else
    match AuthenticatePeerVersion (call.authVersion % 2 ^ 32) with
    | .error status => s1.setProgress i (.returned status)
    | .ok authVersion =>
      let got := s.obj.peerStateTable.GetPeerStateAlias call.sender c.busName
      let peerState := (got.1.get got.2).SetGuidAndAuthVersion call.guid authVersion
      let obj1 : AllJoynPeerObj := { s.obj with peerStateTable := got.1.set got.2 peerState }
      let s2 : Calls := { s1 with obj := obj1 }
      if peerState.IsSecure then s2.setProgress i (.returned .ER_OK)
      else if peerState.authEvent then
        if c.wait then
          Calls.setProgress { s2 with events := s2.events ++ [(i, AuthEvent.waitAuthEvent)] } i
            (.waiting got.2)
        else s2.setProgress i (.returned .ER_WOULDBLOCK)
      else if s.obj.uniqueName == call.sender then
        { s2 with
          obj := obj1.setPeer got.2
            (secureLocalPeer c.env obj1.peerStateTable.groupKey peerState) }.setProgress i
          (.returned .ER_OK)
      else if c.msgType != .MESSAGE_METHOD_CALL && c.msgType != .MESSAGE_ERROR then
        s2.setProgress i (.returned .ER_BUS_DESTINATION_NOT_AUTHENTICATED)
      else
        { s2 with
          obj := obj1.setPeer got.2 { peerState with authEvent := true }
          conversations := s.conversations ++ [(i, got.2)] }.setProgress i
          (.negotiating got.2 call authVersion)

/-- Lines 1106-1283 of `AuthenticatePeer`, run by the call `i`: the negotiation on the peer
state object `handle`, at whose end the authentication event is cleared and the calls that
wait on it are released.  Nothing happens while the SASL loop has not ended. -/
def finish (c : Caller) (s : Calls) (i : Nat) (handle : Nat) (call : ExchangeGuidsCall)
    (authVersion : Nat) : Calls :=
  match negotiate c.env c.fuel s.obj handle (s.obj.peerStateTable.get handle) call authVersion
      [] with
  | none => s
  | some r =>
    { s with
      obj := r.obj
      events := s.events ++ r.events.map (fun e => (i, e))
      progress := fun j =>
        if j = i then .returned r.status
        else
          match s.progress j with
          | .waiting h => if h = handle then .woken h else .waiting h
          | p => p }

/-- Lines 976 and 1058: the call `i` comes back from `Event::Wait` and returns by what
`IsSecure` says then. -/
def wake (s : Calls) (i : Nat) (handle : Nat) : Calls :=
  s.setProgress i
    (.returned (if (s.obj.peerStateTable.get handle).IsSecure then .ER_OK else .ER_AUTH_FAIL))

/-- The call `i` runs up to the next point where it blocks or returns; a call that waits or
has returned does nothing. -/
def step (callers : Nat → Caller) (s : Calls) (i : Nat) : Calls :=
  match s.progress i with
  | .called => enter (callers i) s i
  | .exchangingGuids => exchangeGuids (callers i) s i
  | .negotiating handle call authVersion => finish (callers i) s i handle call authVersion
  | .waiting _ => s
  | .woken handle => wake s i handle
  | .returned _ => s

/-- The calls after they ran in the order of the schedule, one stretch of one call at a
time. -/
def run (callers : Nat → Caller) (s : Calls) (schedule : List Nat) : Calls :=
  schedule.foldl (step callers) s

end Calls

/-! ## Vocabulary of the properties -/

namespace DaemonRouter

/-- The filter state before the first candidate is looked at. -/
def FilterState.initial : FilterState :=
  { destEps := [], blocked := false, blockedReply := false, policyRejected := false }

/-- The decision of the filter loop for one candidate: whether `checkEndpoint` appends it to
the destination set. -/
def admits (cfg : BuildConfig) (env : Collaborators) (r : DaemonRouter) (msg : Message)
    (src dest : BusEndpoint) : Bool :=
  !(checkEndpoint cfg env r msg src FilterState.initial dest).destEps.isEmpty

/-- The policy check of the filter loop fails for the candidate. -/
def policyDenies (cfg : BuildConfig) (env : Collaborators) (msg : Message)
    (src dest : BusEndpoint) : Bool :=
  cfg.ENABLE_POLICYDB &&
    !(env.policyOKToSend msg src dest && env.policyOKToReceive msg src dest)

/-- The destination is directly connected to this router (`destIsOurEp`). -/
def isOurEp (dest : BusEndpoint) : Bool :=
  dest.epType == .ENDPOINT_TYPE_LOCAL || dest.epType == .ENDPOINT_TYPE_NULL ||
    dest.epType == .ENDPOINT_TYPE_REMOTE

end DaemonRouter

namespace DaemonRouter

/-- The candidate is the destination named in the message and does not take the message
because it does not accept remote messages (the filter loop sets `blocked` for it). -/
def refusesRemote (cfg : BuildConfig) (env : Collaborators) (r : DaemonRouter) (msg : Message)
    (src dest : BusEndpoint) : Bool :=
  !policyDenies cfg env msg src dest &&
    !(dest.allowRemote || (!(src.epType == .ENDPOINT_TYPE_BUS2BUS) && isOurEp dest)) &&
    (msg.isUnicast && r.nameTable.IsAlias dest.uniqueName msg.destination)

/-- The candidate is the destination named in the message, accepts the message, and its
reply would be blocked by the source (the filter loop sets `blockedReply` for it). -/
def replyBlocked (cfg : BuildConfig) (env : Collaborators) (r : DaemonRouter) (msg : Message)
    (src dest : BusEndpoint) : Bool :=
  !policyDenies cfg env msg src dest &&
    (dest.allowRemote || (!(src.epType == .ENDPOINT_TYPE_BUS2BUS) && isOurEp dest)) &&
    !(!msg.replyIsExpected || src.allowRemote ||
      (!(src.epType == .ENDPOINT_TYPE_BUS2BUS) && isOurEp dest)) &&
    (msg.isUnicast && r.nameTable.IsAlias dest.uniqueName msg.destination)

/-- The cause an automatic error reply names: the first that applies of policy rejection,
a destination that does not accept remote messages and a reply that would be blocked, and
"destination does not exist" when none of them does. -/
def blockedCause (cfg : BuildConfig) (env : Collaborators) (r : DaemonRouter) (msg : Message)
    (src : BusEndpoint) : String :=
  if (r.candidates msg).any (policyDenies cfg env msg src) then
    "policy rule denies message delivery."
  else if (r.candidates msg).any (refusesRemote cfg env r msg src) then
    "endpoint does not accept off device messages."
  else if (r.candidates msg).any (replyBlocked cfg env r msg src) then
    "reply from off device endpoint would be blocked."
  else "destination does not exist."

end DaemonRouter

/-- The event is a `SendThroughEndpoint` call. -/
def Event.isSend : Event → Bool
  | .send _ _ _ => true
  | _ => false

/-- The event is a `SendThroughEndpoint` call that hands `msg` to `ep`. -/
def Event.isSendOf (ep : BusEndpoint) (msg : Message) : Event → Bool
  | .send ep1 msg1 _ => ep1 == ep && msg1 == msg
  | _ => false

/-- The event is a `SendThroughEndpoint` call that hands `msg` to some endpoint. -/
def Event.carries (msg : Message) : Event → Bool
  | .send _ msg1 _ => msg1 == msg
  | _ => false

/-- The statuses of the sessionless hand-off, in call order: the one status of the hand-off
when the message was handed to the sessionless object, nothing otherwise. -/
def DaemonRouter.handOffStatuses (env : Collaborators) (msg : Message) (src : BusEndpoint)
    (policyRejected : Bool) : List QStatus :=
  if (DaemonRouter.handOff env msg src policyRejected).2.isEmpty then []
  else [(DaemonRouter.handOff env msg src policyRejected).1]

/-- The earliest status of a sequence that is not `ER_OK`, and `ER_OK` when there is
none. -/
def earliestNonOk : List QStatus → QStatus
  | [] => .ER_OK
  | s :: rest => if s == .ER_OK then earliestNonOk rest else s

/-- The values of `RandHexString(NONCE_LEN)`: the hex form of `NONCE_LEN` random bytes, a
string of `2 * NONCE_LEN` hex digits. -/
def hexNonce (digits : Fin (2 * NONCE_LEN) → Fin 16) : String :=
  String.mk (List.ofFn (fun i => Nat.digitChar (digits i).val))

/-- The verifier string that goes with the outcome of the key derivation: empty when no key
was derived, the hex string of the twelve verifier bytes otherwise. -/
def verifierOf : Option (Fin VERIFIER_LEN → Fin 256) → String
  | none => ""
  | some b => BytesToHexString (List.ofFn (fun i => (b i).val))

/-- The suite a recognized mechanism name stands for. -/
def suiteOfName (name : String) : Option Nat :=
  if name == "ALLJOYN_ECDHE_ECDSA" then some AUTH_SUITE_ECDHE_ECDSA
  else if name == "GSSAPI" then some AUTH_SUITE_GSSAPI
  else if name == "ALLJOYN_ECDHE_PSK" then some AUTH_SUITE_ECDHE_PSK
  else if name == "ALLJOYN_SRP_LOGON" then some AUTH_SUITE_SRP_LOGON
  else if name == "ALLJOYN_SRP_KEYX" then some AUTH_SUITE_SRP_KEYX
  else if name == "ALLJOYN_ECDHE_NULL" then some AUTH_SUITE_ECDHE_NULL
  else if name == "EXTERNAL" then some AUTH_SUITE_EXTERNAL
  else if name == "ANONYMOUS" then some AUTH_SUITE_ANONYMOUS
  else none

/-- The precedence weight of a suite: ECDHE_ECDSA 8, GSSAPI 7, ECDHE_PSK 6, SRP_LOGON 5,
SRP_KEYX 4, ECDHE_NULL 3, EXTERNAL 2, ANONYMOUS 1. -/
def precedenceWeight (suite : Nat) : Nat :=
  if suite = AUTH_SUITE_ECDHE_ECDSA then 8
  else if suite = AUTH_SUITE_GSSAPI then 7
  else if suite = AUTH_SUITE_ECDHE_PSK then 6
  else if suite = AUTH_SUITE_SRP_LOGON then 5
  else if suite = AUTH_SUITE_SRP_KEYX then 4
  else if suite = AUTH_SUITE_ECDHE_NULL then 3
  else if suite = AUTH_SUITE_EXTERNAL then 2
  else if suite = AUTH_SUITE_ANONYMOUS then 1
  else 0

/-- The tokens of a mechanism string: the pieces between its spaces. -/
def mechanismTokens (authMechanisms : String) : List String :=
  (splitMechanisms authMechanisms.data []).map String.mk

/-- The suite includes the ECDHE key exchange. -/
def isECDHE (suite : Nat) : Bool := (suite &&& AUTH_KEYX_ECDHE) == AUTH_KEYX_ECDHE

/-- A peer of the given version may be offered the suite: ECDHE_ECDSA needs an auth version
above `NON_ECDSA_X509_VERSION`. -/
def versionAdmits (peerAuthVersion suite : Nat) : Bool :=
  suite != AUTH_SUITE_ECDHE_ECDSA || decide (NON_ECDSA_X509_VERSION < peerAuthVersion >>> 16)

/-- The call belongs to the suite-typed key exchange conversation. -/
def AuthEvent.isKeyExchange : AuthEvent → Bool
  | .exchangeSuites _ => true
  | .keyExchange _ => true
  | .keyAuthentication _ => true
  | .storeMasterSecret _ => true
  | _ => false

/-- The call belongs to the SASL challenge and response conversation. -/
def AuthEvent.isSASL : AuthEvent → Bool
  | .saslAdvance _ => true
  | .authChallenge _ => true
  | .addKey _ _ => true
  | _ => false

/-- The call is a negotiation call to the peer or its engines: `GenSessionKey`,
`ExchangeSuites`, a key exchange step or a SASL step. -/
def AuthEvent.isNegotiation : AuthEvent → Bool
  | .genSessionKey _ _ _ => true
  | e => e.isKeyExchange || e.isSASL

/-- The call is a method call on the remote peer object or a step of an engine that makes
such calls. -/
def AuthEvent.isWire : AuthEvent → Bool
  | .exchangeGuids _ _ => true
  | .exchangeGroupKeys _ => true
  | .sendManifest => true
  | .sendMembershipData => true
  | e => e.isNegotiation

/-- The authorization bits a peer state holds for a message type. -/
def Authorizations.forType (a : Authorizations) : AllJoynMessageType → Nat
  | .MESSAGE_INVALID => 0
  | .MESSAGE_METHOD_CALL => a.methodCall
  | .MESSAGE_METHOD_RET => a.methodRet
  | .MESSAGE_ERROR => a.error
  | .MESSAGE_SIGNAL => a.signal

/-- The rights allow sending messages of the type securely. -/
def Authorizations.maySend (a : Authorizations) (msgType : AllJoynMessageType) : Bool :=
  (a.forType msgType &&& ALLOW_SECURE_TX) != 0

/-- The rights allow receiving messages of the type securely. -/
def Authorizations.mayReceive (a : Authorizations) (msgType : AllJoynMessageType) : Bool :=
  (a.forType msgType &&& ALLOW_SECURE_RX) != 0

/-- The suite the call tries, when the call is a key exchange attempt. -/
def AuthEvent.attemptedSuite : AuthEvent → Option Nat
  | .keyExchange suite => some suite
  | _ => none

/-- The suites of the key exchange attempts among the calls, in order. -/
def attemptedSuites (events : List AuthEvent) : List Nat :=
  events.filterMap AuthEvent.attemptedSuite

/-- The entry of a suite list includes all bits of the suite. -/
def includesSuite (suite entry : Nat) : Bool := (entry &&& suite) == suite

/-- No two entries of the list include the same suite among ECDHE_ECDSA, ECDHE_PSK and
ECDHE_NULL. -/
def singleEntries (requestingAuthList : List Nat) : Prop :=
  ∀ suite ∈ [AUTH_SUITE_ECDHE_ECDSA, AUTH_SUITE_ECDHE_PSK, AUTH_SUITE_ECDHE_NULL],
    (requestingAuthList.filter (includesSuite suite)).length ≤ 1

/-- The message an event pushes into the router, if it is such a push. -/
def PeerObjEvent.pushed : PeerObjEvent → Option Message
  | .routerPushMessage msg => some msg
  | _ => none

/-- The calls of the replay of one queued message that is pushed into the router: the reply
handler timeout of a method call is resumed, then the message is pushed. -/
def replayOf (msg : Message) : List PeerObjEvent :=
  (if msg.msgType == .MESSAGE_METHOD_CALL then [PeerObjEvent.resumeReplyHandlerTimeout msg]
   else []) ++ [.routerPushMessage msg]

/-- The calls at the head of the `AUTHENTICATE_PEER` case: the reply handler timeout of a
method call is paused. -/
def pausedFor (req : Message) : List PeerObjEvent :=
  if req.msgType == .MESSAGE_METHOD_CALL then [PeerObjEvent.pauseReplyHandlerTimeout req]
  else []

/-- The `KeyExchange` handler accepted the call: it made a key exchanger respond to it. -/
def keyExchangeAccepted (obj : AllJoynPeerObj) (msg : Message) (authMask : Nat) : Bool :=
  match (DoKeyExchange obj msg authMask).2 with
  | [.respondToKeyExchange _ _ _ _] => true
  | _ => false

/-- The `KeyAuthentication` handler answered with the verifier of the responder: the key
authentication succeeded. -/
def PeerObjEvent.isVerifierReply : PeerObjEvent → Bool
  | .replyWithVerifier _ _ => true
  | _ => false

/-- The peer state object the call negotiates on, if it is in the negotiation. -/
def Progress.negotiatesOn : Progress → Option Nat
  | .negotiating handle _ _ => some handle
  | _ => none

/-- The peer state object on whose authentication event the call waits. -/
def Progress.waitsOn : Progress → Option Nat
  | .waiting handle => some handle
  | _ => none

/-- The status the call has returned, if it has returned. -/
def Progress.status : Progress → Option QStatus
  | .returned status => some status
  | _ => none

/-- Every name of the table maps to a peer state object that was made. -/
def PeerStateTable.wellFormed (t : PeerStateTable) : Prop :=
  ∀ p ∈ t.names, p.2 < t.count

/-- No two calls negotiate on the same peer state object at the same time, the
authentication event of a peer state object is set exactly while a call negotiates on it, and
a call waits only on an authentication event that is set. -/
def Calls.exclusive (s : Calls) : Prop :=
  s.obj.peerStateTable.wellFormed ∧
  (∀ i handle, (s.progress i).negotiatesOn = some handle →
    handle < s.obj.peerStateTable.count ∧
      (s.obj.peerStateTable.get handle).authEvent = true) ∧
  (∀ i j handle, (s.progress i).negotiatesOn = some handle →
    (s.progress j).negotiatesOn = some handle → i = j) ∧
  (∀ handle, (s.obj.peerStateTable.get handle).authEvent = true →
    ∃ i, (s.progress i).negotiatesOn = some handle) ∧
  (∀ i handle, (s.progress i).waitsOn = some handle →
    (s.obj.peerStateTable.get handle).authEvent = true)

/-- The table `t2` is the table `t` after peer state objects were made or written without
touching an authentication event: it is well formed, holds at least the objects of `t`, and
the authentication event of an object is set in `t2` only if it is in `t`, and the other way
round for the objects of `t`. -/
def PeerStateTable.keepsEvents (t t2 : PeerStateTable) : Prop :=
  t2.wellFormed ∧ t.count ≤ t2.count ∧
  (∀ handle, handle < t.count → (t2.get handle).authEvent = (t.get handle).authEvent) ∧
  (∀ handle, (t2.get handle).authEvent = true → (t.get handle).authEvent = true)

/-! ## Concrete scenarios -/

namespace Scenario

/-- Collaborators that allow and accept everything. -/
def env : Collaborators :=
  { policyOKToSend := fun _ _ _ => true
    policyOKToReceive := fun _ _ _ => true
    ruleOkToSend := fun _ _ => true
    epPushMessage := fun _ _ => .ER_OK
    virtualPushMessage := fun _ _ _ => .ER_OK
    sessionlessPushMessage := fun _ => .ER_OK
    updateSerialNumber := fun m => m.callSerial }

def plain : BuildConfig :=
  { ENABLE_POLICYDB := false, ENABLE_OLD_PUSHMESSAGE_COMPATIBILITY := false }

def withPolicy : BuildConfig :=
  { ENABLE_POLICYDB := true, ENABLE_OLD_PUSHMESSAGE_COMPATIBILITY := true }

def localEp : BusEndpoint :=
  { id := 1, uniqueName := ":1.1", epType := .ENDPOINT_TYPE_LOCAL, valid := true,
    allowRemote := true, sessions := [], b2bSessionId := 0 }

/-- A directly connected client that does not accept remote messages. -/
def client : BusEndpoint :=
  { id := 2, uniqueName := ":1.2", epType := .ENDPOINT_TYPE_REMOTE, valid := true,
    allowRemote := false, sessions := [], b2bSessionId := 0 }

/-- A peer on another routing node. -/
def virt : BusEndpoint :=
  { id := 3, uniqueName := ":2.7", epType := .ENDPOINT_TYPE_VIRTUAL, valid := true,
    allowRemote := true, sessions := [], b2bSessionId := 0 }

/-- Two directly connected members of session 7. -/
def memberA : BusEndpoint :=
  { id := 4, uniqueName := ":1.3", epType := .ENDPOINT_TYPE_REMOTE, valid := true,
    allowRemote := true, sessions := [7], b2bSessionId := 0 }

def memberB : BusEndpoint :=
  { id := 5, uniqueName := ":1.4", epType := .ENDPOINT_TYPE_REMOTE, valid := true,
    allowRemote := true, sessions := [7], b2bSessionId := 0 }

def b2b : BusEndpoint :=
  { id := 6, uniqueName := ":9.1", epType := .ENDPOINT_TYPE_BUS2BUS, valid := true,
    allowRemote := true, sessions := [], b2bSessionId := 0 }

/-- The router after the six endpoints registered, `memberB` got two well-known aliases and
`memberA` self-joined session 7. -/
def router : DaemonRouter :=
  let r := [localEp, client, virt, memberA, memberB, b2b].foldl
    DaemonRouter.RegisterEndpoint DaemonRouter.init
  let nt := (r.nameTable.AddAlias "org.example.B" ":1.4").AddAlias "org.example.B2" ":1.4"
  { r with nameTable := nt, selfJoinEps := [(":1.3", 7)] }

/-- Collaborators whose endpoint pushes all fail with `ER_FAIL`. -/
def failingEnv : Collaborators :=
  { env with epPushMessage := fun _ _ => .ER_FAIL, virtualPushMessage := fun _ _ _ => .ER_FAIL }

/-- Collaborators for which the push to `memberA` reports that the endpoint is closing. -/
def closingEnv : Collaborators :=
  { env with epPushMessage := fun ep _ =>
      if ep == memberA then .ER_BUS_ENDPOINT_CLOSING else .ER_OK }

/-- Collaborators for which the push to `memberA` fails with `ER_FAIL` and the push to
`memberB` reports that the endpoint is closing. -/
def mixedEnv : Collaborators :=
  { env with epPushMessage := fun ep _ =>
      if ep == memberA then .ER_FAIL
      else if ep == memberB then .ER_BUS_ENDPOINT_CLOSING
      else .ER_OK }

/-- The same collaborators with a sessionless object that reports `ER_BUS_STOPPING`. -/
def stoppingEnv : Collaborators :=
  { mixedEnv with sessionlessPushMessage := fun _ => .ER_BUS_STOPPING }

/-- Collaborators whose policy does not let anything be sent to `virt`. -/
def denyEnv : Collaborators :=
  { env with policyOKToSend := fun _ _ dest => dest != virt }

/-- A key store holding one master secret for the peer GUID "peer", and a pseudorandom
function that writes the byte values of the first characters of the seed. -/
def keyEnv : KeyGenEnv :=
  { getKey := fun guid =>
      if guid == "peer" then (.ER_OK, { data := [1, 2, 3], tag := "ALLJOYN_SRP_KEYX", role := .NO_ROLE })
      else (.ER_FAIL, { data := [], tag := "", role := .NO_ROLE })
    hasExpired := fun _ => false
    parsePeerSecretRecord := fun blob => (.ER_OK, blob)
    pseudorandomFunction := fun _ _ seed keylen =>
      (.ER_OK, (seed.toList.map Char.toNat).take keylen) }

def peer : PeerVersionState := { guid := "peer", authVersion := 0x00040000 }

/-- A method call, reply expected, from `client` to the remote peer `virt`. -/
def call : Message :=
  { sender := ":1.2", destination := ":2.7", sessionId := 0, msgType := .MESSAGE_METHOD_CALL,
    flags := 0, sessionless := false, globalBroadcast := false, memberName := "Ping",
    iface := "org.example.Test", callSerial := 5, detachArg := none, errorName := "",
    errorDescription := "" }

/-- A signal without destination, so a broadcast or (with a session id) a sessioncast. -/
def signal (sender : String) (sessionId : SessionId) : Message :=
  { sender := sender, destination := "", sessionId := sessionId, msgType := .MESSAGE_SIGNAL,
    flags := 0, sessionless := false, globalBroadcast := false, memberName := "Changed",
    iface := "org.example.Test", callSerial := 6, detachArg := none, errorName := "",
    errorDescription := "" }

/-- The peer state of a peer that was authenticated before. -/
def securePeer : PeerState :=
  { PeerState.fresh with
    guid := "peer", authVersion := 0x00040000
    sessionKey := some { data := [5, 6, 7, 8], tag := "ALLJOYN_ECDHE_NULL", role := .INITIATOR }
    isSecure := true }

/-- A table that knows one peer, under its unique name and one alias. -/
def table : PeerStateTable :=
  { names := [(":2.7", 0), ("org.example.Secure", 0)]
    states := fun handle => if handle = 0 then securePeer else PeerState.fresh
    count := 1
    groupKey := { data := [9, 9, 9, 9], tag := "", role := .NO_ROLE } }

/-- An engine with two mechanisms on the bus attachment `:1.1`. -/
def engine : AllJoynPeerObj :=
  { peerAuthMechanisms := "ALLJOYN_SRP_KEYX ALLJOYN_ECDHE_NULL"
    supportedAuthSuites := [AUTH_SUITE_SRP_KEYX, AUTH_SUITE_ECDHE_NULL]
    hasAuthInterface := true, uniqueName := ":1.1", localGuid := "local"
    peerStateTable := table, conversations := ["org.example.Pending"]
    keyExConversations := [] }

/-- The same engine on a bus attachment without the peer authentication interface. -/
def bareEngine : AllJoynPeerObj := { engine with hasAuthInterface := false }

/-- The same engine with the one mechanism `ALLJOYN_SRP_KEYX`. -/
def srpEngine : AllJoynPeerObj :=
  { engine with peerAuthMechanisms := "ALLJOYN_SRP_KEYX"
                supportedAuthSuites := [AUTH_SUITE_SRP_KEYX] }

/-- An honest remote peer `:3.1` with GUID "peer" and auth version 4.  The key store has no
master secret for it before the conversation and has one after; the peer computes its verifier
with `KeyGen` over the same key store; every exchange succeeds. -/
def remoteEnv : AuthEnv :=
  { exchangeGuids := fun _ _ =>
      { status := .ER_OK, errorName := none, sender := ":3.1", guid := "peer",
        authVersion := 0x00040000 }
    afterWait := fun t => t
    randByte := fun i => i + 1
    hasKey := fun pass => pass != 0
    isShared := false
    hasKeyReloaded := fun _ => false
    nonce := fun pass => if pass == 0 then "AB" else "EF"
    genSessionKey := fun _ _ _ nonce =>
      { status := .ER_OK, nonce := "CD"
        verifier := (KeyGen keyEnv peer (GenSessionKeySeed nonce "CD") .RESPONDER).verifier }
    keyGen := fun _ => keyEnv
    getKeyRights := fun _ rights => rights
    exchangeSuites := fun offered =>
      { status := .ER_OK, argStatus := .ER_OK
        remoteSuites := offered.filter (fun s => s == AUTH_SUITE_ECDHE_NULL) }
    execKeyExchange := fun _ suite => (.ER_OK, suite)
    keyAuthentication := fun _ _ => (.ER_OK, true)
    recordMasterSecret := fun _ _ => .ER_OK
    uninitialised := fun _ _ => 0
    saslAdvance := fun step _ => (.ER_OK, "response", decide (1 ≤ step))
    authChallenge := fun _ _ => (.ER_OK, "challenge")
    saslMechanism := "ALLJOYN_SRP_KEYX"
    saslIsMutual := true
    saslMasterSecret := (.ER_OK, { data := [1, 2, 3], tag := "", role := .NO_ROLE })
    addKey := fun _ _ => .ER_OK
    storeKey := fun key => key.data
    loadGroupKey := fun _ bytes => (.ER_OK, { data := bytes, tag := "", role := .NO_ROLE })
    exchangeGroupKeys := fun _ =>
      { status := .ER_OK, key := [7, 7, 7, 7], authMechanism := "ALLJOYN_ECDHE_NULL" }
    hasPeerPublicKey := fun _ => false }

/-- The bus routes the call back: the reply to `ExchangeGuids` comes from `:1.1` itself. -/
def selfEnv : AuthEnv :=
  { remoteEnv with exchangeGuids := fun localGuid authVersion =>
      { status := .ER_OK, errorName := none, sender := ":1.1", guid := localGuid,
        authVersion := authVersion } }

/-- The key store has a master secret for the peer, and the peer answers the first
`GenSessionKey` call with an error reply. -/
def errorReplyEnv : AuthEnv :=
  { remoteEnv with
    hasKey := fun _ => true
    genSessionKey := fun pass localGuid remoteGuid nonce =>
      if pass == 0 then { status := .ER_BUS_REPLY_IS_ERROR_MESSAGE, nonce := "", verifier := "" }
      else remoteEnv.genSessionKey pass localGuid remoteGuid nonce }

/-- The key store has a master secret for the peer, and the verifier of the first
`GenSessionKey` reply does not match. -/
def staleEnv : AuthEnv :=
  { remoteEnv with
    hasKey := fun _ => true
    genSessionKey := fun pass localGuid remoteGuid nonce =>
      if pass == 0 then { status := .ER_OK, nonce := "CD", verifier := "00" }
      else remoteEnv.genSessionKey pass localGuid remoteGuid nonce }

/-- The verifier of every `GenSessionKey` reply is wrong. -/
def mismatchEnv : AuthEnv :=
  { remoteEnv with genSessionKey := fun _ _ _ _ =>
      { status := .ER_OK, nonce := "CD", verifier := "00" } }

/-- The peer answers `ExchangeGroupKeys` with an error reply. -/
def groupKeyErrorEnv : AuthEnv :=
  { remoteEnv with exchangeGroupKeys := fun _ =>
      { status := .ER_BUS_REPLY_IS_ERROR_MESSAGE, key := [], authMechanism := "" } }

/-- The peer state of the remote peer after `ExchangeGuids`. -/
def freshPeer : PeerState := PeerState.fresh.SetGuidAndAuthVersion "peer" 0x00040000

/-- The conversation of `engine` with the peer of `mismatchEnv` after the first pass. -/
def firstPass : Conversation :=
  sessionKeyPass mismatchEnv 0 "local" "peer" (startConversation freshPeer [])

/-- The same conversation after the key exchange that follows the first pass. -/
def conversed : Conversation :=
  (fullConversation mismatchEnv 4 engine
    (UseKeyExchanger 0x00040000 engine.supportedAuthSuites) 0x00040000 "peer" firstPass).getD
    firstPass

/-- A sessionless broadcast signal of `client`. -/
def sessionlessSignal : Message := { signal ":1.2" 0 with sessionless := true }

/-- The peer offers ECDHE_PSK and ECDHE_NULL; the key authentication with ECDHE_PSK is not
authorized, the one with ECDHE_NULL is. -/
def retryEnv : AuthEnv :=
  { remoteEnv with
    exchangeSuites := fun _ =>
      { status := .ER_OK, argStatus := .ER_OK
        remoteSuites := [AUTH_SUITE_ECDHE_PSK, AUTH_SUITE_ECDHE_NULL] }
    keyAuthentication := fun _ suite => (.ER_OK, suite != AUTH_SUITE_ECDHE_PSK) }

/-- The peer offers ECDHE_NULL twice and no key authentication is authorized; the slots of
a retry list that are not written happen to hold ECDHE_NULL. -/
def duplicateEnv : AuthEnv :=
  { remoteEnv with
    exchangeSuites := fun _ =>
      { status := .ER_OK, argStatus := .ER_OK
        remoteSuites := [AUTH_SUITE_ECDHE_NULL, AUTH_SUITE_ECDHE_NULL] }
    keyAuthentication := fun _ _ => (.ER_OK, false)
    uninitialised := fun _ _ => AUTH_SUITE_ECDHE_NULL }

/-- A Bus2Bus endpoint that carries session 7. -/
def b2bSeven : BusEndpoint := { b2b with id := 7, uniqueName := ":9.2", b2bSessionId := 7 }

/-- The global-broadcast `DetachSession` signal for session 7, as it comes in from
`b2bSeven`. -/
def detachSeven : Message :=
  { sender := ":9.2", destination := "", sessionId := 0, msgType := .MESSAGE_SIGNAL,
    flags := 0, sessionless := false, globalBroadcast := true, memberName := "DetachSession",
    iface := DaemonInterfaceName, callSerial := 9, detachArg := some 7, errorName := "",
    errorDescription := "" }

/-- Collaborators whose rule table matches nothing. -/
def noRuleEnv : Collaborators := { env with ruleOkToSend := fun _ _ => false }

/-- The router of the scenario with `b2bSeven` registered too. -/
def routerSeven : DaemonRouter := router.RegisterEndpoint b2bSeven

/-- A member of session 7 that does not accept remote messages. -/
def memberC : BusEndpoint :=
  { id := 8, uniqueName := ":1.5", epType := .ENDPOINT_TYPE_REMOTE, valid := true,
    allowRemote := false, sessions := [7], b2bSessionId := 0 }

/-- A Bus2Bus endpoint in session 7. -/
def b2bMember : BusEndpoint := { b2b with id := 9, uniqueName := ":9.3", sessions := [7] }

/-- Collaborators of the handlers on a client (not a daemon): names are aliases when they are
equal, every push into the router succeeds, and every key authentication is valid. -/
def handlers : HandlerEnv where
  isDaemon := false
  isAlias := fun a b => a == b
  routerPush := fun _ _ => .ER_OK
  verifierArg := fun _ => .ER_OK
  validateRemoteVerifier := fun _ _ => (.ER_OK, true)
  storeMasterSecret := fun _ _ => .ER_OK

/-- The same collaborators with a router that finds no route for the first message pushed. -/
def noRouteHandlers : HandlerEnv :=
  { handlers with routerPush := fun n _ => if n == 0 then .ER_BUS_NO_ROUTE else .ER_OK }

/-- A signal for the peer `:2.7`, queued before `call`. -/
def queuedSignal : Message :=
  { call with msgType := .MESSAGE_SIGNAL, memberName := "Changed", callSerial := 4 }

/-- A method call for another peer. -/
def otherCall : Message := { call with destination := ":4.4", callSerial := 3 }

/-- A broadcast signal of the secure peer `:2.7`. -/
def secureBroadcast : Message := signal ":2.7" 0

/-- A peer state of auth version 2 for the peer `:5.5`. -/
def oldPeer : PeerState := PeerState.fresh.SetGuidAndAuthVersion "old" 0x00020000

/-- An engine that supports ECDHE_ECDSA and ECDHE_NULL and knows the peer `:5.5` of auth
version 2. -/
def ecdsaEngine : AllJoynPeerObj :=
  { engine with
    peerAuthMechanisms := "ALLJOYN_ECDHE_ECDSA ALLJOYN_ECDHE_NULL"
    supportedAuthSuites := [AUTH_SUITE_ECDHE_ECDSA, AUTH_SUITE_ECDHE_NULL]
    peerStateTable :=
      { table with
        names := [(":2.7", 0), ("org.example.Secure", 0), (":5.5", 1)]
        states := fun handle =>
          if handle = 0 then securePeer else if handle = 1 then oldPeer else PeerState.fresh
        count := 2 } }

/-- The `KeyExchange` call of the peer `:5.5`. -/
def keyExchangeCall : Message :=
  { call with sender := ":5.5", destination := ":1.1", memberName := "KeyExchange",
              iface := "org.alljoyn.Bus.Peer.Authentication", callSerial := 11 }

/-- The `KeyAuthentication` call of the peer `:5.5`. -/
def keyAuthenticationCall : Message :=
  { keyExchangeCall with memberName := "KeyAuthentication", callSerial := 12 }

/-- A `KeyAuthentication` call of a sender the table does not know. -/
def strangerCall : Message := { keyAuthenticationCall with sender := ":6.6" }

/-- The peer of `remoteEnv`, which goes away after `GenSessionKey`: the `ExchangeSuites`
method call finds no route. -/
def lostEnv : AuthEnv :=
  { remoteEnv with
    exchangeSuites := fun _ =>
      { status := .ER_BUS_NO_ROUTE, argStatus := .ER_OK, remoteSuites := [] } }

/-- A call `AuthenticatePeer(MESSAGE_METHOD_CALL, ":3.1", wait)`; the table of `engine` does
not know the peer `:3.1`. -/
def caller (env : AuthEnv) (wait : Bool) : Caller :=
  { msgType := .MESSAGE_METHOD_CALL, busName := ":3.1", wait := wait, env := env, fuel := 4 }

/-- The statuses the calls 0 and 1 have returned. -/
def statuses (s : Calls) : List (Option QStatus) :=
  [(s.progress 0).status, (s.progress 1).status]

end Scenario

/-! ## Theorems -/

/-! ### Bit-field arithmetic of composite versions -/

theorem and_0xFF_eq_mod (v : Nat) : v &&& 0xFF = v % 256 := by
  have h := Nat.and_pow_two_sub_one_eq_mod v 8
  simpa using h

theorem and_0xFF00_eq (v : Nat) : v &&& 0xFF00 = (v / 256 % 256) * 256 := by
  apply Nat.eq_of_testBit_eq
  intro i
  have h1 : (0xFF00 : Nat) = 0xFF <<< 8 := by decide
  have h2 : (0xFF : Nat) = 2 ^ 8 - 1 := by decide
  have h3 : (v / 256 % 256) * 256 = (v / 256 % 2 ^ 8) <<< 8 := by simp [Nat.shiftLeft_eq]
  rw [Nat.testBit_and, h1, h3, Nat.testBit_shiftLeft, Nat.testBit_shiftLeft,
    Nat.testBit_mod_two_pow, h2, Nat.testBit_two_pow_sub_one]
  by_cases h : 8 ≤ i
  · simp only [h, ge_iff_le, decide_True, Bool.true_and]
    have h4 : 8 + (i - 8) = i := by omega
    have h5 : v / 256 = v >>> 8 := by simp [Nat.shiftRight_eq_div_pow]
    rw [h5, Nat.testBit_shiftRight, h4]
    by_cases h6 : i - 8 < 8 <;> simp [h6]
  · simp [h]

theorem authV_eq (v : Nat) : authV v = v / 65536 % 65536 := by
  simp [authV, Nat.shiftRight_eq_div_pow]

theorem keyV_eq (v : Nat) : keyV v = v % 256 := by
  simp [keyV, and_0xFF_eq_mod]

theorem PREFERRED_AUTH_VERSION_eq : PREFERRED_AUTH_VERSION = 262144 := by decide

theorem IsCompatibleVersion_iff (v : Nat) :
    IsCompatibleVersion v = true ↔
      (1 ≤ v / 65536 % 65536 ∧ v / 65536 % 65536 ≤ 4 ∧ v % 256 ≤ 1 ∧ v / 256 % 256 = 0) := by
  simp only [IsCompatibleVersion, authV_eq, keyV_eq, and_0xFF00_eq, MIN_AUTH_VERSION,
    MAX_AUTH_VERSION, MIN_KEYGEN_VERSION, MAX_KEYGEN_VERSION]
  split_ifs with h1 h2
  · simp at h1 ⊢; omega
  · simp at h1 h2 ⊢; omega
  · simp at h1 h2 ⊢; omega

/-! ### C5: commutativity of `GetLowerVersion` -/

/-- C5 counterexample: two 32-bit versions with the same auth and keygen parts that differ
in the reserved bits 8..15; `GetLowerVersion` returns its first argument both times. -/
theorem GetLowerVersion_not_comm :
    (0x00010100 : Nat) < 2 ^ 32 ∧ (0x00010000 : Nat) < 2 ^ 32 ∧
    GetLowerVersion 0x00010100 0x00010000 = 0x00010100 ∧
    GetLowerVersion 0x00010000 0x00010100 = 0x00010000 ∧
    GetLowerVersion 0x00010100 0x00010000 ≠ GetLowerVersion 0x00010000 0x00010100 := by
  decide

/-- C5 (amended): for 32-bit composite versions whose reserved bits 8..15 agree, in
particular for any two versions `IsCompatibleVersion` accepts, the agreed version does not
depend on the order of the arguments; for all versions the auth and keygen parts of the
result do not depend on the order. -/
theorem GetLowerVersion_comm (A B : Nat) (hA : A < 2 ^ 32) (hB : B < 2 ^ 32) :
    (A &&& 0xFF00 = B &&& 0xFF00 → GetLowerVersion A B = GetLowerVersion B A) ∧
    (IsCompatibleVersion A = true → IsCompatibleVersion B = true →
      GetLowerVersion A B = GetLowerVersion B A) ∧
    authV (GetLowerVersion A B) = authV (GetLowerVersion B A) ∧
    keyV (GetLowerVersion A B) = keyV (GetLowerVersion B A) := by
  have key : A &&& 0xFF00 = B &&& 0xFF00 → GetLowerVersion A B = GetLowerVersion B A := by
    intro hres
    rw [and_0xFF00_eq, and_0xFF00_eq] at hres
    simp only [GetLowerVersion, authV_eq, keyV_eq]
    split_ifs <;> omega
  refine ⟨key, ?_, ?_, ?_⟩
  · intro ha hb
    apply key
    have ha2 := ((IsCompatibleVersion_iff A).1 ha).2.2.2
    have hb2 := ((IsCompatibleVersion_iff B).1 hb).2.2.2
    rw [and_0xFF00_eq, and_0xFF00_eq, ha2, hb2]
  · simp only [GetLowerVersion, authV_eq, keyV_eq]
    split_ifs <;> omega
  · simp only [GetLowerVersion, authV_eq, keyV_eq]
    split_ifs <;> omega

/-- C5 witness: two compatible versions. -/
theorem GetLowerVersion_comm_witness :
    (0x00030001 : Nat) < 2 ^ 32 ∧ (0x00040000 : Nat) < 2 ^ 32 ∧
    IsCompatibleVersion 0x00030001 = true ∧ IsCompatibleVersion 0x00040000 = true ∧
    GetLowerVersion 0x00030001 0x00040000 = GetLowerVersion 0x00040000 0x00030001 :=
  ⟨by norm_num, by norm_num, by decide, by decide,
    (GetLowerVersion_comm 0x00030001 0x00040000 (by norm_num) (by norm_num)).2.1
      (by decide) (by decide)⟩

/-! ### C6: convergence of the version negotiation -/

theorem ExchangeGuidsVersion_cases (v : Nat) (hv : v < 2 ^ 32) :
    (ExchangeGuidsVersion v = PREFERRED_AUTH_VERSION) ∨
    (ExchangeGuidsVersion v = v ∧ IsCompatibleVersion v = true ∧ authV v < 4) := by
  unfold ExchangeGuidsVersion
  by_cases hc : IsCompatibleVersion v = true
  · have hc2 := (IsCompatibleVersion_iff v).1 hc
    simp only [hc, Bool.not_true, Bool.false_eq_true, if_false, GetLowerVersion, authV_eq,
      keyV_eq, PREFERRED_AUTH_VERSION_eq]
    by_cases h4 : v / 65536 % 65536 < 4
    · right
      simp [h4]
    · left
      have h5 : v / 65536 % 65536 = 4 := by omega
      have h6 : (262144 : Nat) / 65536 % 65536 = 4 := by norm_num
      simp only [h5, h6, lt_irrefl, if_false, gt_iff_lt]
      split_ifs with h7
      · omega
      · rfl
  · simp [hc]

theorem IsCompatibleVersion_PREFERRED : IsCompatibleVersion PREFERRED_AUTH_VERSION = true := by
  decide

theorem AuthenticatePeerVersion_fixed (r : Nat) (hc : IsCompatibleVersion r = true)
    (h : r = PREFERRED_AUTH_VERSION ∨ authV r < 4) : AuthenticatePeerVersion r = .ok r := by
  unfold AuthenticatePeerVersion
  simp only [hc, Bool.not_true, Bool.false_eq_true, if_false]
  congr 1
  rcases h with h | h
  · subst h; decide
  · rw [authV_eq] at h
    simp only [GetLowerVersion, authV_eq, PREFERRED_AUTH_VERSION_eq]
    have h6 : (262144 : Nat) / 65536 % 65536 = 4 := by norm_num
    simp [h6, h]

theorem ExchangeGuidsVersion_lower (v : Nat) (hc : IsCompatibleVersion v = true)
    (ha : authV v < authV PREFERRED_AUTH_VERSION) : ExchangeGuidsVersion v = v := by
  unfold ExchangeGuidsVersion GetLowerVersion
  simp only [hc, Bool.not_true, Bool.false_eq_true, if_false, ha, if_true]

/-- C6: the version the ExchangeGuids responder records and replies is the preferred version
when the proposal is not compatible and the lower of the proposal and the preferred version
when it is: the proposal itself when its auth version is below the preferred one, the
preferred version when the auth versions are equal.  That version is compatible, and the
initiator that receives it adopts exactly that version, so both peers record the same auth
version. -/
theorem version_negotiation_converges (v : Nat) (hv : v < 2 ^ 32) :
    (IsCompatibleVersion v = false → ExchangeGuidsVersion v = PREFERRED_AUTH_VERSION) ∧
    (IsCompatibleVersion v = true →
      ExchangeGuidsVersion v = GetLowerVersion v PREFERRED_AUTH_VERSION ∧
      (authV v < authV PREFERRED_AUTH_VERSION → ExchangeGuidsVersion v = v) ∧
      (authV v = authV PREFERRED_AUTH_VERSION →
        ExchangeGuidsVersion v = PREFERRED_AUTH_VERSION)) ∧
    IsCompatibleVersion (ExchangeGuidsVersion v) = true ∧
    AuthenticatePeerVersion (ExchangeGuidsVersion v) = .ok (ExchangeGuidsVersion v) ∧
    GetLowerVersion (ExchangeGuidsVersion v) PREFERRED_AUTH_VERSION = ExchangeGuidsVersion v ∧
    (∀ (localGuid remoteGuid : String) (peerState : PeerVersionState),
      localGuid.isEmpty = false →
      ExchangeGuids localGuid peerState remoteGuid v =
        ({ guid := remoteGuid, authVersion := ExchangeGuidsVersion v },
          .args localGuid (ExchangeGuidsVersion v))) := by
  have hcomp : IsCompatibleVersion (ExchangeGuidsVersion v) = true := by
    rcases ExchangeGuidsVersion_cases v hv with h | ⟨h, hc, _⟩
    · rw [h]; exact IsCompatibleVersion_PREFERRED
    · rw [h]; exact hc
  have hfix : AuthenticatePeerVersion (ExchangeGuidsVersion v) = .ok (ExchangeGuidsVersion v) := by
    apply AuthenticatePeerVersion_fixed _ hcomp
    rcases ExchangeGuidsVersion_cases v hv with h | ⟨h, _, ha⟩
    · exact Or.inl h
    · right; rw [h]; exact ha
  refine ⟨?_, ?_, hcomp, hfix, ?_, ?_⟩
  · intro hc
    simp [ExchangeGuidsVersion, hc]
  · intro hc
    refine ⟨by simp [ExchangeGuidsVersion, hc], ExchangeGuidsVersion_lower v hc, ?_⟩
    intro ha
    rcases ExchangeGuidsVersion_cases v hv with h | ⟨_, _, hlt⟩
    · exact h
    · rw [ha] at hlt
      exact absurd hlt (by decide)
  · have h := hfix
    unfold AuthenticatePeerVersion at h
    simp only [hcomp, Bool.not_true, Bool.false_eq_true, if_false] at h
    injection h
  · intro localGuid remoteGuid peerState hne
    simp [ExchangeGuids, hne]

/-- C6 witness: an initiator that proposes auth version 2, keygen version 1, gets its own
proposal back and both sides record it; a proposal of auth version 4, keygen version 1, and
the incompatible proposal of auth version 5 are answered with the preferred version. -/
theorem version_negotiation_converges_witness :
    (0x00020001 : Nat) < 2 ^ 32 ∧
    IsCompatibleVersion 0x00020001 = true ∧
    ExchangeGuidsVersion 0x00020001 = 0x00020001 ∧
    AuthenticatePeerVersion (ExchangeGuidsVersion 0x00020001) = .ok 0x00020001 ∧
    (ExchangeGuids "local" Scenario.peer "remote" 0x00020001).1.authVersion = 0x00020001 ∧
    IsCompatibleVersion 0x00040001 = true ∧
    ExchangeGuidsVersion 0x00040001 = PREFERRED_AUTH_VERSION ∧
    IsCompatibleVersion 0x00050000 = false ∧
    ExchangeGuidsVersion 0x00050000 = PREFERRED_AUTH_VERSION ∧
    AuthenticatePeerVersion (ExchangeGuidsVersion 0x00050000) = .ok PREFERRED_AUTH_VERSION := by
  have h2 := version_negotiation_converges 0x00020001 (by norm_num)
  have h4 := version_negotiation_converges 0x00040001 (by norm_num)
  have h5 := version_negotiation_converges 0x00050000 (by norm_num)
  have e2 : ExchangeGuidsVersion 0x00020001 = 0x00020001 := (h2.2.1 (by decide)).2.1 (by decide)
  have e5 : ExchangeGuidsVersion 0x00050000 = PREFERRED_AUTH_VERSION := h5.1 (by decide)
  refine ⟨by norm_num, by decide, e2, ?_, ?_, by decide, (h4.2.1 (by decide)).2.2 (by decide),
    by decide, e5, ?_⟩
  · have := h2.2.2.2.1
    rw [e2] at this
    exact this
  · rw [h2.2.2.2.2.2 "local" "remote" Scenario.peer (by decide)]
    exact e2
  · have := h5.2.2.2.1
    rw [e5] at this
    exact this

/-! ### The filter loop, the send loop and the recursion of `PushMessage` -/

namespace DaemonRouter
open Scenario

theorem checkEndpoint_destEps (cfg : BuildConfig) (env : Collaborators) (r : DaemonRouter)
    (msg : Message) (src : BusEndpoint) (st : FilterState) (dest : BusEndpoint) :
    (checkEndpoint cfg env r msg src st dest).destEps =
      st.destEps ++ (if admits cfg env r msg src dest then [dest] else []) := by
  simp only [admits, checkEndpoint, FilterState.initial]
  split_ifs <;> simp_all

theorem checkEndpoint_policyRejected (cfg : BuildConfig) (env : Collaborators) (r : DaemonRouter)
    (msg : Message) (src : BusEndpoint) (st : FilterState) (dest : BusEndpoint) :
    (checkEndpoint cfg env r msg src st dest).policyRejected =
      (st.policyRejected || policyDenies cfg env msg src dest) := by
  simp only [policyDenies, checkEndpoint]
  split_ifs <;> simp_all

theorem foldl_checkEndpoint_destEps (cfg : BuildConfig) (env : Collaborators) (r : DaemonRouter)
    (msg : Message) (src : BusEndpoint) (l : List BusEndpoint) (st : FilterState) :
    (l.foldl (checkEndpoint cfg env r msg src) st).destEps =
      st.destEps ++ l.filter (admits cfg env r msg src) := by
  induction l generalizing st with
  | nil => simp
  | cons d rest ih =>
    rw [List.foldl_cons, ih, checkEndpoint_destEps, List.filter_cons]
    by_cases h : admits cfg env r msg src d = true <;> simp [h]

theorem foldl_checkEndpoint_policyRejected (cfg : BuildConfig) (env : Collaborators)
    (r : DaemonRouter) (msg : Message) (src : BusEndpoint) (l : List BusEndpoint)
    (st : FilterState) :
    (l.foldl (checkEndpoint cfg env r msg src) st).policyRejected =
      (st.policyRejected || l.any (policyDenies cfg env msg src)) := by
  induction l generalizing st with
  | nil => simp
  | cons d rest ih =>
    rw [List.foldl_cons, ih, checkEndpoint_policyRejected, List.any_cons, Bool.or_assoc]

theorem filterEndpoints_destEps (cfg : BuildConfig) (env : Collaborators) (r : DaemonRouter)
    (msg : Message) (src : BusEndpoint) :
    (r.filterEndpoints cfg env msg src).destEps =
      (r.candidates msg).filter (admits cfg env r msg src) := by
  simp [filterEndpoints, foldl_checkEndpoint_destEps]

theorem filterEndpoints_policyRejected (cfg : BuildConfig) (env : Collaborators)
    (r : DaemonRouter) (msg : Message) (src : BusEndpoint) :
    (r.filterEndpoints cfg env msg src).policyRejected =
      (r.candidates msg).any (policyDenies cfg env msg src) := by
  simp [filterEndpoints, foldl_checkEndpoint_policyRejected]

theorem admits_eq_false_of_policyDenies (cfg : BuildConfig) (env : Collaborators)
    (r : DaemonRouter) (msg : Message) (src dest : BusEndpoint)
    (h : policyDenies cfg env msg src dest = true) : admits cfg env r msg src dest = false := by
  simp only [policyDenies] at h
  simp only [admits, checkEndpoint, h, if_true, FilterState.initial]
  rfl

theorem sendLoop_eq (env : Collaborators) (msg : Message) (sessionId : SessionId)
    (l : List BusEndpoint) (status : QStatus) :
    sendLoop env msg sessionId l status =
      earliestNonOk (status :: l.map (fun ep => SendThroughEndpoint env msg ep sessionId)) := by
  induction l generalizing status with
  | nil => by_cases h : status = .ER_OK <;> simp [sendLoop, earliestNonOk, h]
  | cons d rest ih =>
    rw [sendLoop, ih]
    by_cases h : status = .ER_OK <;> simp [earliestNonOk, h]

theorem replyIsExpected_routedMessage (env : Collaborators) (r : DaemonRouter) (msg : Message)
    (src : BusEndpoint) : (r.routedMessage env msg src).replyIsExpected = msg.replyIsExpected := by
  unfold routedMessage
  split <;> rfl

theorem routeMessage_reply_some (cfg : BuildConfig) (env : Collaborators) (r : DaemonRouter)
    (msg : Message) (src : BusEndpoint) (reply : Message)
    (h : (r.routeMessage cfg env msg src).reply = some reply) :
    msg.replyIsExpected = true ∧ reply.msgType = .MESSAGE_ERROR := by
  unfold routeMessage at h
  split at h
  · simp at h
  · split at h
    · simp at h
    · simp only [routeCore, autoReply] at h
      split at h
      · rename_i hc
        simp only [Bool.and_eq_true] at hc
        injection h with h
        subst h
        exact ⟨by rw [← replyIsExpected_routedMessage env r msg src]; exact hc.1.2, rfl⟩
      · simp at h

theorem routeMessage_reply_none (cfg : BuildConfig) (env : Collaborators) (r : DaemonRouter)
    (msg : Message) (src : BusEndpoint) (h : msg.replyIsExpected = false) :
    (r.routeMessage cfg env msg src).reply = none := by
  cases hr : (r.routeMessage cfg env msg src).reply with
  | none => rfl
  | some reply =>
    have := (routeMessage_reply_some cfg env r msg src reply hr).1
    rw [h] at this; cases this

theorem replyIsExpected_of_error (m : Message) (h : m.msgType = .MESSAGE_ERROR) :
    m.replyIsExpected = false := by
  simp [Message.replyIsExpected, h]

theorem PushMessage_status (cfg : BuildConfig) (env : Collaborators) (r : DaemonRouter)
    (msg : Message) (src : BusEndpoint) :
    (PushMessage cfg env r msg src).status = (r.routeMessage cfg env msg src).status := by
  rw [PushMessage]
  split <;> rfl

/-- The events of the recursive call that routes the automatic error reply. -/
theorem PushMessage_events (cfg : BuildConfig) (env : Collaborators) (r : DaemonRouter)
    (msg : Message) (src : BusEndpoint) :
    (PushMessage cfg env r msg src).events =
      (r.routeMessage cfg env msg src).events ++
        (match (r.routeMessage cfg env msg src).reply with
          | none => []
          | some reply => (r.routeMessage cfg env reply r.localEndpoint).events) := by
  rw [PushMessage]
  split
  · rename_i h
    simp [h]
  · rename_i reply h
    simp only [h]
    congr 1
    have hr := routeMessage_reply_none cfg env r reply r.localEndpoint
      (replyIsExpected_of_error reply (routeMessage_reply_some cfg env r msg src reply h).2)
    rw [PushMessage]
    split
    · rfl
    · rename_i reply2 h2
      rw [hr] at h2; cases h2

/-! ### C1: unicast delivery -/

theorem routedMessage_cases (env : Collaborators) (r : DaemonRouter) (msg : Message)
    (src : BusEndpoint) :
    r.routedMessage env msg src = msg ∨
    r.routedMessage env msg src = { msg with callSerial := env.updateSerialNumber msg } := by
  unfold routedMessage
  split
  · exact Or.inr rfl
  · exact Or.inl rfl

@[simp] theorem routedMessage_destination (env : Collaborators) (r : DaemonRouter)
    (msg : Message) (src : BusEndpoint) :
    (r.routedMessage env msg src).destination = msg.destination := by
  rcases routedMessage_cases env r msg src with h | h <;> rw [h]

@[simp] theorem routedMessage_sessionId (env : Collaborators) (r : DaemonRouter)
    (msg : Message) (src : BusEndpoint) :
    (r.routedMessage env msg src).sessionId = msg.sessionId := by
  rcases routedMessage_cases env r msg src with h | h <;> rw [h]

@[simp] theorem routedMessage_sessionless (env : Collaborators) (r : DaemonRouter)
    (msg : Message) (src : BusEndpoint) :
    (r.routedMessage env msg src).sessionless = msg.sessionless := by
  rcases routedMessage_cases env r msg src with h | h <;> rw [h]

@[simp] theorem routedMessage_msgType (env : Collaborators) (r : DaemonRouter)
    (msg : Message) (src : BusEndpoint) :
    (r.routedMessage env msg src).msgType = msg.msgType := by
  rcases routedMessage_cases env r msg src with h | h <;> rw [h]

@[simp] theorem routedMessage_isUnicast (env : Collaborators) (r : DaemonRouter)
    (msg : Message) (src : BusEndpoint) :
    (r.routedMessage env msg src).isUnicast = msg.isUnicast := by
  simp [Message.isUnicast]

@[simp] theorem routedMessage_isBroadcast (env : Collaborators) (r : DaemonRouter)
    (msg : Message) (src : BusEndpoint) :
    (r.routedMessage env msg src).isBroadcast = msg.isBroadcast := by
  simp [Message.isBroadcast, Message.isNulSession]

@[simp] theorem routedMessage_isSessioncast (env : Collaborators) (r : DaemonRouter)
    (msg : Message) (src : BusEndpoint) :
    (r.routedMessage env msg src).isSessioncast = msg.isSessioncast := by
  simp [Message.isSessioncast, Message.isNulSession]

theorem routeMessage_eq_routeCore (cfg : BuildConfig) (env : Collaborators) (r : DaemonRouter)
    (msg : Message) (src : BusEndpoint) (hsrc : src.epType ≠ .ENDPOINT_TYPE_VIRTUAL)
    (hlep : r.localEndpoint.valid = true) :
    r.routeMessage cfg env msg src = r.routeCore cfg env (r.routedMessage env msg src) src := by
  simp [routeMessage, hsrc, hlep]

end DaemonRouter

theorem NameTable.IsAlias_of_FindEndpoint (nt : NameTable) (busName : String) (D : BusEndpoint)
    (h : nt.FindEndpoint busName = D) (hv : D.valid = true) :
    nt.IsAlias D.uniqueName busName = true := by
  unfold NameTable.FindEndpoint at h
  unfold NameTable.IsAlias
  split at h
  · rename_i ep hf
    have := List.find?_some hf
    subst h
    simp at this
    simp [this]
  · split at h
    · rename_i p hp
      split at h
      · rename_i ep hf
        have h1 := List.find?_some hf
        have h2 := List.find?_some hp
        have h3 := List.mem_of_find?_eq_some hp
        subst h
        simp at h1 h2
        have : (busName, ep.uniqueName) = p := by
          rw [← h2, h1]
        simp [this, h3]
      · subst h; simp [BusEndpoint.invalid] at hv
    · subst h; simp [BusEndpoint.invalid] at hv

namespace DaemonRouter
open Scenario

theorem candidates_unicast (r : DaemonRouter) (msg : Message) (D : BusEndpoint)
    (hdest : msg.destination ≠ "")
    (hfind : r.nameTable.FindEndpoint msg.destination = D) (hvalid : D.valid = true) :
    r.candidates msg = [D] := by
  have hu : msg.isUnicast = true := by
    simp only [Message.isUnicast, Bool.not_eq_true', String.isEmpty]
    have : msg.destination.endPos ≠ 0 := by
      intro h
      apply hdest
      exact String.endPos_eq_zero _ |>.1 h
    simpa using this
  simp [candidates, hu, hfind, hvalid]

theorem handOff_events_no_send (env : Collaborators) (msg : Message) (src : BusEndpoint)
    (policyRejected : Bool) :
    (handOff env msg src policyRejected).2.filter Event.isSend = [] := by
  simp only [handOff]
  split_ifs <;> simp [Event.isSend]

theorem handOff_not_broadcast (env : Collaborators) (msg : Message) (src : BusEndpoint)
    (policyRejected : Bool) (hb : msg.isBroadcast = false) :
    (handOff env msg src policyRejected).1 = .ER_OK ∨
    (handOff env msg src policyRejected).1 = .ER_NONE := by
  simp only [handOff]
  split_ifs <;> simp_all

/-- C1 (amended): a message with a non-empty destination that the name table resolves to
the valid endpoint D is delivered to D and to no other endpoint, and `PushMessage` returns
ER_OK, when the source is not Virtual, the local endpoint is valid, the policy (when compiled
in) allows the message for D, D allows remote messages or the source is not Bus2Bus and D is
directly connected (Local, Null or Remote), no reply is expected or the source allows remote
messages or both are directly connected, the message is not a sessionless one from a
Bus2Bus source that the compatibility override drops, and the push to D returns ER_OK. -/
theorem unicast_delivery (cfg : BuildConfig) (env : Collaborators) (r : DaemonRouter)
    (msg : Message) (src D : BusEndpoint)
    (hsrc : src.epType ≠ .ENDPOINT_TYPE_VIRTUAL)
    (hlep : r.localEndpoint.valid = true)
    (hdest : msg.destination ≠ "")
    (hfind : r.nameTable.FindEndpoint msg.destination = D) (hvalid : D.valid = true)
    (hpolicy : cfg.ENABLE_POLICYDB = true →
      env.policyOKToSend (r.routedMessage env msg src) src D = true ∧
      env.policyOKToReceive (r.routedMessage env msg src) src D = true)
    (hremote : D.allowRemote = true ∨
      (src.epType ≠ .ENDPOINT_TYPE_BUS2BUS ∧ isOurEp D = true))
    (hreply : msg.replyIsExpected = false ∨ src.allowRemote = true ∨
      (src.epType ≠ .ENDPOINT_TYPE_BUS2BUS ∧ isOurEp D = true))
    (hcompat : ¬(cfg.ENABLE_OLD_PUSHMESSAGE_COMPATIBILITY = true ∧
      src.epType = .ENDPOINT_TYPE_BUS2BUS ∧ msg.sessionless = true))
    (hpush : SendThroughEndpoint env (r.routedMessage env msg src) D
      (sendSessionId (r.routedMessage env msg src)) = .ER_OK) :
    (PushMessage cfg env r msg src).status = .ER_OK ∧
    (PushMessage cfg env r msg src).events.filter Event.isSend =
      [Event.send D (r.routedMessage env msg src)
        (sendSessionId (r.routedMessage env msg src))] := by
  have hu : msg.isUnicast = true := by
    simp only [Message.isUnicast, Bool.not_eq_true', String.isEmpty]
    have : msg.destination.endPos ≠ 0 := by
      intro h
      apply hdest
      exact String.endPos_eq_zero _ |>.1 h
    simpa using this
  have hb : msg.isBroadcast = false := by simp [Message.isBroadcast, hu]
  have hs : msg.isSessioncast = false := by simp [Message.isSessioncast, hu]
  have hcand : r.candidates (r.routedMessage env msg src) = [D] :=
    candidates_unicast r _ D (by simpa using hdest) (by simpa using hfind) hvalid
  have halias := NameTable.IsAlias_of_FindEndpoint _ _ _ hfind hvalid
  have hre : (r.routedMessage env msg src).replyIsExpected = msg.replyIsExpected :=
    replyIsExpected_routedMessage env r msg src
  have hpol : policyDenies cfg env (r.routedMessage env msg src) src D = false := by
    simp only [policyDenies]
    by_cases hc : cfg.ENABLE_POLICYDB = true
    · simp [hc, (hpolicy hc).1, (hpolicy hc).2]
    · simp [hc]
  have hrem : (D.allowRemote || (!(src.epType == .ENDPOINT_TYPE_BUS2BUS) && isOurEp D)) = true := by
    rcases hremote with h | ⟨h1, h2⟩
    · simp [h]
    · simp [h1, h2]
  have hrep : (!msg.replyIsExpected || src.allowRemote ||
      (!(src.epType == .ENDPOINT_TYPE_BUS2BUS) && isOurEp D)) = true := by
    rcases hreply with h | h | ⟨h1, h2⟩
    · simp [h]
    · simp [h]
    · simp [h1, h2]
  have hov : cfg.ENABLE_OLD_PUSHMESSAGE_COMPATIBILITY = true → ∀ sid det gb,
      r.AddCompatibilityOverride true src D sid false false msg.sessionless gb det = true := by
    intro hc sid det gb
    simp only [AddCompatibilityOverride]
    by_cases hsl : msg.sessionless = true
    · have : src.epType ≠ .ENDPOINT_TYPE_BUS2BUS := fun h => hcompat ⟨hc, h, hsl⟩
      simp [this]
    · simp [hsl]
  have hadm : admits cfg env r (r.routedMessage env msg src) src D = true := by
    simp only [policyDenies] at hpol
    simp only [isOurEp] at hrem hrep
    simp only [admits, checkEndpoint, FilterState.initial, hpol, hre, hrem, hrep,
      routedMessage_isUnicast, routedMessage_isBroadcast, routedMessage_isSessioncast,
      routedMessage_destination, routedMessage_sessionless, routedMessage_sessionId,
      hu, hb, hs, halias]
    by_cases hc : cfg.ENABLE_OLD_PUSHMESSAGE_COMPATIBILITY = true
    · simp [hc, hov hc]
    · simp [hc]
  have hst : (r.filterEndpoints cfg env (r.routedMessage env msg src) src).destEps = [D] := by
    rw [filterEndpoints_destEps, hcand]
    simp [hadm]
  have hpr : (r.filterEndpoints cfg env (r.routedMessage env msg src) src).policyRejected
      = false := by
    rw [filterEndpoints_policyRejected, hcand]
    simp [hpol]
  have hho := handOff_not_broadcast env (r.routedMessage env msg src) src false
    (by simpa using hb)
  have hdel : (deliver env (r.routedMessage env msg src) [D]
      (handOff env (r.routedMessage env msg src) src false).1) =
      (.ER_OK, [Event.send D (r.routedMessage env msg src)
        (sendSessionId (r.routedMessage env msg src))]) := by
    rcases hho with h | h <;>
      simp [deliver, h, sendLoop, hpush]
  have hcore : r.routeMessage cfg env msg src =
      { status := .ER_OK,
        events := (handOff env (r.routedMessage env msg src) src false).2 ++
          [Event.send D (r.routedMessage env msg src)
            (sendSessionId (r.routedMessage env msg src))],
        reply := none } := by
    rw [routeMessage_eq_routeCore cfg env r msg src hsrc hlep]
    simp [routeCore, hst, hpr, hdel, classify, autoReply]
  constructor
  · rw [PushMessage_status, hcore]
  · rw [PushMessage_events, hcore]
    simp [List.filter_append, handOff_events_no_send, Event.isSend]

/-- C1 counterexample: a method call with reply expected from a directly connected client
that does not accept remote messages to a valid remote peer that does: the destination is
dropped by the reply check, `PushMessage` returns ER_BUS_NO_ROUTE and the peer is sent
nothing. -/
theorem unicast_delivery_fails_when_reply_blocked :
    client.epType ≠ .ENDPOINT_TYPE_VIRTUAL ∧ router.localEndpoint.valid = true ∧
    call.destination ≠ "" ∧
    router.nameTable.FindEndpoint call.destination = virt ∧ virt.valid = true ∧
    virt.allowRemote = true ∧
    SendThroughEndpoint env (router.routedMessage env call client) virt
      (sendSessionId (router.routedMessage env call client)) = .ER_OK ∧
    (PushMessage plain env router call client).status = .ER_BUS_NO_ROUTE ∧
    (PushMessage plain env router call client).events.filter
      (Event.isSendOf virt (router.routedMessage env call client)) = [] := by
  refine ⟨by decide, by decide, by decide, by decide, by decide, by decide, by decide, ?_, ?_⟩
  · rw [PushMessage_status]; decide
  · rw [PushMessage_events]; decide

/-- C1 witness: the same call with NO_REPLY_EXPECTED set is delivered once, to the peer. -/
theorem unicast_delivery_witness :
    (PushMessage plain env router { call with flags := 1 } client).status = .ER_OK ∧
    (PushMessage plain env router { call with flags := 1 } client).events.filter Event.isSend =
      [Event.send virt { call with flags := 1 } 0] :=
  unicast_delivery plain env router { call with flags := 1 } client virt
    (by decide) (by decide) (by decide) (by decide) (by decide) (by decide) (by decide)
    (by decide) (by decide) (by decide)

/-- The two other gates of unicast delivery are needed as well: with the policy compiled in and
denying the destination the call fails with ER_BUS_POLICY_VIOLATION, and with the
compatibility override compiled in a sessionless unicast signal from a Bus2Bus source is
handed to the sessionless object and not sent to its destination. -/
theorem unicast_delivery_other_gates :
    (PushMessage withPolicy denyEnv router { call with flags := 1 } localEp).status =
      .ER_BUS_POLICY_VIOLATION ∧
    router.nameTable.FindEndpoint ":1.3" = memberA ∧ memberA.allowRemote = true ∧
    (PushMessage withPolicy env router
        { signal ":9.9" 0 with destination := ":1.3", sessionless := true } b2b).events =
      [Event.routeSessionless 0 { signal ":9.9" 0 with destination := ":1.3", sessionless := true }]
      := by
  refine ⟨?_, by decide, by decide, ?_⟩
  · rw [PushMessage_status]; decide
  · rw [PushMessage_events]; decide

/-! ### The events of a call -/

theorem deliver_events (env : Collaborators) (msg : Message) (destEps : List BusEndpoint)
    (status : QStatus) :
    (deliver env msg destEps status).2 =
      destEps.map (fun ep => Event.send ep msg (sendSessionId msg)) := by
  unfold deliver
  cases destEps <;> simp

theorem deliver_status (env : Collaborators) (msg : Message) (destEps : List BusEndpoint)
    (status : QStatus) (hne : destEps ≠ []) :
    (deliver env msg destEps status).1 =
      earliestNonOk ((if status == .ER_NONE then .ER_OK else status) ::
        destEps.map (fun ep => SendThroughEndpoint env msg ep (sendSessionId msg))) := by
  unfold deliver
  cases destEps with
  | nil => exact absurd rfl hne
  | cons d rest => simp [sendLoop_eq]

theorem deliver_nil (env : Collaborators) (msg : Message) (status : QStatus) :
    deliver env msg [] status = (status, []) := by
  simp [deliver]

theorem handOff_events (env : Collaborators) (msg : Message) (src : BusEndpoint)
    (policyRejected : Bool) (e : Event) (h : e ∈ (handOff env msg src policyRejected).2) :
    e.isSend = false := by
  simp only [handOff] at h
  split_ifs at h <;> simp at h <;> subst h <;> rfl

/-- The events of one pass of routing: nothing on an early return, otherwise the
sessionless hand-off followed by one send for every member of the destination set. -/
theorem routeMessage_events (cfg : BuildConfig) (env : Collaborators) (r : DaemonRouter)
    (msg : Message) (src : BusEndpoint) :
    (r.routeMessage cfg env msg src).events = [] ∨
    (r.routeMessage cfg env msg src).events =
      (handOff env (r.routedMessage env msg src) src
        (r.filterEndpoints cfg env (r.routedMessage env msg src) src).policyRejected).2 ++
      (r.filterEndpoints cfg env (r.routedMessage env msg src) src).destEps.map
        (fun ep => Event.send ep (r.routedMessage env msg src)
          (sendSessionId (r.routedMessage env msg src))) := by
  unfold routeMessage
  split_ifs
  · exact Or.inl rfl
  · exact Or.inl rfl
  · right
    simp [routeCore, deliver_events]

theorem routeMessage_send_mem (cfg : BuildConfig) (env : Collaborators) (r : DaemonRouter)
    (msg : Message) (src : BusEndpoint) (ep : BusEndpoint) (m : Message) (sid : SessionId)
    (h : Event.send ep m sid ∈ (r.routeMessage cfg env msg src).events) :
    m = r.routedMessage env msg src ∧
    ep ∈ (r.filterEndpoints cfg env (r.routedMessage env msg src) src).destEps ∧
    sid = sendSessionId (r.routedMessage env msg src) := by
  rcases routeMessage_events cfg env r msg src with he | he
  · rw [he] at h; cases h
  · rw [he, List.mem_append] at h
    rcases h with h | h
    · have := handOff_events _ _ _ _ _ h
      simp [Event.isSend] at this
    · simp only [List.mem_map] at h
      obtain ⟨e, hmem, heq⟩ := h
      injection heq with h1 h2 h3
      subst h1
      exact ⟨h2.symm, hmem, h3.symm⟩

/-- A send event of the recursive call that routes the error reply carries an ERROR message,
so it never carries the message that was routed first. -/
theorem PushMessage_send_mem (cfg : BuildConfig) (env : Collaborators) (r : DaemonRouter)
    (msg : Message) (src : BusEndpoint) (ep : BusEndpoint) (sid : SessionId)
    (h : Event.send ep (r.routedMessage env msg src) sid ∈
      (PushMessage cfg env r msg src).events) :
    Event.send ep (r.routedMessage env msg src) sid ∈ (r.routeMessage cfg env msg src).events := by
  rw [PushMessage_events, List.mem_append] at h
  rcases h with h | h
  · exact h
  · exfalso
    cases hrep : (r.routeMessage cfg env msg src).reply with
    | none => rw [hrep] at h; cases h
    | some reply =>
      rw [hrep] at h
      simp only at h
      have h1 := (routeMessage_send_mem cfg env r reply r.localEndpoint ep _ sid h).1
      have h2 := routeMessage_reply_some cfg env r msg src reply hrep
      have h3 : (r.routedMessage env msg src).msgType = .MESSAGE_ERROR := by
        rw [h1, routedMessage_msgType, h2.2]
      rw [routedMessage_msgType] at h3
      have h4 := h2.1
      simp [Message.replyIsExpected, h3] at h4

/-! ### C2: policy short-circuit -/

/-- C2: with policy enforcement compiled in, a candidate the policy denies (OKToSend or
OKToReceive false) only sets `policyRejected`: the loop iteration ends before the
compatibility override, the candidate is not in the destination set and is never sent the
message, and when it is the only candidate `PushMessage` returns ER_BUS_POLICY_VIOLATION
(not ER_BUS_NO_ROUTE). -/
theorem policy_short_circuit (cfg : BuildConfig) (env : Collaborators) (r : DaemonRouter)
    (msg : Message) (src d : BusEndpoint)
    (hcfg : cfg.ENABLE_POLICYDB = true)
    (hden : env.policyOKToSend (r.routedMessage env msg src) src d = false ∨
      env.policyOKToReceive (r.routedMessage env msg src) src d = false) :
    (∀ st : FilterState, checkEndpoint cfg env r (r.routedMessage env msg src) src st d =
      { st with policyRejected := true }) ∧
    d ∉ (r.filterEndpoints cfg env (r.routedMessage env msg src) src).destEps ∧
    (∀ sid, Event.send d (r.routedMessage env msg src) sid ∉
      (PushMessage cfg env r msg src).events) ∧
    (src.epType ≠ .ENDPOINT_TYPE_VIRTUAL → r.localEndpoint.valid = true →
      r.candidates (r.routedMessage env msg src) = [d] →
      (PushMessage cfg env r msg src).status = .ER_BUS_POLICY_VIOLATION ∧
      (PushMessage cfg env r msg src).status ≠ .ER_BUS_NO_ROUTE) := by
  have hpd : policyDenies cfg env (r.routedMessage env msg src) src d = true := by
    simp only [policyDenies, hcfg, Bool.true_and]
    rcases hden with h | h <;> simp [h]
  have hnot : d ∉ (r.filterEndpoints cfg env (r.routedMessage env msg src) src).destEps := by
    rw [filterEndpoints_destEps]
    intro hmem
    have := (List.mem_filter.1 hmem).2
    rw [admits_eq_false_of_policyDenies cfg env r _ src d hpd] at this
    cases this
  refine ⟨?_, hnot, ?_, ?_⟩
  · intro st
    simp only [policyDenies] at hpd
    simp only [checkEndpoint, hpd, if_true]
  · intro sid hmem
    have h1 := PushMessage_send_mem cfg env r msg src d sid hmem
    exact hnot (routeMessage_send_mem cfg env r msg src d _ sid h1).2.1
  · intro hsrc hlep hcand
    have hst : (r.filterEndpoints cfg env (r.routedMessage env msg src) src).destEps = [] := by
      rw [filterEndpoints_destEps, hcand]
      simp [admits_eq_false_of_policyDenies cfg env r _ src d hpd]
    have hpr : (r.filterEndpoints cfg env (r.routedMessage env msg src) src).policyRejected
        = true := by
      rw [filterEndpoints_policyRejected, hcand]
      simp [hpd]
    have hstat : (PushMessage cfg env r msg src).status = .ER_BUS_POLICY_VIOLATION := by
      rw [PushMessage_status, routeMessage_eq_routeCore cfg env r msg src hsrc hlep]
      simp [routeCore, hst, hpr, handOff, deliver, classify, StatusCompatibilityOverride]
    exact ⟨hstat, by rw [hstat]; decide⟩

/-! ### C3: self-join -/

/-- C3: for a sessioncast message whose source `P` is a member of the session and is itself a
candidate destination, with the policy check and the remote-message check passing for it
(and the message not a sessionless one from a Bus2Bus source that the compatibility override
drops), `P` is put in the destination set if and only if the pair of its unique name and
the session id is in the self-join set. -/
theorem self_join_delivery (cfg : BuildConfig) (env : Collaborators) (r : DaemonRouter)
    (msg : Message) (P : BusEndpoint)
    (hcast : msg.isSessioncast = true)
    (hmem : P.IsInSession msg.sessionId = true)
    (hcand : P ∈ r.candidates msg)
    (hvirt : P.epType ≠ .ENDPOINT_TYPE_VIRTUAL)
    (hpolicy : cfg.ENABLE_POLICYDB = true →
      env.policyOKToSend msg P P = true ∧ env.policyOKToReceive msg P P = true)
    (hremote : P.allowRemote = true ∨ isOurEp P = true)
    (hsl : ¬(cfg.ENABLE_OLD_PUSHMESSAGE_COMPATIBILITY = true ∧
      P.epType = .ENDPOINT_TYPE_BUS2BUS ∧ msg.sessionless = true)) :
    (P ∈ (r.filterEndpoints cfg env msg P).destEps ↔
      (P.uniqueName, msg.sessionId) ∈ r.selfJoinEps) ∧
    ((P.uniqueName, msg.sessionId) ∉ r.selfJoinEps →
      P ∉ (r.filterEndpoints cfg env msg P).destEps) := by
  have hu : msg.isUnicast = false := by
    simp only [Message.isSessioncast, Bool.and_eq_true, Bool.not_eq_true'] at hcast
    exact hcast.1
  have hb : msg.isBroadcast = false := by
    simp only [Message.isSessioncast, Bool.and_eq_true, Bool.not_eq_true'] at hcast
    simp [Message.isBroadcast, hcast.2]
  have hpol : (cfg.ENABLE_POLICYDB &&
      !(env.policyOKToSend msg P P && env.policyOKToReceive msg P P)) = false := by
    by_cases hc : cfg.ENABLE_POLICYDB = true
    · simp [hc, (hpolicy hc).1, (hpolicy hc).2]
    · simp [hc]
  have hrem : (P.allowRemote || (!(P.epType == .ENDPOINT_TYPE_BUS2BUS) &&
      (P.epType == .ENDPOINT_TYPE_LOCAL || P.epType == .ENDPOINT_TYPE_NULL ||
        P.epType == .ENDPOINT_TYPE_REMOTE))) = true := by
    rcases hremote with h | h
    · simp [h]
    · simp only [isOurEp] at h
      cases ht : P.epType <;> simp_all
  have hgate : (cfg.ENABLE_OLD_PUSHMESSAGE_COMPATIBILITY = true) →
      (P.epType == .ENDPOINT_TYPE_BUS2BUS && msg.sessionless) = false := by
    intro hc
    by_cases h1 : P.epType = .ENDPOINT_TYPE_BUS2BUS
    · by_cases h2 : msg.sessionless = true
      · exact absurd ⟨hc, h1, h2⟩ hsl
      · simp [h2]
    · simp [h1]
  have hadm : admits cfg env r msg P P = r.selfJoin P msg.sessionId := by
    have hrep : (!msg.replyIsExpected || P.allowRemote ||
        (!(P.epType == .ENDPOINT_TYPE_BUS2BUS) &&
        (P.epType == .ENDPOINT_TYPE_LOCAL || P.epType == .ENDPOINT_TYPE_NULL ||
          P.epType == .ENDPOINT_TYPE_REMOTE))) = true := by
      rw [Bool.or_assoc, hrem, Bool.or_true]
    simp only [admits, checkEndpoint, FilterState.initial, hpol, hrem, hrep, hu, hb, hcast,
      IsSessionDeliverable, AddCompatibilityOverride, hmem]
    by_cases hc : cfg.ENABLE_OLD_PUSHMESSAGE_COMPATIBILITY = true
    · have hg := hgate hc
      by_cases hsj : r.selfJoin P msg.sessionId = true
      · simp [hc, hg, hsj, hvirt]
      · simp [hc, hg, hsj, hvirt]
    · by_cases hsj : r.selfJoin P msg.sessionId = true
      · simp [hc, hsj, hvirt]
      · simp [hc, hsj, hvirt]
  have hiff : P ∈ (r.filterEndpoints cfg env msg P).destEps ↔
      (P.uniqueName, msg.sessionId) ∈ r.selfJoinEps := by
    rw [filterEndpoints_destEps, List.mem_filter, hadm]
    simp [selfJoin, hcand]
  exact ⟨hiff, fun h hp => h (hiff.1 hp)⟩

/-! ### C4: no duplicate delivery -/

theorem RegisterEndpoint_b2bEndpoints (r : DaemonRouter) (ep : BusEndpoint) :
    (r.RegisterEndpoint ep).b2bEndpoints =
      if ep.epType = .ENDPOINT_TYPE_BUS2BUS then
        (if ep ∈ r.b2bEndpoints then r.b2bEndpoints else r.b2bEndpoints ++ [ep])
      else r.b2bEndpoints := by
  unfold RegisterEndpoint
  by_cases hb : ep.epType = .ENDPOINT_TYPE_BUS2BUS
  · have hl : ¬ ep.epType = .ENDPOINT_TYPE_LOCAL := by rw [hb]; decide
    simp [hb]
  · by_cases hl : ep.epType = .ENDPOINT_TYPE_LOCAL <;> simp [hb, hl]

theorem RegisterEndpoint_nameTable (r : DaemonRouter) (ep : BusEndpoint) :
    (r.RegisterEndpoint ep).nameTable =
      if ep.epType = .ENDPOINT_TYPE_BUS2BUS then r.nameTable
      else r.nameTable.AddUniqueName ep := by
  unfold RegisterEndpoint
  by_cases hb : ep.epType = .ENDPOINT_TYPE_BUS2BUS
  · simp [hb]
  · by_cases hl : ep.epType = .ENDPOINT_TYPE_LOCAL <;> simp [hb, hl]

theorem UnregisterEndpoint_fields (r : DaemonRouter) (epName : String) :
    ((r.UnregisterEndpoint epName).b2bEndpoints = r.b2bEndpoints.erase (r.FindEndpoint epName) ∧
      (r.UnregisterEndpoint epName).nameTable = r.nameTable) ∨
    ((r.UnregisterEndpoint epName).b2bEndpoints = r.b2bEndpoints ∧
      (r.UnregisterEndpoint epName).nameTable =
        r.nameTable.RemoveUniqueName (r.FindEndpoint epName).uniqueName) := by
  unfold UnregisterEndpoint
  simp only
  split_ifs <;> simp

/-- The registration invariant: the name table holds every endpoint once and no Bus2Bus
endpoint, the Bus2Bus set holds every endpoint once and only Bus2Bus endpoints. -/
theorem Reachable.invariant {r : DaemonRouter} (h : Reachable r) :
    r.nameTable.uniqueNames.Nodup ∧
    (∀ e ∈ r.nameTable.uniqueNames, e.epType ≠ .ENDPOINT_TYPE_BUS2BUS) ∧
    r.b2bEndpoints.Nodup ∧
    (∀ e ∈ r.b2bEndpoints, e.epType = .ENDPOINT_TYPE_BUS2BUS) := by
  induction h with
  | init => simp [DaemonRouter.init, NameTable.empty]
  | @register r0 ep _ ih =>
    obtain ⟨h1, h2, h3, h4⟩ := ih
    rw [RegisterEndpoint_b2bEndpoints, RegisterEndpoint_nameTable]
    by_cases hb : ep.epType = .ENDPOINT_TYPE_BUS2BUS
    · simp only [hb, if_true]
      refine ⟨h1, h2, ?_, ?_⟩
      · split_ifs with hc
        · exact h3
        · exact List.Nodup.append h3 (List.nodup_singleton _) (by simpa using hc)
      · intro e he
        split_ifs at he with hc
        · exact h4 e he
        · rcases List.mem_append.1 he with he | he
          · exact h4 e he
          · simp at he; rw [he]; exact hb
    · simp only [hb, if_false]
      refine ⟨?_, ?_, h3, h4⟩
      · simp only [NameTable.AddUniqueName]
        apply List.Nodup.append (h1.filter _) (List.nodup_singleton _)
        simp only [List.disjoint_singleton, List.mem_filter, not_and]
        intro _
        simp
      · intro e he
        simp only [NameTable.AddUniqueName] at he
        rcases List.mem_append.1 he with he | he
        · exact h2 e (List.mem_filter.1 he).1
        · simp at he; rw [he]; exact hb
  | @unregister r0 epName _ ih =>
    obtain ⟨h1, h2, h3, h4⟩ := ih
    rcases UnregisterEndpoint_fields r0 epName with ⟨hb, hn⟩ | ⟨hb, hn⟩
    · rw [hb, hn]
      exact ⟨h1, h2, h3.erase _, fun e he => h4 e (List.mem_of_mem_erase he)⟩
    · rw [hb, hn]
      exact ⟨h1.filter _, fun e he => h2 e (List.mem_filter.1 he).1, h3, h4⟩
  | addAlias a u _ ih => exact ih
  | setSelfJoin eps _ ih => exact ih

theorem Reachable.candidates_nodup {r : DaemonRouter} (h : Reachable r) (msg : Message)
    (hu : msg.isUnicast = false) :
    r.candidates msg = r.nameTable.GetAllBusEndpoints ++ r.b2bEndpoints ∧
    (r.candidates msg).Nodup := by
  obtain ⟨h1, h2, h3, h4⟩ := h.invariant
  have hc : r.candidates msg = r.nameTable.GetAllBusEndpoints ++ r.b2bEndpoints := by
    simp [candidates, hu]
  refine ⟨hc, ?_⟩
  rw [hc]
  apply List.Nodup.append h1 h3
  intro e he1 he2
  exact h2 e he1 (h4 e he2)

theorem reply_events_foreign (cfg : BuildConfig) (env : Collaborators) (r : DaemonRouter)
    (msg : Message) (src : BusEndpoint) (e : Event)
    (h : e ∈ (match (r.routeMessage cfg env msg src).reply with
          | none => []
          | some reply => (r.routeMessage cfg env reply r.localEndpoint).events))
    (ep : BusEndpoint) : e.isSendOf ep (r.routedMessage env msg src) = false := by
  cases hrep : (r.routeMessage cfg env msg src).reply with
  | none => rw [hrep] at h; cases h
  | some reply =>
    rw [hrep] at h
    simp only at h
    cases e with
    | send ep1 m sid =>
      have h1 := (routeMessage_send_mem cfg env r reply r.localEndpoint ep1 m sid h).1
      have h2 := routeMessage_reply_some cfg env r msg src reply hrep
      have h3 : m.msgType = .MESSAGE_ERROR := by rw [h1, routedMessage_msgType, h2.2]
      have h4 : msg.msgType = .MESSAGE_METHOD_CALL := by
        have := h2.1
        simp only [Message.replyIsExpected, Bool.and_eq_true, beq_iff_eq] at this
        exact this.1
      have hne : m ≠ r.routedMessage env msg src := by
        intro heq
        rw [heq, routedMessage_msgType, h4] at h3
        cases h3
      simp [Event.isSendOf, hne]
    | routeSessionless _ _ => rfl
    | sessionlessPush _ => rfl

theorem countP_isSendOf_map (ep : BusEndpoint) (m : Message) (sid : SessionId)
    (l : List BusEndpoint) :
    (l.map (fun d => Event.send d m sid)).countP (Event.isSendOf ep m) = l.count ep := by
  induction l with
  | nil => rfl
  | cons d rest ih =>
    rw [List.map_cons, List.countP_cons, ih, List.count_cons]
    simp [Event.isSendOf]

theorem countP_isSendOf_handOff (env : Collaborators) (msg : Message) (src : BusEndpoint)
    (policyRejected : Bool) (ep : BusEndpoint) (m : Message) :
    (handOff env msg src policyRejected).2.countP (Event.isSendOf ep m) = 0 := by
  simp only [handOff]
  split_ifs <;> simp [Event.isSendOf]

/-- How often one pass of routing and the whole call hand the routed message to `ep`. -/
theorem PushMessage_countP (cfg : BuildConfig) (env : Collaborators) (r : DaemonRouter)
    (msg : Message) (src : BusEndpoint) (ep : BusEndpoint) :
    (PushMessage cfg env r msg src).events.countP
        (Event.isSendOf ep (r.routedMessage env msg src)) =
      (r.routeMessage cfg env msg src).events.countP
        (Event.isSendOf ep (r.routedMessage env msg src)) ∧
    ((r.routeMessage cfg env msg src).events.countP
        (Event.isSendOf ep (r.routedMessage env msg src)) = 0 ∨
     (r.routeMessage cfg env msg src).events.countP
        (Event.isSendOf ep (r.routedMessage env msg src)) =
      (r.filterEndpoints cfg env (r.routedMessage env msg src) src).destEps.count ep) := by
  constructor
  · rw [PushMessage_events, List.countP_append]
    have : List.countP (Event.isSendOf ep (r.routedMessage env msg src))
        (match (r.routeMessage cfg env msg src).reply with
          | none => []
          | some reply => (r.routeMessage cfg env reply r.localEndpoint).events) = 0 := by
      rw [List.countP_eq_zero]
      intro e he
      rw [reply_events_foreign cfg env r msg src e he ep]
      simp
    rw [this, Nat.add_zero]
  · rcases routeMessage_events cfg env r msg src with he | he
    · left; rw [he]; rfl
    · right
      rw [he, List.countP_append, countP_isSendOf_handOff, countP_isSendOf_map, Nat.zero_add]

/-- C4: in every router state that registration produces, a sessioncast message is handed
to every endpoint at most once per `PushMessage` call, and exactly once to an endpoint of the
destination set, whatever aliases the name table holds: the candidate list is the name-table
endpoints followed by the Bus2Bus set, it holds every endpoint once, and the destination set
is a sub-list of it in the same order. -/
theorem sessioncast_at_most_once (cfg : BuildConfig) (env : Collaborators) (r : DaemonRouter)
    (msg : Message) (src ep : BusEndpoint) (hr : Reachable r)
    (hcast : msg.isSessioncast = true) :
    r.candidates (r.routedMessage env msg src) =
      r.nameTable.GetAllBusEndpoints ++ r.b2bEndpoints ∧
    (r.candidates (r.routedMessage env msg src)).Nodup ∧
    List.Sublist (r.filterEndpoints cfg env (r.routedMessage env msg src) src).destEps
      (r.candidates (r.routedMessage env msg src)) ∧
    (PushMessage cfg env r msg src).events.countP
      (Event.isSendOf ep (r.routedMessage env msg src)) ≤ 1 ∧
    (src.epType ≠ .ENDPOINT_TYPE_VIRTUAL → r.localEndpoint.valid = true →
      ep ∈ (r.filterEndpoints cfg env (r.routedMessage env msg src) src).destEps →
      (PushMessage cfg env r msg src).events.countP
        (Event.isSendOf ep (r.routedMessage env msg src)) = 1) := by
  have hu : (r.routedMessage env msg src).isUnicast = false := by
    rw [routedMessage_isUnicast]
    simp only [Message.isSessioncast, Bool.and_eq_true, Bool.not_eq_true'] at hcast
    exact hcast.1
  obtain ⟨hc, hnd⟩ := hr.candidates_nodup (r.routedMessage env msg src) hu
  have hsub : List.Sublist (r.filterEndpoints cfg env (r.routedMessage env msg src) src).destEps
      (r.candidates (r.routedMessage env msg src)) := by
    rw [filterEndpoints_destEps]
    exact List.filter_sublist _
  have hnd2 := hnd.sublist hsub
  obtain ⟨hp1, hp2⟩ := PushMessage_countP cfg env r msg src ep
  refine ⟨hc, hnd, hsub, ?_, ?_⟩
  · rw [hp1]
    rcases hp2 with h | h
    · rw [h]; exact Nat.zero_le _
    · rw [h]; exact List.nodup_iff_count_le_one.1 hnd2 ep
  · intro hsrc hlep hmem
    rw [hp1, routeMessage_eq_routeCore cfg env r msg src hsrc hlep]
    simp only [routeCore, deliver_events, List.countP_append, countP_isSendOf_handOff,
      countP_isSendOf_map, Nat.zero_add]
    exact List.count_eq_one_of_mem hnd2 hmem

theorem scenario_router_reachable : Reachable Scenario.router := by
  have h : Reachable ([localEp, client, virt, memberA, memberB, b2b].foldl
      DaemonRouter.RegisterEndpoint DaemonRouter.init) := by
    simp only [List.foldl]
    exact (((((Reachable.init.register _).register _).register _).register _).register _).register _
  exact Reachable.setSelfJoin [(":1.3", 7)]
    (Reachable.addAlias "org.example.B2" ":1.4" (Reachable.addAlias "org.example.B" ":1.4" h))

/-- C4 witness: `memberB` owns two well-known aliases and is sent the sessioncast signal of
`memberA` once. -/
theorem sessioncast_at_most_once_witness :
    router.nameTable.aliasNames = [("org.example.B", ":1.4"), ("org.example.B2", ":1.4")] ∧
    (PushMessage plain env router (signal ":1.3" 7) memberA).events.countP
      (Event.isSendOf memberB (router.routedMessage env (signal ":1.3" 7) memberA)) = 1 :=
  ⟨by decide,
    (sessioncast_at_most_once plain env router (signal ":1.3" 7) memberA memberB
      scenario_router_reachable (by decide)).2.2.2.2 (by decide) (by decide) (by decide)⟩

/-- C3 witness: `memberA` self-joined session 7 and gets its own sessioncast signal,
`memberB` did not and is left out. -/
theorem self_join_delivery_witness :
    ((memberA ∈ (router.filterEndpoints plain env (signal ":1.3" 7) memberA).destEps ↔
      (memberA.uniqueName, (signal ":1.3" 7).sessionId) ∈ router.selfJoinEps)) ∧
    ((memberB.uniqueName, (signal ":1.4" 7).sessionId) ∉ router.selfJoinEps ∧
      memberB ∉ (router.filterEndpoints plain env (signal ":1.4" 7) memberB).destEps) :=
  ⟨(self_join_delivery plain env router (signal ":1.3" 7) memberA (by decide) (by decide)
      (by decide) (by decide) (by decide) (by decide) (by decide)).1,
    by decide,
    (self_join_delivery plain env router (signal ":1.4" 7) memberB (by decide) (by decide)
      (by decide) (by decide) (by decide) (by decide) (by decide)).2 (by decide)⟩

/-! ### C8, C9, C10: the status of a call -/

theorem earliestNonOk_mem (l : List QStatus) :
    earliestNonOk l = .ER_OK ∨ earliestNonOk l ∈ l := by
  induction l with
  | nil => exact Or.inl rfl
  | cons s rest ih =>
    simp only [earliestNonOk]
    split_ifs with h
    · rcases ih with ih | ih
      · exact Or.inl ih
      · exact Or.inr (List.mem_cons_of_mem _ ih)
    · exact Or.inr (List.mem_cons_self _ _)

theorem earliestNonOk_cons_ok (l : List QStatus) :
    earliestNonOk (.ER_OK :: l) = earliestNonOk l := by
  simp [earliestNonOk]

theorem earliestNonOk_append_ok (pre l : List QStatus) (h : ∀ s ∈ pre, s = .ER_OK) :
    earliestNonOk (pre ++ l) = earliestNonOk l := by
  induction pre with
  | nil => rfl
  | cons s rest ih =>
    have hs : s = .ER_OK := h s (List.mem_cons_self _ _)
    rw [List.cons_append, hs, earliestNonOk_cons_ok]
    exact ih (fun t ht => h t (List.mem_cons_of_mem _ ht))

/-- The hand-off either did not happen (status `ER_NONE`, no event) or made one call, whose
status is `ER_OK` for a Bus2Bus source and the status of the sessionless object otherwise. -/
theorem handOff_cases (env : Collaborators) (msg : Message) (src : BusEndpoint)
    (policyRejected : Bool) :
    (handOff env msg src policyRejected = (.ER_NONE, []) ∧
      handOffStatuses env msg src policyRejected = []) ∨
    (((handOff env msg src policyRejected).1 = .ER_OK ∨
      (handOff env msg src policyRejected).1 = env.sessionlessPushMessage msg) ∧
      handOffStatuses env msg src policyRejected = [(handOff env msg src policyRejected).1]) := by
  simp only [handOffStatuses, handOff]
  split_ifs <;> simp_all

theorem classify_of_ne_none (cfg : BuildConfig) (msg : Message) (src : BusEndpoint)
    (policyRejected : Bool) (status : QStatus) (h : status ≠ .ER_NONE) :
    classify cfg msg src policyRejected status = status := by
  simp [classify, h]

theorem classify_cases (cfg : BuildConfig) (msg : Message) (src : BusEndpoint)
    (policyRejected : Bool) (status : QStatus) :
    classify cfg msg src policyRejected status = status ∨
    classify cfg msg src policyRejected status = .ER_BUS_POLICY_VIOLATION ∨
    classify cfg msg src policyRejected status = .ER_BUS_NO_ROUTE ∨
    classify cfg msg src policyRejected status = .ER_OK := by
  simp only [classify, StatusCompatibilityOverride]
  split_ifs <;> simp

/-- The status of one pass of routing that reaches the filter loop. -/
theorem routeCore_status (cfg : BuildConfig) (env : Collaborators) (r : DaemonRouter)
    (m : Message) (src : BusEndpoint) :
    (r.routeCore cfg env m src).status =
      classify cfg m src (r.filterEndpoints cfg env m src).policyRejected
        (if (r.filterEndpoints cfg env m src).destEps = [] then
          (handOff env m src (r.filterEndpoints cfg env m src).policyRejected).1
        else
          earliestNonOk
            ((if (handOff env m src (r.filterEndpoints cfg env m src).policyRejected).1 = .ER_NONE
                then .ER_OK
                else (handOff env m src (r.filterEndpoints cfg env m src).policyRejected).1) ::
              (r.filterEndpoints cfg env m src).destEps.map
                (fun ep => SendThroughEndpoint env m ep (sendSessionId m)))) := by
  simp only [routeCore]
  congr 1
  by_cases h : (r.filterEndpoints cfg env m src).destEps = []
  · rw [if_pos h, h, deliver_nil]
  · rw [if_neg h, deliver_status _ _ _ _ h]
    simp only [beq_iff_eq]

theorem classify_cases_strict (cfg : BuildConfig) (msg : Message) (src : BusEndpoint)
    (policyRejected : Bool) (status : QStatus) :
    (status ≠ .ER_NONE ∧ classify cfg msg src policyRejected status = status) ∨
    classify cfg msg src policyRejected status = .ER_BUS_POLICY_VIOLATION ∨
    classify cfg msg src policyRejected status = .ER_BUS_NO_ROUTE ∨
    classify cfg msg src policyRejected status = .ER_OK := by
  simp only [classify, StatusCompatibilityOverride]
  split_ifs <;> simp_all

/-- The value of `status` after the delivery block is the hand-off status, `ER_OK` or the
status of one of the pushes. -/
theorem aggregate_mem (h : QStatus) (pushes : List QStatus) (P : Prop) [Decidable P] :
    (if P then h else earliestNonOk ((if h = .ER_NONE then .ER_OK else h) :: pushes)) = h ∨
    (if P then h else earliestNonOk ((if h = .ER_NONE then .ER_OK else h) :: pushes)) = .ER_OK ∨
    (if P then h else earliestNonOk ((if h = .ER_NONE then .ER_OK else h) :: pushes)) ∈ pushes := by
  by_cases hp : P
  · simp [hp]
  · simp only [hp, if_false]
    have hs0 : (if h = .ER_NONE then QStatus.ER_OK else h) = .ER_OK ∨
        (if h = .ER_NONE then QStatus.ER_OK else h) = h := by
      split_ifs <;> simp
    generalize (if h = .ER_NONE then QStatus.ER_OK else h) = s0 at hs0 ⊢
    rcases earliestNonOk_mem (s0 :: pushes) with hm | hm
    · exact Or.inr (Or.inl hm)
    · rcases List.mem_cons.1 hm with hm | hm
      · rcases hs0 with h0 | h0
        · right; left; rw [hm, h0]
        · left; rw [hm, h0]
      · exact Or.inr (Or.inr hm)

/-- C8 counterexample: the one destination's push fails with `ER_FAIL` and `PushMessage`
returns that status, which is none of the five. -/
theorem PushMessage_returns_push_status :
    SendThroughEndpoint failingEnv { call with flags := 1 } virt 0 = .ER_FAIL ∧
    (PushMessage plain failingEnv router { call with flags := 1 } client).status = .ER_FAIL ∧
    (PushMessage plain failingEnv router { call with flags := 1 } client).status ∉
      [QStatus.ER_OK, .ER_BUS_NO_ROUTE, .ER_BUS_POLICY_VIOLATION, .ER_BUS_ENDPOINT_CLOSING,
        .ER_BUS_STOPPING] := by
  refine ⟨by decide, ?_, ?_⟩
  · rw [PushMessage_status]; decide
  · rw [PushMessage_status]; decide

/-- C8 (amended): the status `PushMessage` returns is ER_OK, ER_BUS_NO_ROUTE,
ER_BUS_POLICY_VIOLATION or ER_BUS_ENDPOINT_CLOSING, or it is, unchanged, the status the
sessionless object's PushMessage returned or the status the push to one of the destinations
returned; so it is one of the five statuses when every collaborator returns one of them. -/
theorem PushMessage_status_range (cfg : BuildConfig) (env : Collaborators) (r : DaemonRouter)
    (msg : Message) (src : BusEndpoint) :
    ((PushMessage cfg env r msg src).status ∈
        [QStatus.ER_OK, .ER_BUS_NO_ROUTE, .ER_BUS_POLICY_VIOLATION, .ER_BUS_ENDPOINT_CLOSING] ∨
      (PushMessage cfg env r msg src).status =
        env.sessionlessPushMessage (r.routedMessage env msg src) ∨
      ∃ ep ∈ (r.filterEndpoints cfg env (r.routedMessage env msg src) src).destEps,
        (PushMessage cfg env r msg src).status =
          SendThroughEndpoint env (r.routedMessage env msg src) ep
            (sendSessionId (r.routedMessage env msg src))) ∧
    ((∀ m, env.sessionlessPushMessage m ∈
        [QStatus.ER_OK, .ER_BUS_NO_ROUTE, .ER_BUS_POLICY_VIOLATION, .ER_BUS_ENDPOINT_CLOSING,
          .ER_BUS_STOPPING]) →
      (∀ m ep sid, SendThroughEndpoint env m ep sid ∈
        [QStatus.ER_OK, .ER_BUS_NO_ROUTE, .ER_BUS_POLICY_VIOLATION, .ER_BUS_ENDPOINT_CLOSING,
          .ER_BUS_STOPPING]) →
      (PushMessage cfg env r msg src).status ∈
        [QStatus.ER_OK, .ER_BUS_NO_ROUTE, .ER_BUS_POLICY_VIOLATION, .ER_BUS_ENDPOINT_CLOSING,
          .ER_BUS_STOPPING]) := by
  have main : (PushMessage cfg env r msg src).status ∈
        [QStatus.ER_OK, .ER_BUS_NO_ROUTE, .ER_BUS_POLICY_VIOLATION, .ER_BUS_ENDPOINT_CLOSING] ∨
      (PushMessage cfg env r msg src).status =
        env.sessionlessPushMessage (r.routedMessage env msg src) ∨
      ∃ ep ∈ (r.filterEndpoints cfg env (r.routedMessage env msg src) src).destEps,
        (PushMessage cfg env r msg src).status =
          SendThroughEndpoint env (r.routedMessage env msg src) ep
            (sendSessionId (r.routedMessage env msg src)) := by
    rw [PushMessage_status]
    unfold routeMessage
    split_ifs with h1 h2
    · left; simp
    · left; simp
    · rw [routeCore_status]
      rcases classify_cases_strict cfg (r.routedMessage env msg src) src
        (r.filterEndpoints cfg env (r.routedMessage env msg src) src).policyRejected
        (if (r.filterEndpoints cfg env (r.routedMessage env msg src) src).destEps = [] then
          (handOff env (r.routedMessage env msg src) src
            (r.filterEndpoints cfg env (r.routedMessage env msg src) src).policyRejected).1
        else
          earliestNonOk
            ((if (handOff env (r.routedMessage env msg src) src
                (r.filterEndpoints cfg env (r.routedMessage env msg src) src).policyRejected).1
                  = .ER_NONE
                then .ER_OK
                else (handOff env (r.routedMessage env msg src) src
                  (r.filterEndpoints cfg env (r.routedMessage env msg src)
                    src).policyRejected).1) ::
              (r.filterEndpoints cfg env (r.routedMessage env msg src) src).destEps.map
                (fun ep => SendThroughEndpoint env (r.routedMessage env msg src) ep
                  (sendSessionId (r.routedMessage env msg src))))) with
        ⟨hne, hc⟩ | hc | hc | hc
      · rw [hc]
        rcases aggregate_mem _ _
          ((r.filterEndpoints cfg env (r.routedMessage env msg src) src).destEps = []) with h | h | h
        · rw [h]
          rw [h] at hne
          rcases handOff_cases env (r.routedMessage env msg src) src
            (r.filterEndpoints cfg env (r.routedMessage env msg src) src).policyRejected with
            ⟨hh, _⟩ | ⟨hh | hh, _⟩
          · rw [hh] at hne; exact absurd rfl hne
          · left; rw [hh]; simp
          · right; left; exact hh
        · left; rw [h]; simp
        · right; right
          obtain ⟨ep, hep, heq⟩ := List.mem_map.1 h
          exact ⟨ep, hep, heq.symm⟩
      · left; rw [hc]; simp
      · left; rw [hc]; simp
      · left; rw [hc]; simp
  refine ⟨main, ?_⟩
  intro hs hp
  rcases main with h | h | ⟨ep, _, h⟩
  · simp only [List.mem_cons, List.mem_singleton, List.mem_nil_iff, or_false] at h ⊢
    tauto
  · rw [h]; exact hs _
  · rw [h]; exact hp _ _ _

theorem earliestNonOk_ne_none (l : List QStatus) (h : ∀ s ∈ l, s ≠ .ER_NONE) :
    earliestNonOk l ≠ .ER_NONE := by
  rcases earliestNonOk_mem l with hm | hm
  · rw [hm]; decide
  · exact h _ hm

theorem earliestNonOk_cons_of_ne (s : QStatus) (l : List QStatus) (h : s ≠ .ER_OK) :
    earliestNonOk (s :: l) = s := by
  simp [earliestNonOk, h]

theorem earliestNonOk_singleton (s : QStatus) : earliestNonOk [s] = s := by
  by_cases h : s = .ER_OK <;> simp [earliestNonOk, h]

theorem reply_events_carry (cfg : BuildConfig) (env : Collaborators) (r : DaemonRouter)
    (msg : Message) (src : BusEndpoint) (e : Event)
    (h : e ∈ (match (r.routeMessage cfg env msg src).reply with
          | none => []
          | some reply => (r.routeMessage cfg env reply r.localEndpoint).events)) :
    e.carries (r.routedMessage env msg src) = false := by
  cases e with
  | send ep1 m sid =>
    have := reply_events_foreign cfg env r msg src _ h ep1
    simpa [Event.isSendOf, Event.carries] using this
  | routeSessionless _ _ => rfl
  | sessionlessPush _ => rfl

/-- The sends of a whole `PushMessage` call that carry the routed message: one for every
member of the destination set, in the order of the set. -/
theorem PushMessage_carried (cfg : BuildConfig) (env : Collaborators) (r : DaemonRouter)
    (msg : Message) (src : BusEndpoint) (hsrc : src.epType ≠ .ENDPOINT_TYPE_VIRTUAL)
    (hlep : r.localEndpoint.valid = true) :
    (PushMessage cfg env r msg src).events.filter (Event.carries (r.routedMessage env msg src)) =
      (r.filterEndpoints cfg env (r.routedMessage env msg src) src).destEps.map
        (fun ep => Event.send ep (r.routedMessage env msg src)
          (sendSessionId (r.routedMessage env msg src))) := by
  rw [PushMessage_events, List.filter_append]
  have h2 : List.filter (Event.carries (r.routedMessage env msg src))
      (match (r.routeMessage cfg env msg src).reply with
        | none => []
        | some reply => (r.routeMessage cfg env reply r.localEndpoint).events) = [] := by
    rw [List.filter_eq_nil_iff]
    intro e he
    rw [reply_events_carry cfg env r msg src e he]
    simp
  rw [h2, List.append_nil, routeMessage_eq_routeCore cfg env r msg src hsrc hlep]
  simp only [routeCore, deliver_events, List.filter_append]
  have h1 : List.filter (Event.carries (r.routedMessage env msg src))
      (handOff env (r.routedMessage env msg src) src
        (r.filterEndpoints cfg env (r.routedMessage env msg src) src).policyRejected).2 = [] := by
    simp only [handOff]
    split_ifs <;> simp [Event.carries]
  rw [h1, List.nil_append, List.filter_eq_self]
  intro e he
  obtain ⟨ep, _, heq⟩ := List.mem_map.1 he
  rw [← heq]
  simp [Event.carries]

/-- C9: every endpoint of the destination set is pushed to exactly once, in list order, and
the destination set does not depend on what the pushes return; the status `PushMessage`
returns is the earliest status that is not ER_OK in the sequence made of the sessionless
hand-off status (when there was a hand-off) and the push statuses in order, ER_OK when all of
them are ER_OK.  (The sequence is not empty and no collaborator returns the router's
"nothing delivered yet" marker ER_NONE.) -/
theorem delivery_aggregate (cfg : BuildConfig) (env : Collaborators) (r : DaemonRouter)
    (msg : Message) (src : BusEndpoint) (hsrc : src.epType ≠ .ENDPOINT_TYPE_VIRTUAL)
    (hlep : r.localEndpoint.valid = true)
    (hseq : handOffStatuses env (r.routedMessage env msg src) src
        (r.filterEndpoints cfg env (r.routedMessage env msg src) src).policyRejected ≠ [] ∨
      (r.filterEndpoints cfg env (r.routedMessage env msg src) src).destEps ≠ [])
    (hho : env.sessionlessPushMessage (r.routedMessage env msg src) ≠ .ER_NONE)
    (hpush : ∀ ep ∈ (r.filterEndpoints cfg env (r.routedMessage env msg src) src).destEps,
      SendThroughEndpoint env (r.routedMessage env msg src) ep
        (sendSessionId (r.routedMessage env msg src)) ≠ .ER_NONE) :
    (PushMessage cfg env r msg src).events.filter (Event.carries (r.routedMessage env msg src)) =
      (r.filterEndpoints cfg env (r.routedMessage env msg src) src).destEps.map
        (fun ep => Event.send ep (r.routedMessage env msg src)
          (sendSessionId (r.routedMessage env msg src))) ∧
    (∀ (p : BusEndpoint → Message → QStatus) (v : BusEndpoint → Message → SessionId → QStatus),
      r.filterEndpoints cfg { env with epPushMessage := p, virtualPushMessage := v }
          (r.routedMessage env msg src) src =
        r.filterEndpoints cfg env (r.routedMessage env msg src) src) ∧
    (PushMessage cfg env r msg src).status =
      earliestNonOk
        (handOffStatuses env (r.routedMessage env msg src) src
            (r.filterEndpoints cfg env (r.routedMessage env msg src) src).policyRejected ++
          (r.filterEndpoints cfg env (r.routedMessage env msg src) src).destEps.map
            (fun ep => SendThroughEndpoint env (r.routedMessage env msg src) ep
              (sendSessionId (r.routedMessage env msg src)))) := by
  refine ⟨PushMessage_carried cfg env r msg src hsrc hlep, fun p v => rfl, ?_⟩
  rw [PushMessage_status, routeMessage_eq_routeCore cfg env r msg src hsrc hlep, routeCore_status]
  have hpn : ∀ s ∈ (r.filterEndpoints cfg env (r.routedMessage env msg src) src).destEps.map
      (fun ep => SendThroughEndpoint env (r.routedMessage env msg src) ep
        (sendSessionId (r.routedMessage env msg src))), s ≠ .ER_NONE := by
    intro s hs
    obtain ⟨ep, hep, heq⟩ := List.mem_map.1 hs
    rw [← heq]; exact hpush ep hep
  rcases handOff_cases env (r.routedMessage env msg src) src
    (r.filterEndpoints cfg env (r.routedMessage env msg src) src).policyRejected with
    ⟨hh, hs⟩ | ⟨hh, hs⟩
  · have hd : (r.filterEndpoints cfg env (r.routedMessage env msg src) src).destEps ≠ [] := by
      rcases hseq with h | h
      · exact absurd hs h
      · exact h
    rw [hs, if_neg hd, hh, List.nil_append]
    simp only [if_true, earliestNonOk_cons_ok]
    exact classify_of_ne_none _ _ _ _ _ (earliestNonOk_ne_none _ hpn)
  · have hne : (handOff env (r.routedMessage env msg src) src
        (r.filterEndpoints cfg env (r.routedMessage env msg src) src).policyRejected).1
        ≠ .ER_NONE := by
      rcases hh with h | h
      · rw [h]; decide
      · rw [h]; exact hho
    rw [hs, if_neg hne]
    by_cases hd : (r.filterEndpoints cfg env (r.routedMessage env msg src) src).destEps = []
    · rw [if_pos hd, hd, List.map_nil, List.append_nil, earliestNonOk_singleton]
      exact classify_of_ne_none _ _ _ _ _ hne
    · rw [if_neg hd, List.singleton_append]
      apply classify_of_ne_none
      apply earliestNonOk_ne_none
      intro s hs2
      rcases List.mem_cons.1 hs2 with h | h
      · rw [h]; exact hne
      · exact hpn s h

/-- C10 counterexample: a sessioncast signal to session 7 goes to `memberA` and `memberB`;
the push to `memberA` reports ER_BUS_ENDPOINT_CLOSING, the push to `memberB` returns ER_OK,
and `PushMessage` returns ER_BUS_ENDPOINT_CLOSING. -/
theorem closing_status_escalated :
    (router.filterEndpoints plain closingEnv (signal ":1.3" 7) memberA).destEps =
      [memberA, memberB] ∧
    SendThroughEndpoint closingEnv (signal ":1.3" 7) memberA 7 = .ER_BUS_ENDPOINT_CLOSING ∧
    SendThroughEndpoint closingEnv (signal ":1.3" 7) memberB 7 = .ER_OK ∧
    (PushMessage plain closingEnv router (signal ":1.3" 7) memberA).events =
      [Event.send memberA (signal ":1.3" 7) 7, Event.send memberB (signal ":1.3" 7) 7] ∧
    (PushMessage plain closingEnv router (signal ":1.3" 7) memberA).status =
      .ER_BUS_ENDPOINT_CLOSING := by
  refine ⟨by decide, by decide, by decide, ?_, ?_⟩
  · rw [PushMessage_events]; decide
  · rw [PushMessage_status]; decide

/-- C10 (amended): an ER_BUS_ENDPOINT_CLOSING or ER_BUS_STOPPING status of a destination
does not stop the delivery to the other destinations, and it is aggregated like every other
status: when the hand-off and the pushes before it returned ER_OK, `PushMessage` returns that
closing or stopping status, whatever the later pushes return (ER_OK included). -/
theorem closing_status_returned (cfg : BuildConfig) (env : Collaborators) (r : DaemonRouter)
    (msg : Message) (src d : BusEndpoint) (pre post : List BusEndpoint)
    (hsrc : src.epType ≠ .ENDPOINT_TYPE_VIRTUAL) (hlep : r.localEndpoint.valid = true)
    (hdest : (r.filterEndpoints cfg env (r.routedMessage env msg src) src).destEps =
      pre ++ d :: post)
    (hho : ∀ s ∈ handOffStatuses env (r.routedMessage env msg src) src
      (r.filterEndpoints cfg env (r.routedMessage env msg src) src).policyRejected, s = .ER_OK)
    (hpre : ∀ ep ∈ pre, SendThroughEndpoint env (r.routedMessage env msg src) ep
      (sendSessionId (r.routedMessage env msg src)) = .ER_OK)
    (hd : SendThroughEndpoint env (r.routedMessage env msg src) d
        (sendSessionId (r.routedMessage env msg src)) = .ER_BUS_ENDPOINT_CLOSING ∨
      SendThroughEndpoint env (r.routedMessage env msg src) d
        (sendSessionId (r.routedMessage env msg src)) = .ER_BUS_STOPPING) :
    (PushMessage cfg env r msg src).status =
      SendThroughEndpoint env (r.routedMessage env msg src) d
        (sendSessionId (r.routedMessage env msg src)) ∧
    (PushMessage cfg env r msg src).events.filter (Event.carries (r.routedMessage env msg src)) =
      (pre ++ d :: post).map
        (fun ep => Event.send ep (r.routedMessage env msg src)
          (sendSessionId (r.routedMessage env msg src))) := by
  constructor
  · rw [PushMessage_status, routeMessage_eq_routeCore cfg env r msg src hsrc hlep,
      routeCore_status]
    have hne : (r.filterEndpoints cfg env (r.routedMessage env msg src) src).destEps ≠ [] := by
      rw [hdest]; simp
    have hs0 : (if (handOff env (r.routedMessage env msg src) src
        (r.filterEndpoints cfg env (r.routedMessage env msg src) src).policyRejected).1
          = .ER_NONE then QStatus.ER_OK
        else (handOff env (r.routedMessage env msg src) src
          (r.filterEndpoints cfg env (r.routedMessage env msg src) src).policyRejected).1)
        = .ER_OK := by
      rcases handOff_cases env (r.routedMessage env msg src) src
        (r.filterEndpoints cfg env (r.routedMessage env msg src) src).policyRejected with
        ⟨hh, _⟩ | ⟨_, hs⟩
      · rw [hh]; rfl
      · have := hho _ (by rw [hs]; exact List.mem_singleton_self _)
        rw [this]; rfl
    have hdne : SendThroughEndpoint env (r.routedMessage env msg src) d
        (sendSessionId (r.routedMessage env msg src)) ≠ .ER_OK ∧
        SendThroughEndpoint env (r.routedMessage env msg src) d
        (sendSessionId (r.routedMessage env msg src)) ≠ .ER_NONE := by
      rcases hd with h | h <;> rw [h] <;> exact ⟨by decide, by decide⟩
    rw [if_neg hne, hs0, earliestNonOk_cons_ok, hdest, List.map_append, List.map_cons,
      earliestNonOk_append_ok, earliestNonOk_cons_of_ne _ _ hdne.1]
    · exact classify_of_ne_none _ _ _ _ _ hdne.2
    · intro s hs
      obtain ⟨ep, hep, heq⟩ := List.mem_map.1 hs
      rw [← heq]; exact hpre ep hep
  · rw [PushMessage_carried cfg env r msg src hsrc hlep, hdest]

/-- C10 witness: the scenario of the counterexample. -/
theorem closing_status_returned_witness :
    (PushMessage plain closingEnv router (signal ":1.3" 7) memberA).status =
      .ER_BUS_ENDPOINT_CLOSING ∧
    (PushMessage plain closingEnv router (signal ":1.3" 7) memberA).events.filter
        (Event.carries (signal ":1.3" 7)) =
      [Event.send memberA (signal ":1.3" 7) 7, Event.send memberB (signal ":1.3" 7) 7] :=
  closing_status_returned plain closingEnv router (signal ":1.3" 7) memberA memberA [] [memberB]
    (by decide) (by decide) (by decide) (by decide) (by decide) (by decide)

/-- C9 witness: the sessionless broadcast signal of `client` is handed to the sessionless
object and then pushed to six endpoints in list order; the push to the fourth fails, the
push to the fifth reports a closing endpoint, and the sixth push is still made.  The status
of the call is the earliest status that is not ER_OK: `ER_FAIL`, and the status of the
hand-off when that is not ER_OK.  With one destination the status is that of its push. -/
theorem delivery_aggregate_witness :
    (router.filterEndpoints plain mixedEnv sessionlessSignal client).destEps =
      [localEp, client, virt, memberA, memberB, b2b] ∧
    (PushMessage plain mixedEnv router sessionlessSignal client).events.filter
        (Event.carries sessionlessSignal) =
      [Event.send localEp sessionlessSignal 0, Event.send client sessionlessSignal 0,
       Event.send virt sessionlessSignal 0, Event.send memberA sessionlessSignal 0,
       Event.send memberB sessionlessSignal 0, Event.send b2b sessionlessSignal 0] ∧
    handOffStatuses mixedEnv sessionlessSignal client false ++
        [localEp, client, virt, memberA, memberB, b2b].map
          (fun ep => SendThroughEndpoint mixedEnv sessionlessSignal ep 0) =
      [.ER_OK, .ER_OK, .ER_OK, .ER_OK, .ER_FAIL, .ER_BUS_ENDPOINT_CLOSING, .ER_OK] ∧
    (PushMessage plain mixedEnv router sessionlessSignal client).status = .ER_FAIL ∧
    (PushMessage plain stoppingEnv router sessionlessSignal client).status =
      .ER_BUS_STOPPING ∧
    (PushMessage plain closingEnv router (signal ":1.4" 7) memberB).status =
      .ER_BUS_ENDPOINT_CLOSING ∧
    (PushMessage plain env router (signal ":1.4" 7) memberB).status = .ER_OK := by
  have hm := delivery_aggregate plain mixedEnv router sessionlessSignal client (by decide)
    (by decide) (by decide) (by decide) (by decide)
  have hs := delivery_aggregate plain stoppingEnv router sessionlessSignal client (by decide)
    (by decide) (by decide) (by decide) (by decide)
  exact ⟨by decide, hm.1, by decide, hm.2.2, hs.2.2,
    (delivery_aggregate plain closingEnv router (signal ":1.4" 7) memberB (by decide) (by decide)
      (by decide) (by decide) (by decide)).2.2,
    (delivery_aggregate plain env router (signal ":1.4" 7) memberB (by decide) (by decide)
      (by decide) (by decide) (by decide)).2.2⟩

/-- C2 witness: the policy denies sending to `virt`, the only candidate of the call. -/
theorem policy_short_circuit_witness :
    virt ∉ (router.filterEndpoints withPolicy denyEnv call client).destEps ∧
    (PushMessage withPolicy denyEnv router call client).status = .ER_BUS_POLICY_VIOLATION :=
  ⟨(policy_short_circuit withPolicy denyEnv router call client virt (by decide)
      (Or.inl (by decide))).2.1,
    ((policy_short_circuit withPolicy denyEnv router call client virt (by decide)
      (Or.inl (by decide))).2.2.2 (by decide) (by decide) (by decide)).1⟩

end DaemonRouter

/-! ### C7: session key verifier -/

theorem verifierOf_some_eq (keymatter : List Nat) :
    BytesToHexString (verifierBytes keymatter) =
      verifierOf (some (fun i => ⟨keymatter.getD (AES128_SIZE + i.val) 0 % 256,
        Nat.mod_lt _ (by norm_num)⟩)) := rfl

theorem KeyGen_verifier_cases (env : KeyGenEnv) (ps : PeerVersionState) (seed : String)
    (role : Role) :
    (KeyGen env ps seed role).verifier = "" ∨
    ∃ keymatter, (KeyGen env ps seed role).verifier =
      BytesToHexString (verifierBytes keymatter) := by
  simp only [KeyGen]
  by_cases h1 : ((loadMasterSecret env ps).1 == QStatus.ER_OK) = true
  · simp only [h1, if_true]
    by_cases h2 : ((ps.authVersion &&& 255) % 2 ^ 8 == 0) = true
    · simp only [h2, if_true]
      by_cases h3 : ((env.pseudorandomFunction (loadMasterSecret env ps).2 "session key" seed
          (AES128_SIZE + VERIFIER_LEN)).1 == QStatus.ER_OK) = true
      · simp only [h3, if_true]
        exact Or.inr ⟨_, rfl⟩
      · simp only [h3]
        exact Or.inl rfl
    · simp only [h2]
      exact Or.inl rfl
  · simp only [h1]
    exact Or.inl rfl

theorem KeyGen_verifier_form (env : KeyGenEnv) (ps : PeerVersionState) (seed : String)
    (role : Role) :
    ∃ o : Option (Fin VERIFIER_LEN → Fin 256), (KeyGen env ps seed role).verifier = verifierOf o := by
  rcases KeyGen_verifier_cases env ps seed role with h | ⟨km, h⟩
  · exact ⟨none, h⟩
  · exact ⟨_, h.trans (verifierOf_some_eq km)⟩

theorem digitChar_injective_lt16 (a b : Fin 16) (h : Nat.digitChar a.val = Nat.digitChar b.val) :
    a = b := by
  revert a b
  decide

theorem hexNonce_injective : Function.Injective hexNonce := by
  intro f g h
  simp only [hexNonce] at h
  have h1 := congrArg String.data h
  simp only at h1
  have h2 := List.ofFn_injective h1
  funext i
  exact digitChar_injective_lt16 _ _ (congrFun h2 i)

/-- C7 counterexample: the verifier is twelve bytes of PRF output, so whatever the key store
and the pseudorandom function are, two different well-formed initiator nonces (strings of 56
hex digits) lead to the same verifier; no PRF makes every change of a nonce change the
verifier. -/
theorem verifier_not_injective :
    ¬ ∃ (env : KeyGenEnv) (ps : PeerVersionState) (replyNonce : String),
      ∀ f g : Fin (2 * NONCE_LEN) → Fin 16, hexNonce f ≠ hexNonce g →
        (KeyGen env ps (AuthenticatePeerSeed (hexNonce f) replyNonce) .INITIATOR).verifier ≠
        (KeyGen env ps (AuthenticatePeerSeed (hexNonce g) replyNonce) .INITIATOR).verifier := by
  rintro ⟨env, ps, replyNonce, hinj⟩
  choose F hF using fun f : Fin (2 * NONCE_LEN) → Fin 16 =>
    KeyGen_verifier_form env ps (AuthenticatePeerSeed (hexNonce f) replyNonce) .INITIATOR
  have hcard : Fintype.card (Option (Fin VERIFIER_LEN → Fin 256)) <
      Fintype.card (Fin (2 * NONCE_LEN) → Fin 16) := by
    simp only [Fintype.card_option, Fintype.card_fun, Fintype.card_fin, VERIFIER_LEN, NONCE_LEN]
    norm_num
  obtain ⟨f, g, hne, heq⟩ := Fintype.exists_ne_map_eq_of_card_lt F hcard
  apply hinj f g (fun h => hne (hexNonce_injective h))
  rw [hF f, hF g, heq]

open Scenario

theorem KeyGen_status_verifier (env : KeyGenEnv) (ps : PeerVersionState) (seed : String)
    (role : Role) :
    ((KeyGen env ps seed role).status, (KeyGen env ps seed role).verifier) =
      (if (loadMasterSecret env ps).1 == .ER_OK then
        (if (ps.authVersion &&& 0xFF) % 2 ^ 8 == 0 then
          (if (env.pseudorandomFunction (loadMasterSecret env ps).2 "session key" seed
              (AES128_SIZE + VERIFIER_LEN)).1 == .ER_OK then
            (QStatus.ER_OK, BytesToHexString (verifierBytes
              (env.pseudorandomFunction (loadMasterSecret env ps).2 "session key" seed
                (AES128_SIZE + VERIFIER_LEN)).2))
          else ((env.pseudorandomFunction (loadMasterSecret env ps).2 "session key" seed
              (AES128_SIZE + VERIFIER_LEN)).1, ""))
        else (.ER_CRYPTO_ILLEGAL_PARAMETERS, ""))
      else ((loadMasterSecret env ps).1, "")) := by
  simp only [KeyGen]
  by_cases h1 : ((loadMasterSecret env ps).1 == QStatus.ER_OK) = true
  · simp only [if_pos h1]
    by_cases h2 : ((ps.authVersion &&& 255) % 2 ^ 8 == 0) = true
    · simp only [if_pos h2]
      by_cases h3 : ((env.pseudorandomFunction (loadMasterSecret env ps).2 "session key" seed
          (AES128_SIZE + VERIFIER_LEN)).1 == QStatus.ER_OK) = true
      · simp only [if_pos h3]
      · simp only [if_neg h3]
    · simp only [if_neg h2]
      rfl
  · simp only [if_neg h1]

theorem seed_injective (n1 n1' n2 n2' : String) (hlen : n1.length = n1'.length)
    (h : n1 ++ n2 = n1' ++ n2') : n1 = n1' ∧ n2 = n2' := by
  have h1 := congrArg String.data h
  simp only [String.data_append] at h1
  have hl : n1.data.length = n1'.data.length := hlen
  have h2 := List.append_inj h1 hl
  exact ⟨String.ext h2.1, String.ext h2.2⟩

/-- C7 (amended): with the same master secret, the same pseudorandom function and the same
recorded version on both sides, the initiator and the responder pass the same seed to KeyGen
(initiator nonce followed by responder nonce) and get the same status and the same verifier
string, so the initiator's comparison of the verifiers passes; and a change of either nonce
(nonces have a fixed length) changes the seed.  That the verifier changes with it is not
guaranteed: it is twelve bytes of the PRF output. -/
theorem verifier_agreement (envI envR : KeyGenEnv) (psI psR : PeerVersionState)
    (nI nR : String)
    (hprf : envI.pseudorandomFunction = envR.pseudorandomFunction)
    (hms : loadMasterSecret envI psI = loadMasterSecret envR psR)
    (hver : psI.authVersion = psR.authVersion) :
    AuthenticatePeerSeed nI nR = GenSessionKeySeed nI nR ∧
    GenSessionKeySeed nI nR = nI ++ nR ∧
    (KeyGen envI psI (AuthenticatePeerSeed nI nR) .INITIATOR).status =
      (KeyGen envR psR (GenSessionKeySeed nI nR) .RESPONDER).status ∧
    (KeyGen envI psI (AuthenticatePeerSeed nI nR) .INITIATOR).verifier =
      (KeyGen envR psR (GenSessionKeySeed nI nR) .RESPONDER).verifier ∧
    (∀ (localGuid v : String) (res : KeyGenResult),
      GenSessionKey envR localGuid psR localGuid nI nR = (.args nR v, res) →
      (AuthenticatePeerKeyGen envI psI nI nR v).1 = .ER_OK) ∧
    (∀ n1 n1' n2 n2' : String, n1.length = n1'.length →
      AuthenticatePeerSeed n1 n2 = AuthenticatePeerSeed n1' n2' → n1 = n1' ∧ n2 = n2') := by
  have hsv : ((KeyGen envI psI (AuthenticatePeerSeed nI nR) .INITIATOR).status,
      (KeyGen envI psI (AuthenticatePeerSeed nI nR) .INITIATOR).verifier) =
      ((KeyGen envR psR (GenSessionKeySeed nI nR) .RESPONDER).status,
        (KeyGen envR psR (GenSessionKeySeed nI nR) .RESPONDER).verifier) := by
    rw [KeyGen_status_verifier, KeyGen_status_verifier, hprf, hms, hver]
    rfl
  have hst := congrArg Prod.fst hsv
  have hvf := congrArg Prod.snd hsv
  simp only at hst hvf
  refine ⟨rfl, rfl, hst, hvf, ?_, ?_⟩
  · intro localGuid v res hreply
    simp only [GenSessionKey, bne_self_eq_false, Bool.false_eq_true, if_false] at hreply
    split_ifs at hreply with hok
    · injection hreply with h1 h2
      injection h1 with h3 h4
      simp only [beq_iff_eq] at hok
      simp only [AuthenticatePeerKeyGen]
      rw [hst, hvf, hok, h4]
      simp
    · injection hreply with h1 h2
      cases h1
  · intro n1 n1' n2 n2' hlen h
    exact seed_injective n1 n1' n2 n2' hlen h

/-- C7 witness: one key store, one PRF and the nonces "AB" and "CD": both roles derive a key
and compute the same verifier. -/
theorem verifier_agreement_witness :
    (KeyGen keyEnv peer (GenSessionKeySeed "AB" "CD") .RESPONDER).status = .ER_OK ∧
    (KeyGen keyEnv peer (AuthenticatePeerSeed "AB" "CD") .INITIATOR).verifier =
      (KeyGen keyEnv peer (GenSessionKeySeed "AB" "CD") .RESPONDER).verifier :=
  ⟨by decide, (verifier_agreement keyEnv keyEnv peer peer "AB" "CD" rfl rfl rfl).2.2.2.1⟩

/-! ### C17: the supported suites -/

theorem splitMechanisms_ne_nil (cs mech : List Char) : splitMechanisms cs mech ≠ [] := by
  induction cs generalizing mech with
  | nil => simp [splitMechanisms]
  | cons c cs ih =>
    unfold splitMechanisms
    split
    · simp
    · exact ih _

theorem intercalate_cons_of_ne_nil {α : Type} (sep a : List α) (l : List (List α)) (h : l ≠ []) :
    sep.intercalate (a :: l) = a ++ sep ++ sep.intercalate l := by
  cases l with
  | nil => exact absurd rfl h
  | cons b l => simp [List.intercalate, List.intersperse]

theorem splitMechanisms_intercalate (cs mech : List Char) :
    [' '].intercalate (splitMechanisms cs mech) = mech ++ cs := by
  induction cs generalizing mech with
  | nil => simp [splitMechanisms, List.intercalate]
  | cons c cs ih =>
    unfold splitMechanisms
    by_cases hc : c = ' '
    · subst hc
      rw [if_pos (by rfl), intercalate_cons_of_ne_nil _ _ _ (splitMechanisms_ne_nil _ _), ih]
      simp
    · rw [if_neg (by simpa using hc), ih]
      simp

theorem splitMechanisms_no_space (cs mech : List Char) :
    ∀ t ∈ splitMechanisms cs mech, ' ' ∈ t → ' ' ∈ mech := by
  induction cs generalizing mech with
  | nil => simp [splitMechanisms]
  | cons c cs ih =>
    unfold splitMechanisms
    by_cases hc : c = ' '
    · subst hc
      rw [if_pos (by rfl)]
      intro t ht hs
      rcases List.mem_cons.1 ht with rfl | ht
      · exact hs
      · exact absurd (ih [] t ht hs) (by simp)
    · rw [if_neg (by simpa using hc)]
      intro t ht hs
      have := ih _ t ht hs
      rcases List.mem_append.1 this with h | h
      · exact h
      · simp at h; exact absurd h.symm hc

theorem mechanismSuite_spec (mech : String) (e : SortableAuthSuite)
    (h : mechanismSuite mech = some e) :
    suiteOfName mech = some e.suite ∧ precedenceWeight e.suite = e.weight := by
  unfold mechanismSuite at h
  unfold suiteOfName
  split_ifs at h <;> simp at h <;> subst h <;> simp_all <;> decide

theorem mechanismSuite_none (mech : String) :
    mechanismSuite mech = none ↔ suiteOfName mech = none := by
  unfold mechanismSuite suiteOfName
  split_ifs <;> simp_all


theorem mechanismSuite_map (mech : String) :
    (mechanismSuite mech).map (fun e => e.suite) = suiteOfName mech := by
  cases h : mechanismSuite mech with
  | none => simp [(mechanismSuite_none mech).1 h]
  | some e => simp [(mechanismSuite_spec mech e h).1]

theorem SetupPeerAuthentication_snd (authMechanisms : String) :
    (SetupPeerAuthentication authMechanisms).2 =
      ((parseSuiteList authMechanisms).insertionSort (fun a b => a.weight ≥ b.weight)).map
        (fun s => s.suite) := by
  unfold SetupPeerAuthentication
  by_cases h : (parseSuiteList authMechanisms).length = 0
  · have h0 : parseSuiteList authMechanisms = [] := List.length_eq_zero.1 h
    simp [h0]
  · simp [h]

theorem parseSuiteList_suites (authMechanisms : String) :
    (parseSuiteList authMechanisms).map (fun s => s.suite) =
      (mechanismTokens authMechanisms).filterMap suiteOfName := by
  unfold parseSuiteList mechanismTokens
  rw [List.map_filterMap, List.filterMap_map]
  congr 1
  funext t
  simp [mechanismSuite_map]

theorem parseSuiteList_weight (authMechanisms : String) (e : SortableAuthSuite)
    (h : e ∈ parseSuiteList authMechanisms) : precedenceWeight e.suite = e.weight := by
  unfold parseSuiteList at h
  obtain ⟨t, _, ht⟩ := List.mem_filterMap.1 h
  exact (mechanismSuite_spec _ e ht).2

theorem supported_perm (authMechanisms : String) :
    List.Perm (SetupPeerAuthentication authMechanisms).2
      ((mechanismTokens authMechanisms).filterMap suiteOfName) := by
  rw [SetupPeerAuthentication_snd, ← parseSuiteList_suites]
  exact (List.perm_insertionSort _ _).map _

theorem supported_sorted (authMechanisms : String) :
    List.Pairwise (fun a b => precedenceWeight a ≥ precedenceWeight b)
      (SetupPeerAuthentication authMechanisms).2 := by
  rw [SetupPeerAuthentication_snd, List.pairwise_map]
  haveI : IsTotal SortableAuthSuite (fun a b => a.weight ≥ b.weight) :=
    ⟨fun a b => Nat.le_total b.weight a.weight⟩
  haveI : IsTrans SortableAuthSuite (fun a b => a.weight ≥ b.weight) :=
    ⟨fun a b c hab hbc => Nat.le_trans hbc hab⟩
  have hs := List.sorted_insertionSort (fun a b : SortableAuthSuite => a.weight ≥ b.weight)
    (parseSuiteList authMechanisms)
  refine List.Pairwise.imp_of_mem ?_ hs
  intro a b ha hb hab
  have ha1 := (List.perm_insertionSort _ _).mem_iff.1 ha
  have hb1 := (List.perm_insertionSort _ _).mem_iff.1 hb
  rw [parseSuiteList_weight _ a ha1, parseSuiteList_weight _ b hb1]
  exact hab

theorem precedenceWeight_inverse (s : Nat) (h : 0 < precedenceWeight s) :
    s = (fun w : Nat =>
      if w = 8 then AUTH_SUITE_ECDHE_ECDSA else if w = 7 then AUTH_SUITE_GSSAPI
      else if w = 6 then AUTH_SUITE_ECDHE_PSK else if w = 5 then AUTH_SUITE_SRP_LOGON
      else if w = 4 then AUTH_SUITE_SRP_KEYX else if w = 3 then AUTH_SUITE_ECDHE_NULL
      else if w = 2 then AUTH_SUITE_EXTERNAL else AUTH_SUITE_ANONYMOUS) (precedenceWeight s) := by
  unfold precedenceWeight at *
  split_ifs at h ⊢ <;> simp_all

theorem precedenceWeight_injOn (a b : Nat) (ha : 0 < precedenceWeight a)
    (h : precedenceWeight a = precedenceWeight b) : a = b := by
  rw [precedenceWeight_inverse a ha, precedenceWeight_inverse b (h ▸ ha), h]

theorem suiteOfName_weight (name : String) (s : Nat) (h : suiteOfName name = some s) :
    0 < precedenceWeight s := by
  unfold suiteOfName at h
  split_ifs at h <;> simp at h <;> subst h <;> decide

theorem sorted_suites_unique (l1 l2 : List Nat) (hp : List.Perm l1 l2)
    (hpos : ∀ s ∈ l1, 0 < precedenceWeight s)
    (h1 : List.Pairwise (fun a b => precedenceWeight a ≥ precedenceWeight b) l1)
    (h2 : List.Pairwise (fun a b => precedenceWeight a ≥ precedenceWeight b) l2) : l1 = l2 := by
  induction l1 generalizing l2 with
  | nil => exact (List.Perm.nil_eq hp)
  | cons a l1 ih =>
    cases l2 with
    | nil => exact absurd hp.symm.nil_eq (by simp)
    | cons b l2 =>
      have ha : 0 < precedenceWeight a := hpos a (List.mem_cons_self _ _)
      have hb : 0 < precedenceWeight b := by
        have : b ∈ a :: l1 := hp.mem_iff.2 (List.mem_cons_self _ _)
        exact hpos b this
      have hab : a = b := by
        have h1' := List.pairwise_cons.1 h1
        have h2' := List.pairwise_cons.1 h2
        have ha2 : a ∈ b :: l2 := hp.mem_iff.1 (List.mem_cons_self _ _)
        have hb1 : b ∈ a :: l1 := hp.mem_iff.2 (List.mem_cons_self _ _)
        rcases List.mem_cons.1 ha2 with h | h
        · exact h
        · rcases List.mem_cons.1 hb1 with h' | h'
          · exact h'.symm
          · exact precedenceWeight_injOn a b ha
              (Nat.le_antisymm (h2'.1 a h) (h1'.1 b h'))
      subst hab
      congr 1
      exact ih l2 (List.Perm.cons_inv hp) (fun s hs => hpos s (List.mem_cons_of_mem _ hs))
        (List.pairwise_cons.1 h1).2 (List.pairwise_cons.1 h2).2

theorem supported_pos (authMechanisms : String) :
    ∀ s ∈ (SetupPeerAuthentication authMechanisms).2, 0 < precedenceWeight s := by
  intro s hs
  have := (supported_perm authMechanisms).mem_iff.1 hs
  obtain ⟨t, _, ht⟩ := List.mem_filterMap.1 this
  exact suiteOfName_weight t s ht

/-- C17: after `SetupPeerAuthentication` the supported suites are the suites of the
recognized tokens of the space-separated mechanism string, one entry for every occurrence,
in non-increasing order of precedence weight; the list is the same for every order of the
tokens, and empty when no token is recognized. -/
theorem SetupPeerAuthentication_supported (authMechanisms : String) :
    ([' '].intercalate ((mechanismTokens authMechanisms).map String.data) = authMechanisms.data ∧
      ∀ t ∈ mechanismTokens authMechanisms, ' ' ∉ t.data) ∧
    List.Perm (SetupPeerAuthentication authMechanisms).2
      ((mechanismTokens authMechanisms).filterMap suiteOfName) ∧
    List.Pairwise (fun a b => precedenceWeight a ≥ precedenceWeight b)
      (SetupPeerAuthentication authMechanisms).2 ∧
    (∀ other : String,
      List.Perm (mechanismTokens other) (mechanismTokens authMechanisms) →
        (SetupPeerAuthentication other).2 = (SetupPeerAuthentication authMechanisms).2) ∧
    ((∀ t ∈ mechanismTokens authMechanisms, suiteOfName t = none) →
      (SetupPeerAuthentication authMechanisms).2 = []) := by
  refine ⟨⟨?_, ?_⟩, supported_perm _, supported_sorted _, ?_, ?_⟩
  · unfold mechanismTokens
    rw [List.map_map]
    have : (String.data ∘ String.mk) = id := by funext t; rfl
    rw [this, List.map_id, splitMechanisms_intercalate]
    rfl
  · intro t ht hs
    unfold mechanismTokens at ht
    obtain ⟨u, hu, rfl⟩ := List.mem_map.1 ht
    exact absurd (splitMechanisms_no_space _ _ u hu hs) (by simp)
  · intro other hp
    apply sorted_suites_unique _ _ _ (supported_pos other) (supported_sorted other)
      (supported_sorted authMechanisms)
    exact (supported_perm other).trans ((hp.filterMap _).trans (supported_perm authMechanisms).symm)
  · intro hnone
    have hp := supported_perm authMechanisms
    have : (mechanismTokens authMechanisms).filterMap suiteOfName = [] := by
      rw [List.filterMap_eq_nil_iff]
      exact hnone
    rw [this] at hp
    exact List.Perm.eq_nil hp

/-! ### C18, C19: the suites of `ExchangeSuites` -/

theorem acceptsSuite_iff (peerAuthVersion : Nat) (remoteSuites : List Nat) (suite : Nat) :
    acceptsSuite peerAuthVersion remoteSuites suite = true ↔
      suite ∈ remoteSuites ∧ versionAdmits peerAuthVersion suite = true := by
  unfold acceptsSuite versionAdmits
  by_cases hm : suite ∈ remoteSuites
  · have hany : (remoteSuites.any fun rs => suite == rs) = true := by
      simp only [List.any_eq_true]; exact ⟨suite, hm, by simp⟩
    rw [if_pos hany]
    by_cases he : suite = AUTH_SUITE_ECDHE_ECDSA
    · subst he
      simp [hm, Nat.not_le]
    · simp [he, hm]
  · have hany : ¬ (remoteSuites.any fun rs => suite == rs) = true := by
      simp only [List.any_eq_true, not_exists, not_and]
      intro x hx hxe
      have : suite = x := by simpa using hxe
      exact hm (this ▸ hx)
    rw [if_neg hany]
    simp [hm]

/-- C18 (as the code has it): when the responder supports at least one suite and the
arguments of the call are read, the reply of the `ExchangeSuites` handler is the supported
list restricted to the suites that the remote peer offered and that the version of the peer
admits.  So every entry is offered and supported, the entries keep the order of the supported
list (non-increasing weight when that list is so ordered), every mutually supported suite that
the version admits is in the reply, and the first ECDHE entry weighs at least as much as every
mutually supported ECDHE suite that the version admits.  A responder without supported suites
replies with the one entry 0 to the same call. -/
theorem ExchangeSuites_reply (supportedAuthSuites : List Nat) (peerAuthVersion : Nat)
    (remoteSuites : List Nat) (hsupp : supportedAuthSuites ≠ []) :
    (∃ reply, ExchangeSuites supportedAuthSuites peerAuthVersion .ER_OK remoteSuites = .ok reply ∧
      (∀ s ∈ reply, s ∈ remoteSuites ∧ s ∈ supportedAuthSuites) ∧
      List.Sublist reply supportedAuthSuites ∧
      (∀ s, s ∈ reply ↔
        s ∈ supportedAuthSuites ∧ s ∈ remoteSuites ∧ versionAdmits peerAuthVersion s = true) ∧
      (List.Pairwise (fun a b => precedenceWeight a ≥ precedenceWeight b) supportedAuthSuites →
        List.Pairwise (fun a b => precedenceWeight a ≥ precedenceWeight b) reply ∧
        ∀ first, reply.find? isECDHE = some first →
          ∀ s, s ∈ supportedAuthSuites → s ∈ remoteSuites → isECDHE s = true →
            versionAdmits peerAuthVersion s = true →
            precedenceWeight s ≤ precedenceWeight first)) ∧
    ExchangeSuites [] peerAuthVersion .ER_OK remoteSuites = .ok [0] := by
  refine ⟨?_, rfl⟩
  have hlen : ¬ supportedAuthSuites.length = 0 := fun h => hsupp (List.length_eq_zero.1 h)
  have hmem : ∀ s, s ∈ supportedAuthSuites.filter (acceptsSuite peerAuthVersion remoteSuites) ↔
      s ∈ supportedAuthSuites ∧ s ∈ remoteSuites ∧ versionAdmits peerAuthVersion s = true := by
    intro s
    rw [List.mem_filter, acceptsSuite_iff]
  refine ⟨supportedAuthSuites.filter (acceptsSuite peerAuthVersion remoteSuites), ?_, ?_, ?_,
    hmem, ?_⟩
  · simp [ExchangeSuites, hlen]
  · intro s hs
    have := (hmem s).1 hs
    exact ⟨this.2.1, this.1⟩
  · exact List.filter_sublist _
  · intro hsorted
    have hsub : List.Pairwise (fun a b => precedenceWeight a ≥ precedenceWeight b)
        (supportedAuthSuites.filter (acceptsSuite peerAuthVersion remoteSuites)) :=
      hsorted.sublist (List.filter_sublist _)
    refine ⟨hsub, ?_⟩
    intro first hfirst s hs hr he hv
    have hsin : s ∈ supportedAuthSuites.filter (acceptsSuite peerAuthVersion remoteSuites) :=
      (hmem s).2 ⟨hs, hr, hv⟩
    generalize supportedAuthSuites.filter (acceptsSuite peerAuthVersion remoteSuites) = l
      at hsub hfirst hsin
    induction l with
    | nil => simp at hsin
    | cons a l ih =>
      rw [List.find?_cons] at hfirst
      have hp := List.pairwise_cons.1 hsub
      by_cases ha : isECDHE a = true
      · rw [ha] at hfirst
        have : a = first := by simpa using hfirst
        subst this
        rcases List.mem_cons.1 hsin with h | h
        · rw [h]
        · exact hp.1 s h
      · have ha' : isECDHE a = false := by simpa using ha
        rw [ha'] at hfirst
        rcases List.mem_cons.1 hsin with h | h
        · rw [h, ha'] at he; exact absurd he (by simp)
        · exact ih hp.2 hfirst h

/-- The witness of C18: a responder that supports ECDHE_ECDSA, SRP_KEYX and ECDHE_NULL. -/
theorem ExchangeSuites_reply_witness :
    ∃ reply, ExchangeSuites [AUTH_SUITE_ECDHE_ECDSA, AUTH_SUITE_SRP_KEYX, AUTH_SUITE_ECDHE_NULL]
        0x00040000 .ER_OK [AUTH_SUITE_ECDHE_NULL, AUTH_SUITE_ECDHE_ECDSA] = .ok reply ∧
      (∀ s ∈ reply, s ∈ [AUTH_SUITE_ECDHE_NULL, AUTH_SUITE_ECDHE_ECDSA] ∧
        s ∈ [AUTH_SUITE_ECDHE_ECDSA, AUTH_SUITE_SRP_KEYX, AUTH_SUITE_ECDHE_NULL]) ∧
      List.Sublist reply [AUTH_SUITE_ECDHE_ECDSA, AUTH_SUITE_SRP_KEYX, AUTH_SUITE_ECDHE_NULL] ∧
      (∀ s, s ∈ reply ↔
        s ∈ [AUTH_SUITE_ECDHE_ECDSA, AUTH_SUITE_SRP_KEYX, AUTH_SUITE_ECDHE_NULL] ∧
          s ∈ [AUTH_SUITE_ECDHE_NULL, AUTH_SUITE_ECDHE_ECDSA] ∧
          versionAdmits 0x00040000 s = true) ∧
      (List.Pairwise (fun a b => precedenceWeight a ≥ precedenceWeight b)
          [AUTH_SUITE_ECDHE_ECDSA, AUTH_SUITE_SRP_KEYX, AUTH_SUITE_ECDHE_NULL] →
        List.Pairwise (fun a b => precedenceWeight a ≥ precedenceWeight b) reply ∧
        ∀ first, reply.find? isECDHE = some first →
          ∀ s, s ∈ [AUTH_SUITE_ECDHE_ECDSA, AUTH_SUITE_SRP_KEYX, AUTH_SUITE_ECDHE_NULL] →
            s ∈ [AUTH_SUITE_ECDHE_NULL, AUTH_SUITE_ECDHE_ECDSA] → isECDHE s = true →
            versionAdmits 0x00040000 s = true →
            precedenceWeight s ≤ precedenceWeight first) :=
  (ExchangeSuites_reply [AUTH_SUITE_ECDHE_ECDSA, AUTH_SUITE_SRP_KEYX, AUTH_SUITE_ECDHE_NULL]
    0x00040000 [AUTH_SUITE_ECDHE_NULL, AUTH_SUITE_ECDHE_ECDSA] (by decide)).1

/-- The reply of the witness of C18: ECDHE_ECDSA first, then ECDHE_NULL. -/
theorem ExchangeSuites_reply_example :
    ExchangeSuites [AUTH_SUITE_ECDHE_ECDSA, AUTH_SUITE_SRP_KEYX, AUTH_SUITE_ECDHE_NULL]
        0x00040000 .ER_OK [AUTH_SUITE_ECDHE_NULL, AUTH_SUITE_ECDHE_ECDSA] =
      .ok [AUTH_SUITE_ECDHE_ECDSA, AUTH_SUITE_ECDHE_NULL] := rfl

/-- C18 fails as stated.  A responder without supported suites replies with the one entry 0,
which is neither offered nor supported; and for a peer of auth version 2 the reply leaves out
ECDHE_ECDSA although both sides support it, so its first ECDHE entry, ECDHE_NULL, is not the
strongest mutually supported ECDHE suite. -/
theorem ExchangeSuites_reply_not_mutual :
    (ExchangeSuites [] 0x00040000 .ER_OK [AUTH_SUITE_ECDHE_NULL] = .ok [0] ∧
      0 ∉ [AUTH_SUITE_ECDHE_NULL] ∧ 0 ∉ ([] : List Nat)) ∧
    (ExchangeSuites [AUTH_SUITE_ECDHE_ECDSA, AUTH_SUITE_ECDHE_NULL] 0x00020000 .ER_OK
        [AUTH_SUITE_ECDHE_ECDSA, AUTH_SUITE_ECDHE_NULL] = .ok [AUTH_SUITE_ECDHE_NULL] ∧
      authV 0x00020000 = 2 ∧
      AUTH_SUITE_ECDHE_ECDSA ∈ [AUTH_SUITE_ECDHE_ECDSA, AUTH_SUITE_ECDHE_NULL] ∧
      isECDHE AUTH_SUITE_ECDHE_ECDSA = true ∧
      precedenceWeight AUTH_SUITE_ECDHE_NULL < precedenceWeight AUTH_SUITE_ECDHE_ECDSA) :=
  ⟨⟨rfl, by decide, by decide⟩, rfl, by decide, by decide, by decide, by decide⟩

/-- C19: for a peer of auth version at most 2 the list `AskForAuthSuites` offers is the
supported list without its ECDHE_ECDSA entries, and no reply of the `ExchangeSuites` handler
holds ECDHE_ECDSA; for a peer of auth version 3 or more the offered list is the supported
list, and the handler keeps ECDHE_ECDSA when it is supported and offered.  The offered list is
the argument of the one `ExchangeSuites` call that `AskForAuthSuites` makes. -/
theorem ecdsa_version_gate (supportedAuthSuites : List Nat) (peerAuthVersion : Nat) :
    (∀ env : AuthEnv, supportedAuthSuites ≠ [] →
      (AskForAuthSuites env supportedAuthSuites peerAuthVersion).2.2 =
        [.exchangeSuites (offeredAuthSuites supportedAuthSuites peerAuthVersion)]) ∧
    (peerAuthVersion >>> 16 ≤ 2 →
      offeredAuthSuites supportedAuthSuites peerAuthVersion =
        supportedAuthSuites.filter (fun s => s != AUTH_SUITE_ECDHE_ECDSA) ∧
      List.Sublist (offeredAuthSuites supportedAuthSuites peerAuthVersion) supportedAuthSuites ∧
      ∀ argStatus remoteSuites reply,
        ExchangeSuites supportedAuthSuites peerAuthVersion argStatus remoteSuites = .ok reply →
          AUTH_SUITE_ECDHE_ECDSA ∉ reply) ∧
    (3 ≤ peerAuthVersion >>> 16 →
      offeredAuthSuites supportedAuthSuites peerAuthVersion = supportedAuthSuites ∧
      ∀ remoteSuites, AUTH_SUITE_ECDHE_ECDSA ∈ supportedAuthSuites →
        AUTH_SUITE_ECDHE_ECDSA ∈ remoteSuites →
        ∃ reply, ExchangeSuites supportedAuthSuites peerAuthVersion .ER_OK remoteSuites =
            .ok reply ∧ AUTH_SUITE_ECDHE_ECDSA ∈ reply) := by
  refine ⟨?_, ?_, ?_⟩
  · intro env hne
    have hlen : ¬ supportedAuthSuites.length = 0 := fun h => hne (List.length_eq_zero.1 h)
    unfold AskForAuthSuites
    simp only [beq_iff_eq, hlen, if_false]
    split
    · rfl
    · split <;> rfl
  · intro hv
    have hv' : peerAuthVersion >>> 16 ≤ NON_ECDSA_X509_VERSION := hv
    have hoff : offeredAuthSuites supportedAuthSuites peerAuthVersion =
        supportedAuthSuites.filter (fun s => s != AUTH_SUITE_ECDHE_ECDSA) := by
      unfold offeredAuthSuites
      by_cases hany : (supportedAuthSuites.any fun s => s == AUTH_SUITE_ECDHE_ECDSA) = true
      · simp [hv', hany]
      · simp only [hany, Bool.and_false]
        simp only [Bool.false_eq_true, if_false]
        symm
        rw [List.filter_eq_self]
        intro s hs
        simp only [List.any_eq_true, not_exists, not_and] at hany
        have := hany s hs
        simpa using this
    refine ⟨hoff, ?_, ?_⟩
    · rw [hoff]; exact List.filter_sublist _
    · intro argStatus remoteSuites reply hreply
      unfold ExchangeSuites at hreply
      split at hreply
      · cases hreply
      · split at hreply
        · injection hreply with h
          subst h
          decide
        · injection hreply with h
          subst h
          intro hmem
          have := (List.mem_filter.1 hmem).2
          rw [acceptsSuite_iff] at this
          have hva := this.2
          unfold versionAdmits at hva
          simp at hva
          exact absurd hva (Nat.not_lt.2 hv')
  · intro hv
    have hv' : ¬ peerAuthVersion >>> 16 ≤ NON_ECDSA_X509_VERSION := by
      show ¬ peerAuthVersion >>> 16 ≤ 2
      omega
    refine ⟨?_, ?_⟩
    · unfold offeredAuthSuites
      simp [hv']
    · intro remoteSuites hs hr
      have hlen : ¬ supportedAuthSuites.length = 0 := by
        intro h
        rw [List.length_eq_zero.1 h] at hs
        simp at hs
      refine ⟨supportedAuthSuites.filter (acceptsSuite peerAuthVersion remoteSuites), ?_, ?_⟩
      · simp [ExchangeSuites, hlen]
      · rw [List.mem_filter, acceptsSuite_iff]
        refine ⟨hs, hr, ?_⟩
        unfold versionAdmits
        simp [Nat.lt_of_not_le hv']

/-! ### The calls of the conversations -/

theorem UseKeyExchanger_iff (peerAuthVersion : Nat) (authMaskList : List Nat) :
    UseKeyExchanger peerAuthVersion authMaskList = true ↔
      2 ≤ authV peerAuthVersion ∧ ∃ s ∈ authMaskList, isECDHE s = true := by
  unfold UseKeyExchanger isECDHE
  by_cases h : authV peerAuthVersion < 2
  · simp [h]
  · simp only [h, if_false, List.any_eq_true]
    constructor
    · intro hx; exact ⟨by omega, hx⟩
    · intro hx; exact hx.2

theorem keyExchangeAttempt_events (env : AuthEnv) (attempt currentSuite : Nat)
    (c : Conversation) :
    ∃ extra, (keyExchangeAttempt env attempt currentSuite c).1.events =
        c.events ++ AuthEvent.keyExchange currentSuite :: extra ∧
      ∀ e ∈ extra, e.isKeyExchange = true := by
  unfold keyExchangeAttempt
  simp only
  split
  · split
    · exact ⟨[.keyAuthentication currentSuite, .storeMasterSecret currentSuite], by simp,
        by simp [AuthEvent.isKeyExchange]⟩
    · exact ⟨[.keyAuthentication currentSuite], by simp, by simp [AuthEvent.isKeyExchange]⟩
  · split
    · exact ⟨[], by simp, by simp⟩
    · exact ⟨[], by simp, by simp⟩

theorem AuthenticatePeerUsingKeyExchange_events (env : AuthEnv) (requestingAuthCount : Nat) :
    ∀ (attempt : Nat) (requestingAuthList : List Nat) (c : Conversation),
      ∃ extra, (AuthenticatePeerUsingKeyExchange env requestingAuthCount attempt
          requestingAuthList c).events = c.events ++ extra ∧
        ∀ e ∈ extra, e.isKeyExchange = true := by
  induction requestingAuthCount with
  | zero =>
    intro attempt l c
    exact ⟨[], by simp [AuthenticatePeerUsingKeyExchange], by simp⟩
  | succ n ih =>
    intro attempt l c
    unfold AuthenticatePeerUsingKeyExchange
    split
    · exact ⟨[], by simp, by simp⟩
    · rename_i currentSuite _
      obtain ⟨extra, hev, hall⟩ := keyExchangeAttempt_events env attempt currentSuite c
      have hall' : ∀ e ∈ AuthEvent.keyExchange currentSuite :: extra,
          e.isKeyExchange = true := by
        intro e he
        rcases List.mem_cons.1 he with rfl | he
        · rfl
        · exact hall e he
      simp only
      split
      · exact ⟨_, hev, hall'⟩
      · split
        · exact ⟨_, hev, hall'⟩
        · split
          · exact ⟨_, hev, hall'⟩
          · split
            · exact ⟨_, hev, hall'⟩
            · rename_i smaller _
              obtain ⟨extra2, hev2, hall2⟩ := ih (attempt + 1) smaller
                { (keyExchangeAttempt env attempt currentSuite c).1 with
                  peerState :=
                    if ((keyExchangeAttempt env attempt currentSuite c).1.peerState.authVersion
                        >>> 16) < CONVERSATION_V4 then
                      { (keyExchangeAttempt env attempt currentSuite c).1.peerState with
                        hashInitialized := true }
                    else (keyExchangeAttempt env attempt currentSuite c).1.peerState }
              refine ⟨(AuthEvent.keyExchange currentSuite :: extra) ++ extra2, ?_, ?_⟩
              · rw [hev2]
                simp only [hev]
                simp
              · intro e he
                rcases List.mem_append.1 he with h | h
                · exact hall' e h
                · exact hall2 e h

theorem AuthenticatePeerUsingKeyExchange_status (env : AuthEnv) (requestingAuthCount : Nat) :
    ∀ (attempt : Nat) (requestingAuthList : List Nat) (c : Conversation),
      (AuthenticatePeerUsingKeyExchange env requestingAuthCount attempt
          requestingAuthList c).status = .ER_OK ∨
      (AuthenticatePeerUsingKeyExchange env requestingAuthCount attempt
          requestingAuthList c).status = .ER_AUTH_FAIL := by
  induction requestingAuthCount with
  | zero =>
    intro attempt l c
    right
    simp [AuthenticatePeerUsingKeyExchange]
  | succ n ih =>
    intro attempt l c
    unfold AuthenticatePeerUsingKeyExchange
    split
    · right; rfl
    · simp only
      split
      · rename_i h
        left
        simpa using h
      · split
        · right; rfl
        · split
          · right; rfl
          · split
            · right; rfl
            · exact ih _ _ _

theorem saslSuccess_events (env : AuthEnv) (remoteGuid : String) (c : Conversation) :
    ∃ extra, (saslSuccess env remoteGuid c).events = c.events ++ extra ∧
      ∀ e ∈ extra, e.isSASL = true := by
  unfold saslSuccess
  simp only
  split
  · exact ⟨[_], rfl, by simp [AuthEvent.isSASL]⟩
  · exact ⟨[], by simp, by simp⟩

theorem saslAdvanceRound_events (env : AuthEnv) (remoteGuid : String) (step : Nat)
    (inStr : String) (c : Conversation) :
    ∃ extra, (saslAdvanceRound env remoteGuid step inStr c).events = c.events ++ extra ∧
      ∀ e ∈ extra, e.isSASL = true := by
  unfold saslAdvanceRound
  simp only
  split
  · obtain ⟨extra, hev, hall⟩ := saslSuccess_events env remoteGuid
      { c with status := (env.saslAdvance (step + 1) inStr).1,
               events := c.events ++ [.saslAdvance inStr] }
    refine ⟨AuthEvent.saslAdvance inStr :: extra, ?_, ?_⟩
    · rw [hev]; simp
    · intro e he
      rcases List.mem_cons.1 he with rfl | he
      · rfl
      · exact hall e he
  · exact ⟨[AuthEvent.saslAdvance inStr], rfl, by simp [AuthEvent.isSASL]⟩

theorem saslLoop_events (env : AuthEnv) (remoteGuid : String) (fuel : Nat) :
    ∀ (step : Nat) (outStr : String) (success : Bool) (c r : Conversation),
      saslLoop env remoteGuid fuel step outStr success c = some r →
      ∃ extra, r.events = c.events ++ AuthEvent.authChallenge outStr :: extra ∧
        ∀ e ∈ extra, e.isSASL = true := by
  induction fuel with
  | zero => intro step outStr success c r h; simp [saslLoop] at h
  | succ n ih =>
    intro step outStr success c r h
    unfold saslLoop at h
    simp only at h
    obtain ⟨extra1, hev1, hall1⟩ := saslAdvanceRound_events env remoteGuid step
      (env.authChallenge step outStr).2
      { c with events := c.events ++ [.authChallenge outStr] }
    split at h
    · split at h
      · injection h with h
        subst h
        exact ⟨[], by simp, by simp⟩
      · split at h
        · obtain ⟨extra, hev, hall⟩ := ih _ _ _ _ r h
          refine ⟨extra1 ++ AuthEvent.authChallenge
            (env.saslAdvance (step + 1) (env.authChallenge step outStr).2).2.1 :: extra, ?_, ?_⟩
          · rw [hev, hev1]
            simp
          · intro e he
            simp only [List.mem_cons, List.mem_append] at he
            rcases he with he | rfl | he
            · exact hall1 e he
            · rfl
            · exact hall e he
        · injection h with h
          subst h
          exact ⟨extra1, by rw [hev1]; simp, hall1⟩
    · injection h with h
      subst h
      exact ⟨[], by simp, by simp⟩

theorem AuthenticatePeerUsingSASL_events (env : AuthEnv) (fuel : Nat) (remoteGuid : String)
    (c r : Conversation) (h : AuthenticatePeerUsingSASL env fuel remoteGuid c = some r) :
    ∃ extra, r.events = c.events ++ AuthEvent.saslAdvance "" :: extra ∧
      ∀ e ∈ extra, e.isSASL = true := by
  unfold AuthenticatePeerUsingSASL at h
  simp only at h
  split at h
  · obtain ⟨extra, hev, hall⟩ := saslLoop_events env remoteGuid fuel _ _ _ _ r h
    refine ⟨AuthEvent.authChallenge (env.saslAdvance 0 "").2.1 :: extra, ?_, ?_⟩
    · rw [hev]; simp
    · intro e he
      rcases List.mem_cons.1 he with rfl | he
      · rfl
      · exact hall e he
  · injection h with h
    subst h
    exact ⟨[], by simp, by simp⟩

open Scenario

/-! ### C20: the choice of the conversation -/

theorem AskForAuthSuites_events (env : AuthEnv) (supportedAuthSuites : List Nat)
    (peerAuthVersion : Nat) (hne : supportedAuthSuites ≠ []) :
    (AskForAuthSuites env supportedAuthSuites peerAuthVersion).2.2 =
      [.exchangeSuites (offeredAuthSuites supportedAuthSuites peerAuthVersion)] := by
  have hlen : ¬ supportedAuthSuites.length = 0 := fun h => hne (List.length_eq_zero.1 h)
  unfold AskForAuthSuites
  simp only [beq_iff_eq, hlen, if_false]
  split
  · rfl
  · split <;> rfl


/-- C20 (as the code has it): `UseKeyExchanger` holds exactly when the auth-version part of the
negotiated version is 2 or more and one of the supported suites includes ECDHE.  Then the full
conversation of the initiator is the suite-typed key exchange: it returns, and its calls are
the `ExchangeSuites` call of `AskForAuthSuites` followed by key exchange calls only.
Otherwise it is `AuthenticatePeerUsingSASL`, whose calls are SASL steps only. -/
theorem conversation_choice (env : AuthEnv) (fuel : Nat) (obj : AllJoynPeerObj)
    (authVersion : Nat) (remoteGuid : String) (c : Conversation) :
    (UseKeyExchanger authVersion obj.supportedAuthSuites = true ↔
      2 ≤ authV authVersion ∧ ∃ s ∈ obj.supportedAuthSuites, isECDHE s = true) ∧
    ((2 ≤ authV authVersion ∧ ∃ s ∈ obj.supportedAuthSuites, isECDHE s = true) →
      ∃ conv extra,
        fullConversation env fuel obj (UseKeyExchanger authVersion obj.supportedAuthSuites)
          authVersion remoteGuid c = some conv ∧
        conv.events = c.events ++
          AuthEvent.exchangeSuites (offeredAuthSuites obj.supportedAuthSuites authVersion) ::
            extra ∧
        ∀ e ∈ extra, e.isKeyExchange = true) ∧
    (¬ (2 ≤ authV authVersion ∧ ∃ s ∈ obj.supportedAuthSuites, isECDHE s = true) →
      fullConversation env fuel obj (UseKeyExchanger authVersion obj.supportedAuthSuites)
          authVersion remoteGuid c = AuthenticatePeerUsingSASL env fuel remoteGuid c ∧
      ∀ conv, AuthenticatePeerUsingSASL env fuel remoteGuid c = some conv →
        ∃ extra, conv.events = c.events ++ AuthEvent.saslAdvance "" :: extra ∧
          ∀ e ∈ extra, e.isSASL = true) := by
  refine ⟨UseKeyExchanger_iff _ _, ?_, ?_⟩
  · intro hcond
    have huse := (UseKeyExchanger_iff authVersion obj.supportedAuthSuites).2 hcond
    obtain ⟨_, s, hs, _⟩ := hcond
    have hlen : ¬ obj.supportedAuthSuites.length = 0 := by
      intro h
      rw [List.length_eq_zero.1 h] at hs
      simp at hs
    rw [huse]
    have hask := AskForAuthSuites_events env obj.supportedAuthSuites authVersion
      (fun h => hlen (by rw [h]; rfl))
    unfold fullConversation
    simp only [if_true, hask]
    by_cases hok : (AskForAuthSuites env obj.supportedAuthSuites authVersion).1 = .ER_OK
    · obtain ⟨extra, hev, hall⟩ := AuthenticatePeerUsingKeyExchange_events env
        (AskForAuthSuites env obj.supportedAuthSuites authVersion).2.1.length 0
        (AskForAuthSuites env obj.supportedAuthSuites authVersion).2.1
        { c with status := (AskForAuthSuites env obj.supportedAuthSuites authVersion).1,
                 events := c.events ++
                   [.exchangeSuites (offeredAuthSuites obj.supportedAuthSuites authVersion)] }
      rw [if_pos (by simp [hok])]
      refine ⟨_, extra, rfl, ?_, hall⟩
      rw [hev]
      simp
    · rw [if_neg (by simp [hok])]
      exact ⟨_, [], rfl, rfl, by simp⟩
  · intro hcond
    have huse : UseKeyExchanger authVersion obj.supportedAuthSuites = false := by
      cases h : UseKeyExchanger authVersion obj.supportedAuthSuites with
      | false => rfl
      | true => exact absurd ((UseKeyExchanger_iff _ _).1 h) hcond
    rw [huse]
    refine ⟨by simp [fullConversation], ?_⟩
    intro conv hconv
    exact AuthenticatePeerUsingSASL_events env fuel remoteGuid c conv hconv

/-- C20 fails as stated: with auth version 4 and the one supported suite SRP_KEYX
`UseKeyExchanger` is false, and `AuthenticatePeer` runs the SASL conversation. -/
theorem conversation_is_sasl_without_ecdhe :
    authV 0x00040000 = 4 ∧
    UseKeyExchanger 0x00040000 srpEngine.supportedAuthSuites = false ∧
    (AuthenticatePeer remoteEnv 4 srpEngine .MESSAGE_METHOD_CALL "org.example.Peer" false).map
        (fun r => (r.status, r.events)) =
      some (.ER_OK,
        [.exchangeGuids "local" 0x00040000, .saslAdvance "", .authChallenge "response",
         .saslAdvance "challenge",
         .addKey "peer" { data := [1, 2, 3], tag := "ALLJOYN_SRP_KEYX", role := .INITIATOR },
         .authChallenge "response", .genSessionKey "local" "peer" "EF", .keyGen false,
         .exchangeGroupKeys [9, 9, 9, 9],
         .authenticationComplete "ALLJOYN_SRP_KEYX" ":3.1" true]) := by
  decide

open Scenario

/-! ### C13: a peer that is secure already -/

theorem GetPeerState_found (t : PeerStateTable) (busName : String) (handle : Nat)
    (h : t.find busName = some handle) : t.GetPeerState busName = (t, handle) := by
  unfold PeerStateTable.GetPeerState
  rw [h]

theorem AuthenticatePeer_no_interface (env : AuthEnv) (fuel : Nat) (obj : AllJoynPeerObj)
    (msgType : AllJoynMessageType) (busName : String) (wait : Bool)
    (h : obj.hasAuthInterface = false) :
    ∃ r, AuthenticatePeer env fuel obj msgType busName wait = some r ∧
      r.status = .ER_BUS_NO_SUCH_INTERFACE ∧ r.events = [] := by
  unfold AuthenticatePeer
  simp only [h, Bool.not_false, if_true]
  exact ⟨_, rfl, rfl, rfl⟩

/-- C13 (as the code has it): when the peer authentication interface is on the bus, a
mechanism is configured and the peer state of the bus name is secure, `AuthenticatePeer`
returns `ER_OK` at once: it makes no call (no method call, no engine step and so no request
for credentials, no key store operation, no completion callback) and leaves the engine, with
its peer state table and its pending conversations, as it was.  On the same engine without
the interface the call for the same secure peer returns `ER_BUS_NO_SUCH_INTERFACE`, again
without any call. -/
theorem AuthenticatePeer_secure (env : AuthEnv) (fuel : Nat) (obj : AllJoynPeerObj)
    (msgType : AllJoynMessageType) (busName : String) (wait : Bool) (handle : Nat)
    (hifc : obj.hasAuthInterface = true)
    (hmech : obj.peerAuthMechanisms.isEmpty = false)
    (hfind : obj.peerStateTable.find busName = some handle)
    (hsec : (obj.peerStateTable.get handle).IsSecure = true) :
    (∃ r, AuthenticatePeer env fuel obj msgType busName wait = some r ∧
      r.status = .ER_OK ∧ r.events = [] ∧ r.obj = obj) ∧
    (∃ r, AuthenticatePeer env fuel { obj with hasAuthInterface := false } msgType busName
        wait = some r ∧
      r.status = .ER_BUS_NO_SUCH_INTERFACE ∧ r.events = []) := by
  refine ⟨?_, AuthenticatePeer_no_interface env fuel _ msgType busName wait rfl⟩
  unfold AuthenticatePeer
  simp only [GetPeerState_found _ _ _ hfind, hifc, hmech, hsec, Bool.not_true,
    Bool.false_eq_true, if_false, if_true]
  refine ⟨_, rfl, rfl, rfl, ?_⟩
  cases obj
  simp only at hifc
  subst hifc
  rfl

/-- The witness of C13: the peer `org.example.Secure` of the scenario. -/
theorem AuthenticatePeer_secure_witness :
    engine.hasAuthInterface = true ∧ engine.peerAuthMechanisms.isEmpty = false ∧
    engine.peerStateTable.find "org.example.Secure" = some 0 ∧
    (engine.peerStateTable.get 0).IsSecure = true ∧
    ∃ r, AuthenticatePeer remoteEnv 4 engine .MESSAGE_METHOD_CALL "org.example.Secure" false =
        some r ∧ r.status = .ER_OK ∧ r.events = [] ∧ r.obj = engine :=
  ⟨by decide, by decide, by decide, by decide,
    (AuthenticatePeer_secure remoteEnv 4 engine .MESSAGE_METHOD_CALL "org.example.Secure" false
      0 (by decide) (by decide) (by decide) (by decide)).1⟩

/-- C13 fails as stated: the peer state of `org.example.Secure` is secure and mechanisms are
configured, but the bus attachment has no peer authentication interface, and
`AuthenticatePeer` returns `ER_BUS_NO_SUCH_INTERFACE`. -/
theorem AuthenticatePeer_secure_needs_interface :
    bareEngine.peerAuthMechanisms.isEmpty = false ∧
    bareEngine.peerStateTable.find "org.example.Secure" = some 0 ∧
    (bareEngine.peerStateTable.get 0).IsSecure = true ∧
    (AuthenticatePeer remoteEnv 4 bareEngine .MESSAGE_METHOD_CALL "org.example.Secure"
        false).map (fun r => r.status) = some .ER_BUS_NO_SUCH_INTERFACE := by
  decide

/-! ### C14: the local peer -/

theorem SetRights_mutual (peerState : PeerState) (challenger : Bool) :
    SetRights peerState true challenger =
      { peerState with authorizations :=
          { methodCall := ALLOW_SECURE_TX ||| ALLOW_SECURE_RX
            methodRet := ALLOW_SECURE_TX ||| ALLOW_SECURE_RX
            error := ALLOW_SECURE_TX ||| ALLOW_SECURE_RX
            signal := ALLOW_SECURE_TX ||| ALLOW_SECURE_RX } } := by
  simp [SetRights, PeerState.SetAuthorization]

theorem PeerStateTable.get_set (t : PeerStateTable) (handle : Nat) (ps : PeerState) :
    (t.set handle ps).get handle = ps := by
  simp [PeerStateTable.set, PeerStateTable.get]

theorem PeerStateTable.GetPeerState_groupKey (t : PeerStateTable) (busName : String) :
    (t.GetPeerState busName).1.groupKey = t.groupKey := by
  unfold PeerStateTable.GetPeerState
  split <;> rfl

theorem PeerStateTable.GetPeerStateAlias_groupKey (t : PeerStateTable)
    (uniqueName aliasName : String) :
    (t.GetPeerStateAlias uniqueName aliasName).1.groupKey = t.groupKey := by
  unfold PeerStateTable.GetPeerStateAlias
  split
  · rfl
  · split <;> rfl

theorem secureLocalPeer_spec (env : AuthEnv) (groupKey : KeyBlob) (peerState : PeerState) :
    secureLocalPeer env groupKey peerState =
      { peerState with
        sessionKey := some { data := (List.range AES128_SIZE).map (fun i => env.randByte i % 256)
                             tag := "SELF", role := .NO_ROLE }
        groupKey := some { data := groupKey.data, tag := "SELF", role := .NO_ROLE }
        authorizations :=
          { methodCall := ALLOW_SECURE_TX ||| ALLOW_SECURE_RX
            methodRet := ALLOW_SECURE_TX ||| ALLOW_SECURE_RX
            error := ALLOW_SECURE_TX ||| ALLOW_SECURE_RX
            signal := ALLOW_SECURE_TX ||| ALLOW_SECURE_RX }
        isLocalPeer := true
        isSecure := true } := by
  unfold secureLocalPeer
  rw [SetRights_mutual]
  simp [PeerState.SetKey, KeyBlob.SetTag, KeyBlob.IsValid, AES128_SIZE, List.range_succ]

/-- C14 (as the code has it): when the reply to the one `ExchangeGuids` call comes from the
unique name of the bus attachment itself (and the guards before it pass), `AuthenticatePeer`
returns `ER_OK` and makes no other call.  On return the peer state of that name holds a
session key of `AES128_SIZE` random bytes and the process-wide group key, both tagged "SELF"
with role `NO_ROLE`, is marked as the local peer, authorizes secure TX and RX for the four
message types, and is secure. -/
theorem AuthenticatePeer_local_peer (env : AuthEnv) (fuel : Nat) (obj : AllJoynPeerObj)
    (msgType : AllJoynMessageType) (busName : String) (wait : Bool)
    (hifc : obj.hasAuthInterface = true)
    (hmech : obj.peerAuthMechanisms.isEmpty = false)
    (hnot : ((obj.peerStateTable.GetPeerState busName).1.get
      (obj.peerStateTable.GetPeerState busName).2).isSecure = false)
    (hidle : ((obj.peerStateTable.GetPeerState busName).1.get
      (obj.peerStateTable.GetPeerState busName).2).authEvent = false)
    (hcall : (env.exchangeGuids obj.localGuid PREFERRED_AUTH_VERSION).status = .ER_OK)
    (hself : (env.exchangeGuids obj.localGuid PREFERRED_AUTH_VERSION).sender = obj.uniqueName)
    (hver : IsCompatibleVersion
      ((env.exchangeGuids obj.localGuid PREFERRED_AUTH_VERSION).authVersion % 2 ^ 32) = true)
    (hnot2 : (((obj.peerStateTable.GetPeerState busName).1.GetPeerStateAlias
        obj.uniqueName busName).1.get
      ((obj.peerStateTable.GetPeerState busName).1.GetPeerStateAlias
        obj.uniqueName busName).2).isSecure = false)
    (hidle2 : (((obj.peerStateTable.GetPeerState busName).1.GetPeerStateAlias
        obj.uniqueName busName).1.get
      ((obj.peerStateTable.GetPeerState busName).1.GetPeerStateAlias
        obj.uniqueName busName).2).authEvent = false) :
    ∃ r, AuthenticatePeer env fuel obj msgType busName wait = some r ∧
      r.status = .ER_OK ∧
      r.events = [.exchangeGuids obj.localGuid PREFERRED_AUTH_VERSION] ∧
      ∃ peerState sessionKey groupKey,
        r.obj.peerStateTable.get ((obj.peerStateTable.GetPeerState busName).1.GetPeerStateAlias
          obj.uniqueName busName).2 = peerState ∧
        peerState.sessionKey = some sessionKey ∧
        sessionKey.data = (List.range AES128_SIZE).map (fun i => env.randByte i % 256) ∧
        sessionKey.data.length = AES128_SIZE ∧
        sessionKey.tag = "SELF" ∧ sessionKey.role = .NO_ROLE ∧
        peerState.groupKey = some groupKey ∧
        groupKey.data = obj.peerStateTable.groupKey.data ∧
        groupKey.tag = "SELF" ∧ groupKey.role = .NO_ROLE ∧
        peerState.isLocalPeer = true ∧
        peerState.authorizations =
          { methodCall := ALLOW_SECURE_TX ||| ALLOW_SECURE_RX
            methodRet := ALLOW_SECURE_TX ||| ALLOW_SECURE_RX
            error := ALLOW_SECURE_TX ||| ALLOW_SECURE_RX
            signal := ALLOW_SECURE_TX ||| ALLOW_SECURE_RX } ∧
        peerState.IsSecure = true := by
  have hsec1 : ((obj.peerStateTable.GetPeerState busName).1.get
      (obj.peerStateTable.GetPeerState busName).2).IsSecure = false := by
    simp [PeerState.IsSecure, hnot]
  have hver1 : AuthenticatePeerVersion
      ((env.exchangeGuids obj.localGuid PREFERRED_AUTH_VERSION).authVersion % 2 ^ 32) =
      .ok (GetLowerVersion
        ((env.exchangeGuids obj.localGuid PREFERRED_AUTH_VERSION).authVersion % 2 ^ 32)
        PREFERRED_AUTH_VERSION) := by
    unfold AuthenticatePeerVersion
    rw [hver]
    rfl
  unfold AuthenticatePeer
  simp only [hifc, hmech, hsec1, hidle, hcall, Bool.not_true, Bool.false_eq_true, if_false,
    Bool.and_false, bne_self_eq_false]
  unfold afterExchangeGuids
  simp only [hver1, hself]
  have hsec2 : ((((obj.peerStateTable.GetPeerState busName).1.GetPeerStateAlias
        obj.uniqueName busName).1.get
      ((obj.peerStateTable.GetPeerState busName).1.GetPeerStateAlias
        obj.uniqueName busName).2).SetGuidAndAuthVersion
        (env.exchangeGuids obj.localGuid PREFERRED_AUTH_VERSION).guid
        (GetLowerVersion
          ((env.exchangeGuids obj.localGuid PREFERRED_AUTH_VERSION).authVersion % 2 ^ 32)
          PREFERRED_AUTH_VERSION)).IsSecure = false := by
    simp [PeerState.IsSecure, PeerState.SetGuidAndAuthVersion, hnot2]
  have hev2 : ((((obj.peerStateTable.GetPeerState busName).1.GetPeerStateAlias
        obj.uniqueName busName).1.get
      ((obj.peerStateTable.GetPeerState busName).1.GetPeerStateAlias
        obj.uniqueName busName).2).SetGuidAndAuthVersion
        (env.exchangeGuids obj.localGuid PREFERRED_AUTH_VERSION).guid
        (GetLowerVersion
          ((env.exchangeGuids obj.localGuid PREFERRED_AUTH_VERSION).authVersion % 2 ^ 32)
          PREFERRED_AUTH_VERSION)).authEvent = false := by
    simp [PeerState.SetGuidAndAuthVersion, hidle2]
  simp only [hsec2, hev2, Bool.false_eq_true, if_false, beq_self_eq_true, if_true]
  refine ⟨_, rfl, rfl, rfl, ?_⟩
  simp only [AllJoynPeerObj.setPeer, PeerStateTable.get_set, secureLocalPeer_spec]
  refine ⟨_, _, _, rfl, rfl, rfl, by simp, rfl, rfl, rfl, ?_, rfl, rfl, rfl, rfl, ?_⟩
  · simp [PeerStateTable.set, PeerStateTable.GetPeerStateAlias_groupKey,
      PeerStateTable.GetPeerState_groupKey]
  · simp [PeerState.IsSecure, PeerState.SetGuidAndAuthVersion, hidle2]


/-- The witness of C14: the engine of `:1.1` authenticates `:1.1`. -/
theorem AuthenticatePeer_local_peer_witness :
    (selfEnv.exchangeGuids engine.localGuid PREFERRED_AUTH_VERSION).sender = engine.uniqueName ∧
    ∃ r, AuthenticatePeer selfEnv 4 engine .MESSAGE_METHOD_CALL ":1.1" false = some r ∧
      r.status = .ER_OK ∧
      r.events = [.exchangeGuids engine.localGuid PREFERRED_AUTH_VERSION] ∧
      (r.obj.peerStateTable.get ((engine.peerStateTable.GetPeerState ":1.1").1.GetPeerStateAlias
        engine.uniqueName ":1.1").2).IsSecure = true :=
  ⟨by decide,
    match AuthenticatePeer_local_peer selfEnv 4 engine .MESSAGE_METHOD_CALL ":1.1" false
      (by decide) (by decide) (by decide) (by decide) (by decide) (by decide) (by decide)
      (by decide) (by decide) with
    | ⟨r, h1, h2, h3, _, _, _, h4, h5⟩ => ⟨r, h1, h2, h3, h4 ▸ h5.2.2.2.2.2.2.2.2.2.2.2⟩⟩

/-- C14 fails as stated: securing the local peer starts with the `ExchangeGuids` method call
of the peer-to-peer control interface, like every other authentication. -/
theorem local_peer_calls_ExchangeGuids :
    (selfEnv.exchangeGuids engine.localGuid PREFERRED_AUTH_VERSION).sender = engine.uniqueName ∧
    (AuthenticatePeer selfEnv 4 engine .MESSAGE_METHOD_CALL ":1.1" false).map
        (fun r => (r.status, r.events)) =
      some (.ER_OK, [.exchangeGuids "local" 0x00040000]) ∧
    AuthEvent.isWire (.exchangeGuids "local" 0x00040000) = true := by
  decide

/-! ### C15: `ER_BUS_REPLY_IS_ERROR_MESSAGE` is not returned -/

theorem mapped_status_ne (status : QStatus) :
    (if status == .ER_BUS_REPLY_IS_ERROR_MESSAGE then QStatus.ER_AUTH_FAIL else status) ≠
      .ER_BUS_REPLY_IS_ERROR_MESSAGE := by
  split
  · simp
  · rename_i h
    simpa using h

theorem completeAuthentication_status_ne (env : AuthEnv) (groupKey : KeyBlob)
    (useKeyExchanger : Bool) (authVersion : Nat) (sender : String) (authTried : Bool)
    (c : Conversation) :
    (completeAuthentication env groupKey useKeyExchanger authVersion sender authTried c).status ≠
      .ER_BUS_REPLY_IS_ERROR_MESSAGE := by
  unfold completeAuthentication
  exact mapped_status_ne _

theorem awaitAuthentication_status_ne (env : AuthEnv) (obj : AllJoynPeerObj) (handle : Nat)
    (wait : Bool) (events : List AuthEvent) :
    (awaitAuthentication env obj handle wait events).status ≠
      .ER_BUS_REPLY_IS_ERROR_MESSAGE := by
  unfold awaitAuthentication
  split
  · simp only
    split <;> simp
  · simp

theorem exchangeGuidsFailure_ne (call : ExchangeGuidsCall) :
    exchangeGuidsFailure call ≠ .ER_BUS_REPLY_IS_ERROR_MESSAGE := by
  unfold exchangeGuidsFailure
  split
  · split <;> simp
  · rename_i h
    simpa using h

theorem negotiate_status_ne (env : AuthEnv) (fuel : Nat) (obj : AllJoynPeerObj) (handle : Nat)
    (peerState : PeerState) (call : ExchangeGuidsCall) (authVersion : Nat)
    (events : List AuthEvent) (r : AuthResult)
    (h : negotiate env fuel obj handle peerState call authVersion events = some r) :
    r.status ≠ .ER_BUS_REPLY_IS_ERROR_MESSAGE := by
  unfold negotiate at h
  simp only at h
  split at h
  · cases h
  · rename_i conv authTried _
    injection h with h
    subst h
    exact completeAuthentication_status_ne env obj.peerStateTable.groupKey
      (UseKeyExchanger authVersion obj.supportedAuthSuites) authVersion call.sender authTried conv

theorem afterExchangeGuids_status_ne (env : AuthEnv) (fuel : Nat) (obj : AllJoynPeerObj)
    (msgType : AllJoynMessageType) (busName : String) (wait : Bool) (call : ExchangeGuidsCall)
    (events : List AuthEvent) (r : AuthResult)
    (h : afterExchangeGuids env fuel obj msgType busName wait call events = some r) :
    r.status ≠ .ER_BUS_REPLY_IS_ERROR_MESSAGE := by
  unfold afterExchangeGuids at h
  split at h
  · rename_i status hv
    injection h with h
    subst h
    unfold AuthenticatePeerVersion at hv
    split at hv
    · injection hv with hv
      subst hv
      simp
    · cases hv
  · simp only at h
    split at h
    · injection h with h; subst h; simp
    · split at h
      · injection h with h; subst h
        exact awaitAuthentication_status_ne _ _ _ _ _
      · split at h
        · injection h with h; subst h; simp
        · split at h
          · injection h with h; subst h; simp
          · exact negotiate_status_ne _ _ _ _ _ _ _ _ r h

theorem AuthenticatePeer_status_ne (env : AuthEnv) (fuel : Nat) (obj : AllJoynPeerObj)
    (msgType : AllJoynMessageType) (busName : String) (wait : Bool) (r : AuthResult)
    (h : AuthenticatePeer env fuel obj msgType busName wait = some r) :
    r.status ≠ .ER_BUS_REPLY_IS_ERROR_MESSAGE := by
  unfold AuthenticatePeer at h
  simp only at h
  split at h
  · injection h with h; subst h; simp
  · split at h
    · injection h with h; subst h; simp
    · split at h
      · injection h with h; subst h; simp
      · split at h
        · injection h with h; subst h
          exact awaitAuthentication_status_ne _ _ _ _ _
        · split at h
          · injection h with h; subst h
            exact exchangeGuidsFailure_ne _
          · exact afterExchangeGuids_status_ne _ _ _ _ _ _ _ _ r h

open Scenario

theorem saslLoop_challenge_failed (env : AuthEnv) (remoteGuid : String) (fuel step : Nat)
    (outStr : String) (success : Bool) (c : Conversation)
    (h : (env.authChallenge step outStr).1 ≠ .ER_OK) :
    saslLoop env remoteGuid (fuel + 1) step outStr success c =
      some { c with status := .ER_AUTH_FAIL,
                    events := c.events ++ [.authChallenge outStr] } := by
  unfold saslLoop
  simp [h]

theorem negotiationLoop_continues (env : AuthEnv) (fuel : Nat) (obj : AllJoynPeerObj)
    (useKeyExchanger : Bool) (authVersion : Nat) (remoteGuid : String) (c : Conversation)
    (h : (sessionKeyPass env 0 obj.localGuid remoteGuid c).status ≠ .ER_OK) :
    negotiationLoop env fuel obj useKeyExchanger authVersion remoteGuid c =
      (fullConversation env fuel obj useKeyExchanger authVersion remoteGuid
        (sessionKeyPass env 0 obj.localGuid remoteGuid c)).map
        (fun conv =>
          (if conv.status == .ER_OK then sessionKeyPass env 1 obj.localGuid remoteGuid conv
           else conv, true)) := by
  have h' : ((sessionKeyPass env 0 obj.localGuid remoteGuid c).status == .ER_OK) = false := by
    simpa using h
  unfold negotiationLoop
  simp only [h', Bool.false_eq_true, if_false]
  cases fullConversation env fuel obj useKeyExchanger authVersion remoteGuid
      (sessionKeyPass env 0 obj.localGuid remoteGuid c) with
  | none => rfl
  | some conv =>
    simp only [Option.map_some']
    split <;> rfl

theorem sessionKeyPass_call_failed (env : AuthEnv) (pass : Nat) (localGuid remoteGuid : String)
    (c : Conversation) (hkey : (masterSecretLookup env pass).1 = .ER_OK)
    (hcall : (env.genSessionKey pass localGuid remoteGuid (env.nonce pass)).status ≠ .ER_OK) :
    (sessionKeyPass env pass localGuid remoteGuid c).status =
      (env.genSessionKey pass localGuid remoteGuid (env.nonce pass)).status := by
  have h' : ((env.genSessionKey pass localGuid remoteGuid (env.nonce pass)).status ==
      .ER_OK) = false := by simpa using hcall
  unfold sessionKeyPass
  simp only [hkey, beq_self_eq_true, if_true, h', Bool.false_eq_true, if_false]

/-- After a first pass that failed, a conversation, a second pass and a group key exchange
that succeed make the negotiation return `ER_OK`. -/
theorem negotiate_recovers (env : AuthEnv) (fuel : Nat) (obj : AllJoynPeerObj) (handle : Nat)
    (peerState : PeerState) (call : ExchangeGuidsCall) (authVersion : Nat)
    (events : List AuthEvent) (conv : Conversation)
    (hfirst : (sessionKeyPass env 0 obj.localGuid call.guid
      (startConversation peerState events)).status ≠ .ER_OK)
    (hconv : fullConversation env fuel obj (UseKeyExchanger authVersion obj.supportedAuthSuites)
      authVersion call.guid
      (sessionKeyPass env 0 obj.localGuid call.guid (startConversation peerState events)) =
        some conv)
    (hok : conv.status = .ER_OK)
    (hsecond : (sessionKeyPass env 1 obj.localGuid call.guid conv).status = .ER_OK)
    (hgroup : (exchangeGroupKeys env obj.peerStateTable.groupKey
      (UseKeyExchanger authVersion obj.supportedAuthSuites) authVersion
      { sessionKeyPass env 1 obj.localGuid call.guid conv with
        peerState := { (sessionKeyPass env 1 obj.localGuid call.guid conv).peerState with
          hashInitialized := false } }).status = .ER_OK) :
    ∃ r, negotiate env fuel obj handle peerState call authVersion events = some r ∧
      r.status = .ER_OK := by
  have hloop := negotiationLoop_continues env fuel obj
    (UseKeyExchanger authVersion obj.supportedAuthSuites) authVersion call.guid
    (startConversation peerState events) hfirst
  rw [hconv] at hloop
  simp only [Option.map_some', hok, beq_self_eq_true, if_true] at hloop
  unfold negotiate
  simp only [hloop]
  refine ⟨_, rfl, ?_⟩
  show (completeAuthentication env obj.peerStateTable.groupKey
    (UseKeyExchanger authVersion obj.supportedAuthSuites) authVersion call.sender true
    (sessionKeyPass env 1 obj.localGuid call.guid conv)).status = .ER_OK
  generalize sessionKeyPass env 1 obj.localGuid call.guid conv = second at hsecond hgroup ⊢
  obtain ⟨status, ps, mech, evs⟩ := second
  simp only at hsecond hgroup
  subst hsecond
  unfold completeAuthentication
  simp only [beq_self_eq_true, if_true, hgroup]
  rfl

/-- C15 (as the code has it): `AuthenticatePeer` never returns
`ER_BUS_REPLY_IS_ERROR_MESSAGE`.  An error reply to `ExchangeGuids` is returned as
`ER_BUS_NO_SUCH_OBJECT` when its name is ServiceUnknown and as `ER_AUTH_FAIL` otherwise; the
key exchange conversation ends with `ER_OK` or `ER_AUTH_FAIL` whatever its calls return; a
failed `AuthChallenge` call ends the SASL conversation with `ER_AUTH_FAIL`; and a status
`ER_BUS_REPLY_IS_ERROR_MESSAGE` on leaving the negotiation loop (from `ExchangeSuites` or the
second `GenSessionKey`) or from `ExchangeGroupKeys` is returned as `ER_AUTH_FAIL`.  An error
reply to the `GenSessionKey` call of the first pass makes that pass fail, and after a first
pass that failed the loop goes on with the full conversation and, when that succeeds, the
second pass. -/
theorem AuthenticatePeer_never_reply_is_error (env : AuthEnv) (fuel : Nat)
    (obj : AllJoynPeerObj) (msgType : AllJoynMessageType) (busName : String) (wait : Bool) :
    (AuthenticatePeer env fuel obj msgType busName wait).map (fun r => r.status) ≠
      some .ER_BUS_REPLY_IS_ERROR_MESSAGE ∧
    (∀ call : ExchangeGuidsCall, call.status = .ER_BUS_REPLY_IS_ERROR_MESSAGE →
      exchangeGuidsFailure call =
        if call.errorName = some "org.freedesktop.DBus.Error.ServiceUnknown" then
          .ER_BUS_NO_SUCH_OBJECT
        else .ER_AUTH_FAIL) ∧
    (∀ count attempt requestingAuthList c,
      (AuthenticatePeerUsingKeyExchange env count attempt requestingAuthList c).status = .ER_OK ∨
      (AuthenticatePeerUsingKeyExchange env count attempt requestingAuthList c).status =
        .ER_AUTH_FAIL) ∧
    (∀ remoteGuid rounds step outStr success c, (env.authChallenge step outStr).1 ≠ .ER_OK →
      (saslLoop env remoteGuid (rounds + 1) step outStr success c).map (fun r => r.status) =
        some .ER_AUTH_FAIL) ∧
    (∀ groupKey useKeyExchanger authVersion sender authTried c,
      c.status = .ER_BUS_REPLY_IS_ERROR_MESSAGE →
      (completeAuthentication env groupKey useKeyExchanger authVersion sender authTried
        c).status = .ER_AUTH_FAIL) ∧
    (∀ groupKey useKeyExchanger authVersion sender authTried c, c.status = .ER_OK →
      (exchangeGroupKeys env groupKey useKeyExchanger authVersion
        { c with peerState := { c.peerState with hashInitialized := false } }).status =
          .ER_BUS_REPLY_IS_ERROR_MESSAGE →
      (completeAuthentication env groupKey useKeyExchanger authVersion sender authTried
        c).status = .ER_AUTH_FAIL) ∧
    (∀ localGuid remoteGuid c, (masterSecretLookup env 0).1 = .ER_OK →
      (env.genSessionKey 0 localGuid remoteGuid (env.nonce 0)).status =
        .ER_BUS_REPLY_IS_ERROR_MESSAGE →
      (sessionKeyPass env 0 localGuid remoteGuid c).status = .ER_BUS_REPLY_IS_ERROR_MESSAGE) ∧
    (∀ useKeyExchanger authVersion remoteGuid c,
      (sessionKeyPass env 0 obj.localGuid remoteGuid c).status ≠ .ER_OK →
      negotiationLoop env fuel obj useKeyExchanger authVersion remoteGuid c =
        (fullConversation env fuel obj useKeyExchanger authVersion remoteGuid
          (sessionKeyPass env 0 obj.localGuid remoteGuid c)).map
          (fun conv =>
            (if conv.status == .ER_OK then sessionKeyPass env 1 obj.localGuid remoteGuid conv
             else conv, true))) := by
  refine ⟨?_, ?_, ?_, ?_, ?_, ?_, ?_, ?_⟩
  · intro h
    cases hr : AuthenticatePeer env fuel obj msgType busName wait with
    | none => rw [hr] at h; simp at h
    | some r =>
      rw [hr] at h
      have := AuthenticatePeer_status_ne env fuel obj msgType busName wait r hr
      simp at h
      exact this h
  · intro call hcall
    unfold exchangeGuidsFailure
    rw [hcall]
    simp
  · intro count attempt l c
    exact AuthenticatePeerUsingKeyExchange_status env count attempt l c
  · intro remoteGuid rounds step outStr success c h
    rw [saslLoop_challenge_failed env remoteGuid rounds step outStr success c h]
    rfl
  · intro groupKey useKeyExchanger authVersion sender authTried c hc
    unfold completeAuthentication
    simp [hc]
  · intro groupKey useKeyExchanger authVersion sender authTried c hc hx
    unfold completeAuthentication
    simp only [hc] at hx ⊢
    simp [hx]
  · intro localGuid remoteGuid c hkey hcall
    rw [sessionKeyPass_call_failed env 0 localGuid remoteGuid c hkey (by rw [hcall]; decide),
      hcall]
  · intro useKeyExchanger authVersion remoteGuid c hfirst
    exact negotiationLoop_continues env fuel obj useKeyExchanger authVersion remoteGuid c hfirst

/-- C15 fails as stated: the peer answers the first `GenSessionKey` call with an error reply,
and `AuthenticatePeer` does not report `ER_AUTH_FAIL`: it runs the full conversation and
returns `ER_OK`. -/
theorem GenSessionKey_error_reply_recovered :
    (errorReplyEnv.genSessionKey 0 "local" "peer" "AB").status =
      .ER_BUS_REPLY_IS_ERROR_MESSAGE ∧
    (AuthenticatePeer errorReplyEnv 4 engine .MESSAGE_METHOD_CALL "org.example.Peer" false).map
        (fun r => (r.status, r.events)) =
      some (.ER_OK,
        [.exchangeGuids "local" 0x00040000, .genSessionKey "local" "peer" "AB",
         .exchangeSuites [AUTH_SUITE_SRP_KEYX, AUTH_SUITE_ECDHE_NULL],
         .keyExchange AUTH_SUITE_ECDHE_NULL, .keyAuthentication AUTH_SUITE_ECDHE_NULL,
         .storeMasterSecret AUTH_SUITE_ECDHE_NULL, .genSessionKey "local" "peer" "EF",
         .keyGen false, .exchangeGroupKeys [9, 9, 9, 9],
         .authenticationComplete "ALLJOYN_ECDHE_NULL" ":3.1" true]) := by
  decide

/-- An error reply to `ExchangeGroupKeys` is returned as `ER_AUTH_FAIL`. -/
theorem ExchangeGroupKeys_error_reply_example :
    (AuthenticatePeer groupKeyErrorEnv 4 engine .MESSAGE_METHOD_CALL "org.example.Peer"
        false).map (fun r => r.status) = some .ER_AUTH_FAIL := by
  decide

open Scenario

/-! ### C16: a verifier that does not match -/

theorem sessionKeyPass_mismatch (env : AuthEnv) (pass : Nat) (localGuid remoteGuid : String)
    (c : Conversation)
    (hkey : (masterSecretLookup env pass).1 = .ER_OK)
    (hcall : (env.genSessionKey pass localGuid remoteGuid (env.nonce pass)).status = .ER_OK)
    (hgen : (KeyGen (env.keyGen pass) c.peerState.versionState
      (AuthenticatePeerSeed (env.nonce pass)
        (env.genSessionKey pass localGuid remoteGuid (env.nonce pass)).nonce)
      .INITIATOR).status = .ER_OK)
    (hmis : (KeyGen (env.keyGen pass) c.peerState.versionState
      (AuthenticatePeerSeed (env.nonce pass)
        (env.genSessionKey pass localGuid remoteGuid (env.nonce pass)).nonce)
      .INITIATOR).verifier ≠
        (env.genSessionKey pass localGuid remoteGuid (env.nonce pass)).verifier) :
    (sessionKeyPass env pass localGuid remoteGuid c).status = .ER_AUTH_FAIL ∧
    (sessionKeyPass env pass localGuid remoteGuid c).mech = c.mech ∧
    (sessionKeyPass env pass localGuid remoteGuid c).events =
      c.events ++ (masterSecretLookup env pass).2 ++
        [.genSessionKey localGuid remoteGuid (env.nonce pass),
         .keyGen (KeyGen (env.keyGen pass) c.peerState.versionState
            (AuthenticatePeerSeed (env.nonce pass)
              (env.genSessionKey pass localGuid remoteGuid (env.nonce pass)).nonce)
            .INITIATOR).expiresStoredKey] := by
  unfold sessionKeyPass
  simp only [hkey, hcall, beq_self_eq_true, if_true]
  unfold AuthenticatePeerKeyGen
  simp only [hgen, beq_self_eq_true, Bool.true_and]
  have : ((KeyGen (env.keyGen pass) c.peerState.versionState
      (AuthenticatePeerSeed (env.nonce pass)
        (env.genSessionKey pass localGuid remoteGuid (env.nonce pass)).nonce)
      .INITIATOR).verifier !=
        (env.genSessionKey pass localGuid remoteGuid (env.nonce pass)).verifier) = true := by
    simpa using hmis
  simp only [this, if_true]
  refine ⟨trivial, trivial, ?_⟩
  simp

/-- C16 (as the code has it): a verifier mismatch on the second pass, the one that follows
an authentication conversation, is final.  When the first pass failed, the conversation
succeeded, and the verifier of the second `GenSessionKey` reply differs from the one `KeyGen`
computes, the negotiation returns `ER_AUTH_FAIL`, and after the `GenSessionKey` call and the
key generation it makes no call but the completion callback, which reports the failure.  A
mismatch on the first pass makes that pass fail with `ER_AUTH_FAIL` and the loop goes on with
the full conversation and the second pass; and whenever the conversation, the second pass and
the group key exchange succeed after a failed first pass, the negotiation returns `ER_OK`. -/
theorem second_pass_mismatch_is_final (env : AuthEnv) (fuel : Nat) (obj : AllJoynPeerObj)
    (handle : Nat) (peerState : PeerState) (call : ExchangeGuidsCall) (authVersion : Nat)
    (events : List AuthEvent) (conv : Conversation)
    (hfirst : (sessionKeyPass env 0 obj.localGuid call.guid
      (startConversation peerState events)).status ≠ .ER_OK)
    (hconv : fullConversation env fuel obj (UseKeyExchanger authVersion obj.supportedAuthSuites)
      authVersion call.guid
      (sessionKeyPass env 0 obj.localGuid call.guid (startConversation peerState events)) =
        some conv)
    (hok : conv.status = .ER_OK)
    (hkey : (masterSecretLookup env 1).1 = .ER_OK)
    (hcall : (env.genSessionKey 1 obj.localGuid call.guid (env.nonce 1)).status = .ER_OK)
    (hgen : (KeyGen (env.keyGen 1) conv.peerState.versionState
      (AuthenticatePeerSeed (env.nonce 1)
        (env.genSessionKey 1 obj.localGuid call.guid (env.nonce 1)).nonce)
      .INITIATOR).status = .ER_OK)
    (hmis : (KeyGen (env.keyGen 1) conv.peerState.versionState
      (AuthenticatePeerSeed (env.nonce 1)
        (env.genSessionKey 1 obj.localGuid call.guid (env.nonce 1)).nonce)
      .INITIATOR).verifier ≠
        (env.genSessionKey 1 obj.localGuid call.guid (env.nonce 1)).verifier) :
    (∃ r, negotiate env fuel obj handle peerState call authVersion events = some r ∧
      r.status = .ER_AUTH_FAIL ∧
      r.events = conv.events ++ (masterSecretLookup env 1).2 ++
        [.genSessionKey obj.localGuid call.guid (env.nonce 1),
         .keyGen (KeyGen (env.keyGen 1) conv.peerState.versionState
            (AuthenticatePeerSeed (env.nonce 1)
              (env.genSessionKey 1 obj.localGuid call.guid (env.nonce 1)).nonce)
            .INITIATOR).expiresStoredKey,
         .authenticationComplete conv.mech call.sender false]) ∧
    (∀ c : Conversation,
      (masterSecretLookup env 0).1 = .ER_OK →
      (env.genSessionKey 0 obj.localGuid call.guid (env.nonce 0)).status = .ER_OK →
      (KeyGen (env.keyGen 0) c.peerState.versionState
        (AuthenticatePeerSeed (env.nonce 0)
          (env.genSessionKey 0 obj.localGuid call.guid (env.nonce 0)).nonce)
        .INITIATOR).status = .ER_OK →
      (KeyGen (env.keyGen 0) c.peerState.versionState
        (AuthenticatePeerSeed (env.nonce 0)
          (env.genSessionKey 0 obj.localGuid call.guid (env.nonce 0)).nonce)
        .INITIATOR).verifier ≠
          (env.genSessionKey 0 obj.localGuid call.guid (env.nonce 0)).verifier →
      (sessionKeyPass env 0 obj.localGuid call.guid c).status = .ER_AUTH_FAIL ∧
      negotiationLoop env fuel obj (UseKeyExchanger authVersion obj.supportedAuthSuites)
          authVersion call.guid c =
        (fullConversation env fuel obj (UseKeyExchanger authVersion obj.supportedAuthSuites)
          authVersion call.guid (sessionKeyPass env 0 obj.localGuid call.guid c)).map
          (fun next =>
            (if next.status == .ER_OK then sessionKeyPass env 1 obj.localGuid call.guid next
             else next, true))) ∧
    (∀ (other : AuthEnv) (next : Conversation),
      (sessionKeyPass other 0 obj.localGuid call.guid
        (startConversation peerState events)).status ≠ .ER_OK →
      fullConversation other fuel obj (UseKeyExchanger authVersion obj.supportedAuthSuites)
        authVersion call.guid
        (sessionKeyPass other 0 obj.localGuid call.guid (startConversation peerState events)) =
          some next →
      next.status = .ER_OK →
      (sessionKeyPass other 1 obj.localGuid call.guid next).status = .ER_OK →
      (exchangeGroupKeys other obj.peerStateTable.groupKey
        (UseKeyExchanger authVersion obj.supportedAuthSuites) authVersion
        { sessionKeyPass other 1 obj.localGuid call.guid next with
          peerState := { (sessionKeyPass other 1 obj.localGuid call.guid next).peerState with
            hashInitialized := false } }).status = .ER_OK →
      ∃ r, negotiate other fuel obj handle peerState call authVersion events = some r ∧
        r.status = .ER_OK) := by
  obtain ⟨hst, hmech, hev⟩ := sessionKeyPass_mismatch env 1 obj.localGuid call.guid conv
    hkey hcall hgen hmis
  have hfirst' : ((sessionKeyPass env 0 obj.localGuid call.guid
      (startConversation peerState events)).status == .ER_OK) = false := by
    simpa using hfirst
  refine ⟨?_, ?_, ?_⟩
  · unfold negotiate negotiationLoop
    simp only [hfirst', Bool.false_eq_true, if_false, hconv, hok, beq_self_eq_true, if_true]
    refine ⟨_, rfl, ?_, ?_⟩
    · unfold completeAuthentication
      simp [hst]
    · unfold completeAuthentication
      simp [hst, hmech, hev]
  · intro c hkey0 hcall0 hgen0 hmis0
    have hfail := (sessionKeyPass_mismatch env 0 obj.localGuid call.guid c hkey0 hcall0 hgen0
      hmis0).1
    refine ⟨hfail, negotiationLoop_continues env fuel obj _ authVersion call.guid c ?_⟩
    rw [hfail]
    decide
  · intro other next h0 hnext hok2 hsecond hgroup
    exact negotiate_recovers other fuel obj handle peerState call authVersion events next h0
      hnext hok2 hsecond hgroup

open Scenario

/-- The witness of C16: the peer of `mismatchEnv` sends the verifier "00" in every reply.
The key store has no master secret on the first pass, the ECDHE_NULL key exchange succeeds,
and the second pass ends the authentication with `ER_AUTH_FAIL`. -/
theorem second_pass_mismatch_is_final_witness :
    firstPass.status ≠ .ER_OK ∧ conversed.status = .ER_OK ∧
    (KeyGen (mismatchEnv.keyGen 1) conversed.peerState.versionState
      (AuthenticatePeerSeed "EF" "CD") .INITIATOR).verifier ≠ "00" ∧
    ∃ r, negotiate mismatchEnv 4 engine 1 freshPeer
        (mismatchEnv.exchangeGuids "local" PREFERRED_AUTH_VERSION) 0x00040000 [] = some r ∧
      r.status = .ER_AUTH_FAIL ∧
      r.events =
        [.exchangeSuites [AUTH_SUITE_SRP_KEYX, AUTH_SUITE_ECDHE_NULL],
         .keyExchange AUTH_SUITE_ECDHE_NULL, .keyAuthentication AUTH_SUITE_ECDHE_NULL,
         .storeMasterSecret AUTH_SUITE_ECDHE_NULL, .genSessionKey "local" "peer" "EF",
         .keyGen false, .authenticationComplete "ALLJOYN_ECDHE_NULL" ":3.1" false] :=
  ⟨by decide, by decide, by decide,
    (second_pass_mismatch_is_final mismatchEnv 4 engine 1 freshPeer
      (mismatchEnv.exchangeGuids "local" PREFERRED_AUTH_VERSION) 0x00040000 [] conversed
      (by decide) (by decide) (by decide) (by decide) (by decide) (by decide) (by decide)).1⟩

/-- C16 fails as stated: on the first pass a verifier that does not match is not final.  The
key store has a master secret for the peer, `KeyGen` succeeds and its verifier differs from
the "00" of the reply; `AuthenticatePeer` then runs the key exchange and a second
`GenSessionKey` call, and returns `ER_OK`. -/
theorem first_pass_mismatch_is_retried :
    (staleEnv.genSessionKey 0 "local" "peer" "AB").verifier = "00" ∧
    (KeyGen (staleEnv.keyGen 0) freshPeer.versionState (AuthenticatePeerSeed "AB" "CD")
      .INITIATOR).status = .ER_OK ∧
    (KeyGen (staleEnv.keyGen 0) freshPeer.versionState (AuthenticatePeerSeed "AB" "CD")
      .INITIATOR).verifier ≠ "00" ∧
    (AuthenticatePeer staleEnv 4 engine .MESSAGE_METHOD_CALL "org.example.Peer" false).map
        (fun r => (r.status, r.events)) =
      some (.ER_OK,
        [.exchangeGuids "local" 0x00040000, .genSessionKey "local" "peer" "AB", .keyGen false,
         .exchangeSuites [AUTH_SUITE_SRP_KEYX, AUTH_SUITE_ECDHE_NULL],
         .keyExchange AUTH_SUITE_ECDHE_NULL, .keyAuthentication AUTH_SUITE_ECDHE_NULL,
         .storeMasterSecret AUTH_SUITE_ECDHE_NULL, .genSessionKey "local" "peer" "EF",
         .keyGen false, .exchangeGroupKeys [9, 9, 9, 9],
         .authenticationComplete "ALLJOYN_ECDHE_NULL" ":3.1" true]) := by
  decide

/-- The run of `AuthenticatePeer` that goes with the witness of C16. -/
theorem second_pass_mismatch_example :
    (AuthenticatePeer mismatchEnv 4 engine .MESSAGE_METHOD_CALL "org.example.Peer" false).map
        (fun r => (r.status, r.events)) =
      some (.ER_AUTH_FAIL,
        [.exchangeGuids "local" 0x00040000,
         .exchangeSuites [AUTH_SUITE_SRP_KEYX, AUTH_SUITE_ECDHE_NULL],
         .keyExchange AUTH_SUITE_ECDHE_NULL, .keyAuthentication AUTH_SUITE_ECDHE_NULL,
         .storeMasterSecret AUTH_SUITE_ECDHE_NULL, .genSessionKey "local" "peer" "EF",
         .keyGen false, .authenticationComplete "ALLJOYN_ECDHE_NULL" ":3.1" false]) := by
  decide

namespace DaemonRouter
open Scenario

/-! ### C11: the automatic error reply -/

theorem bnot_true {b : Bool} (h : (!b) = true) : b = false := by
  cases b <;> simp_all

theorem bnot_not_true {b : Bool} (h : ¬ (!b) = true) : b = true := by
  cases b <;> simp_all

theorem checkEndpoint_flags (cfg : BuildConfig) (env : Collaborators) (r : DaemonRouter)
    (msg : Message) (src : BusEndpoint) (st : FilterState) (dest : BusEndpoint) :
    (checkEndpoint cfg env r msg src st dest).blocked =
      (st.blocked || refusesRemote cfg env r msg src dest) ∧
    (checkEndpoint cfg env r msg src st dest).blockedReply =
      (st.blockedReply || replyBlocked cfg env r msg src dest) := by
  simp only [refusesRemote, replyBlocked, policyDenies, isOurEp, checkEndpoint]
  by_cases h1 : (cfg.ENABLE_POLICYDB &&
      !(env.policyOKToSend msg src dest && env.policyOKToReceive msg src dest)) = true
  · simp only [h1, if_true]
    simp
  · simp only [h1, Bool.false_eq_true, if_false]
    by_cases h2 : (!(dest.allowRemote || !(src.epType == .ENDPOINT_TYPE_BUS2BUS) &&
        (dest.epType == .ENDPOINT_TYPE_LOCAL || dest.epType == .ENDPOINT_TYPE_NULL ||
          dest.epType == .ENDPOINT_TYPE_REMOTE))) = true
    · simp only [h2, if_true]
      have h2' : (dest.allowRemote || !(src.epType == .ENDPOINT_TYPE_BUS2BUS) &&
        (dest.epType == .ENDPOINT_TYPE_LOCAL || dest.epType == .ENDPOINT_TYPE_NULL ||
          dest.epType == .ENDPOINT_TYPE_REMOTE)) = false := bnot_true h2
      rw [h2']
      (repeat' split) <;> simp
    · simp only [h2, Bool.false_eq_true, if_false]
      have h2' : (dest.allowRemote || !(src.epType == .ENDPOINT_TYPE_BUS2BUS) &&
        (dest.epType == .ENDPOINT_TYPE_LOCAL || dest.epType == .ENDPOINT_TYPE_NULL ||
          dest.epType == .ENDPOINT_TYPE_REMOTE)) = true := bnot_not_true h2
      by_cases h3 : (!(!msg.replyIsExpected || src.allowRemote ||
          !(src.epType == .ENDPOINT_TYPE_BUS2BUS) &&
          (dest.epType == .ENDPOINT_TYPE_LOCAL || dest.epType == .ENDPOINT_TYPE_NULL ||
            dest.epType == .ENDPOINT_TYPE_REMOTE))) = true
      · simp only [h3, if_true, h2']
        (repeat' split) <;> simp
      · simp only [h3, Bool.false_eq_true, if_false, h2']
        (repeat' split) <;> simp

theorem foldl_checkEndpoint_flags (cfg : BuildConfig) (env : Collaborators) (r : DaemonRouter)
    (msg : Message) (src : BusEndpoint) (l : List BusEndpoint) (st : FilterState) :
    (l.foldl (checkEndpoint cfg env r msg src) st).blocked =
      (st.blocked || l.any (refusesRemote cfg env r msg src)) ∧
    (l.foldl (checkEndpoint cfg env r msg src) st).blockedReply =
      (st.blockedReply || l.any (replyBlocked cfg env r msg src)) := by
  induction l generalizing st with
  | nil => simp
  | cons d rest ih =>
    rw [List.foldl_cons, (ih _).1, (ih _).2, (checkEndpoint_flags cfg env r msg src st d).1,
      (checkEndpoint_flags cfg env r msg src st d).2, List.any_cons, List.any_cons,
      Bool.or_assoc, Bool.or_assoc]
    exact ⟨rfl, rfl⟩

theorem blockedDescription_cause (cfg : BuildConfig) (env : Collaborators) (r : DaemonRouter)
    (msg : Message) (src : BusEndpoint) (destination : String) :
    blockedDescription (r.filterEndpoints cfg env msg src) destination =
      "Remote method call blocked -- " ++ blockedCause cfg env r msg src ++
        "  Destination = " ++ destination := by
  have hp := filterEndpoints_policyRejected cfg env r msg src
  have hb : (r.filterEndpoints cfg env msg src).blocked =
      (r.candidates msg).any (refusesRemote cfg env r msg src) := by
    simp [filterEndpoints, (foldl_checkEndpoint_flags cfg env r msg src _ _).1]
  have hr : (r.filterEndpoints cfg env msg src).blockedReply =
      (r.candidates msg).any (replyBlocked cfg env r msg src) := by
    simp [filterEndpoints, (foldl_checkEndpoint_flags cfg env r msg src _ _).2]
  simp only [blockedDescription, blockedCause, hp, hb, hr]
  split
  · rfl
  · split
    · rfl
    · split <;> rfl

theorem routedMessage_sender (env : Collaborators) (r : DaemonRouter) (msg : Message)
    (src : BusEndpoint) : (r.routedMessage env msg src).sender = msg.sender := by
  rcases routedMessage_cases env r msg src with h | h <;> rw [h]

/-- C11: when the call gets to the routing (the source is not a virtual endpoint and the
local endpoint is valid), `PushMessage` builds an automatic error reply exactly when the
status is not `ER_OK`, the message is a METHOD_CALL without NO_REPLY_EXPECTED and the source
is not a Bus2Bus endpoint.  The reply is the `org.alljoyn.Bus.Blocked` error of the local
endpoint to the sender of the call; its description names one cause, the first that applies
of policy rejection, a destination that does not accept remote messages and a reply that would
be blocked, and "destination does not exist" otherwise.  The reply is routed from the local
endpoint after the calls of the first pass, and the status that is returned is the status of
the first pass. -/
theorem auto_error_reply (cfg : BuildConfig) (env : Collaborators) (r : DaemonRouter)
    (msg : Message) (src : BusEndpoint) (hsrc : src.epType ≠ .ENDPOINT_TYPE_VIRTUAL)
    (hlep : r.localEndpoint.valid = true) :
    ((r.routeMessage cfg env msg src).reply.isSome = true ↔
      (PushMessage cfg env r msg src).status ≠ .ER_OK ∧
        msg.msgType = .MESSAGE_METHOD_CALL ∧
        msg.flags &&& ALLJOYN_FLAG_NO_REPLY_EXPECTED = 0 ∧
        src.epType ≠ .ENDPOINT_TYPE_BUS2BUS) ∧
    (∀ reply, (r.routeMessage cfg env msg src).reply = some reply →
      reply = ErrorMsg r.localEndpoint.uniqueName (r.routedMessage env msg src)
        "org.alljoyn.Bus.Blocked"
        ("Remote method call blocked -- " ++
          blockedCause cfg env r (r.routedMessage env msg src) src ++
          "  Destination = " ++ msg.destination) ∧
      reply.msgType = .MESSAGE_ERROR ∧ reply.destination = msg.sender ∧
      (PushMessage cfg env r msg src).events =
        (r.routeMessage cfg env msg src).events ++
          (PushMessage cfg env r reply r.localEndpoint).events) ∧
    ((r.routeMessage cfg env msg src).reply = none →
      (PushMessage cfg env r msg src).events = (r.routeMessage cfg env msg src).events) ∧
    (PushMessage cfg env r msg src).status = (r.routeMessage cfg env msg src).status := by
  have hcore := routeMessage_eq_routeCore cfg env r msg src hsrc hlep
  have hreply : (r.routeMessage cfg env msg src).reply =
      r.autoReply (r.routedMessage env msg src) src
        (r.filterEndpoints cfg env (r.routedMessage env msg src) src)
        (r.routeMessage cfg env msg src).status := by
    rw [hcore]
    rfl
  refine ⟨?_, ?_, ?_, PushMessage_status cfg env r msg src⟩
  · rw [PushMessage_status, hreply]
    unfold autoReply
    simp only [replyIsExpected_routedMessage]
    by_cases hc : ((r.routeMessage cfg env msg src).status != .ER_OK &&
        msg.replyIsExpected && !(src.epType == .ENDPOINT_TYPE_BUS2BUS)) = true
    · rw [if_pos hc]
      simp only [Bool.and_eq_true, Message.replyIsExpected] at hc
      simp only [Option.isSome_some, true_iff]
      refine ⟨by simpa using hc.1.1, by simpa using hc.1.2.1, by simpa using hc.1.2.2,
        by simpa using hc.2⟩
    · rw [if_neg hc]
      simp only [Option.isSome_none, Bool.false_eq_true, false_iff]
      intro hx
      apply hc
      simp only [Bool.and_eq_true, Message.replyIsExpected]
      refine ⟨⟨by simpa using hx.1, by simpa using hx.2.1, by simpa using hx.2.2.1⟩,
        by simpa using hx.2.2.2⟩
  · intro reply hr
    have hr' := hr
    rw [hreply] at hr'
    unfold autoReply at hr'
    simp only at hr'
    split at hr'
    · injection hr' with hr'
      rw [blockedDescription_cause, routedMessage_destination] at hr'
      refine ⟨hr'.symm, ?_, ?_, ?_⟩
      · rw [← hr']; rfl
      · rw [← hr']
        exact routedMessage_sender env r msg src
      · rw [PushMessage_events, hr]
        simp only
        rw [PushMessage_events,
          routeMessage_reply_none cfg env r reply r.localEndpoint
            (by rw [← hr']; simp [Message.replyIsExpected, ErrorMsg])]
        simp
    · cases hr'
  · intro hnone
    rw [PushMessage_events, hnone]
    simp

end DaemonRouter

namespace DaemonRouter
open Scenario

/-- The witness of C11: `client` calls the remote peer `virt`, whose reply `client` would not
accept; the routing fails with `ER_BUS_NO_ROUTE` and the error reply names the blocked
reply. -/
theorem auto_error_reply_witness :
    client.epType ≠ .ENDPOINT_TYPE_VIRTUAL ∧ router.localEndpoint.valid = true ∧
    (router.routeMessage plain env call client).status = .ER_BUS_NO_ROUTE ∧
    (router.routeMessage plain env call client).reply =
      some (ErrorMsg ":1.1" call "org.alljoyn.Bus.Blocked"
        "Remote method call blocked -- reply from off device endpoint would be blocked.  Destination = :2.7") ∧
    ((router.routeMessage plain env call client).reply.isSome = true ↔
      (PushMessage plain env router call client).status ≠ .ER_OK ∧
        call.msgType = .MESSAGE_METHOD_CALL ∧
        call.flags &&& ALLJOYN_FLAG_NO_REPLY_EXPECTED = 0 ∧
        client.epType ≠ .ENDPOINT_TYPE_BUS2BUS) :=
  ⟨by decide, by decide, by decide, by decide,
    (auto_error_reply plain env router call client (by decide) (by decide)).1⟩

/-! ### C12: sessionless messages -/

theorem admits_sessionless_b2b (cfg : BuildConfig) (env : Collaborators) (r : DaemonRouter)
    (msg : Message) (src dest : BusEndpoint)
    (hcompat : cfg.ENABLE_OLD_PUSHMESSAGE_COMPATIBILITY = true)
    (hb2b : src.epType = .ENDPOINT_TYPE_BUS2BUS) (hsl : msg.sessionless = true) :
    admits cfg env r msg src dest = false := by
  simp only [admits, checkEndpoint, FilterState.initial, hcompat, if_true,
    AddCompatibilityOverride, hb2b, hsl]
  (repeat' split) <;> simp_all

/-- C12 (as the code has it): for a sessionless message that gets to the routing, the calls
of the pass are the hand-off to the sessionless object, made unless the policy rejected a
candidate, followed by one `SendThroughEndpoint` call for every candidate the filter loop
admits.  The hand-off is `RouteSessionlessMessage` for a Bus2Bus source and the `PushMessage`
of the sessionless object for a broadcast from another source.  With the compatibility
override compiled in the filter loop admits no candidate for a Bus2Bus source; it does admit
candidates for a broadcast from a directly connected source. -/
theorem sessionless_hand_off (cfg : BuildConfig) (env : Collaborators) (r : DaemonRouter)
    (msg : Message) (src : BusEndpoint) (hsrc : src.epType ≠ .ENDPOINT_TYPE_VIRTUAL)
    (hlep : r.localEndpoint.valid = true) (hsl : msg.sessionless = true) :
    (src.epType = .ENDPOINT_TYPE_BUS2BUS →
      (r.routeMessage cfg env msg src).events =
        (if (r.candidates (r.routedMessage env msg src)).any
            (policyDenies cfg env (r.routedMessage env msg src) src) then []
          else [Event.routeSessionless src.b2bSessionId (r.routedMessage env msg src)]) ++
        ((r.candidates (r.routedMessage env msg src)).filter
          (admits cfg env r (r.routedMessage env msg src) src)).map
          (fun ep => Event.send ep (r.routedMessage env msg src)
            (sendSessionId (r.routedMessage env msg src))) ∧
      (cfg.ENABLE_OLD_PUSHMESSAGE_COMPATIBILITY = true →
        (r.candidates (r.routedMessage env msg src)).filter
          (admits cfg env r (r.routedMessage env msg src) src) = [])) ∧
    (src.epType ≠ .ENDPOINT_TYPE_BUS2BUS → msg.isBroadcast = true →
      (r.routeMessage cfg env msg src).events =
        (if (r.candidates (r.routedMessage env msg src)).any
            (policyDenies cfg env (r.routedMessage env msg src) src) then []
          else [Event.sessionlessPush (r.routedMessage env msg src)]) ++
        ((r.candidates (r.routedMessage env msg src)).filter
          (admits cfg env r (r.routedMessage env msg src) src)).map
          (fun ep => Event.send ep (r.routedMessage env msg src)
            (sendSessionId (r.routedMessage env msg src)))) := by
  have hev : (r.routeMessage cfg env msg src).events =
      (handOff env (r.routedMessage env msg src) src
        (r.filterEndpoints cfg env (r.routedMessage env msg src) src).policyRejected).2 ++
      (r.filterEndpoints cfg env (r.routedMessage env msg src) src).destEps.map
        (fun ep => Event.send ep (r.routedMessage env msg src)
          (sendSessionId (r.routedMessage env msg src))) := by
    rw [routeMessage_eq_routeCore cfg env r msg src hsrc hlep]
    simp [routeCore, deliver_events]
  rw [filterEndpoints_destEps, filterEndpoints_policyRejected] at hev
  constructor
  · intro hb2b
    refine ⟨?_, ?_⟩
    · rw [hev]
      congr 1
      generalize (r.candidates (r.routedMessage env msg src)).any
        (policyDenies cfg env (r.routedMessage env msg src) src) = p
      cases p <;> simp [handOff, hsl, hb2b]
    · intro hcompat
      rw [List.filter_eq_nil_iff]
      intro dest _
      rw [admits_sessionless_b2b cfg env r _ src dest hcompat hb2b (by simp [hsl])]
      simp
  · intro hnb hbc
    rw [hev]
    congr 1
    have hnb' : (src.epType == .ENDPOINT_TYPE_BUS2BUS) = false := by simpa using hnb
    generalize (r.candidates (r.routedMessage env msg src)).any
      (policyDenies cfg env (r.routedMessage env msg src) src) = p
    cases p <;> simp [handOff, hsl, hbc, hnb']

/-- The witness of C12: the sessionless broadcast signal of `client`. -/
theorem sessionless_hand_off_witness :
    client.epType ≠ .ENDPOINT_TYPE_VIRTUAL ∧ router.localEndpoint.valid = true ∧
    sessionlessSignal.sessionless = true ∧
    (client.epType ≠ .ENDPOINT_TYPE_BUS2BUS → sessionlessSignal.isBroadcast = true →
      (router.routeMessage plain env sessionlessSignal client).events =
        (if (router.candidates (router.routedMessage env sessionlessSignal client)).any
            (policyDenies plain env (router.routedMessage env sessionlessSignal client) client)
          then []
          else [Event.sessionlessPush (router.routedMessage env sessionlessSignal client)]) ++
        ((router.candidates (router.routedMessage env sessionlessSignal client)).filter
          (admits plain env router (router.routedMessage env sessionlessSignal client)
            client)).map
          (fun ep => Event.send ep (router.routedMessage env sessionlessSignal client)
            (sendSessionId (router.routedMessage env sessionlessSignal client)))) :=
  ⟨by decide, by decide, by decide,
    (sessionless_hand_off plain env router sessionlessSignal client (by decide) (by decide)
      (by decide)).2⟩

/-- C12 fails as stated: the sessionless broadcast signal of the directly connected `client`
is handed to the sessionless object and is also sent through every endpoint the rule table
matches; and without the compatibility override the same holds for a sessionless broadcast
from the Bus2Bus endpoint `b2b`. -/
theorem sessionless_broadcast_is_also_sent :
    sessionlessSignal.sessionless = true ∧ sessionlessSignal.isBroadcast = true ∧
    client.epType = .ENDPOINT_TYPE_REMOTE ∧
    (PushMessage withPolicy env router sessionlessSignal client).events =
      Event.sessionlessPush sessionlessSignal ::
        [localEp, client, virt, memberA, memberB, b2b].map
          (fun ep => Event.send ep sessionlessSignal 0) ∧
    (PushMessage plain env router sessionlessSignal b2b).events =
      Event.routeSessionless 0 sessionlessSignal ::
        [localEp, virt, memberA, memberB, b2b].map
          (fun ep => Event.send ep sessionlessSignal 0) := by
  refine ⟨by decide, by decide, by decide, ?_, ?_⟩
  · rw [PushMessage_events]
    decide
  · rw [PushMessage_events]
    decide

end DaemonRouter

open Scenario

/-! ### C21: the rights after an authentication -/

/-- C21: `SetRights` with `mutual` set authorizes secure TX and RX for the four message
types.  Without it the challenger gets METHOD_CALL = RX, METHOD_RET = TX, ERROR = TX and the
initiator METHOD_CALL = TX, METHOD_RET = RX, ERROR = RX, both get SIGNAL = TX and RX; so for
every message type one side may send securely exactly what the other may receive securely.
Nothing but the authorizations of the peer state changes. -/
theorem SetRights_rights (peerState : PeerState) :
    (∀ challenger, (SetRights peerState true challenger).authorizations =
      { methodCall := ALLOW_SECURE_TX ||| ALLOW_SECURE_RX
        methodRet := ALLOW_SECURE_TX ||| ALLOW_SECURE_RX
        error := ALLOW_SECURE_TX ||| ALLOW_SECURE_RX
        signal := ALLOW_SECURE_TX ||| ALLOW_SECURE_RX }) ∧
    (SetRights peerState false true).authorizations =
      { methodCall := ALLOW_SECURE_RX, methodRet := ALLOW_SECURE_TX, error := ALLOW_SECURE_TX
        signal := ALLOW_SECURE_TX ||| ALLOW_SECURE_RX } ∧
    (SetRights peerState false false).authorizations =
      { methodCall := ALLOW_SECURE_TX, methodRet := ALLOW_SECURE_RX, error := ALLOW_SECURE_RX
        signal := ALLOW_SECURE_TX ||| ALLOW_SECURE_RX } ∧
    (∀ msgType,
      (SetRights peerState false true).authorizations.maySend msgType =
        (SetRights peerState false false).authorizations.mayReceive msgType ∧
      (SetRights peerState false true).authorizations.mayReceive msgType =
        (SetRights peerState false false).authorizations.maySend msgType) ∧
    (∀ challenger msgType, msgType ≠ .MESSAGE_INVALID →
      (SetRights peerState true challenger).authorizations.maySend msgType = true ∧
      (SetRights peerState true challenger).authorizations.mayReceive msgType = true) ∧
    (∀ mutualAuth challenger,
      { SetRights peerState mutualAuth challenger with
        authorizations := peerState.authorizations } = peerState) := by
  refine ⟨?_, ?_, ?_, ?_, ?_, ?_⟩
  · intro challenger
    simp [SetRights, PeerState.SetAuthorization]
  · simp [SetRights, PeerState.SetAuthorization]
  · simp [SetRights, PeerState.SetAuthorization]
  · intro msgType
    cases msgType <;>
      simp [SetRights, PeerState.SetAuthorization, Authorizations.maySend,
        Authorizations.mayReceive, Authorizations.forType, ALLOW_SECURE_TX, ALLOW_SECURE_RX]
  · intro challenger msgType h
    cases msgType <;>
      simp_all [SetRights, PeerState.SetAuthorization, Authorizations.maySend,
        Authorizations.mayReceive, Authorizations.forType, ALLOW_SECURE_TX, ALLOW_SECURE_RX]
  · intro mutualAuth challenger
    cases mutualAuth <;> cases challenger <;>
      simp [SetRights, PeerState.SetAuthorization]

open Scenario

/-! ### C24: the conversation hash -/

theorem exchangeGroupKeys_hash (env : AuthEnv) (groupKey : KeyBlob) (useKeyExchanger : Bool)
    (authVersion : Nat) (c : Conversation) :
    (exchangeGroupKeys env groupKey useKeyExchanger authVersion c).peerState.hashInitialized =
      c.peerState.hashInitialized := by
  simp only [exchangeGroupKeys, apply_ite Conversation.peerState,
    apply_ite PeerState.hashInitialized, PeerState.SetKey, ite_self]

theorem completeAuthentication_flags (env : AuthEnv) (groupKey : KeyBlob)
    (useKeyExchanger : Bool) (authVersion : Nat) (sender : String) (authTried : Bool)
    (c : Conversation) :
    (completeAuthentication env groupKey useKeyExchanger authVersion sender authTried
      c).peerState.hashInitialized = false ∧
    (completeAuthentication env groupKey useKeyExchanger authVersion sender authTried
      c).peerState.authEvent = false := by
  unfold completeAuthentication
  simp only
  refine ⟨?_, trivial⟩
  split
  · rw [exchangeGroupKeys_hash]
  · rfl

theorem negotiate_some (env : AuthEnv) (fuel : Nat) (obj : AllJoynPeerObj) (handle : Nat)
    (peerState : PeerState) (call : ExchangeGuidsCall) (authVersion : Nat)
    (events : List AuthEvent) (r : AuthResult)
    (h : negotiate env fuel obj handle peerState call authVersion events = some r) :
    ∃ conv authTried,
      negotiationLoop env fuel obj (UseKeyExchanger authVersion obj.supportedAuthSuites)
        authVersion call.guid (startConversation peerState events) = some (conv, authTried) ∧
      r.obj = obj.setPeer handle
        (completeAuthentication env obj.peerStateTable.groupKey
          (UseKeyExchanger authVersion obj.supportedAuthSuites) authVersion call.sender
          authTried conv).peerState := by
  unfold negotiate at h
  simp only at h
  split at h
  · cases h
  · rename_i conv authTried hloop
    injection h with h
    subst h
    exact ⟨conv, authTried, hloop, rfl⟩

theorem fullConversation_keyExchange_isSome (env : AuthEnv) (fuel : Nat) (obj : AllJoynPeerObj)
    (authVersion : Nat) (remoteGuid : String) (c : Conversation) :
    (fullConversation env fuel obj true authVersion remoteGuid c).isSome = true := by
  unfold fullConversation
  simp only [if_true]
  split <;> rfl

theorem negotiate_isSome (env : AuthEnv) (fuel : Nat) (obj : AllJoynPeerObj) (handle : Nat)
    (peerState : PeerState) (call : ExchangeGuidsCall) (authVersion : Nat)
    (events : List AuthEvent)
    (h : (fullConversation env fuel obj (UseKeyExchanger authVersion obj.supportedAuthSuites)
      authVersion call.guid
      (sessionKeyPass env 0 obj.localGuid call.guid
        (startConversation peerState events))).isSome = true) :
    (negotiate env fuel obj handle peerState call authVersion events).isSome = true := by
  unfold negotiate negotiationLoop
  simp only
  cases hf : fullConversation env fuel obj (UseKeyExchanger authVersion obj.supportedAuthSuites)
      authVersion call.guid
      (sessionKeyPass env 0 obj.localGuid call.guid (startConversation peerState events)) with
  | none => rw [hf] at h; cases h
  | some conv =>
    simp only
    split
    · rename_i hnone
      split at hnone
      · cases hnone
      · split at hnone <;> cases hnone
    · rfl

/-- C24: the negotiation of `AuthenticatePeer` (lines 1103-1282) starts with the conversation
hash initialized, and whenever it returns, with whatever status and after however many key
exchange attempts, the conversation hash of the peer state is not initialized (and the
authentication event is cleared).  With the key exchange conversation it returns for every
environment; with the SASL conversation it returns when that conversation ends. -/
theorem hash_freed_on_return (env : AuthEnv) (fuel : Nat) (obj : AllJoynPeerObj)
    (handle : Nat) (peerState : PeerState) (call : ExchangeGuidsCall) (authVersion : Nat)
    (events : List AuthEvent) :
    (startConversation peerState events).peerState.hashInitialized = true ∧
    (∀ r, negotiate env fuel obj handle peerState call authVersion events = some r →
      (r.obj.peerStateTable.get handle).hashInitialized = false ∧
      (r.obj.peerStateTable.get handle).authEvent = false) ∧
    (UseKeyExchanger authVersion obj.supportedAuthSuites = true →
      (negotiate env fuel obj handle peerState call authVersion events).isSome = true) ∧
    (∀ conv, AuthenticatePeerUsingSASL env fuel call.guid
        (sessionKeyPass env 0 obj.localGuid call.guid (startConversation peerState events)) =
          some conv →
      (negotiate env fuel obj handle peerState call authVersion events).isSome = true) := by
  refine ⟨rfl, ?_, ?_, ?_⟩
  · intro r hr
    obtain ⟨conv, authTried, _, hobj⟩ := negotiate_some env fuel obj handle peerState call
      authVersion events r hr
    rw [hobj]
    simp only [AllJoynPeerObj.setPeer, PeerStateTable.get_set]
    exact completeAuthentication_flags _ _ _ _ _ _ _
  · intro huse
    apply negotiate_isSome
    rw [huse]
    exact fullConversation_keyExchange_isSome _ _ _ _ _ _
  · intro conv hconv
    apply negotiate_isSome
    cases huse : UseKeyExchanger authVersion obj.supportedAuthSuites with
    | true => exact fullConversation_keyExchange_isSome _ _ _ _ _ _
    | false =>
      unfold fullConversation
      simp [hconv]

open Scenario

/-! ### C30: the retries of the key exchange -/

theorem GetKeyExchangerInstance_some (l : List Nat) (s : Nat)
    (h : GetKeyExchangerInstance l = some s) :
    s ∈ [AUTH_SUITE_ECDHE_ECDSA, AUTH_SUITE_ECDHE_PSK, AUTH_SUITE_ECDHE_NULL] ∧
    ∃ e ∈ l, includesSuite s e = true := by
  induction l with
  | nil => simp [GetKeyExchangerInstance] at h
  | cons e rest ih =>
    unfold GetKeyExchangerInstance at h
    split at h
    · rename_i hc
      injection h with h
      subst h
      exact ⟨by simp, e, by simp, hc⟩
    · split at h
      · rename_i hc
        injection h with h
        subst h
        exact ⟨by simp, e, by simp, hc⟩
      · split at h
        · rename_i hc
          injection h with h
          subst h
          exact ⟨by simp, e, by simp, hc⟩
        · obtain ⟨h1, e', he', hi⟩ := ih h
          exact ⟨h1, e', List.mem_cons_of_mem _ he', hi⟩

theorem kept_length_lt (l : List Nat) (s : Nat) (h : ∃ e ∈ l, includesSuite s e = true) :
    (l.filter (fun e => (e &&& s) != s)).length < l.length := by
  rw [List.length_filter_lt_length_iff_exists]
  obtain ⟨e, he, hi⟩ := h
  refine ⟨e, he, ?_⟩
  simp only [includesSuite] at hi
  simp [bne, hi]

theorem smallerSuites_isSome (env : AuthEnv) (attempt s n : Nat) (l : List Nat)
    (hlen : l.length ≤ n + 1) (h : GetKeyExchangerInstance l = some s) :
    ∃ smaller, smallerSuites env attempt s n l = some smaller ∧ smaller.length = n ∧
      smaller.take (l.filter (fun e => (e &&& s) != s)).length =
        l.filter (fun e => (e &&& s) != s) ∧
      ∀ e ∈ l.filter (fun e => (e &&& s) != s), includesSuite s e = false := by
  have hlt := kept_length_lt l s (GetKeyExchangerInstance_some l s h).2
  have hle : ¬ (l.filter (fun e => (e &&& s) != s)).length > n := by omega
  unfold smallerSuites
  simp only [hle, if_false]
  refine ⟨_, rfl, ?_, ?_, ?_⟩
  · simp
    omega
  · simp
  · intro e he
    have := (List.mem_filter.1 he).2
    simp only [includesSuite]
    simpa [bne] using this

theorem attemptedSuites_append (a b : List AuthEvent) :
    attemptedSuites (a ++ b) = attemptedSuites a ++ attemptedSuites b := by
  simp [attemptedSuites, List.filterMap_append]

theorem keyExchangeAttempt_attempted (env : AuthEnv) (attempt currentSuite : Nat)
    (c : Conversation) :
    attemptedSuites (keyExchangeAttempt env attempt currentSuite c).1.events =
      attemptedSuites c.events ++ [currentSuite] := by
  unfold keyExchangeAttempt
  simp only
  split
  · split <;> simp [attemptedSuites, AuthEvent.attemptedSuite, List.filterMap_append]
  · split <;> simp [attemptedSuites, AuthEvent.attemptedSuite, List.filterMap_append]

theorem AuthenticatePeerUsingKeyExchange_attempts (env : AuthEnv) (count : Nat) :
    ∀ (attempt : Nat) (l : List Nat) (c : Conversation),
      ∃ A, attemptedSuites (AuthenticatePeerUsingKeyExchange env count attempt l c).events =
          attemptedSuites c.events ++ A ∧
        A.length ≤ count ∧
        ∀ s ∈ A, s ∈ [AUTH_SUITE_ECDHE_ECDSA, AUTH_SUITE_ECDHE_PSK, AUTH_SUITE_ECDHE_NULL] := by
  induction count with
  | zero =>
    intro attempt l c
    exact ⟨[], by simp [AuthenticatePeerUsingKeyExchange], by simp, by simp⟩
  | succ n ih =>
    intro attempt l c
    unfold AuthenticatePeerUsingKeyExchange
    split
    · exact ⟨[], by simp, by simp, by simp⟩
    · rename_i s hs
      have hmem := (GetKeyExchangerInstance_some _ s hs).1
      have hatt := keyExchangeAttempt_attempted env attempt s c
      have hone : ∀ x ∈ [s],
          x ∈ [AUTH_SUITE_ECDHE_ECDSA, AUTH_SUITE_ECDHE_PSK, AUTH_SUITE_ECDHE_NULL] := by
        intro x hx
        rw [List.mem_singleton.1 hx]
        exact hmem
      simp only
      split
      · exact ⟨[s], hatt, by simp, hone⟩
      · split
        · exact ⟨[s], hatt, by simp, hone⟩
        · split
          · exact ⟨[s], hatt, by simp, hone⟩
          · split
            · exact ⟨[s], hatt, by simp, hone⟩
            · rename_i smaller _
              obtain ⟨A, hA, hlen, hin⟩ := ih (attempt + 1) smaller
                { (keyExchangeAttempt env attempt s c).1 with
                  peerState :=
                    if ((keyExchangeAttempt env attempt s c).1.peerState.authVersion
                        >>> 16) < CONVERSATION_V4 then
                      { (keyExchangeAttempt env attempt s c).1.peerState with
                        hashInitialized := true }
                    else (keyExchangeAttempt env attempt s c).1.peerState }
              refine ⟨s :: A, ?_, by simp; omega, ?_⟩
              · rw [hA]
                simp only [hatt]
                simp
              · intro x hx
                rcases List.mem_cons.1 hx with rfl | hx
                · exact hmem
                · exact hin x hx


theorem kept_eq_filter (l : List Nat) (s : Nat) :
    l.filter (fun e => (e &&& s) != s) = l.filter (fun e => !(includesSuite s e)) := rfl

theorem singleEntries_filter (l : List Nat) (p : Nat → Bool) (h : singleEntries l) :
    singleEntries (l.filter p) := by
  intro suite hs
  have := h suite hs
  have hsub : List.Sublist ((l.filter p).filter (includesSuite suite))
      (l.filter (includesSuite suite)) := (List.filter_sublist _).filter _
  exact Nat.le_trans hsub.length_le this

theorem smallerSuites_exact (env : AuthEnv) (attempt s n : Nat) (l : List Nat)
    (hlen : l.length = n + 1) (hsingle : singleEntries l)
    (h : GetKeyExchangerInstance l = some s) :
    smallerSuites env attempt s n l = some (l.filter (fun e => (e &&& s) != s)) ∧
    (l.filter (fun e => (e &&& s) != s)).length = n := by
  have hin := GetKeyExchangerInstance_some l s h
  have hlt := kept_length_lt l s hin.2
  have hone := hsingle s hin.1
  have hsum := List.length_eq_length_filter_add (l := l) (includesSuite s)
  have hk : (l.filter (fun e => (e &&& s) != s)).length = n := by
    rw [kept_eq_filter] at hlt ⊢
    omega
  refine ⟨?_, hk⟩
  unfold smallerSuites
  simp only [hk, Nat.lt_irrefl, if_false, gt_iff_lt, Nat.sub_self, List.range_zero,
    List.map_nil, List.append_nil]

theorem AuthenticatePeerUsingKeyExchange_distinct (env : AuthEnv) (count : Nat) :
    ∀ (attempt : Nat) (l : List Nat) (c : Conversation), l.length = count → singleEntries l →
      ∃ A, attemptedSuites (AuthenticatePeerUsingKeyExchange env count attempt l c).events =
          attemptedSuites c.events ++ A ∧
        A.Nodup ∧ ∀ s ∈ A, ∃ e ∈ l, includesSuite s e = true := by
  induction count with
  | zero =>
    intro attempt l c _ _
    exact ⟨[], by simp [AuthenticatePeerUsingKeyExchange], by simp, by simp⟩
  | succ n ih =>
    intro attempt l c hlen hsingle
    unfold AuthenticatePeerUsingKeyExchange
    rw [List.take_of_length_le (by omega)]
    split
    · exact ⟨[], by simp, by simp, by simp⟩
    · rename_i s hs
      have hin := (GetKeyExchangerInstance_some _ s hs).2
      have hatt := keyExchangeAttempt_attempted env attempt s c
      have hone : ∀ x ∈ [s], ∃ e ∈ l, includesSuite x e = true := by
        intro x hx
        rw [List.mem_singleton.1 hx]
        exact hin
      obtain ⟨hsm, hk⟩ := smallerSuites_exact env attempt s n l hlen hsingle hs
      simp only
      split
      · exact ⟨[s], hatt, by simp, hone⟩
      · split
        · exact ⟨[s], hatt, by simp, hone⟩
        · split
          · exact ⟨[s], hatt, by simp, hone⟩
          · rw [hsm]
            simp only
            obtain ⟨A, hA, hnd, hfrom⟩ := ih (attempt + 1) (l.filter (fun e => (e &&& s) != s))
              { (keyExchangeAttempt env attempt s c).1 with
                peerState :=
                  if ((keyExchangeAttempt env attempt s c).1.peerState.authVersion
                      >>> 16) < CONVERSATION_V4 then
                    { (keyExchangeAttempt env attempt s c).1.peerState with
                      hashInitialized := true }
                  else (keyExchangeAttempt env attempt s c).1.peerState }
              hk (singleEntries_filter l _ hsingle)
            refine ⟨s :: A, ?_, ?_, ?_⟩
            · rw [hA]
              simp only [hatt]
              simp
            · refine List.nodup_cons.2 ⟨?_, hnd⟩
              intro hsA
              obtain ⟨e, he, hi⟩ := hfrom s hsA
              have := (List.mem_filter.1 he).2
              simp only [includesSuite] at hi
              simp [bne, hi] at this
            · intro x hx
              rcases List.mem_cons.1 hx with rfl | hx
              · exact hin
              · obtain ⟨e, he, hi⟩ := hfrom x hx
                exact ⟨e, (List.mem_filter.1 he).1, hi⟩

/-- C30 (what holds): `AuthenticatePeerUsingKeyExchange` returns for every list, after at
most `requestingAuthCount` key exchange attempts, each with ECDHE_ECDSA, ECDHE_PSK or
ECDHE_NULL.  For a retry the bound check never fires, and the retry array has one slot less
and starts with the entries that do not include the failed suite.  When no two entries of the
list include the same suite, the retry array holds these entries and nothing else, and no
suite is attempted twice. -/
theorem key_exchange_retries (env : AuthEnv) (requestingAuthList : List Nat) (attempt : Nat)
    (c : Conversation) :
    (∃ A, attemptedSuites (AuthenticatePeerUsingKeyExchange env requestingAuthList.length
          attempt requestingAuthList c).events = attemptedSuites c.events ++ A ∧
        A.length ≤ requestingAuthList.length ∧
        ∀ s ∈ A, s ∈ [AUTH_SUITE_ECDHE_ECDSA, AUTH_SUITE_ECDHE_PSK, AUTH_SUITE_ECDHE_NULL]) ∧
    (∀ n currentSuite, requestingAuthList.length = n + 1 →
      GetKeyExchangerInstance requestingAuthList = some currentSuite →
      ∃ smaller, smallerSuites env attempt currentSuite n requestingAuthList = some smaller ∧
        smaller.length = n ∧
        smaller.take
            (requestingAuthList.filter (fun e => (e &&& currentSuite) != currentSuite)).length =
          requestingAuthList.filter (fun e => (e &&& currentSuite) != currentSuite) ∧
        ∀ e ∈ requestingAuthList.filter (fun e => (e &&& currentSuite) != currentSuite),
          includesSuite currentSuite e = false) ∧
    (singleEntries requestingAuthList →
      (∀ n currentSuite, requestingAuthList.length = n + 1 →
        GetKeyExchangerInstance requestingAuthList = some currentSuite →
        smallerSuites env attempt currentSuite n requestingAuthList =
          some (requestingAuthList.filter (fun e => (e &&& currentSuite) != currentSuite))) ∧
      ∃ A, attemptedSuites (AuthenticatePeerUsingKeyExchange env requestingAuthList.length
            attempt requestingAuthList c).events = attemptedSuites c.events ++ A ∧
          A.Nodup ∧ ∀ s ∈ A, ∃ e ∈ requestingAuthList, includesSuite s e = true) := by
  refine ⟨AuthenticatePeerUsingKeyExchange_attempts env _ attempt requestingAuthList c, ?_, ?_⟩
  · intro n currentSuite hlen hs
    exact smallerSuites_isSome env attempt currentSuite n requestingAuthList (by omega) hs
  · intro hsingle
    refine ⟨?_, AuthenticatePeerUsingKeyExchange_distinct env _ attempt requestingAuthList c rfl
      hsingle⟩
    intro n currentSuite hlen hs
    exact (smallerSuites_exact env attempt currentSuite n requestingAuthList hlen hsingle hs).1

/-- C30 fails as stated: the peer offers ECDHE_NULL twice.  After the failed attempt both
entries are left out, the one slot of the retry array is never written, and the retry is made
with what the slot holds; here that is ECDHE_NULL, which is attempted a second time. -/
theorem retry_reads_unwritten_slot :
    [AUTH_SUITE_ECDHE_NULL, AUTH_SUITE_ECDHE_NULL].filter
        (fun e => (e &&& AUTH_SUITE_ECDHE_NULL) != AUTH_SUITE_ECDHE_NULL) = [] ∧
    smallerSuites duplicateEnv 0 AUTH_SUITE_ECDHE_NULL 1
        [AUTH_SUITE_ECDHE_NULL, AUTH_SUITE_ECDHE_NULL] =
      some [duplicateEnv.uninitialised 0 0] ∧
    attemptedSuites (AuthenticatePeerUsingKeyExchange duplicateEnv 2 0
        [AUTH_SUITE_ECDHE_NULL, AUTH_SUITE_ECDHE_NULL] (startConversation freshPeer [])).events =
      [AUTH_SUITE_ECDHE_NULL, AUTH_SUITE_ECDHE_NULL] := by
  decide

/-- A retry over two suites: ECDHE_PSK is not authorized, ECDHE_NULL is. -/
theorem key_exchange_retry_example :
    (AuthenticatePeer retryEnv 4 engine .MESSAGE_METHOD_CALL "org.example.Peer" false).map
        (fun r => (r.status, attemptedSuites r.events,
          (r.obj.peerStateTable.get 1).hashInitialized)) =
      some (.ER_OK, [AUTH_SUITE_ECDHE_PSK, AUTH_SUITE_ECDHE_NULL], false) := by
  decide

namespace DaemonRouter
open Scenario

/-! ### C26, C27: the broadcast filter and the compatibility override -/

theorem isBroadcast_classes (msg : Message) (h : msg.isBroadcast = true) :
    msg.isUnicast = false ∧ msg.isSessioncast = false := by
  simp only [Message.isBroadcast, Message.isSessioncast, Bool.and_eq_true,
    Bool.not_eq_true'] at h ⊢
  simp [h.1, h.2]

theorem isSessioncast_classes (msg : Message) (h : msg.isSessioncast = true) :
    msg.isUnicast = false ∧ msg.isBroadcast = false := by
  simp only [Message.isBroadcast, Message.isSessioncast, Bool.and_eq_true,
    Bool.not_eq_true'] at h ⊢
  simp [h.1, h.2]

/-- C27: with the compatibility override compiled in, a candidate for a sessioncast message
that passes the policy check is put in the destination set exactly when
`IsSessionDeliverable` holds and it is not the case that the source is Bus2Bus and the message
is sessionless.  Neither the `AllowRemoteMessages` flags nor the reply check enter the
decision. -/
theorem sessioncast_override (cfg : BuildConfig) (env : Collaborators) (r : DaemonRouter)
    (msg : Message) (src dest : BusEndpoint)
    (hcompat : cfg.ENABLE_OLD_PUSHMESSAGE_COMPATIBILITY = true)
    (hcast : msg.isSessioncast = true)
    (hpolicy : policyDenies cfg env msg src dest = false) :
    admits cfg env r msg src dest =
      (r.IsSessionDeliverable msg.sessionId src dest &&
        !(src.epType == .ENDPOINT_TYPE_BUS2BUS && msg.sessionless)) ∧
    (dest ∈ (r.filterEndpoints cfg env msg src).destEps ↔
      dest ∈ r.candidates msg ∧
        r.IsSessionDeliverable msg.sessionId src dest = true ∧
        ¬ (src.epType = .ENDPOINT_TYPE_BUS2BUS ∧ msg.sessionless = true)) := by
  have hc := isSessioncast_classes msg hcast
  have hp : (cfg.ENABLE_POLICYDB &&
      !(env.policyOKToSend msg src dest && env.policyOKToReceive msg src dest)) = false := hpolicy
  have hadm : admits cfg env r msg src dest =
      (r.IsSessionDeliverable msg.sessionId src dest &&
        !(src.epType == .ENDPOINT_TYPE_BUS2BUS && msg.sessionless)) := by
    have hD : r.IsSessionDeliverable msg.sessionId src dest =
        (src.IsInSession msg.sessionId && dest.IsInSession msg.sessionId &&
          !(dest.epType == .ENDPOINT_TYPE_VIRTUAL) &&
          (src != dest || r.selfJoin src msg.sessionId)) := by
      simp [IsSessionDeliverable]
    rw [hD]
    simp only [admits, checkEndpoint, FilterState.initial, hp, hcompat, hc.1, hc.2, hcast,
      AddCompatibilityOverride, Bool.false_eq_true, if_false, if_true, hD]
    generalize (src.IsInSession msg.sessionId && dest.IsInSession msg.sessionId &&
      !(dest.epType == .ENDPOINT_TYPE_VIRTUAL) && (src != dest || r.selfJoin src msg.sessionId))
      = deliverable
    generalize (src.epType == .ENDPOINT_TYPE_BUS2BUS && msg.sessionless) = dropped
    cases deliverable <;> cases dropped <;> (repeat' split) <;> simp_all
  refine ⟨hadm, ?_⟩
  rw [filterEndpoints_destEps, List.mem_filter, hadm]
  simp only [Bool.and_eq_true, Bool.not_eq_true', Bool.and_eq_false_iff, beq_iff_eq,
    beq_eq_false_iff_ne, ne_eq, not_and, Bool.not_eq_true]
  constructor
  · rintro ⟨h1, h2, h3⟩
    exact ⟨h1, h2, fun hs => by rcases h3 with h3 | h3
                                · exact absurd hs h3
                                · exact h3⟩
  · rintro ⟨h1, h2, h3⟩
    refine ⟨h1, h2, ?_⟩
    by_cases hs : src.epType = .ENDPOINT_TYPE_BUS2BUS
    · exact Or.inr (h3 hs)
    · exact Or.inl hs

theorem sessioncast_override_witness :
    admits withPolicy env router (signal ":9.3" 7) b2bMember memberC = true ∧
    admits plain env router (signal ":9.3" 7) b2bMember memberC = false ∧
    memberC.allowRemote = false ∧
    router.IsSessionDeliverable 7 b2bMember memberC = true := by
  have h := sessioncast_override withPolicy env router (signal ":9.3" 7) b2bMember memberC
    (by decide) (by decide) (by decide)
  exact ⟨by rw [h.1]; decide, by decide, by decide, by decide⟩

/-- The decision the filter chain takes for a candidate before the compatibility override:
both remote-message checks pass and the class filter holds. -/
theorem admits_eq (cfg : BuildConfig) (env : Collaborators) (r : DaemonRouter)
    (msg : Message) (src dest : BusEndpoint) :
    admits cfg env r msg src dest =
      (!policyDenies cfg env msg src dest &&
        (if cfg.ENABLE_OLD_PUSHMESSAGE_COMPATIBILITY then
          r.AddCompatibilityOverride
            ((dest.allowRemote || (!(src.epType == .ENDPOINT_TYPE_BUS2BUS) &&
                (dest.epType == .ENDPOINT_TYPE_LOCAL || dest.epType == .ENDPOINT_TYPE_NULL ||
                  dest.epType == .ENDPOINT_TYPE_REMOTE))) &&
              (!msg.replyIsExpected || src.allowRemote ||
                (!(src.epType == .ENDPOINT_TYPE_BUS2BUS) &&
                  (dest.epType == .ENDPOINT_TYPE_LOCAL || dest.epType == .ENDPOINT_TYPE_NULL ||
                    dest.epType == .ENDPOINT_TYPE_REMOTE))) &&
              ((!msg.isUnicast || (msg.isUnicast &&
                  r.nameTable.IsAlias dest.uniqueName msg.destination)) &&
                (!msg.isBroadcast ||
                  ((msg.globalBroadcast && dest.epType == .ENDPOINT_TYPE_BUS2BUS && src != dest) ||
                    env.ruleOkToSend msg dest)) &&
                (!msg.isSessioncast || r.IsSessionDeliverable msg.sessionId src dest)))
            src dest msg.sessionId msg.isBroadcast msg.isSessioncast msg.sessionless
            msg.globalBroadcast msg.detachId
        else
          ((dest.allowRemote || (!(src.epType == .ENDPOINT_TYPE_BUS2BUS) &&
                (dest.epType == .ENDPOINT_TYPE_LOCAL || dest.epType == .ENDPOINT_TYPE_NULL ||
                  dest.epType == .ENDPOINT_TYPE_REMOTE))) &&
              (!msg.replyIsExpected || src.allowRemote ||
                (!(src.epType == .ENDPOINT_TYPE_BUS2BUS) &&
                  (dest.epType == .ENDPOINT_TYPE_LOCAL || dest.epType == .ENDPOINT_TYPE_NULL ||
                    dest.epType == .ENDPOINT_TYPE_REMOTE))) &&
              ((!msg.isUnicast || (msg.isUnicast &&
                  r.nameTable.IsAlias dest.uniqueName msg.destination)) &&
                (!msg.isBroadcast ||
                  ((msg.globalBroadcast && dest.epType == .ENDPOINT_TYPE_BUS2BUS && src != dest) ||
                    env.ruleOkToSend msg dest)) &&
                (!msg.isSessioncast || r.IsSessionDeliverable msg.sessionId src dest))))) := by
  simp only [admits, checkEndpoint, policyDenies, FilterState.initial]
  generalize (cfg.ENABLE_POLICYDB &&
    !(env.policyOKToSend msg src dest && env.policyOKToReceive msg src dest)) = denied
  generalize (dest.allowRemote || (!(src.epType == .ENDPOINT_TYPE_BUS2BUS) &&
    (dest.epType == .ENDPOINT_TYPE_LOCAL || dest.epType == .ENDPOINT_TYPE_NULL ||
      dest.epType == .ENDPOINT_TYPE_REMOTE))) = allowed
  generalize (!msg.replyIsExpected || src.allowRemote ||
    (!(src.epType == .ENDPOINT_TYPE_BUS2BUS) &&
      (dest.epType == .ENDPOINT_TYPE_LOCAL || dest.epType == .ENDPOINT_TYPE_NULL ||
        dest.epType == .ENDPOINT_TYPE_REMOTE))) = replyOk
  generalize cfg.ENABLE_OLD_PUSHMESSAGE_COMPATIBILITY = compat
  cases denied <;> cases allowed <;> cases replyOk <;> cases compat <;>
    simp only [Bool.not_true, Bool.not_false, Bool.true_and, Bool.false_and, if_true, if_false,
      Bool.false_eq_true, Bool.and_true, Bool.and_false, List.isEmpty_nil] <;>
    (split <;> simp_all)

/-- C26: for a broadcast message and a Bus2Bus candidate, outside the DetachSession case of
the compatibility override the candidate enters the destination set only if the rule table
matches or the message is global-broadcast and the candidate is not the source.  With the
override compiled in, a global-broadcast DetachSession signal (non-zero detach id) that
passes the policy check enters the set exactly when the candidate carries the detached
session (and not both the source is Bus2Bus and the message sessionless): neither the rule
table nor the identity of the source is consulted. -/
theorem broadcast_to_bus2bus (cfg : BuildConfig) (env : Collaborators) (r : DaemonRouter)
    (msg : Message) (src dest : BusEndpoint)
    (hcast : msg.isBroadcast = true)
    (hdest : dest.epType = .ENDPOINT_TYPE_BUS2BUS) :
    (¬ (cfg.ENABLE_OLD_PUSHMESSAGE_COMPATIBILITY = true ∧ msg.globalBroadcast = true ∧
          msg.detachId ≠ 0) →
      admits cfg env r msg src dest = true →
      env.ruleOkToSend msg dest = true ∨ (msg.globalBroadcast = true ∧ src ≠ dest)) ∧
    (cfg.ENABLE_OLD_PUSHMESSAGE_COMPATIBILITY = true → msg.globalBroadcast = true →
      msg.detachId ≠ 0 → policyDenies cfg env msg src dest = false →
      admits cfg env r msg src dest =
        (dest.b2bSessionId == msg.detachId &&
          !(src.epType == .ENDPOINT_TYPE_BUS2BUS && msg.sessionless))) ∧
    (dest ∈ (r.filterEndpoints cfg env msg src).destEps ↔
      dest ∈ r.candidates msg ∧ admits cfg env r msg src dest = true) := by
  have hc := isBroadcast_classes msg hcast
  have hb2b : (dest.epType == EndpointType.ENDPOINT_TYPE_BUS2BUS) = true := by simp [hdest]
  refine ⟨?_, ?_, ?_⟩
  · intro hno
    rw [admits_eq]
    simp only [AddCompatibilityOverride, hc.1, hc.2, hcast, hb2b]
    by_cases hcompat : cfg.ENABLE_OLD_PUSHMESSAGE_COMPATIBILITY = true
    · by_cases hg : msg.globalBroadcast = true
      · have hz : msg.detachId = 0 := by
          by_contra hz
          exact hno ⟨hcompat, hg, hz⟩
        simp only [hcompat, hg, hz]
        intro h
        simp at h
        rcases h.2.1.2 with h1 | h1
        · exact Or.inr ⟨trivial, h1⟩
        · exact Or.inl h1
      · simp only [Bool.not_eq_true] at hg
        simp only [hcompat, hg]
        intro h
        simp at h
        exact Or.inl h.2.1.2
    · simp only [Bool.not_eq_true] at hcompat
      simp only [hcompat]
      intro h
      simp at h
      rcases h.2.2 with h1 | h1
      · exact Or.inr ⟨h1.1, h1.2⟩
      · exact Or.inl h1
  · intro hcompat hg hz hpolicy
    have hz1 : (msg.detachId != 0) = true := by simpa using hz
    rw [admits_eq]
    simp [AddCompatibilityOverride, hc.1, hc.2, hcast, hb2b, hcompat, hg, hz1, hpolicy]
  · rw [filterEndpoints_destEps, List.mem_filter]

theorem broadcast_to_bus2bus_witness :
    detachSeven.isBroadcast = true ∧ b2bSeven.epType = .ENDPOINT_TYPE_BUS2BUS ∧
    admits withPolicy noRuleEnv routerSeven detachSeven b2b b2bSeven = true ∧
    admits plain noRuleEnv routerSeven detachSeven b2b b2bSeven = true ∧
    (b2bSeven ∈ (routerSeven.filterEndpoints plain noRuleEnv detachSeven b2b).destEps ↔
      b2bSeven ∈ routerSeven.candidates detachSeven ∧
        admits plain noRuleEnv routerSeven detachSeven b2b b2bSeven = true) := by
  have h := broadcast_to_bus2bus plain noRuleEnv routerSeven detachSeven b2b b2bSeven
    (by decide) (by decide)
  exact ⟨by decide, by decide, by decide, by decide, h.2.2⟩

/-- With the compatibility override compiled in, the global-broadcast DetachSession signal
for session 7 comes in from the Bus2Bus endpoint that carries session 7, no rule matches it,
and it is sent back to that same endpoint; without the override it is not. -/
theorem detach_signal_returns_to_source :
    detachSeven.isBroadcast = true ∧ detachSeven.globalBroadcast = true ∧
    b2bSeven.epType = .ENDPOINT_TYPE_BUS2BUS ∧
    noRuleEnv.ruleOkToSend detachSeven b2bSeven = false ∧
    admits withPolicy noRuleEnv routerSeven detachSeven b2bSeven b2bSeven = true ∧
    b2bSeven ∈ (routerSeven.filterEndpoints withPolicy noRuleEnv detachSeven b2bSeven).destEps ∧
    admits plain noRuleEnv routerSeven detachSeven b2bSeven b2bSeven = false := by
  refine ⟨by decide, by decide, by decide, by decide, by decide, ?_, by decide⟩
  rw [filterEndpoints_destEps]
  decide

end DaemonRouter

open Scenario

/-! ### C23: a broadcast signal that fails decryption -/

theorem GetPeerState_unknown_fresh (t : PeerStateTable) (busName : String)
    (h : t.IsKnownPeer busName = false) :
    (t.GetPeerState busName).1.get (t.GetPeerState busName).2 = PeerState.fresh := by
  unfold PeerStateTable.IsKnownPeer at h
  cases hf : t.find busName with
  | some handle => simp [hf] at h
  | none => simp [PeerStateTable.GetPeerState, hf, PeerStateTable.create, PeerStateTable.get]

/-- C23: a broadcast signal that failed decryption is discarded without a `SecurityViolation`
callback exactly when the peer state of its sender is not secure, which is the case for
every sender the table does not know; when the peer state is secure the keys of the peer are
cleared and the callback is invoked with `ER_BUS_MESSAGE_DECRYPTION_FAILED` and the
signal. -/
theorem broadcast_decryption_failure (env : HandlerEnv) (obj : AllJoynPeerObj)
    (msg : Message) (hsignal : msg.IsBroadcastSignal = true) :
    (((obj.peerStateTable.GetPeerState msg.sender).1.get
        (obj.peerStateTable.GetPeerState msg.sender).2).IsSecure = false →
      (HandleSecurityViolation env obj msg .ER_BUS_MESSAGE_DECRYPTION_FAILED).2 = []) ∧
    (obj.peerStateTable.IsKnownPeer msg.sender = false →
      (HandleSecurityViolation env obj msg .ER_BUS_MESSAGE_DECRYPTION_FAILED).2 = []) ∧
    (((obj.peerStateTable.GetPeerState msg.sender).1.get
        (obj.peerStateTable.GetPeerState msg.sender).2).IsSecure = true →
      (HandleSecurityViolation env obj msg .ER_BUS_MESSAGE_DECRYPTION_FAILED).2 =
        [.securityViolation .ER_BUS_MESSAGE_DECRYPTION_FAILED msg] ∧
      (HandleSecurityViolation env obj msg .ER_BUS_MESSAGE_DECRYPTION_FAILED).1.peerStateTable.get
          (obj.peerStateTable.GetPeerState msg.sender).2 =
        ((obj.peerStateTable.GetPeerState msg.sender).1.get
          (obj.peerStateTable.GetPeerState msg.sender).2).ClearKeys) := by
  have hsilent : ((obj.peerStateTable.GetPeerState msg.sender).1.get
        (obj.peerStateTable.GetPeerState msg.sender).2).IsSecure = false →
      (HandleSecurityViolation env obj msg .ER_BUS_MESSAGE_DECRYPTION_FAILED).2 = [] := by
    intro h
    simp [HandleSecurityViolation, h, hsignal]
  refine ⟨hsilent, ?_, ?_⟩
  · intro h
    apply hsilent
    rw [GetPeerState_unknown_fresh _ _ h]
    rfl
  · intro h
    simp [HandleSecurityViolation, h, AllJoynPeerObj.setPeer, PeerStateTable.get_set]

theorem broadcast_decryption_failure_witness :
    (signal ":7.7" 0).IsBroadcastSignal = true ∧
    engine.peerStateTable.IsKnownPeer ":7.7" = false ∧
    (HandleSecurityViolation handlers engine (signal ":7.7" 0)
      .ER_BUS_MESSAGE_DECRYPTION_FAILED).2 = [] :=
  ⟨by decide, by decide,
    (broadcast_decryption_failure handlers engine (signal ":7.7" 0) (by decide)).2.1
      (by decide)⟩

/-- The secure peer `:2.7` sends a broadcast signal that fails decryption: the application's
`SecurityViolation` callback is invoked and the keys of the peer are cleared. -/
theorem secure_sender_broadcast_is_reported :
    secureBroadcast.IsBroadcastSignal = true ∧
    (engine.peerStateTable.get 0).IsSecure = true ∧
    (HandleSecurityViolation handlers engine secureBroadcast
      .ER_BUS_MESSAGE_DECRYPTION_FAILED).2 =
        [.securityViolation .ER_BUS_MESSAGE_DECRYPTION_FAILED secureBroadcast] ∧
    ((HandleSecurityViolation handlers engine secureBroadcast
      .ER_BUS_MESSAGE_DECRYPTION_FAILED).1.peerStateTable.get 0).IsSecure = false := by
  refine ⟨by decide, by decide, by decide, by decide⟩

open Scenario

/-! ### C22: the replay of the messages queued for a peer -/

theorem replayStep_queue (env : HandlerEnv) (req : Message) (st : ReplayState) (msg : Message) :
    (replayStep env req st msg).queue =
      st.queue ++ [msg].filter (fun m => !env.isAlias m.destination req.destination) := by
  unfold replayStep
  by_cases h : env.isAlias msg.destination req.destination = true
  · simp only [h, if_true, List.filter, Bool.not_true, List.append_nil]
    split
    · split <;> rfl
    · rfl
  · simp only [Bool.not_eq_true] at h
    simp [h]

theorem replay_queue (env : HandlerEnv) (req : Message) (l : List Message) (st : ReplayState) :
    (l.foldl (replayStep env req) st).queue =
      st.queue ++ l.filter (fun m => !env.isAlias m.destination req.destination) := by
  induction l generalizing st with
  | nil => simp
  | cons m rest ih =>
    rw [List.foldl_cons, ih, replayStep_queue]
    by_cases h : env.isAlias m.destination req.destination = true
    · simp [List.filter, h]
    · simp only [Bool.not_eq_true] at h
      simp [List.filter, h]

theorem replay_failed (env : HandlerEnv) (req : Message) (l : List Message) (st : ReplayState)
    (hst : st.status ≠ .ER_OK) :
    (l.foldl (replayStep env req) st).status = st.status ∧
    (l.foldl (replayStep env req) st).events =
      st.events ++
        (l.filter (fun m => env.isAlias m.destination req.destination &&
            m.msgType == .MESSAGE_METHOD_CALL)).map
          (fun m => PeerObjEvent.errorReply st.status m.callSerial) := by
  induction l generalizing st with
  | nil => simp
  | cons m rest ih =>
    rw [List.foldl_cons]
    have hne : (st.status != QStatus.ER_OK) = true := by simpa using hst
    by_cases h : env.isAlias m.destination req.destination = true
    · by_cases hc : (m.msgType == AllJoynMessageType.MESSAGE_METHOD_CALL) = true
      · have hstep : replayStep env req st m =
            { st with events := st.events ++ [.errorReply st.status m.callSerial] } := by
          simp only [replayStep, h, hne, hc, if_true]
        have := ih { st with events := st.events ++ [.errorReply st.status m.callSerial] } hst
        rw [hstep, this.1, this.2]
        simp [List.filter, h, hc]
      · have hstep : replayStep env req st m = st := by
          simp only [replayStep, h, hne, hc, if_true]
          rfl
        rw [hstep, (ih st hst).1, (ih st hst).2]
        simp only [Bool.not_eq_true] at hc
        simp [List.filter, h, hc]
    · simp only [Bool.not_eq_true] at h
      have hstep : replayStep env req st m = { st with queue := st.queue ++ [m] } := by
        simp [replayStep, h]
      have := ih { st with queue := st.queue ++ [m] } hst
      rw [hstep, this.1, this.2]
      simp [List.filter, h]

theorem replay_pushed (env : HandlerEnv) (req : Message) (l : List Message) (st : ReplayState) :
    ∃ k, (l.foldl (replayStep env req) st).events.filterMap PeerObjEvent.pushed =
      st.events.filterMap PeerObjEvent.pushed ++
        (l.filter (fun m => env.isAlias m.destination req.destination)).take k := by
  induction l generalizing st with
  | nil => exact ⟨0, by simp⟩
  | cons m rest ih =>
    rw [List.foldl_cons]
    by_cases hst : st.status = .ER_OK
    · by_cases h : env.isAlias m.destination req.destination = true
      · obtain ⟨k, hk⟩ := ih (replayStep env req st m)
        refine ⟨k + 1, ?_⟩
        rw [hk]
        have hne : (st.status != QStatus.ER_OK) = false := by simp [hst]
        have : (replayStep env req st m).events.filterMap PeerObjEvent.pushed =
            st.events.filterMap PeerObjEvent.pushed ++ [m] := by
          simp only [replayStep, h, hne, if_true, Bool.false_eq_true, if_false]
          simp only [List.filterMap_append]
          have h1 : List.filterMap PeerObjEvent.pushed
              (if (m.msgType == AllJoynMessageType.MESSAGE_METHOD_CALL) = true then
                [PeerObjEvent.resumeReplyHandlerTimeout m] else []) = [] := by
            split <;> rfl
          have h2 : List.filterMap PeerObjEvent.pushed
              (if (env.routerPush st.pushes m == QStatus.ER_PERMISSION_DENIED) = true then
                if (req.msgType == AllJoynMessageType.MESSAGE_METHOD_CALL) = true then
                  [PeerObjEvent.errorReply (env.routerPush st.pushes m) req.callSerial]
                else []
              else []) = [] := by
            split
            · split <;> rfl
            · rfl
          rw [h1, h2]
          simp [PeerObjEvent.pushed]
        rw [this]
        simp [List.filter, h]
      · simp only [Bool.not_eq_true] at h
        obtain ⟨k, hk⟩ := ih (replayStep env req st m)
        refine ⟨k, ?_⟩
        rw [hk]
        have : (replayStep env req st m).events = st.events := by
          simp [replayStep, h]
        rw [this]
        simp [List.filter, h]
    · refine ⟨0, ?_⟩
      have hf := replay_failed env req (m :: rest) st hst
      rw [List.foldl_cons] at hf
      rw [hf.2, List.filterMap_append]
      simp only [List.take_zero, List.append_nil, List.append_right_eq_self]
      rw [List.filterMap_eq_nil_iff]
      intro e he
      obtain ⟨x, _, rfl⟩ := List.mem_map.1 he
      rfl

theorem replay_ok (env : HandlerEnv) (req : Message) (l : List Message) (st : ReplayState)
    (hst : st.status = .ER_OK)
    (hpush : ∀ n m, (l.filter (fun m => env.isAlias m.destination req.destination)).get? n =
      some m → env.routerPush (st.pushes + n) m = .ER_OK) :
    (l.foldl (replayStep env req) st).status = .ER_OK ∧
    (l.foldl (replayStep env req) st).events =
      st.events ++
        ((l.filter (fun m => env.isAlias m.destination req.destination)).map replayOf).flatten := by
  induction l generalizing st with
  | nil => simp [hst]
  | cons m rest ih =>
    rw [List.foldl_cons]
    have hne : (st.status != QStatus.ER_OK) = false := by simp [hst]
    by_cases h : env.isAlias m.destination req.destination = true
    · have hfil : (m :: rest).filter (fun m => env.isAlias m.destination req.destination) =
          m :: rest.filter (fun m => env.isAlias m.destination req.destination) := by
        simp [List.filter, h]
      rw [hfil] at hpush
      have hp0 : env.routerPush st.pushes m = .ER_OK := by
        have := hpush 0 m rfl
        simpa using this
      have hstep : replayStep env req st m =
          { status := .ER_OK, queue := st.queue, pushes := st.pushes + 1,
            events := st.events ++ replayOf m } := by
        simp only [replayStep, h, hne, if_true, Bool.false_eq_true, if_false, hp0, replayOf]
        simp
      have := ih ⟨.ER_OK, st.queue, st.pushes + 1, st.events ++ replayOf m⟩ rfl (by
          intro n x hx
          have := hpush (n + 1) x (by simpa using hx)
          simpa [Nat.add_assoc, Nat.add_comm 1 n] using this)
      rw [hstep, this.1, this.2, hfil]
      simp
    · simp only [Bool.not_eq_true] at h
      have hfil : (m :: rest).filter (fun m => env.isAlias m.destination req.destination) =
          rest.filter (fun m => env.isAlias m.destination req.destination) := by
        simp [List.filter, h]
      rw [hfil] at hpush ⊢
      have hstep : replayStep env req st m = { st with queue := st.queue ++ [m] } := by
        simp [replayStep, h]
      have := ih { st with queue := st.queue ++ [m] } hst hpush
      rw [hstep, this.1, this.2]
      exact ⟨rfl, rfl⟩

/-- C22: when the `AuthenticatePeer` call of an `AUTHENTICATE_PEER` request ends with a
status other than `ER_WOULDBLOCK`, the handler returns and the queue keeps exactly the
messages that are not for the peer of the request, in their order.  After a failure every
queued method call for the peer gets an error reply with that status, nothing else is done
with the messages for the peer, and the failure is reported for the request message.  After
`ER_OK` the messages pushed into the router are a leading part, in arrival order, of the
messages queued for the peer; they are all of them, with no error reply and no report, when
every push succeeds. -/
theorem pending_replay (env : HandlerEnv) (authEnv : AuthEnv) (fuel : Nat)
    (obj : AllJoynPeerObj) (msgsPendingAuth : List Message) (req : Message) (r : AuthResult)
    (hauth : AuthenticatePeer authEnv fuel obj req.msgType req.destination false = some r)
    (hblock : r.status ≠ .ER_WOULDBLOCK) :
    ∃ res, AlarmTriggered_AUTHENTICATE_PEER env authEnv fuel obj msgsPendingAuth req = some res ∧
      res.msgsPendingAuth =
        (msgsPendingAuth ++ [req]).filter
          (fun m => !env.isAlias m.destination req.destination) ∧
      (r.status ≠ .ER_OK →
        res.events = pausedFor req ++
          ((msgsPendingAuth ++ [req]).filter
            (fun m => env.isAlias m.destination req.destination &&
              m.msgType == .MESSAGE_METHOD_CALL)).map
            (fun m => PeerObjEvent.errorReply r.status m.callSerial) ++
          [.securityViolation r.status req]) ∧
      (r.status = .ER_OK →
        (∃ k, res.events.filterMap PeerObjEvent.pushed =
          ((msgsPendingAuth ++ [req]).filter
            (fun m => env.isAlias m.destination req.destination)).take k) ∧
        ((∀ n m, ((msgsPendingAuth ++ [req]).filter
              (fun m => env.isAlias m.destination req.destination)).get? n = some m →
            env.routerPush n m = .ER_OK) →
          res.events = pausedFor req ++
            (((msgsPendingAuth ++ [req]).filter
              (fun m => env.isAlias m.destination req.destination)).map replayOf).flatten)) := by
  have hb : (r.status != QStatus.ER_WOULDBLOCK) = true := by simpa using hblock
  refine ⟨_, by simp only [AlarmTriggered_AUTHENTICATE_PEER, hauth, hb, if_true]; rfl, ?_, ?_, ?_⟩
  · simp only [replayPending, replay_queue, List.nil_append]
  · intro hfail
    have hf := replay_failed env req (msgsPendingAuth ++ [req])
      { status := r.status, queue := [], pushes := 0, events := [] } hfail
    have hne : ((replayPending env req r.status (msgsPendingAuth ++ [req])).status !=
        QStatus.ER_OK) = true := by
      unfold replayPending
      rw [hf.1]
      simpa using hfail
    simp only [hne, if_true, pausedFor]
    unfold replayPending
    rw [hf.2, hf.1]
    simp
  · intro hok
    constructor
    · obtain ⟨k, hk⟩ := replay_pushed env req (msgsPendingAuth ++ [req])
        { status := r.status, queue := [], pushes := 0, events := [] }
      refine ⟨k, ?_⟩
      simp only [List.filterMap_append]
      have h1 : List.filterMap PeerObjEvent.pushed
          (if (req.msgType == AllJoynMessageType.MESSAGE_METHOD_CALL) = true then
            [PeerObjEvent.pauseReplyHandlerTimeout req] else []) = [] := by
        split <;> rfl
      have h2 : List.filterMap PeerObjEvent.pushed
          (if ((replayPending env req r.status (msgsPendingAuth ++ [req])).status !=
              QStatus.ER_OK) = true then
            [PeerObjEvent.securityViolation
              (replayPending env req r.status (msgsPendingAuth ++ [req])).status req]
           else []) = [] := by
        split <;> rfl
      rw [h1, h2]
      unfold replayPending
      rw [hk]
      simp
    · intro hpush
      have hf := replay_ok env req (msgsPendingAuth ++ [req])
        { status := r.status, queue := [], pushes := 0, events := [] } hok
        (by intro n m hm; simpa using hpush n m hm)
      have hne : ((replayPending env req r.status (msgsPendingAuth ++ [req])).status !=
          QStatus.ER_OK) = false := by
        unfold replayPending
        rw [hf.1]
        rfl
      simp only [hne, Bool.false_eq_true, if_false, pausedFor, List.append_nil]
      unfold replayPending
      rw [hf.2]
      simp

theorem pending_replay_witness :
    ∃ res, AlarmTriggered_AUTHENTICATE_PEER handlers remoteEnv 4 engine
        [queuedSignal, otherCall] call = some res ∧
      res.msgsPendingAuth = [otherCall] ∧
      res.events = [.pauseReplyHandlerTimeout call, .routerPushMessage queuedSignal,
        .resumeReplyHandlerTimeout call, .routerPushMessage call] := by
  obtain ⟨res, hres, hq, _, hok⟩ := pending_replay handlers remoteEnv 4 engine
    [queuedSignal, otherCall] call
    { status := .ER_OK, obj := { engine with peerStateTable := engine.peerStateTable },
      events := [] } rfl (by decide)
  refine ⟨res, hres, ?_, ?_⟩
  · rw [hq]
    decide
  · rw [(hok rfl).2 (fun _ _ _ => rfl)]
    decide

/-- The authentication of the peer `:2.7` ends with `ER_OK` while a signal and the method
call of the request are queued for it, and the router finds no route for the signal: the
method call is not pushed into the router but answered with an error reply that carries the
status of the signal's push, and that status is reported as a security violation of the
request message. -/
theorem failed_push_stops_replay :
    (AuthenticatePeer remoteEnv 4 engine call.msgType call.destination false).map
      (fun r => r.status) = some .ER_OK ∧
    (AlarmTriggered_AUTHENTICATE_PEER noRouteHandlers remoteEnv 4 engine
        [queuedSignal, otherCall] call).map (fun res => (res.msgsPendingAuth, res.events)) =
      some ([otherCall],
        [.pauseReplyHandlerTimeout call, .routerPushMessage queuedSignal,
         .errorReply .ER_BUS_NO_ROUTE call.callSerial,
         .securityViolation .ER_BUS_NO_ROUTE call]) := by
  refine ⟨by decide, by decide⟩

open Scenario

/-! ### C28: the suite mask the `KeyExchange` handler accepts -/

theorem standard_suite (s : Nat) (h : 0 < precedenceWeight s) :
    s = AUTH_SUITE_ECDHE_ECDSA ∨ s = AUTH_SUITE_GSSAPI ∨ s = AUTH_SUITE_ECDHE_PSK ∨
    s = AUTH_SUITE_SRP_LOGON ∨ s = AUTH_SUITE_SRP_KEYX ∨ s = AUTH_SUITE_ECDHE_NULL ∨
    s = AUTH_SUITE_EXTERNAL ∨ s = AUTH_SUITE_ANONYMOUS := by
  unfold precedenceWeight at h
  split_ifs at h <;> simp_all

theorem includes_le (mask s x : Nat) (h1 : mask &&& s = mask) (h2 : mask &&& x = x) :
    x ≤ s &&& x := by
  have h : x = mask &&& (s &&& x) := by rw [← Nat.land_assoc, h1, h2]
  calc x = mask &&& (s &&& x) := h
    _ ≤ s &&& x := Nat.and_le_right

theorem GetKeyExchangerInstance_single (mask suite : Nat)
    (h : GetKeyExchangerInstance [mask] = some suite) :
    mask &&& suite = suite ∧
      (suite = AUTH_SUITE_ECDHE_ECDSA ∨ suite = AUTH_SUITE_ECDHE_PSK ∨
        suite = AUTH_SUITE_ECDHE_NULL) := by
  simp only [GetKeyExchangerInstance] at h
  by_cases h1 : (mask &&& AUTH_SUITE_ECDHE_ECDSA) = AUTH_SUITE_ECDHE_ECDSA
  · simp only [h1, beq_self_eq_true, if_true, Option.some.injEq] at h
    subst h
    exact ⟨h1, Or.inl rfl⟩
  · have h1b : ((mask &&& AUTH_SUITE_ECDHE_ECDSA) == AUTH_SUITE_ECDHE_ECDSA) = false := by
      simpa using h1
    by_cases h2 : (mask &&& AUTH_SUITE_ECDHE_PSK) = AUTH_SUITE_ECDHE_PSK
    · simp only [h1b, h2, beq_self_eq_true, if_true, Bool.false_eq_true, if_false,
        Option.some.injEq] at h
      subst h
      exact ⟨h2, Or.inr (Or.inl rfl)⟩
    · have h2b : ((mask &&& AUTH_SUITE_ECDHE_PSK) == AUTH_SUITE_ECDHE_PSK) = false := by
        simpa using h2
      by_cases h3 : (mask &&& AUTH_SUITE_ECDHE_NULL) = AUTH_SUITE_ECDHE_NULL
      · simp only [h1b, h2b, h3, beq_self_eq_true, if_true, Bool.false_eq_true, if_false,
          Option.some.injEq] at h
        subst h
        exact ⟨h3, Or.inr (Or.inr rfl)⟩
      · have h3b : ((mask &&& AUTH_SUITE_ECDHE_NULL) == AUTH_SUITE_ECDHE_NULL) = false := by
          simpa using h3
        simp [h1b, h2b, h3b] at h

theorem GetKeyExchangerInstance_suite (suite : Nat)
    (h : suite = AUTH_SUITE_ECDHE_ECDSA ∨ suite = AUTH_SUITE_ECDHE_PSK ∨
      suite = AUTH_SUITE_ECDHE_NULL) :
    GetKeyExchangerInstance [suite] = some suite := by
  rcases h with h | h | h <;> subst h <;> decide

/-- A mask that is included in a standard suite and includes an ECDHE suite is that suite. -/
theorem mask_is_suite (mask s x : Nat) (hs : 0 < precedenceWeight s)
    (h1 : mask &&& s = mask) (h2 : mask &&& x = x)
    (hx : x = AUTH_SUITE_ECDHE_ECDSA ∨ x = AUTH_SUITE_ECDHE_PSK ∨ x = AUTH_SUITE_ECDHE_NULL) :
    mask = s ∧ x = s := by
  have hle := includes_le mask s x h1 h2
  have hsx : x = s := by
    rcases standard_suite s hs with h | h | h | h | h | h | h | h <;>
      rcases hx with h' | h' | h' <;> subst h <;> subst h' <;>
      first
        | rfl
        | exact absurd hle (by decide)
  subst hsx
  exact ⟨by rw [← h1, h2], rfl⟩

theorem keyExchangeAccepted_iff (obj : AllJoynPeerObj) (msg : Message) (authMask : Nat) :
    keyExchangeAccepted obj msg authMask = true ↔
      (authMask ≠ 0 ∧ (∃ s ∈ obj.supportedAuthSuites, authMask &&& s = authMask) ∧
        obj.peerStateTable.IsKnownPeer msg.sender = true ∧
        (GetKeyExchangerInstance [authMask]).isSome = true) := by
  unfold keyExchangeAccepted DoKeyExchange
  by_cases hany : obj.supportedAuthSuites.any (fun s => (authMask &&& s) == authMask) = true
  · have hex : ∃ s ∈ obj.supportedAuthSuites, authMask &&& s = authMask := by
      simpa using hany
    by_cases hz : authMask = 0
    · simp [hany, hz]
    · have hzb : (authMask == 0) = false := by simpa using hz
      by_cases hk : obj.peerStateTable.IsKnownPeer msg.sender = true
      · cases hg : GetKeyExchangerInstance [authMask] with
        | none => simp [hany, hzb, hk, hg]
        | some suite => simp [hany, hzb, hk, hg, hz, hex]
      · simp only [Bool.not_eq_true] at hk
        simp [hany, hzb, hk]
  · have hex : ¬ ∃ s ∈ obj.supportedAuthSuites, authMask &&& s = authMask := by
      simpa using hany
    simp only [Bool.not_eq_true] at hany
    simp [hany, hex]

theorem DoKeyExchange_accepted (obj : AllJoynPeerObj) (msg : Message) (authMask : Nat)
    (h : keyExchangeAccepted obj msg authMask = true) :
    ∃ suite, GetKeyExchangerInstance [authMask] = some suite ∧
      (DoKeyExchange obj msg authMask).2 = [.respondToKeyExchange suite msg authMask authMask] ∧
      (DoKeyExchange obj msg authMask).1.keyExchangerOf msg.sender = some suite := by
  obtain ⟨hz, hex, hk, hg⟩ := (keyExchangeAccepted_iff obj msg authMask).1 h
  have hany : obj.supportedAuthSuites.any (fun s => (authMask &&& s) == authMask) = true := by
    simpa using hex
  have hzb : (authMask == 0) = false := by simpa using hz
  obtain ⟨suite, hs⟩ := Option.isSome_iff_exists.1 hg
  refine ⟨suite, hs, ?_, ?_⟩
  · simp [DoKeyExchange, hany, hzb, hk, hs]
  · simp [DoKeyExchange, hany, hzb, hk, hs, AllJoynPeerObj.keyExchangerOf]

theorem DoKeyExchange_refused (obj : AllJoynPeerObj) (msg : Message) (authMask : Nat)
    (h : keyExchangeAccepted obj msg authMask = false) :
    (DoKeyExchange obj msg authMask).2 = [.methodReply msg .ER_AUTH_FAIL] ∧
    (DoKeyExchange obj msg authMask).1.keyExConversations = obj.keyExConversations := by
  unfold keyExchangeAccepted at h
  unfold DoKeyExchange at h ⊢
  by_cases hany : obj.supportedAuthSuites.any (fun s => (authMask &&& s) == authMask) = true
  · by_cases hz : authMask = 0
    · simp [hany, hz]
    · have hzb : (authMask == 0) = false := by simpa using hz
      by_cases hk : obj.peerStateTable.IsKnownPeer msg.sender = true
      · cases hg : GetKeyExchangerInstance [authMask] with
        | none => simp [hany, hzb, hk, hg]
        | some suite => simp [hany, hzb, hk, hg] at h
      · simp only [Bool.not_eq_true] at hk
        simp [hany, hzb, hk]
  · simp only [Bool.not_eq_true] at hany
    simp [hany]

/-- C28: the `KeyExchange` handler accepts a suite mask (stores a key exchanger for the
sender and has it respond) exactly when the mask is not zero, is included in a supported
suite, the sender is a known peer and the mask includes an ECDHE suite; otherwise it replies
`ER_AUTH_FAIL` and leaves the stored key exchangers as they are.  For the suites
`SetupPeerAuthentication` makes this is: the sender is a known peer and the mask equals a
supported ECDHE suite.  The auth version of the peer is not looked at: the `ExchangeSuites`
handler accepts the same suite from a peer of that version only if the version admits it. -/
theorem DoKeyExchange_accepts (obj : AllJoynPeerObj) (msg : Message) (authMask : Nat) :
    (keyExchangeAccepted obj msg authMask = true ↔
      (authMask ≠ 0 ∧ (∃ s ∈ obj.supportedAuthSuites, authMask &&& s = authMask) ∧
        obj.peerStateTable.IsKnownPeer msg.sender = true ∧
        (GetKeyExchangerInstance [authMask]).isSome = true)) ∧
    (keyExchangeAccepted obj msg authMask = true →
      ∃ suite, GetKeyExchangerInstance [authMask] = some suite ∧
        (DoKeyExchange obj msg authMask).2 =
          [.respondToKeyExchange suite msg authMask authMask] ∧
        (DoKeyExchange obj msg authMask).1.keyExchangerOf msg.sender = some suite) ∧
    (keyExchangeAccepted obj msg authMask = false →
      (DoKeyExchange obj msg authMask).2 = [.methodReply msg .ER_AUTH_FAIL] ∧
      (DoKeyExchange obj msg authMask).1.keyExConversations = obj.keyExConversations) ∧
    (∀ authMechanisms,
      obj.supportedAuthSuites = (SetupPeerAuthentication authMechanisms).2 →
      (keyExchangeAccepted obj msg authMask = true ↔
        (obj.peerStateTable.IsKnownPeer msg.sender = true ∧
          authMask ∈ obj.supportedAuthSuites ∧
          (authMask = AUTH_SUITE_ECDHE_ECDSA ∨ authMask = AUTH_SUITE_ECDHE_PSK ∨
            authMask = AUTH_SUITE_ECDHE_NULL))) ∧
      (∀ peerAuthVersion, keyExchangeAccepted obj msg authMask = true →
        ∃ accepted, ExchangeSuites obj.supportedAuthSuites peerAuthVersion .ER_OK [authMask] =
            .ok accepted ∧
          (authMask ∈ accepted ↔ versionAdmits peerAuthVersion authMask = true))) := by
  refine ⟨keyExchangeAccepted_iff obj msg authMask, DoKeyExchange_accepted obj msg authMask,
    DoKeyExchange_refused obj msg authMask, ?_⟩
  intro authMechanisms hsetup
  have hpos : ∀ s ∈ obj.supportedAuthSuites, 0 < precedenceWeight s := by
    rw [hsetup]
    exact supported_pos authMechanisms
  have hiff : keyExchangeAccepted obj msg authMask = true ↔
      (obj.peerStateTable.IsKnownPeer msg.sender = true ∧
        authMask ∈ obj.supportedAuthSuites ∧
        (authMask = AUTH_SUITE_ECDHE_ECDSA ∨ authMask = AUTH_SUITE_ECDHE_PSK ∨
          authMask = AUTH_SUITE_ECDHE_NULL)) := by
    rw [keyExchangeAccepted_iff]
    constructor
    · rintro ⟨_, ⟨s, hs, hsub⟩, hk, hg⟩
      obtain ⟨suite, hsuite⟩ := Option.isSome_iff_exists.1 hg
      obtain ⟨hinc, hx⟩ := GetKeyExchangerInstance_single authMask suite hsuite
      obtain ⟨hm, hxs⟩ := mask_is_suite authMask s suite (hpos s hs) hsub hinc hx
      subst hm
      subst hxs
      exact ⟨hk, hs, hx⟩
    · rintro ⟨hk, hs, hx⟩
      refine ⟨?_, ⟨authMask, hs, Nat.and_self authMask⟩, hk, ?_⟩
      · rcases hx with h | h | h <;> subst h <;> decide
      · rw [GetKeyExchangerInstance_suite authMask hx]
        rfl
  refine ⟨hiff, ?_⟩
  intro peerAuthVersion hacc
  obtain ⟨_, hs, hx⟩ := hiff.1 hacc
  have hlen : (obj.supportedAuthSuites.length == 0) = false := by
    cases hl : obj.supportedAuthSuites with
    | nil => rw [hl] at hs; cases hs
    | cons a rest => rfl
  refine ⟨obj.supportedAuthSuites.filter (acceptsSuite peerAuthVersion [authMask]), ?_, ?_⟩
  · simp [ExchangeSuites, hlen]
  · rw [List.mem_filter]
    simp only [hs, true_and, acceptsSuite, versionAdmits, List.any_cons, beq_self_eq_true,
      List.any_nil, Bool.or_false, if_true]
    by_cases he : authMask = AUTH_SUITE_ECDHE_ECDSA
    · simp [he]
    · simp [he]

/-- The engine supports ECDHE_ECDSA and knows the peer `:5.5` of auth version 2: the
`KeyExchange` handler accepts the mask ECDHE_ECDSA from that peer and stores the key
exchanger, while the `ExchangeSuites` handler accepts no suite when the same peer offers
ECDHE_ECDSA. -/
theorem old_peer_ecdsa_key_exchange :
    ecdsaEngine.supportedAuthSuites =
      (SetupPeerAuthentication ecdsaEngine.peerAuthMechanisms).2 ∧
    ecdsaEngine.peerStateTable.find ":5.5" = some 1 ∧
    (ecdsaEngine.peerStateTable.get 1).authVersion >>> 16 = 2 ∧
    keyExchangeAccepted ecdsaEngine keyExchangeCall AUTH_SUITE_ECDHE_ECDSA = true ∧
    (DoKeyExchange ecdsaEngine keyExchangeCall AUTH_SUITE_ECDHE_ECDSA).2 =
      [.respondToKeyExchange AUTH_SUITE_ECDHE_ECDSA keyExchangeCall AUTH_SUITE_ECDHE_ECDSA
        AUTH_SUITE_ECDHE_ECDSA] ∧
    (DoKeyExchange ecdsaEngine keyExchangeCall AUTH_SUITE_ECDHE_ECDSA).1.keyExConversations =
      [(":5.5", AUTH_SUITE_ECDHE_ECDSA)] ∧
    ExchangeSuites ecdsaEngine.supportedAuthSuites
      (ecdsaEngine.peerStateTable.get 1).authVersion .ER_OK [AUTH_SUITE_ECDHE_ECDSA] =
        .ok [] := by
  refine ⟨by decide, by decide, by decide, by decide, by decide, by decide, rfl⟩

open Scenario

/-! ### C29: a key authentication consumes the stored key exchanger -/

theorem keyAuthenticationFailure_no_verifier (keyExchanger : Option Nat) (msg : Message) :
    (keyAuthenticationFailure keyExchanger msg).any PeerObjEvent.isVerifierReply = false := by
  cases keyExchanger <;> rfl

theorem GetPeerState_known (t : PeerStateTable) (busName : String)
    (h : t.IsKnownPeer busName = true) : (t.GetPeerState busName).1 = t := by
  unfold PeerStateTable.IsKnownPeer at h
  cases hf : t.find busName with
  | some handle => simp [PeerStateTable.GetPeerState, hf]
  | none => simp [hf] at h

theorem eraseKeyExchanger_none (obj : AllJoynPeerObj) (sender : String) :
    (obj.eraseKeyExchanger sender).keyExchangerOf sender = none := by
  simp only [AllJoynPeerObj.eraseKeyExchanger, AllJoynPeerObj.keyExchangerOf,
    Option.map_eq_none', List.find?_eq_none]
  intro p hp
  simp only [List.mem_filter] at hp
  simpa using hp.2

theorem DoKeyAuthentication_frame (env : HandlerEnv) (obj : AllJoynPeerObj) (msg : Message)
    (hknown : obj.peerStateTable.IsKnownPeer msg.sender = true) :
    (DoKeyAuthentication env obj msg).1.keyExConversations =
      obj.keyExConversations.filter (fun p => p.1 != msg.sender) ∧
    (DoKeyAuthentication env obj msg).1.peerStateTable.names = obj.peerStateTable.names := by
  have hk := GetPeerState_known _ _ hknown
  unfold DoKeyAuthentication
  simp only [hknown, Bool.not_true, Bool.false_eq_true, if_false, hk]
  cases obj.keyExchangerOf msg.sender with
  | none => exact ⟨rfl, rfl⟩
  | some suite =>
    simp only
    by_cases ha : (env.verifierArg msg == QStatus.ER_OK) = true
    · simp only [ha, if_true]
      by_cases hv : ((env.validateRemoteVerifier suite msg.sender).1 == QStatus.ER_OK &&
          (env.validateRemoteVerifier suite msg.sender).2) = true
      · simp only [hv, if_true]
        by_cases hs : (env.storeMasterSecret suite msg.sender == QStatus.ER_OK) = true
        · simp only [hs, if_true]
          exact ⟨rfl, rfl⟩
        · simp only [hs, if_false]
          exact ⟨rfl, rfl⟩
      · simp only [hv, if_false]
        exact ⟨rfl, rfl⟩
    · simp only [ha, if_false]
      exact ⟨rfl, rfl⟩

theorem DoKeyAuthentication_success (env : HandlerEnv) (obj : AllJoynPeerObj) (msg : Message)
    (h : (DoKeyAuthentication env obj msg).2.any PeerObjEvent.isVerifierReply = true) :
    obj.peerStateTable.IsKnownPeer msg.sender = true ∧
    ∃ suite, obj.keyExchangerOf msg.sender = some suite ∧
      env.verifierArg msg = .ER_OK ∧
      env.validateRemoteVerifier suite msg.sender = (.ER_OK, true) ∧
      env.storeMasterSecret suite msg.sender = .ER_OK ∧
      (DoKeyAuthentication env obj msg).2 =
        [.validateRemoteVerifier suite msg.sender, .storeMasterSecret suite msg.sender,
         .authenticationComplete (GetSuiteName suite) msg.sender true,
         .replyWithVerifier suite msg] := by
  unfold DoKeyAuthentication at h ⊢
  by_cases hknown : obj.peerStateTable.IsKnownPeer msg.sender = true
  · refine ⟨hknown, ?_⟩
    simp only [hknown, Bool.not_true, Bool.false_eq_true, if_false] at h ⊢
    cases hx : obj.keyExchangerOf msg.sender with
    | none =>
      simp only [hx] at h
      rw [keyAuthenticationFailure_no_verifier] at h
      cases h
    | some suite =>
      simp only [hx] at h ⊢
      refine ⟨suite, rfl, ?_⟩
      by_cases ha : (env.verifierArg msg == QStatus.ER_OK) = true
      · simp only [ha, if_true] at h ⊢
        by_cases hv : ((env.validateRemoteVerifier suite msg.sender).1 == QStatus.ER_OK &&
            (env.validateRemoteVerifier suite msg.sender).2) = true
        · simp only [hv, if_true] at h ⊢
          by_cases hs : (env.storeMasterSecret suite msg.sender == QStatus.ER_OK) = true
          · simp only [hs, if_true] at h ⊢
            simp only [Bool.and_eq_true, beq_iff_eq] at hv
            refine ⟨by simpa using ha, Prod.ext hv.1 hv.2, by simpa using hs, rfl⟩
          · simp only [hs, Bool.false_eq_true, if_false] at h
            rw [List.any_append, keyAuthenticationFailure_no_verifier] at h
            simp [PeerObjEvent.isVerifierReply] at h
        · simp only [hv, Bool.false_eq_true, if_false] at h
          rw [List.any_append, keyAuthenticationFailure_no_verifier] at h
          simp [PeerObjEvent.isVerifierReply] at h
      · simp only [ha, Bool.false_eq_true, if_false] at h
        rw [keyAuthenticationFailure_no_verifier] at h
        cases h
  · simp only [Bool.not_eq_true] at hknown
    simp [hknown] at h

theorem DoKeyAuthentication_missing (env : HandlerEnv) (obj : AllJoynPeerObj) (msg : Message)
    (hknown : obj.peerStateTable.IsKnownPeer msg.sender = true)
    (hnone : obj.keyExchangerOf msg.sender = none) :
    (DoKeyAuthentication env obj msg).2 =
      [.authenticationComplete "Unknown" msg.sender false, .methodReply msg .ER_AUTH_FAIL] := by
  unfold DoKeyAuthentication
  simp only [hknown, Bool.not_true, Bool.false_eq_true, if_false, hnone]
  rfl

/-- C29: a `KeyAuthentication` request succeeds only if its sender is a known peer for which
a key exchanger is stored (and the verifier argument is valid and the master secret is
stored).  For a known sender every request removes the stored key exchanger, so a request
with no key exchanger stored, and a second request that follows without a new `KeyExchange`,
are reported as a failed authentication of the mechanism "Unknown" and answered with
`ER_AUTH_FAIL`.  For a sender the table does not know the handler does nothing: no answer, no
report, no change. -/
theorem key_authentication_consumes (env next : HandlerEnv) (obj : AllJoynPeerObj)
    (msg again : Message) :
    ((DoKeyAuthentication env obj msg).2.any PeerObjEvent.isVerifierReply = true →
      obj.peerStateTable.IsKnownPeer msg.sender = true ∧
      ∃ suite, obj.keyExchangerOf msg.sender = some suite ∧
        (DoKeyAuthentication env obj msg).2 =
          [.validateRemoteVerifier suite msg.sender, .storeMasterSecret suite msg.sender,
           .authenticationComplete (GetSuiteName suite) msg.sender true,
           .replyWithVerifier suite msg]) ∧
    (obj.peerStateTable.IsKnownPeer msg.sender = true →
      (DoKeyAuthentication env obj msg).1.keyExchangerOf msg.sender = none ∧
      (obj.keyExchangerOf msg.sender = none →
        (DoKeyAuthentication env obj msg).2 =
          [.authenticationComplete "Unknown" msg.sender false,
           .methodReply msg .ER_AUTH_FAIL]) ∧
      (again.sender = msg.sender →
        (DoKeyAuthentication next (DoKeyAuthentication env obj msg).1 again).2 =
          [.authenticationComplete "Unknown" again.sender false,
           .methodReply again .ER_AUTH_FAIL])) ∧
    (obj.peerStateTable.IsKnownPeer msg.sender = false →
      (DoKeyAuthentication env obj msg).2 = [] ∧
      (DoKeyAuthentication env obj msg).1.keyExConversations = obj.keyExConversations) := by
  refine ⟨?_, ?_, ?_⟩
  · intro h
    obtain ⟨hk, suite, hs, _, _, _, he⟩ := DoKeyAuthentication_success env obj msg h
    exact ⟨hk, suite, hs, he⟩
  · intro hknown
    have hframe := DoKeyAuthentication_frame env obj msg hknown
    have hgone : (DoKeyAuthentication env obj msg).1.keyExchangerOf msg.sender = none := by
      have := eraseKeyExchanger_none obj msg.sender
      simp only [AllJoynPeerObj.keyExchangerOf, AllJoynPeerObj.eraseKeyExchanger] at this ⊢
      rw [hframe.1]
      exact this
    refine ⟨hgone, DoKeyAuthentication_missing env obj msg hknown, ?_⟩
    intro hsame
    apply DoKeyAuthentication_missing
    · rw [hsame]
      simp only [PeerStateTable.IsKnownPeer, PeerStateTable.find] at hknown ⊢
      rw [hframe.2]
      exact hknown
    · rw [hsame]
      exact hgone
  · intro hunknown
    simp [DoKeyAuthentication, hunknown]

/-- The peer `:6.6` is not in the peer state table and no key exchanger is stored for it: its
`KeyAuthentication` request gets no answer and no failed authentication is reported. -/
theorem unknown_sender_gets_no_answer :
    ecdsaEngine.peerStateTable.IsKnownPeer strangerCall.sender = false ∧
    ecdsaEngine.keyExchangerOf strangerCall.sender = none ∧
    (DoKeyAuthentication handlers ecdsaEngine strangerCall).2 = [] := by
  refine ⟨by decide, by decide, by decide⟩

/-- The key exchange of the peer `:5.5` is accepted and its key authentication succeeds; a
second key authentication without a new key exchange fails. -/
theorem key_authentication_example :
    (DoKeyAuthentication handlers
      (DoKeyExchange ecdsaEngine keyExchangeCall AUTH_SUITE_ECDHE_NULL).1
      keyAuthenticationCall).2 =
      [.validateRemoteVerifier AUTH_SUITE_ECDHE_NULL ":5.5",
       .storeMasterSecret AUTH_SUITE_ECDHE_NULL ":5.5",
       .authenticationComplete "ALLJOYN_ECDHE_NULL" ":5.5" true,
       .replyWithVerifier AUTH_SUITE_ECDHE_NULL keyAuthenticationCall] ∧
    (DoKeyAuthentication handlers
      (DoKeyAuthentication handlers
        (DoKeyExchange ecdsaEngine keyExchangeCall AUTH_SUITE_ECDHE_NULL).1
        keyAuthenticationCall).1
      keyAuthenticationCall).2 =
      [.authenticationComplete "Unknown" ":5.5" false,
       .methodReply keyAuthenticationCall .ER_AUTH_FAIL] := by
  refine ⟨by decide, by decide⟩

open Scenario

/-! ### C25: concurrent calls of `AuthenticatePeer` -/

theorem PeerStateTable.find_lt (t : PeerStateTable) (hwf : t.wellFormed) (busName : String)
    (handle : Nat) (h : t.find busName = some handle) : handle < t.count := by
  unfold PeerStateTable.find at h
  cases hf : t.names.find? (fun p => p.1 == busName) with
  | none => simp [hf] at h
  | some p =>
    simp only [hf, Option.map_some', Option.some.injEq] at h
    subst h
    exact hwf p (List.mem_of_find?_eq_some hf)

theorem PeerStateTable.get_set_ne (t : PeerStateTable) (handle other : Nat) (ps : PeerState)
    (h : other ≠ handle) : (t.set handle ps).get other = t.get other := by
  simp [PeerStateTable.set, PeerStateTable.get, h]

theorem PeerStateTable.keepsEvents_refl (t : PeerStateTable) (hwf : t.wellFormed) :
    t.keepsEvents t :=
  ⟨hwf, Nat.le_refl _, fun _ _ => rfl, fun _ h => h⟩

theorem PeerStateTable.keepsEvents_trans (t t2 t3 : PeerStateTable)
    (h12 : t.keepsEvents t2) (h23 : t2.keepsEvents t3) : t.keepsEvents t3 := by
  obtain ⟨_, hc1, he1, hb1⟩ := h12
  obtain ⟨hwf3, hc2, he2, hb2⟩ := h23
  refine ⟨hwf3, Nat.le_trans hc1 hc2, ?_, ?_⟩
  · intro handle hh
    rw [he2 handle (Nat.lt_of_lt_of_le hh hc1), he1 handle hh]
  · intro handle hh
    exact hb1 handle (hb2 handle hh)

theorem PeerStateTable.keepsEvents_create (t : PeerStateTable) (hwf : t.wellFormed)
    (busNames : List String) :
    t.keepsEvents (t.create busNames).1 ∧ (t.create busNames).2 < (t.create busNames).1.count := by
  refine ⟨⟨?_, ?_, ?_, ?_⟩, ?_⟩
  · intro p hp
    simp only [PeerStateTable.create, List.mem_append, List.mem_map] at hp ⊢
    rcases hp with hp | ⟨n, _, rfl⟩
    · exact Nat.lt_succ_of_lt (hwf p hp)
    · exact Nat.lt_succ_self _
  · simp [PeerStateTable.create]
  · intro handle hh
    have : handle ≠ t.count := Nat.ne_of_lt hh
    simp [PeerStateTable.create, PeerStateTable.get, this]
  · intro handle hh
    by_cases hc : handle = t.count
    · subst hc
      simp [PeerStateTable.create, PeerStateTable.get, PeerState.fresh] at hh
    · simpa [PeerStateTable.create, PeerStateTable.get, hc] using hh
  · simp [PeerStateTable.create]

theorem PeerStateTable.keepsEvents_GetPeerState (t : PeerStateTable) (hwf : t.wellFormed)
    (busName : String) :
    t.keepsEvents (t.GetPeerState busName).1 ∧
      (t.GetPeerState busName).2 < (t.GetPeerState busName).1.count := by
  unfold PeerStateTable.GetPeerState
  cases hf : t.find busName with
  | some handle => exact ⟨t.keepsEvents_refl hwf, t.find_lt hwf busName handle hf⟩
  | none => exact t.keepsEvents_create hwf [busName]

theorem PeerStateTable.keepsEvents_GetPeerStateAlias (t : PeerStateTable) (hwf : t.wellFormed)
    (uniqueName aliasName : String) :
    t.keepsEvents (t.GetPeerStateAlias uniqueName aliasName).1 ∧
      (t.GetPeerStateAlias uniqueName aliasName).2 <
        (t.GetPeerStateAlias uniqueName aliasName).1.count := by
  unfold PeerStateTable.GetPeerStateAlias
  cases hf : t.find uniqueName with
  | some handle =>
    have hlt := t.find_lt hwf uniqueName handle hf
    refine ⟨⟨?_, Nat.le_refl _, fun _ _ => rfl, fun _ h => h⟩, hlt⟩
    intro p hp
    simp only [List.mem_append, List.mem_filter, List.mem_singleton] at hp
    rcases hp with hp | rfl
    · exact hwf p hp.1
    · exact hlt
  | none =>
    cases hg : t.find aliasName with
    | some handle =>
      have hlt := t.find_lt hwf aliasName handle hg
      refine ⟨⟨?_, Nat.le_refl _, fun _ _ => rfl, fun _ h => h⟩, hlt⟩
      intro p hp
      simp only [List.mem_append, List.mem_singleton] at hp
      rcases hp with hp | rfl
      · exact hwf p hp
      · exact hlt
    | none => exact t.keepsEvents_create hwf [aliasName, uniqueName]

theorem PeerStateTable.keepsEvents_set (t : PeerStateTable) (hwf : t.wellFormed)
    (handle : Nat) (ps : PeerState) (h : ps.authEvent = (t.get handle).authEvent) :
    t.keepsEvents (t.set handle ps) := by
  refine ⟨hwf, Nat.le_refl _, ?_, ?_⟩
  · intro other _
    by_cases ho : other = handle
    · subst ho
      rw [PeerStateTable.get_set, h]
    · rw [PeerStateTable.get_set_ne _ _ _ _ ho]
  · intro other hh
    by_cases ho : other = handle
    · subst ho
      rw [PeerStateTable.get_set, h] at hh
      exact hh
    · rwa [PeerStateTable.get_set_ne _ _ _ _ ho] at hh

/-- A call that is not in the negotiation moves on to a point outside the negotiation while
no authentication event changes. -/
theorem Calls.exclusive_keep (s s2 : Calls) (hs : s.exclusive) (i : Nat) (p : Progress)
    (hkeep : s.obj.peerStateTable.keepsEvents s2.obj.peerStateTable)
    (hold : (s.progress i).negotiatesOn = none)
    (hp : p.negotiatesOn = none)
    (hwait : ∀ handle, p.waitsOn = some handle →
      (s2.obj.peerStateTable.get handle).authEvent = true)
    (hprog : s2.progress = fun j => if j = i then p else s.progress j) :
    s2.exclusive := by
  obtain ⟨_, h1, h2, h3, h4⟩ := hs
  obtain ⟨hwf2, hc, he, hb⟩ := hkeep
  have hother : ∀ j handle, (s2.progress j).negotiatesOn = some handle →
      j ≠ i ∧ (s.progress j).negotiatesOn = some handle := by
    intro j handle hj
    rw [hprog] at hj
    by_cases hji : j = i
    · simp only [hji, if_true] at hj
      rw [hp] at hj
      cases hj
    · simp only [hji, if_false] at hj
      exact ⟨hji, hj⟩
  refine ⟨hwf2, ?_, ?_, ?_, ?_⟩
  · intro j handle hj
    obtain ⟨_, hj'⟩ := hother j handle hj
    obtain ⟨hlt, hev⟩ := h1 j handle hj'
    exact ⟨Nat.lt_of_lt_of_le hlt hc, by rw [he handle hlt, hev]⟩
  · intro j k handle hj hk
    exact h2 j k handle (hother j handle hj).2 (hother k handle hk).2
  · intro handle hev
    obtain ⟨j, hj⟩ := h3 handle (hb handle hev)
    refine ⟨j, ?_⟩
    have hji : j ≠ i := by
      rintro rfl
      rw [hold] at hj
      cases hj
    rw [hprog]
    simp only [hji, if_false]
    exact hj
  · intro j handle hj
    rw [hprog] at hj
    by_cases hji : j = i
    · simp only [hji, if_true] at hj
      exact hwait handle hj
    · simp only [hji, if_false] at hj
      have hev := h4 j handle hj
      obtain ⟨k, hk⟩ := h3 handle hev
      rw [he handle (h1 k handle hk).1, hev]

/-- A call that is not in the negotiation sets the authentication event of a peer state
object whose event is not set, and enters the negotiation. -/
theorem Calls.exclusive_begin (s s2 : Calls) (hs : s.exclusive) (i : Nat) (p : Progress)
    (t2 : PeerStateTable) (handle : Nat) (ps : PeerState)
    (hkeep : s.obj.peerStateTable.keepsEvents t2)
    (hold : (s.progress i).negotiatesOn = none)
    (hp : p.negotiatesOn = some handle)
    (hpw : p.waitsOn = none)
    (hlt : handle < t2.count)
    (hfree : (t2.get handle).authEvent = false)
    (hps : ps.authEvent = true)
    (htable : s2.obj.peerStateTable = t2.set handle ps)
    (hprog : s2.progress = fun j => if j = i then p else s.progress j) :
    s2.exclusive := by
  obtain ⟨_, h1, h2, h3, h4⟩ := hs
  obtain ⟨hwf2, hc, he, hb⟩ := hkeep
  have hne : ∀ j other, (s.progress j).negotiatesOn = some other → other ≠ handle := by
    intro j other hj hoh
    obtain ⟨hlt', hev⟩ := h1 j other hj
    rw [← he other hlt', hoh, hfree] at hev
    cases hev
  have hother : ∀ j other, (s2.progress j).negotiatesOn = some other →
      (j = i ∧ other = handle) ∨ (j ≠ i ∧ (s.progress j).negotiatesOn = some other) := by
    intro j other hj
    rw [hprog] at hj
    by_cases hji : j = i
    · simp only [hji, if_true] at hj
      rw [hp] at hj
      exact Or.inl ⟨hji, (Option.some.inj hj).symm⟩
    · simp only [hji, if_false] at hj
      exact Or.inr ⟨hji, hj⟩
  unfold Calls.exclusive
  rw [htable]
  refine ⟨hwf2, ?_, ?_, ?_, ?_⟩
  · intro j other hj
    rcases hother j other hj with ⟨_, rfl⟩ | ⟨_, hj'⟩
    · exact ⟨hlt, by rw [PeerStateTable.get_set, hps]⟩
    · obtain ⟨hlt', hev⟩ := h1 j other hj'
      refine ⟨Nat.lt_of_lt_of_le hlt' hc, ?_⟩
      rw [PeerStateTable.get_set_ne _ _ _ _ (hne j other hj'), he other hlt', hev]
  · intro j k other hj hk
    rcases hother j other hj with ⟨rfl, rfl⟩ | ⟨_, hj'⟩
    · rcases hother k other hk with ⟨rfl, _⟩ | ⟨_, hk'⟩
      · rfl
      · exact absurd rfl (hne k other hk')
    · rcases hother k other hk with ⟨_, rfl⟩ | ⟨_, hk'⟩
      · exact absurd rfl (hne j other hj')
      · exact h2 j k other hj' hk'
  · intro other hev
    by_cases hoh : other = handle
    · refine ⟨i, ?_⟩
      rw [hprog]
      simp only [if_true]
      rw [hp, hoh]
    · rw [PeerStateTable.get_set_ne _ _ _ _ hoh] at hev
      obtain ⟨j, hj⟩ := h3 other (hb other hev)
      refine ⟨j, ?_⟩
      have hji : j ≠ i := by
        rintro rfl
        rw [hold] at hj
        cases hj
      rw [hprog]
      simp only [hji, if_false]
      exact hj
  · intro j other hj
    rw [hprog] at hj
    by_cases hji : j = i
    · simp only [hji, if_true] at hj
      rw [hpw] at hj
      cases hj
    · simp only [hji, if_false] at hj
      have hev := h4 j other hj
      obtain ⟨k, hk⟩ := h3 other hev
      rw [PeerStateTable.get_set_ne _ _ _ _ (hne k other hk), he other (h1 k other hk).1, hev]

/-- The call that negotiates on a peer state object clears its authentication event,
releases the calls that wait on it, and returns. -/
theorem Calls.exclusive_finish (s s2 : Calls) (hs : s.exclusive) (i : Nat) (status : QStatus)
    (handle : Nat) (ps : PeerState)
    (hold : (s.progress i).negotiatesOn = some handle)
    (hps : ps.authEvent = false)
    (htable : s2.obj.peerStateTable = s.obj.peerStateTable.set handle ps)
    (hprog : s2.progress = fun j =>
      if j = i then .returned status
      else
        match s.progress j with
        | .waiting h => if h = handle then .woken h else .waiting h
        | p => p) :
    s2.exclusive := by
  obtain ⟨hwf, h1, h2, h3, h4⟩ := hs
  have hneg : ∀ j other, (s2.progress j).negotiatesOn = some other →
      j ≠ i ∧ (s.progress j).negotiatesOn = some other := by
    intro j other hj
    rw [hprog] at hj
    by_cases hji : j = i
    · simp only [hji, if_true] at hj
      cases hj
    · simp only [hji, if_false] at hj
      refine ⟨hji, ?_⟩
      cases hpj : s.progress j with
      | waiting h =>
        rw [hpj] at hj
        simp only at hj
        split at hj <;> cases hj
      | called => rw [hpj] at hj; exact hj
      | exchangingGuids => rw [hpj] at hj; exact hj
      | negotiating a b c => rw [hpj] at hj; exact hj
      | woken a => rw [hpj] at hj; exact hj
      | returned a => rw [hpj] at hj; exact hj
  have hne : ∀ j other, j ≠ i → (s.progress j).negotiatesOn = some other → other ≠ handle := by
    intro j other hji hj hoh
    subst hoh
    exact hji (h2 j i other hj hold)
  unfold Calls.exclusive
  rw [htable]
  refine ⟨hwf, ?_, ?_, ?_, ?_⟩
  · intro j other hj
    obtain ⟨hji, hj'⟩ := hneg j other hj
    obtain ⟨hlt, hev⟩ := h1 j other hj'
    exact ⟨hlt, by rw [PeerStateTable.get_set_ne _ _ _ _ (hne j other hji hj'), hev]⟩
  · intro j k other hj hk
    exact h2 j k other (hneg j other hj).2 (hneg k other hk).2
  · intro other hev
    by_cases hoh : other = handle
    · subst hoh
      rw [PeerStateTable.get_set, hps] at hev
      cases hev
    · rw [PeerStateTable.get_set_ne _ _ _ _ hoh] at hev
      obtain ⟨j, hj⟩ := h3 other hev
      have hji : j ≠ i := by
        rintro rfl
        rw [hold] at hj
        exact hoh (Option.some.inj hj).symm
      refine ⟨j, ?_⟩
      rw [hprog]
      simp only [hji, if_false]
      cases hpj : s.progress j with
      | negotiating a b c => rw [hpj] at hj; exact hj
      | waiting h => rw [hpj] at hj; cases hj
      | called => rw [hpj] at hj; cases hj
      | exchangingGuids => rw [hpj] at hj; cases hj
      | woken a => rw [hpj] at hj; cases hj
      | returned a => rw [hpj] at hj; cases hj
  · intro j other hj
    rw [hprog] at hj
    by_cases hji : j = i
    · simp only [hji, if_true] at hj
      cases hj
    · simp only [hji, if_false] at hj
      cases hpj : s.progress j with
      | waiting h =>
        rw [hpj] at hj
        simp only at hj
        by_cases hh : h = handle
        · simp only [hh, if_true] at hj
          cases hj
        · simp only [hh, if_false] at hj
          have ho : other = h := (Option.some.inj hj).symm
          subst ho
          have hev := h4 j other (by rw [hpj]; rfl)
          rw [PeerStateTable.get_set_ne _ _ _ _ hh, hev]
      | called => rw [hpj] at hj; cases hj
      | exchangingGuids => rw [hpj] at hj; cases hj
      | negotiating a b c => rw [hpj] at hj; cases hj
      | woken a => rw [hpj] at hj; cases hj
      | returned a => rw [hpj] at hj; cases hj

theorem Calls.setProgress_exclusive (s s1 : Calls) (hs : s.exclusive) (i : Nat)
    (p : Progress)
    (hkeep : s.obj.peerStateTable.keepsEvents s1.obj.peerStateTable)
    (hsame : s1.progress = s.progress)
    (hold : (s.progress i).negotiatesOn = none)
    (hp : p.negotiatesOn = none)
    (hwait : ∀ handle, p.waitsOn = some handle →
      (s1.obj.peerStateTable.get handle).authEvent = true) :
    (s1.setProgress i p).exclusive :=
  Calls.exclusive_keep s _ hs i p hkeep hold hp hwait (by
    show (fun j => if j = i then p else s1.progress j) = _
    rw [hsame])

theorem Calls.enter_exclusive (c : Caller) (s : Calls) (i : Nat) (hs : s.exclusive)
    (hold : (s.progress i).negotiatesOn = none) : (Calls.enter c s i).exclusive := by
  have hg := s.obj.peerStateTable.keepsEvents_GetPeerState hs.1 c.busName
  unfold Calls.enter
  simp only
  split
  · exact Calls.setProgress_exclusive s _ hs i _ hg.1 rfl hold rfl (fun _ h => by cases h)
  · split
    · exact Calls.setProgress_exclusive s _ hs i _ hg.1 rfl hold rfl (fun _ h => by cases h)
    · split
      · exact Calls.setProgress_exclusive s _ hs i _ hg.1 rfl hold rfl (fun _ h => by cases h)
      · split
        · rename_i h4
          split
          · refine Calls.setProgress_exclusive s _ hs i _ hg.1 rfl hold rfl ?_
            intro handle hh
            have : handle = (s.obj.peerStateTable.GetPeerState c.busName).2 :=
              (Option.some.inj hh).symm
            subst this
            simp only [Bool.and_eq_true] at h4
            exact h4.2
          · exact Calls.setProgress_exclusive s _ hs i _ hg.1 rfl hold rfl
              (fun _ h => by cases h)
        · exact Calls.setProgress_exclusive s _ hs i _ hg.1 rfl hold rfl (fun _ h => by cases h)

theorem secureLocalPeer_authEvent (env : AuthEnv) (groupKey : KeyBlob) (peerState : PeerState) :
    (secureLocalPeer env groupKey peerState).authEvent = peerState.authEvent := by
  rw [secureLocalPeer_spec]

theorem Calls.exchangeGuids_exclusive (c : Caller) (s : Calls) (i : Nat) (hs : s.exclusive)
    (hold : (s.progress i).negotiatesOn = none) : (Calls.exchangeGuids c s i).exclusive := by
  have hrefl := s.obj.peerStateTable.keepsEvents_refl hs.1
  unfold Calls.exchangeGuids
  simp only
  generalize c.env.exchangeGuids s.obj.localGuid PREFERRED_AUTH_VERSION = call
  split
  · exact Calls.setProgress_exclusive s _ hs i _ hrefl rfl hold rfl (fun _ h => by cases h)
  · split
    · exact Calls.setProgress_exclusive s _ hs i _ hrefl rfl hold rfl (fun _ h => by cases h)
    · rename_i authVersion _
      have hg := s.obj.peerStateTable.keepsEvents_GetPeerStateAlias hs.1 call.sender c.busName
      generalize s.obj.peerStateTable.GetPeerStateAlias call.sender c.busName = got at hg
      have hset : s.obj.peerStateTable.keepsEvents
          (got.1.set got.2 ((got.1.get got.2).SetGuidAndAuthVersion call.guid authVersion)) :=
        PeerStateTable.keepsEvents_trans _ _ _ hg.1
          (PeerStateTable.keepsEvents_set _ hg.1.1 _ _ rfl)
      split
      · exact Calls.setProgress_exclusive s _ hs i _ hset rfl hold rfl (fun _ h => by cases h)
      · split
        · rename_i h3
          split
          · refine Calls.setProgress_exclusive s _ hs i _ hset rfl hold rfl ?_
            intro handle hh
            have : handle = got.2 := (Option.some.inj hh).symm
            subst this
            show ((got.1.set got.2 _).get got.2).authEvent = true
            rw [PeerStateTable.get_set]
            exact h3
          · exact Calls.setProgress_exclusive s _ hs i _ hset rfl hold rfl
              (fun _ h => by cases h)
        · rename_i h3
          split
          · refine Calls.setProgress_exclusive s _ hs i _ ?_ rfl hold rfl
              (fun _ h => by cases h)
            refine PeerStateTable.keepsEvents_trans _ _ _ hset
              (PeerStateTable.keepsEvents_set _ hset.1 _ _ ?_)
            rw [secureLocalPeer_authEvent, PeerStateTable.get_set]
          · split
            · exact Calls.setProgress_exclusive s _ hs i _ hset rfl hold rfl
                (fun _ h => by cases h)
            · refine Calls.exclusive_begin s _ hs i (.negotiating got.2 call authVersion)
                (got.1.set got.2 ((got.1.get got.2).SetGuidAndAuthVersion call.guid authVersion))
                got.2 _ hset hold rfl rfl hg.2 ?_ rfl rfl rfl
              rw [PeerStateTable.get_set]
              simpa using h3

theorem Calls.finish_exclusive (c : Caller) (s : Calls) (i : Nat) (handle : Nat)
    (call : ExchangeGuidsCall) (authVersion : Nat) (hs : s.exclusive)
    (hold : (s.progress i).negotiatesOn = some handle) :
    (Calls.finish c s i handle call authVersion).exclusive := by
  unfold Calls.finish
  cases hn : negotiate c.env c.fuel s.obj handle (s.obj.peerStateTable.get handle) call
      authVersion [] with
  | none => exact hs
  | some r =>
    obtain ⟨conv, authTried, _, hobj⟩ := negotiate_some _ _ _ _ _ _ _ _ r hn
    refine Calls.exclusive_finish s _ hs i r.status handle _ hold
      (completeAuthentication_flags c.env s.obj.peerStateTable.groupKey
        (UseKeyExchanger authVersion s.obj.supportedAuthSuites) authVersion call.sender
        authTried conv).2 ?_ rfl
    show r.obj.peerStateTable = _
    rw [hobj]
    rfl

theorem Calls.step_exclusive (callers : Nat → Caller) (s : Calls) (i : Nat)
    (hs : s.exclusive) : (Calls.step callers s i).exclusive := by
  unfold Calls.step
  cases hp : s.progress i with
  | called => exact Calls.enter_exclusive _ s i hs (by rw [hp]; rfl)
  | exchangingGuids => exact Calls.exchangeGuids_exclusive _ s i hs (by rw [hp]; rfl)
  | negotiating handle call authVersion =>
    exact Calls.finish_exclusive _ s i handle call authVersion hs (by rw [hp]; rfl)
  | waiting handle => exact hs
  | woken handle =>
    exact Calls.setProgress_exclusive s s hs i _ (s.obj.peerStateTable.keepsEvents_refl hs.1)
      rfl (by rw [hp]; rfl) rfl (fun _ h => by cases h)
  | returned status => exact hs

theorem Calls.run_exclusive (callers : Nat → Caller) (schedule : List Nat) (s : Calls)
    (hs : s.exclusive) : (Calls.run callers s schedule).exclusive := by
  induction schedule generalizing s with
  | nil => exact hs
  | cons i rest ih => exact ih _ (Calls.step_exclusive callers s i hs)

theorem Calls.start_exclusive (obj : AllJoynPeerObj) (hwf : obj.peerStateTable.wellFormed)
    (hidle : ∀ handle, (obj.peerStateTable.get handle).authEvent = false) :
    (Calls.start obj).exclusive := by
  refine ⟨hwf, ?_, ?_, ?_, ?_⟩
  · intro i handle h
    cases h
  · intro i j handle h
    cases h
  · intro handle h
    have h2 : (obj.peerStateTable.get handle).authEvent = true := h
    rw [hidle handle] at h2
    cases h2
  · intro i handle h
    cases h
theorem engine_wellFormed : engine.peerStateTable.wellFormed := by
  intro p hp
  simp only [engine, table, List.mem_cons, List.mem_singleton, List.not_mem_nil, or_false] at hp
  rcases hp with rfl | rfl <;> decide

theorem engine_idle (handle : Nat) : (engine.peerStateTable.get handle).authEvent = false := by
  simp only [engine, table, PeerStateTable.get]
  split <;> rfl

theorem IsSecure_of_authEvent (ps : PeerState) (h : ps.authEvent = true) :
    ps.IsSecure = false := by
  simp [PeerState.IsSecure, h]

/-- The first check of a call: a secure peer ends the call with `ER_OK`; an authentication
event that is set makes a method call wait or end with `ER_WOULDBLOCK`. -/
theorem Calls.step_first_check (callers : Nat → Caller) (s : Calls) (i : Nat)
    (hp : s.progress i = .called)
    (hifc : s.obj.hasAuthInterface = true)
    (hmech : s.obj.peerAuthMechanisms.isEmpty = false) :
    (Calls.step callers s i).conversations = s.conversations ∧
    (((s.obj.peerStateTable.GetPeerState (callers i).busName).1.get
        (s.obj.peerStateTable.GetPeerState (callers i).busName).2).IsSecure = true →
      (Calls.step callers s i).progress i = .returned .ER_OK) ∧
    (((s.obj.peerStateTable.GetPeerState (callers i).busName).1.get
        (s.obj.peerStateTable.GetPeerState (callers i).busName).2).authEvent = true →
      (callers i).msgType = .MESSAGE_METHOD_CALL →
      (Calls.step callers s i).progress i =
        if (callers i).wait then
          .waiting (s.obj.peerStateTable.GetPeerState (callers i).busName).2
        else .returned .ER_WOULDBLOCK) := by
  unfold Calls.step
  rw [hp]
  simp only [Calls.enter, hifc, hmech, Bool.not_true, Bool.false_eq_true, if_false]
  refine ⟨?_, ?_, ?_⟩
  · (repeat' split) <;> rfl
  · intro hsec
    simp [hsec, Calls.setProgress]
  · intro hev hcall
    simp only [IsSecure_of_authEvent _ hev, hev, hcall, beq_self_eq_true, Bool.and_self,
      Bool.false_eq_true, if_false, if_true]
    split <;> simp [Calls.setProgress]

/-- The second check of a call, after its own `ExchangeGuids` method call: a secure peer ends
the call with `ER_OK`, an authentication event that is set makes it wait or end with
`ER_WOULDBLOCK`, and with neither, for a method call to a remote peer, the call sets the
event and starts a negotiation. -/
theorem Calls.step_second_check (callers : Nat → Caller) (s : Calls) (i : Nat)
    (authVersion : Nat)
    (hp : s.progress i = .exchangingGuids)
    (hcall : ((callers i).env.exchangeGuids s.obj.localGuid PREFERRED_AUTH_VERSION).status =
      .ER_OK)
    (hversion : AuthenticatePeerVersion
      (((callers i).env.exchangeGuids s.obj.localGuid PREFERRED_AUTH_VERSION).authVersion
        % 2 ^ 32) = .ok authVersion) :
    (∃ rest, (Calls.step callers s i).events =
      s.events ++ (i, .exchangeGuids s.obj.localGuid PREFERRED_AUTH_VERSION) :: rest) ∧
    (((s.obj.peerStateTable.GetPeerStateAlias
          ((callers i).env.exchangeGuids s.obj.localGuid PREFERRED_AUTH_VERSION).sender
          (callers i).busName).1.get
        (s.obj.peerStateTable.GetPeerStateAlias
          ((callers i).env.exchangeGuids s.obj.localGuid PREFERRED_AUTH_VERSION).sender
          (callers i).busName).2).IsSecure = true →
      (Calls.step callers s i).progress i = .returned .ER_OK ∧
      (Calls.step callers s i).conversations = s.conversations) ∧
    (((s.obj.peerStateTable.GetPeerStateAlias
          ((callers i).env.exchangeGuids s.obj.localGuid PREFERRED_AUTH_VERSION).sender
          (callers i).busName).1.get
        (s.obj.peerStateTable.GetPeerStateAlias
          ((callers i).env.exchangeGuids s.obj.localGuid PREFERRED_AUTH_VERSION).sender
          (callers i).busName).2).authEvent = true →
      (Calls.step callers s i).progress i =
        (if (callers i).wait then
          .waiting (s.obj.peerStateTable.GetPeerStateAlias
            ((callers i).env.exchangeGuids s.obj.localGuid PREFERRED_AUTH_VERSION).sender
            (callers i).busName).2
        else .returned .ER_WOULDBLOCK) ∧
      (Calls.step callers s i).conversations = s.conversations) ∧
    (((s.obj.peerStateTable.GetPeerStateAlias
          ((callers i).env.exchangeGuids s.obj.localGuid PREFERRED_AUTH_VERSION).sender
          (callers i).busName).1.get
        (s.obj.peerStateTable.GetPeerStateAlias
          ((callers i).env.exchangeGuids s.obj.localGuid PREFERRED_AUTH_VERSION).sender
          (callers i).busName).2).IsSecure = false →
      ((s.obj.peerStateTable.GetPeerStateAlias
          ((callers i).env.exchangeGuids s.obj.localGuid PREFERRED_AUTH_VERSION).sender
          (callers i).busName).1.get
        (s.obj.peerStateTable.GetPeerStateAlias
          ((callers i).env.exchangeGuids s.obj.localGuid PREFERRED_AUTH_VERSION).sender
          (callers i).busName).2).authEvent = false →
      s.obj.uniqueName ≠
        ((callers i).env.exchangeGuids s.obj.localGuid PREFERRED_AUTH_VERSION).sender →
      (callers i).msgType = .MESSAGE_METHOD_CALL →
      (Calls.step callers s i).progress i =
        .negotiating (s.obj.peerStateTable.GetPeerStateAlias
            ((callers i).env.exchangeGuids s.obj.localGuid PREFERRED_AUTH_VERSION).sender
            (callers i).busName).2
          ((callers i).env.exchangeGuids s.obj.localGuid PREFERRED_AUTH_VERSION) authVersion ∧
      (Calls.step callers s i).conversations =
        s.conversations ++ [(i, (s.obj.peerStateTable.GetPeerStateAlias
          ((callers i).env.exchangeGuids s.obj.localGuid PREFERRED_AUTH_VERSION).sender
          (callers i).busName).2)]) := by
  unfold Calls.step
  rw [hp]
  simp only [Calls.exchangeGuids]
  generalize (callers i).env.exchangeGuids s.obj.localGuid PREFERRED_AUTH_VERSION = call
    at hcall hversion ⊢
  generalize s.obj.peerStateTable.GetPeerStateAlias call.sender (callers i).busName = got
  have hst : (call.status != QStatus.ER_OK) = false := by simp [hcall]
  simp only [hst, Bool.false_eq_true, if_false, hversion]
  have hsec : ∀ b, (got.1.get got.2).IsSecure = b →
      ((got.1.get got.2).SetGuidAndAuthVersion call.guid authVersion).IsSecure = b := by
    intro b hb
    rw [← hb]
    rfl
  have hev : ∀ b, (got.1.get got.2).authEvent = b →
      ((got.1.get got.2).SetGuidAndAuthVersion call.guid authVersion).authEvent = b := by
    intro b hb
    rw [← hb]
    rfl
  refine ⟨?_, ?_, ?_, ?_⟩
  · (repeat' split) <;>
      first
        | exact ⟨[], rfl⟩
        | exact ⟨[(i, AuthEvent.waitAuthEvent)], by simp [Calls.setProgress]⟩
  · intro h
    simp [hsec _ h, Calls.setProgress]
  · intro h
    simp only [hsec _ (IsSecure_of_authEvent _ h), hev _ h, Bool.false_eq_true, if_false,
      if_true]
    split <;> simp [Calls.setProgress]
  · intro h1 h2 h3 h4
    have h3' : (s.obj.uniqueName == call.sender) = false := by simpa using h3
    simp [hsec _ h1, hev _ h2, h3', h4, Calls.setProgress]

/-- C25: when calls of `AuthenticatePeer` run concurrently on an engine whose table is well
formed and has no authentication event set, then at every point no two calls negotiate on the
same peer state object, the authentication event of a peer state object is set exactly while
a call negotiates on it, and a call waits only while another call negotiates on the object it
waits on.  A call released from its wait returns `ER_OK` or `ER_AUTH_FAIL` by what `IsSecure`
says then, whatever the negotiation returned, and starts no negotiation.  At its first check
a call that finds the peer secure returns `ER_OK`, and a method call that finds the
authentication event set waits or, without `wait`, returns `ER_WOULDBLOCK`; neither starts a
negotiation.  A call that got past the first check makes its own `ExchangeGuids` method call;
at the second check it returns `ER_OK` for a secure peer, waits or returns `ER_WOULDBLOCK`
when the event is set, and otherwise, as a method call to a remote peer, starts a
negotiation. -/
theorem concurrent_calls_exclusive (obj : AllJoynPeerObj) (callers : Nat → Caller)
    (schedule : List Nat)
    (hwf : obj.peerStateTable.wellFormed)
    (hidle : ∀ handle, (obj.peerStateTable.get handle).authEvent = false) :
    (∀ i j handle,
      ((Calls.run callers (Calls.start obj) schedule).progress i).negotiatesOn = some handle →
      ((Calls.run callers (Calls.start obj) schedule).progress j).negotiatesOn = some handle →
      i = j) ∧
    (∀ handle,
      ((Calls.run callers (Calls.start obj) schedule).obj.peerStateTable.get handle).authEvent
          = true ↔
        ∃ i, ((Calls.run callers (Calls.start obj) schedule).progress i).negotiatesOn =
          some handle) ∧
    (∀ i handle,
      ((Calls.run callers (Calls.start obj) schedule).progress i).waitsOn = some handle →
        ∃ j, ((Calls.run callers (Calls.start obj) schedule).progress j).negotiatesOn =
          some handle) ∧
    (∀ i handle,
      (Calls.run callers (Calls.start obj) schedule).progress i = .woken handle →
      (Calls.step callers (Calls.run callers (Calls.start obj) schedule) i).conversations =
        (Calls.run callers (Calls.start obj) schedule).conversations ∧
      ((Calls.step callers (Calls.run callers (Calls.start obj) schedule) i).progress i).status =
        some (if ((Calls.run callers (Calls.start obj) schedule).obj.peerStateTable.get
            handle).IsSecure then .ER_OK else .ER_AUTH_FAIL)) ∧
    (∀ (s : Calls) (i : Nat),
      s.progress i = .called →
      s.obj.hasAuthInterface = true →
      s.obj.peerAuthMechanisms.isEmpty = false →
      (Calls.step callers s i).conversations = s.conversations ∧
      (((s.obj.peerStateTable.GetPeerState (callers i).busName).1.get
          (s.obj.peerStateTable.GetPeerState (callers i).busName).2).IsSecure = true →
        (Calls.step callers s i).progress i = .returned .ER_OK) ∧
      (((s.obj.peerStateTable.GetPeerState (callers i).busName).1.get
          (s.obj.peerStateTable.GetPeerState (callers i).busName).2).authEvent = true →
        (callers i).msgType = .MESSAGE_METHOD_CALL →
        (Calls.step callers s i).progress i =
          if (callers i).wait then
            .waiting (s.obj.peerStateTable.GetPeerState (callers i).busName).2
          else .returned .ER_WOULDBLOCK)) ∧
    (∀ (s : Calls) (i : Nat) (authVersion : Nat),
      s.progress i = .exchangingGuids →
      ((callers i).env.exchangeGuids s.obj.localGuid PREFERRED_AUTH_VERSION).status = .ER_OK →
      AuthenticatePeerVersion
        (((callers i).env.exchangeGuids s.obj.localGuid PREFERRED_AUTH_VERSION).authVersion
          % 2 ^ 32) = .ok authVersion →
      (∃ rest, (Calls.step callers s i).events =
        s.events ++ (i, .exchangeGuids s.obj.localGuid PREFERRED_AUTH_VERSION) :: rest) ∧
      (((s.obj.peerStateTable.GetPeerStateAlias
            ((callers i).env.exchangeGuids s.obj.localGuid PREFERRED_AUTH_VERSION).sender
            (callers i).busName).1.get
          (s.obj.peerStateTable.GetPeerStateAlias
            ((callers i).env.exchangeGuids s.obj.localGuid PREFERRED_AUTH_VERSION).sender
            (callers i).busName).2).IsSecure = true →
        (Calls.step callers s i).progress i = .returned .ER_OK ∧
        (Calls.step callers s i).conversations = s.conversations) ∧
      (((s.obj.peerStateTable.GetPeerStateAlias
            ((callers i).env.exchangeGuids s.obj.localGuid PREFERRED_AUTH_VERSION).sender
            (callers i).busName).1.get
          (s.obj.peerStateTable.GetPeerStateAlias
            ((callers i).env.exchangeGuids s.obj.localGuid PREFERRED_AUTH_VERSION).sender
            (callers i).busName).2).authEvent = true →
        (Calls.step callers s i).progress i =
          (if (callers i).wait then
            .waiting (s.obj.peerStateTable.GetPeerStateAlias
              ((callers i).env.exchangeGuids s.obj.localGuid PREFERRED_AUTH_VERSION).sender
              (callers i).busName).2
          else .returned .ER_WOULDBLOCK) ∧
        (Calls.step callers s i).conversations = s.conversations) ∧
      (((s.obj.peerStateTable.GetPeerStateAlias
            ((callers i).env.exchangeGuids s.obj.localGuid PREFERRED_AUTH_VERSION).sender
            (callers i).busName).1.get
          (s.obj.peerStateTable.GetPeerStateAlias
            ((callers i).env.exchangeGuids s.obj.localGuid PREFERRED_AUTH_VERSION).sender
            (callers i).busName).2).IsSecure = false →
        ((s.obj.peerStateTable.GetPeerStateAlias
            ((callers i).env.exchangeGuids s.obj.localGuid PREFERRED_AUTH_VERSION).sender
            (callers i).busName).1.get
          (s.obj.peerStateTable.GetPeerStateAlias
            ((callers i).env.exchangeGuids s.obj.localGuid PREFERRED_AUTH_VERSION).sender
            (callers i).busName).2).authEvent = false →
        s.obj.uniqueName ≠
          ((callers i).env.exchangeGuids s.obj.localGuid PREFERRED_AUTH_VERSION).sender →
        (callers i).msgType = .MESSAGE_METHOD_CALL →
        (Calls.step callers s i).progress i =
          .negotiating (s.obj.peerStateTable.GetPeerStateAlias
              ((callers i).env.exchangeGuids s.obj.localGuid PREFERRED_AUTH_VERSION).sender
              (callers i).busName).2
            ((callers i).env.exchangeGuids s.obj.localGuid PREFERRED_AUTH_VERSION) authVersion ∧
        (Calls.step callers s i).conversations =
          s.conversations ++ [(i, (s.obj.peerStateTable.GetPeerStateAlias
            ((callers i).env.exchangeGuids s.obj.localGuid PREFERRED_AUTH_VERSION).sender
            (callers i).busName).2)])) := by
  obtain ⟨_, h1, h2, h3, h4⟩ :=
    Calls.run_exclusive callers schedule _ (Calls.start_exclusive obj hwf hidle)
  refine ⟨h2, ?_, ?_, ?_, fun s i hp hifc hmech => Calls.step_first_check callers s i hp hifc hmech,
    fun s i authVersion hp hcall hversion =>
      Calls.step_second_check callers s i authVersion hp hcall hversion⟩
  · intro handle
    constructor
    · exact h3 handle
    · rintro ⟨i, hi⟩
      exact (h1 i handle hi).2
  · intro i handle hi
    exact h3 handle (h4 i handle hi)
  · intro i handle hi
    simp only [Calls.step, hi, Calls.wake, Calls.setProgress, if_true, Progress.status]
    exact ⟨trivial, trivial⟩

theorem concurrent_calls_exclusive_witness :
    engine.peerStateTable.wellFormed ∧
    (∀ handle, (engine.peerStateTable.get handle).authEvent = false) ∧
    (∀ i j handle,
      ((Calls.run (fun _ => caller remoteEnv true) (Calls.start engine) [0, 1, 0]).progress
        i).negotiatesOn = some handle →
      ((Calls.run (fun _ => caller remoteEnv true) (Calls.start engine) [0, 1, 0]).progress
        j).negotiatesOn = some handle →
      i = j) ∧
    ((Calls.run (fun _ => caller remoteEnv true) (Calls.start engine) [0, 1, 0]).progress
      0).negotiatesOn = some 1 :=
  ⟨engine_wellFormed, engine_idle,
    (concurrent_calls_exclusive engine (fun _ => caller remoteEnv true) [0, 1, 0]
      engine_wellFormed engine_idle).1,
    by decide⟩

/-- Two calls `AuthenticatePeer(MESSAGE_METHOD_CALL, ":3.1", true)` for a peer the table does
not know.  When the second call comes while the first negotiates and the negotiation fails
with `ER_BUS_NO_ROUTE`, the first call returns `ER_BUS_NO_ROUTE` and the second
`ER_AUTH_FAIL`.  When both calls have passed the first check before the first one negotiates,
and the negotiation has failed before the reply to the second call's `ExchangeGuids` is in,
the second call starts a negotiation of its own: two negotiations are run for the peer.  With
`wait` not set a call that comes while the first negotiates returns `ER_WOULDBLOCK` and the
first returns `ER_OK`. -/
theorem concurrent_calls_disagree :
    engine.peerStateTable.IsKnownPeer ":3.1" = false ∧
    statuses (Calls.run (fun _ => caller lostEnv true) (Calls.start engine) [0, 0, 1, 0, 1]) =
      [some .ER_BUS_NO_ROUTE, some .ER_AUTH_FAIL] ∧
    (Calls.run (fun _ => caller lostEnv true) (Calls.start engine)
      [0, 0, 1, 0, 1]).conversations = [(0, 1)] ∧
    statuses (Calls.run (fun _ => caller lostEnv true) (Calls.start engine)
      [0, 1, 0, 0, 1, 1]) = [some .ER_BUS_NO_ROUTE, some .ER_BUS_NO_ROUTE] ∧
    (Calls.run (fun _ => caller lostEnv true) (Calls.start engine)
      [0, 1, 0, 0, 1, 1]).conversations = [(0, 1), (1, 1)] ∧
    statuses (Calls.run (fun _ => caller remoteEnv false) (Calls.start engine) [0, 0, 1, 0]) =
      [some .ER_OK, some .ER_WOULDBLOCK] := by
  refine ⟨by decide, by decide, by decide, by decide, by decide, by decide⟩

/-- Two calls for the unknown peer `:3.1` that both wait, with a negotiation that succeeds:
each call makes its own `ExchangeGuids` method call, one negotiation is run, and both return
`ER_OK`, in either order of arrival; a call that runs alone returns what `AuthenticatePeer`
returns. -/
theorem concurrent_calls_example :
    statuses (Calls.run (fun _ => caller remoteEnv true) (Calls.start engine)
      [0, 1, 0, 1, 0, 1]) = [some .ER_OK, some .ER_OK] ∧
    (Calls.run (fun _ => caller remoteEnv true) (Calls.start engine)
      [0, 1, 0, 1, 0, 1]).conversations = [(0, 1)] ∧
    ((Calls.run (fun _ => caller remoteEnv true) (Calls.start engine)
      [0, 1, 0, 1, 0, 1]).events.filter
        (fun e => e.2 == .exchangeGuids "local" PREFERRED_AUTH_VERSION)).map (fun e => e.1) =
      [0, 1] ∧
    ((Calls.run (fun _ => caller lostEnv true) (Calls.start engine) [0, 0, 0]).progress
        0).status =
      (AuthenticatePeer lostEnv 4 engine .MESSAGE_METHOD_CALL ":3.1" true).map
        (fun r => r.status) ∧
    ((Calls.run (fun _ => caller remoteEnv true) (Calls.start engine) [0, 0, 0]).progress
        0).status =
      (AuthenticatePeer remoteEnv 4 engine .MESSAGE_METHOD_CALL ":3.1" true).map
        (fun r => r.status) := by
  refine ⟨by decide, by decide, by decide, by decide, by decide⟩

end AllJoyn
